import Mathlib

/-!
# Transmit state machine of the HDCP 1.x driver

A shallow embedding of `XilinxProcessorIPLib/drivers/hdcp1x/src/xhdcp1x_tx.c`.

* The driver instance (`XHdcp1x`) is an explicit value that every function
  takes and returns.  A function with a `NextStatePtr` out-parameter returns
  the proposed next state next to the instance; where the source leaves
  `*NextStatePtr` untouched the value passed in is returned.
* The port, the cipher and the platform are collaborators whose code is not
  part of the source tree.  Every call made to them is recorded, newest first,
  in the field `Hist` of the instance, and the answer to a call is given by an
  oracle of the environment `Env` which may depend on the whole history of
  calls made before it.  Any deterministic collaborator is such an oracle.
* Constants and macros that come from headers outside the tree (register
  offsets and sizes, the buffer conversion macros, `SHA1HashSize`,
  `XST_SUCCESS`) are fields of `Env` as well.
* C truth values are `Bool`, machine integers are `Nat` or `Int` with the
  truncation of the C type written out where a value is stored.  The
  statistics counters are the exception: they are naturals and `++` adds 1,
  which is the value of the 32-bit counter unless it held 0xFFFFFFFF.
* A read into a byte buffer replaces the bytes that the read stored and keeps
  the others (`bufStore`).  The two-byte buffers of the Ro and Ri comparisons
  are not initialised in the source and start from zero here; the theorems
  about those comparisons assume that a read which returns a positive count
  has stored every byte asked for (`FullReads`).
* Debug logging (`XHdcp1x_TxDebugLog`) has no effect on the instance and is
  left out; the comments say where the source logs.
* The two loops whose exit depends on the collaborators or on a constant from a
  header carry an iteration budget and return `none` when it is used up.
-/

namespace Hdcp1x

/-! ## Types -/

/-- Event identifiers, in the order of the enum `XHdcp1x_EventType`. -/
inductive XHdcp1x_EventType
  | NULL | AUTHENTICATE | CHECK | DISABLE | ENABLE
  | LINKDOWN | PHYDOWN | PHYUP | POLL | TIMEOUT
  deriving DecidableEq, Repr

/-- States, in the order of the enum `XHdcp1x_StateType`. -/
inductive XHdcp1x_StateType
  | DISABLED | DETERMINERXCAPABLE | EXCHANGEKSVS | COMPUTATIONS | VALIDATERX
  | AUTHENTICATED | LINKINTEGRITYCHECK | TESTFORREPEATER | WAITFORREADY
  | READKSVLIST | UNAUTHENTICATED | PHYDOWN
  deriving DecidableEq, Repr

/-- Numeric value of an event identifier (its position in the enum). -/
def XHdcp1x_EventType.toNat : XHdcp1x_EventType → Nat
  | .NULL => 0 | .AUTHENTICATE => 1 | .CHECK => 2 | .DISABLE => 3 | .ENABLE => 4
  | .LINKDOWN => 5 | .PHYDOWN => 6 | .PHYUP => 7 | .POLL => 8 | .TIMEOUT => 9

/-- Cipher request kinds used by the transmitter. -/
inductive CipherRequest
  | BLOCK | RNG
  deriving DecidableEq, Repr

/-- Handler slots the transmitter registers callbacks in. -/
inductive Handler
  | PORT_HANDLER_AUTHENTICATE | CIPHER_HANDLER_Ri_UPDATE
  deriving DecidableEq, Repr

/-- The two callbacks of the transmitter. -/
inductive Callback
  | TxReauthenticateCallback | TxCheckLinkCallback
  deriving DecidableEq, Repr

/-- One call to a collaborator (port, cipher or platform), with its arguments. -/
inductive Call
  | PortRead (Offset Len : Nat)
  | PortWrite (Offset : Nat) (Buf : List Nat) (Len : Nat)
  | PortIsCapable
  | PortIsRepeater
  | PortGetRepeaterInfo
  | PortSetCallback (h : Handler) (cb : Callback)
  | PortEnable
  | PortDisable
  | CipherDoRequest (r : CipherRequest)
  | CipherIsRequestComplete
  | CipherGetMi
  | CipherGetLocalKsv
  | CipherSetRemoteKsv (Ksv : Nat)
  | CipherSetB (X Y Z : Nat)
  | CipherGetRo
  | CipherGetRi
  | CipherGetMo
  | CipherGetEncryption
  | CipherEnableEncryption (StreamMap : Nat)
  | CipherDisableEncryption (StreamMap : Nat)
  | CipherEnable
  | CipherDisable
  | CipherSetCallback (h : Handler) (cb : Callback)
  | CipherSetRiUpdate (IsEnabled : Bool)
  | CipherSetNumLanes (LaneCount : Int)
  | PlatformIsKsvRevoked (Ksv : Nat)
  | PlatformTimerStart (TimeoutInMs : Nat)
  | PlatformTimerStop
  | PlatformTimerBusy (DelayInMs : Nat)
  deriving DecidableEq, Repr

/-- Statistics counters of the transmitter (`Tx.Stats`).  Their C type is
declared in a header outside the tree (32-bit unsigned words), so `++` on a
counter that holds 0xFFFFFFFF leaves 0.  The counters are naturals here and an
increment adds 1: a counter of the model has the value of the C counter as long
as no increment is applied at 0xFFFFFFFF, and the theorems that give the value
of a counter after an increment assume it is below 0xFFFFFFFF before. -/
structure XHdcp1x_TxStats where
  AuthFailed : Nat
  AuthPassed : Nat
  ReauthRequested : Nat
  ReadFailures : Nat
  LinkCheckPassed : Nat
  LinkCheckFailed : Nat
  deriving DecidableEq, Repr

/-- The transmitter part of the instance (`InstancePtr->Tx`). -/
structure XHdcp1x_Tx where
  CurrentState : XHdcp1x_StateType
  PreviousState : XHdcp1x_StateType
  StateHelper : Nat
  Flags : Nat
  PendingEvents : Nat
  EncryptionMap : Nat
  Stats : XHdcp1x_TxStats
  deriving DecidableEq, Repr

/-- The driver instance: the configuration bit the transmitter reads, the
transmitter fields, and the history of collaborator calls, newest first. -/
structure XHdcp1x where
  IsHDMI : Bool
  Tx : XHdcp1x_Tx
  Hist : List Call
  deriving DecidableEq, Repr

/-- The environment of the transmitter: header constants and macros that are
not in the tree, and one oracle per collaborator function whose result the
transmitter uses.  The first argument of an oracle is the history of calls made
before the call it answers. -/
structure Env where
  /-- Status code for success (xstatus.h). -/
  XST_SUCCESS : Int
  XHDCP1X_PORT_OFFSET_BKSV : Nat
  XHDCP1X_PORT_OFFSET_RO : Nat
  XHDCP1X_PORT_OFFSET_AN : Nat
  XHDCP1X_PORT_OFFSET_AKSV : Nat
  XHDCP1X_PORT_OFFSET_AINFO : Nat
  XHDCP1X_PORT_OFFSET_KSVFIFO : Nat
  XHDCP1X_PORT_OFFSET_VH0 : Nat
  XHDCP1X_PORT_SIZE_BKSV : Nat
  XHDCP1X_PORT_SIZE_AN : Nat
  XHDCP1X_PORT_SIZE_AKSV : Nat
  XHDCP1X_PORT_SIZE_AINFO : Nat
  XHDCP1X_PORT_SIZE_KSVFIFO : Nat
  /-- Size of a SHA-1 digest in bytes (sha1.h). -/
  SHA1HashSize : Nat
  /-- Macro `XHDCP1X_PORT_BUF_TO_UINT(uint, buf, numbits)`: the value it
  assigns to `uint`. -/
  XHDCP1X_PORT_BUF_TO_UINT : List Nat → Nat → Nat
  /-- Macro `XHDCP1X_PORT_UINT_TO_BUF(buf, uint, numbits)`: the contents of
  `buf` afterwards, from the contents before. -/
  XHDCP1X_PORT_UINT_TO_BUF : List Nat → Nat → Nat → List Nat
  /-- `XHdcp1x_PortRead` at a register offset for a number of bytes: the bytes
  it has stored at the start of the buffer when it returns a positive count
  (those beyond the number asked for are not stored), `none` when it returns a
  count that is not positive.  The transmitter only tests the count for being
  positive. -/
  PortRead : List Call → Nat → Nat → Option (List Nat)
  PortIsCapable : List Call → Bool
  PortIsRepeater : List Call → Bool
  /-- Status and the value written to the out-parameter. -/
  PortGetRepeaterInfo : List Call → Int × Nat
  CipherDoRequest : List Call → CipherRequest → Int
  CipherIsRequestComplete : List Call → Bool
  CipherGetMi : List Call → Nat
  CipherGetLocalKsv : List Call → Nat
  CipherGetRo : List Call → Nat
  CipherGetRi : List Call → Nat
  CipherGetMo : List Call → Nat
  CipherGetEncryption : List Call → Nat
  CipherDisableEncryption : List Call → Nat → Int
  CipherSetNumLanes : List Call → Int → Int
  PlatformIsKsvRevoked : List Call → Nat → Bool
  /-- Result of `SHA1Result` on a context that was reset and then fed the
  given bytes: the digest when it returns `shaSuccess`, `none` otherwise. -/
  SHA1 : List Nat → Option (List Nat)

/-! ## Constants of xhdcp1x_tx.c -/

/-- Flag to track physical state. -/
def XVPHY_FLAG_PHY_UP : Nat := 1 <<< 0

/-- Flag to track repeater state. -/
def XVPHY_FLAG_IS_REPEATER : Nat := 1 <<< 1

/-- Timeout value for 5ms. -/
def XVPHY_TMO_5MS : Nat := 5

/-- Timeout value for 100ms. -/
def XVPHY_TMO_100MS : Nat := 100

/-- Timeout value for 1s. -/
def XVPHY_TMO_1SECOND : Nat := 1000

/-! ## Helpers of the embedding -/

/-- Bitwise complement of a 32-bit unsigned value (the C operator `~` on an
`unsigned int`). -/
def not32 (x : Nat) : Nat := 0xFFFFFFFF ^^^ (x % 2 ^ 32)

/-- Record a collaborator call in the history. -/
def XHdcp1x.call (w : XHdcp1x) (c : Call) : XHdcp1x :=
  { w with Hist := c :: w.Hist }

/-- Replace the transmitter fields. -/
def XHdcp1x.setTx (w : XHdcp1x) (t : XHdcp1x_Tx) : XHdcp1x :=
  { w with Tx := t }

/-- Contents of a byte buffer after a read of `n` bytes that returned a positive
count and stored the bytes `data`: the bytes of `data` (at most `n` of them)
replace the start of the buffer, and every byte that the read did not store
keeps the value it had before the read.  Positions past the end of `Buf`, which
only a read longer than the array reaches, count as zero. -/
def bufStore (Buf data : List Nat) (n : Nat) : List Nat :=
  (data.map (fun b => b % 256) ++ Buf.drop data.length ++ List.replicate n 0).take n ++
    Buf.drop n

/-- Number of one-bits of `k` among its 64 low bit positions. -/
def hammingWeight (k : Nat) : Nat :=
  ((List.range 64).filter (fun i => k.testBit i)).length

/-! ## Event posting, timer and callbacks -/

/-- Source: `XHdcp1x_TxPostEvent`. -/
def XHdcp1x_TxPostEvent (w : XHdcp1x) (Event : XHdcp1x_EventType) : XHdcp1x :=
  let P0 := w.Tx.PendingEvents
  let P1 :=
    -- Check for disable and clear any pending enable
    if Event = .DISABLE then
      (P0 &&& not32 (1 <<< XHdcp1x_EventType.ENABLE.toNat)) % 2 ^ 16
    -- Check for phy-down and clear any pending phy-up
    else if Event = .PHYDOWN then
      (P0 &&& not32 (1 <<< XHdcp1x_EventType.PHYUP.toNat)) % 2 ^ 16
    else P0
  -- Post it
  w.setTx { w.Tx with PendingEvents := (P1 ||| (1 <<< Event.toNat)) % 2 ^ 16 }

/-- Source: `XHdcp1x_TxStartTimer`. -/
def XHdcp1x_TxStartTimer (w : XHdcp1x) (TimeoutInMs : Nat) : XHdcp1x :=
  w.call (.PlatformTimerStart TimeoutInMs)

/-- Source: `XHdcp1x_TxStopTimer`. -/
def XHdcp1x_TxStopTimer (w : XHdcp1x) : XHdcp1x :=
  w.call .PlatformTimerStop

/-- Source: `XHdcp1x_TxBusyDelay`. -/
def XHdcp1x_TxBusyDelay (w : XHdcp1x) (DelayInMs : Nat) : XHdcp1x :=
  w.call (.PlatformTimerBusy DelayInMs)

/-- Source: `XHdcp1x_TxReauthenticateCallback`. -/
def XHdcp1x_TxReauthenticateCallback (w : XHdcp1x) : XHdcp1x :=
  let w1 := w.setTx { w.Tx with
    Stats := { w.Tx.Stats with ReauthRequested := w.Tx.Stats.ReauthRequested + 1 } }
  XHdcp1x_TxPostEvent w1 .AUTHENTICATE

/-- Source: `XHdcp1x_TxCheckLinkCallback`. -/
def XHdcp1x_TxCheckLinkCallback (w : XHdcp1x) : XHdcp1x :=
  XHdcp1x_TxPostEvent w .CHECK

/-- Source: `XHdcp1x_TxSetCheckLinkState`. -/
def XHdcp1x_TxSetCheckLinkState (w : XHdcp1x) (IsEnabled : Bool) : XHdcp1x :=
  if w.IsHDMI then
    if IsEnabled then
      (w.call (.CipherSetCallback .CIPHER_HANDLER_Ri_UPDATE .TxCheckLinkCallback)).call
        (.CipherSetRiUpdate true)
    else
      w.call (.CipherSetRiUpdate false)
  else w

/-! ## Encryption realization, enable and disable -/

/-- Source: `XHdcp1x_TxEnableEncryptionState`. -/
def XHdcp1x_TxEnableEncryptionState (E : Env) (w : XHdcp1x) : XHdcp1x :=
  -- Check for encryption enabled
  if w.Tx.EncryptionMap ≠ 0 then
    let StreamMap := E.CipherGetEncryption w.Hist % 2 ^ 64
    let w1 := w.call .CipherGetEncryption
    -- Check if there is something to do
    if StreamMap ≠ w.Tx.EncryptionMap then
      (XHdcp1x_TxBusyDelay w1 XVPHY_TMO_5MS).call
        (.CipherEnableEncryption w.Tx.EncryptionMap)
    else w1
  else w

/-- Source: `XHdcp1x_TxDisableEncryptionState`. -/
def XHdcp1x_TxDisableEncryptionState (E : Env) (w : XHdcp1x) : XHdcp1x :=
  let StreamMap := E.CipherGetEncryption w.Hist % 2 ^ 64
  let w1 := w.call .CipherGetEncryption
  -- Check if encryption actually enabled
  if StreamMap ≠ 0 then
    -- (u64)(-1): all streams
    XHdcp1x_TxBusyDelay (w1.call (.CipherDisableEncryption (2 ^ 64 - 1))) XVPHY_TMO_5MS
  else w1

/-- Source: `XHdcp1x_TxEnableState`. -/
def XHdcp1x_TxEnableState (w : XHdcp1x) : XHdcp1x :=
  -- Clear statistics
  let w1 := w.setTx { w.Tx with Stats := ⟨0, 0, 0, 0, 0, 0⟩ }
  ((w1.call .CipherEnable).call
    (.PortSetCallback .PORT_HANDLER_AUTHENTICATE .TxReauthenticateCallback)).call .PortEnable

/-- Source: `XHdcp1x_TxDisableState`. -/
def XHdcp1x_TxDisableState (w : XHdcp1x) : XHdcp1x :=
  let w1 := XHdcp1x_TxStopTimer ((w.call .PortDisable).call .CipherDisable)
  w1.setTx { w1.Tx with
    Flags := w1.Tx.Flags &&& not32 XVPHY_FLAG_IS_REPEATER
    StateHelper := 0
    EncryptionMap := 0 }

/-! ## Protocol algorithms -/

/-- Source: `XHdcp1x_TxCheckRxCapable`. -/
def XHdcp1x_TxCheckRxCapable (E : Env) (w : XHdcp1x) :
    XHdcp1x × XHdcp1x_StateType :=
  if E.PortIsCapable w.Hist then
    -- log "rx hdcp capable"
    (w.call .PortIsCapable, .EXCHANGEKSVS)
  else
    -- log "rx not capable"
    (w.call .PortIsCapable, .UNAUTHENTICATED)

/-- The busy wait `while (!XHdcp1x_CipherIsRequestComplete(InstancePtr));`
with a budget of `spin` polls: `none` when none of them reports completion. -/
def waitRequestComplete (E : Env) : Nat → XHdcp1x → Option XHdcp1x
  | 0, _ => none
  | spin + 1, w =>
    if E.CipherIsRequestComplete w.Hist then
      some (w.call .CipherIsRequestComplete)
    else
      waitRequestComplete E spin (w.call .CipherIsRequestComplete)

/-- Source: `XHdcp1x_TxGenerateAn`.  Returns the instance and An. -/
def XHdcp1x_TxGenerateAn (E : Env) (spin : Nat) (w : XHdcp1x) :
    Option (XHdcp1x × Nat) :=
  let An0 : Nat := 0
  let Status := E.CipherDoRequest w.Hist .RNG
  let w1 := w.call (.CipherDoRequest .RNG)
  -- Attempt to generate An
  if Status = E.XST_SUCCESS then
    -- Wait until done
    match waitRequestComplete E spin w1 with
    | none => none
    | some w2 =>
      let An := E.CipherGetMi w2.Hist % 2 ^ 64
      let w3 := w2.call .CipherGetMi
      -- Check if zero
      some (w3, if An = 0 then 0x351F7175406A74D else An)
  else
    some (w1, if An0 = 0 then 0x351F7175406A74D else An0)

/-- The loop of `XHdcp1x_TxIsKsvValid`: `while (Ksv != 0)`, counting the
one-bits of `Ksv` into `NumOnes`. -/
def XHdcp1x_TxIsKsvValid_loop (Ksv NumOnes : Nat) : Nat :=
  if h : Ksv ≠ 0 then
    XHdcp1x_TxIsKsvValid_loop (Ksv >>> 1)
      (if Ksv &&& 1 ≠ 0 then NumOnes + 1 else NumOnes)
  else NumOnes
termination_by Ksv
decreasing_by
  rw [Nat.shiftRight_eq_div_pow]
  exact Nat.div_lt_self (Nat.pos_of_ne_zero h) (by norm_num)

/-- Source: `XHdcp1x_TxIsKsvValid`. -/
def XHdcp1x_TxIsKsvValid (Ksv : Nat) : Bool :=
  let NumOnes := XHdcp1x_TxIsKsvValid_loop Ksv 0
  -- Check for 20 1s
  if NumOnes = 20 then true else false

/-- Source: `XHdcp1x_TxExchangeKsvs`. -/
def XHdcp1x_TxExchangeKsvs (E : Env) (spin : Nat) (w : XHdcp1x) :
    Option (XHdcp1x × XHdcp1x_StateType) :=
  let Buf0 : List Nat := List.replicate 8 0
  -- Update NextStatePtr - assume failure
  let NextState := XHdcp1x_StateType.UNAUTHENTICATED
  -- Read the Bksv from remote end
  match E.PortRead w.Hist E.XHDCP1X_PORT_OFFSET_BKSV 5 with
  | some data =>
    let w1 := w.call (.PortRead E.XHDCP1X_PORT_OFFSET_BKSV 5)
    let Buf1 := bufStore Buf0 data 5
    let RemoteKsv :=
      E.XHDCP1X_PORT_BUF_TO_UINT Buf1 (E.XHDCP1X_PORT_SIZE_BKSV * 8) % 2 ^ 64
    -- Check for invalid
    if ¬ XHdcp1x_TxIsKsvValid RemoteKsv then
      -- log "Bksv invalid"
      some (w1, NextState)
    -- Check for revoked
    else if E.PlatformIsKsvRevoked w1.Hist RemoteKsv then
      -- log "Bksv is revoked"
      some (w1.call (.PlatformIsKsvRevoked RemoteKsv), NextState)
    -- Otherwise we are good to go
    else
      let w2 := w1.call (.PlatformIsKsvRevoked RemoteKsv)
      -- Check for repeater and update InstancePtr
      let IsRepeater := E.PortIsRepeater w2.Hist
      let w3 := w2.call .PortIsRepeater
      let w4 := w3.setTx { w3.Tx with
        Flags := if IsRepeater then w3.Tx.Flags ||| XVPHY_FLAG_IS_REPEATER
                 else w3.Tx.Flags &&& not32 XVPHY_FLAG_IS_REPEATER }
      -- Generate theAn
      match XHdcp1x_TxGenerateAn E spin w4 with
      | none => none
      | some (w5, An) =>
        -- Save theAn into the state helper for use later
        let w6 := w5.setTx { w5.Tx with StateHelper := An }
        -- Determine theLocalKsv
        let LocalKsv := E.CipherGetLocalKsv w6.Hist % 2 ^ 64
        let w7 := w6.call .CipherGetLocalKsv
        -- Load the cipher with the remote ksv
        let w8 := w7.call (.CipherSetRemoteKsv RemoteKsv)
        -- Send An to remote
        let Buf2 := E.XHDCP1X_PORT_UINT_TO_BUF Buf1 An (E.XHDCP1X_PORT_SIZE_AN * 8)
        let w9 := w8.call (.PortWrite E.XHDCP1X_PORT_OFFSET_AN Buf2 E.XHDCP1X_PORT_SIZE_AN)
        -- Send AKsv to remote
        let Buf3 := E.XHDCP1X_PORT_UINT_TO_BUF Buf2 LocalKsv (E.XHDCP1X_PORT_SIZE_AKSV * 8)
        let w10 :=
          w9.call (.PortWrite E.XHDCP1X_PORT_OFFSET_AKSV Buf3 E.XHDCP1X_PORT_SIZE_AKSV)
        -- Update NextStatePtr
        some (w10, .COMPUTATIONS)
  | none =>
    let w1 := w.call (.PortRead E.XHDCP1X_PORT_OFFSET_BKSV 5)
    -- Update the statistics
    some (w1.setTx { w1.Tx with
      Stats := { w1.Tx.Stats with ReadFailures := w1.Tx.Stats.ReadFailures + 1 } }, NextState)

/-- Source: `XHdcp1x_TxStartComputations`.  It does not touch `*NextStatePtr`. -/
def XHdcp1x_TxStartComputations (w : XHdcp1x) : XHdcp1x :=
  -- log "starting computations"
  -- Update Value with An
  let Value := w.Tx.StateHelper % 2 ^ 64
  -- Load the cipher B registers with An
  let X := (Value &&& 0x0FFFFFFF) % 2 ^ 32
  let Value1 := Value >>> 28
  let Y := (Value1 &&& 0x0FFFFFFF) % 2 ^ 32
  let Value2 := Value1 >>> 28
  let Z0 := (Value2 &&& 0x000000FF) % 2 ^ 32
  let Z :=
    if w.Tx.Flags &&& XVPHY_FLAG_IS_REPEATER ≠ 0 then (Z0 ||| (1 <<< 8)) % 2 ^ 32 else Z0
  -- Initiate the block cipher
  (w.call (.CipherSetB X Y Z)).call (.CipherDoRequest .BLOCK)

/-- Source: `XHdcp1x_TxPollForComputations`. -/
def XHdcp1x_TxPollForComputations (E : Env) (w : XHdcp1x)
    (NextState : XHdcp1x_StateType) : XHdcp1x × XHdcp1x_StateType :=
  -- Check for done
  if E.CipherIsRequestComplete w.Hist then
    -- log "computations complete"
    (w.call .CipherIsRequestComplete, .VALIDATERX)
  else
    -- log "waiting for computations"
    (w.call .CipherIsRequestComplete, NextState)

/-- One pass through the body of the do-while loop of `XHdcp1x_TxValidateRx`,
up to and without `NumTries--`.  The array `Buf[2]` is not initialised in the
source and is shared by the passes; a read that stores both bytes overwrites it
entirely.  Here every pass starts from a zeroed `Buf`, which gives the
comparison of the source for every read that stores both bytes (`FullReads`). -/
def XHdcp1x_TxValidateRx_body (E : Env) (NumTries : Nat) (w : XHdcp1x)
    (NextState : XHdcp1x_StateType) : XHdcp1x × XHdcp1x_StateType :=
  -- Read the remote Ro'
  match E.PortRead w.Hist E.XHDCP1X_PORT_OFFSET_RO 2 with
  | some data =>
    let w1 := w.call (.PortRead E.XHDCP1X_PORT_OFFSET_RO 2)
    let Buf := bufStore (List.replicate 2 0) data 2
    -- Determine RemoteRo
    let RemoteRo := E.XHDCP1X_PORT_BUF_TO_UINT Buf (2 * 8) % 2 ^ 16
    -- Determine LocalRo
    let LocalRo := E.CipherGetRo w1.Hist % 2 ^ 16
    let w2 := w1.call .CipherGetRo
    -- Compare the Ro values
    if LocalRo = RemoteRo then
      (w2, .TESTFORREPEATER)
    else
      -- Update statistics if the last attempt
      if NumTries = 1 then
        (w2.setTx { w2.Tx with
          Stats := { w2.Tx.Stats with AuthFailed := w2.Tx.Stats.AuthFailed + 1 } }, NextState)
      else (w2, NextState)
  | none =>
    -- log "Ro' read failure"
    let w1 := w.call (.PortRead E.XHDCP1X_PORT_OFFSET_RO 2)
    -- Update the statistics
    (w1.setTx { w1.Tx with
      Stats := { w1.Tx.Stats with ReadFailures := w1.Tx.Stats.ReadFailures + 1 } }, NextState)

/-- The do-while loop of `XHdcp1x_TxValidateRx`, entered with the given value of
`NumTries`: the body, `NumTries--`, and again while the next state is still
UNAUTHENTICATED and `NumTries > 0`. -/
def XHdcp1x_TxValidateRx_loop (E : Env) :
    Nat → XHdcp1x → XHdcp1x_StateType → XHdcp1x × XHdcp1x_StateType
  | 0, w, NextState => XHdcp1x_TxValidateRx_body E 0 w NextState
  | n + 1, w, NextState =>
    let r := XHdcp1x_TxValidateRx_body E (n + 1) w NextState
    if r.2 = .UNAUTHENTICATED ∧ n > 0 then XHdcp1x_TxValidateRx_loop E n r.1 r.2 else r

/-- Source: `XHdcp1x_TxValidateRx`. -/
def XHdcp1x_TxValidateRx (E : Env) (w : XHdcp1x) : XHdcp1x × XHdcp1x_StateType :=
  XHdcp1x_TxValidateRx_loop E 3 w .UNAUTHENTICATED

/-- One pass through the body of the do-while loop of
`XHdcp1x_TxCheckLinkIntegrity`, up to and without `NumTries--`.  As in
`XHdcp1x_TxValidateRx`, the array `Buf[2]` is not initialised in the source and
every pass starts from a zeroed `Buf` here, which gives the comparison of the
source for every read that stores both bytes (`FullReads`). -/
def XHdcp1x_TxCheckLinkIntegrity_body (E : Env) (w : XHdcp1x)
    (NextState : XHdcp1x_StateType) : XHdcp1x × XHdcp1x_StateType :=
  -- Read the remote Ri'
  match E.PortRead w.Hist E.XHDCP1X_PORT_OFFSET_RO 2 with
  | some data =>
    let w1 := w.call (.PortRead E.XHDCP1X_PORT_OFFSET_RO 2)
    let Buf := bufStore (List.replicate 2 0) data 2
    let RemoteRi := E.XHDCP1X_PORT_BUF_TO_UINT Buf 16 % 2 ^ 16
    -- Determine theLocalRi
    let LocalRi := E.CipherGetRi w1.Hist % 2 ^ 16
    let w2 := w1.call .CipherGetRi
    -- Compare the local and remote values
    if LocalRi = RemoteRi then (w2, .AUTHENTICATED)
    -- otherwise only the log text depends on NumTries
    else (w2, NextState)
  | none =>
    -- log "Ri' read failure"
    let w1 := w.call (.PortRead E.XHDCP1X_PORT_OFFSET_RO 2)
    (w1.setTx { w1.Tx with
      Stats := { w1.Tx.Stats with ReadFailures := w1.Tx.Stats.ReadFailures + 1 } }, NextState)

/-- The do-while loop of `XHdcp1x_TxCheckLinkIntegrity`, entered with the given
value of `NumTries`. -/
def XHdcp1x_TxCheckLinkIntegrity_loop (E : Env) :
    Nat → XHdcp1x → XHdcp1x_StateType → XHdcp1x × XHdcp1x_StateType
  | 0, w, NextState => XHdcp1x_TxCheckLinkIntegrity_body E w NextState
  | n + 1, w, NextState =>
    let r := XHdcp1x_TxCheckLinkIntegrity_body E w NextState
    if r.2 ≠ .AUTHENTICATED ∧ n > 0 then XHdcp1x_TxCheckLinkIntegrity_loop E n r.1 r.2 else r

/-- Source: `XHdcp1x_TxCheckLinkIntegrity`. -/
def XHdcp1x_TxCheckLinkIntegrity (E : Env) (w : XHdcp1x) :
    XHdcp1x × XHdcp1x_StateType :=
  let r := XHdcp1x_TxCheckLinkIntegrity_loop E 3 w .DETERMINERXCAPABLE
  let w1 := r.1
  -- Check for success
  if r.2 = .AUTHENTICATED then
    (w1.setTx { w1.Tx with
      Stats := { w1.Tx.Stats with LinkCheckPassed := w1.Tx.Stats.LinkCheckPassed + 1 } }, r.2)
  else
    (w1.setTx { w1.Tx with
      Stats := { w1.Tx.Stats with LinkCheckFailed := w1.Tx.Stats.LinkCheckFailed + 1 } }, r.2)

/-- Source: `XHdcp1x_TxTestForRepeater`. -/
def XHdcp1x_TxTestForRepeater (E : Env) (w : XHdcp1x) :
    XHdcp1x × XHdcp1x_StateType :=
  -- Check for repeater
  if E.PortIsRepeater w.Hist then
    let w1 := w.call .PortIsRepeater
    -- Update InstancePtr
    let w2 := w1.setTx { w1.Tx with Flags := w1.Tx.Flags ||| XVPHY_FLAG_IS_REPEATER }
    -- Clear AINFO
    let Buf := List.replicate E.XHDCP1X_PORT_SIZE_AINFO 0
    let w3 := w2.call (.PortWrite E.XHDCP1X_PORT_OFFSET_AINFO Buf E.XHDCP1X_PORT_SIZE_AINFO)
    -- log "repeater detected"
    -- Enable authentication if needed
    (XHdcp1x_TxEnableEncryptionState E w3, .WAITFORREADY)
  else
    let w1 := w.call .PortIsRepeater
    (w1.setTx { w1.Tx with Flags := w1.Tx.Flags &&& not32 XVPHY_FLAG_IS_REPEATER },
      .AUTHENTICATED)

/-- Source: `XHdcp1x_TxPollForWaitForReady`. -/
def XHdcp1x_TxPollForWaitForReady (E : Env) (w : XHdcp1x)
    (NextState : XHdcp1x_StateType) : XHdcp1x × XHdcp1x_StateType :=
  -- Attempt to read the repeater info
  let Status := (E.PortGetRepeaterInfo w.Hist).1
  let RepeaterInfo := (E.PortGetRepeaterInfo w.Hist).2 % 2 ^ 16
  let w1 := w.call .PortGetRepeaterInfo
  if Status = E.XST_SUCCESS then
    -- Check that neither cascade or device numbers exceeded
    if RepeaterInfo &&& 0x0880 = 0 then
      -- Check for at least one attached device
      if RepeaterInfo &&& 0x007F ≠ 0 then
        -- log "devices attached: ksv list ready"
        (w1.setTx { w1.Tx with StateHelper := RepeaterInfo }, .READKSVLIST)
      else
        -- log "no attached devices"
        (w1, .AUTHENTICATED)
    else
      -- log "max cascade exceeded" or "max devices exceeded"
      (w1, .UNAUTHENTICATED)
  else (w1, NextState)

/-- The do-while loop of `XHdcp1x_TxValidateKsvList` that reads the ksv list,
with a budget of `fuel` passes.  It carries the instance, the SHA-1 context
(the bytes fed so far), `Buf` and `NumToRead`, and returns them with `IsValid`;
`none` when the budget is used up before the loop exits. -/
def XHdcp1x_TxValidateKsvList_readLoop (E : Env) :
    Nat → XHdcp1x → List Nat → List Nat → Nat →
      Option (XHdcp1x × List Nat × List Nat × Bool)
  | 0, _, _, _, _ => none
  | fuel + 1, w, Sha1Context, Buf, NumToRead =>
    -- Truncate if necessary
    let NumThisTime :=
      if E.XHDCP1X_PORT_SIZE_KSVFIFO > NumToRead then NumToRead
      else E.XHDCP1X_PORT_SIZE_KSVFIFO
    -- Read the next chunk of the list
    match E.PortRead w.Hist E.XHDCP1X_PORT_OFFSET_KSVFIFO NumThisTime with
    | some data =>
      let w1 := w.call (.PortRead E.XHDCP1X_PORT_OFFSET_KSVFIFO NumThisTime)
      let Buf1 := bufStore Buf data NumThisTime
      -- Update the calculation of V
      let Sha1Context1 := Sha1Context ++ Buf1.take NumThisTime
      -- Update for loop
      let NumToRead1 := NumToRead - NumThisTime
      if NumToRead1 > 0 then
        XHdcp1x_TxValidateKsvList_readLoop E fuel w1 Sha1Context1 Buf1 NumToRead1
      else some (w1, Sha1Context1, Buf1, true)
    | none =>
      let w1 := w.call (.PortRead E.XHDCP1X_PORT_OFFSET_KSVFIFO NumThisTime)
      -- Update the statistics, update IsValid
      some (w1.setTx { w1.Tx with
        Stats := { w1.Tx.Stats with ReadFailures := w1.Tx.Stats.ReadFailures + 1 } },
        Sha1Context, Buf, false)

/-- State carried by the do-while loop of `XHdcp1x_TxValidateKsvList` that
iterates through the SHA-1 chunks. -/
structure VhState where
  w : XHdcp1x
  Buf : List Nat
  Offset : Nat
  Sha1Buf : Nat
  IsValid : Bool
  deriving DecidableEq, Repr

/-- The value `CalcValue` assembled from the four digest bytes at `Sha1Buf`. -/
def XHdcp1x_TxValidateKsvList_CalcValue (Sha1Result : List Nat) (Sha1Buf : Nat) : Nat :=
  let b (i : Nat) : Nat := Sha1Result.getD (Sha1Buf + i) 0 % 256
  let C0 := b 0
  let C1 := ((C0 <<< 8) % 2 ^ 32) ||| b 1
  let C2 := ((C1 <<< 8) % 2 ^ 32) ||| b 2
  ((C2 <<< 8) % 2 ^ 32) ||| b 3

/-- One pass through the body of the loop over the SHA-1 chunks, up to and
without `NumIterations--`. -/
def XHdcp1x_TxValidateKsvList_vhBody (E : Env) (Sha1Result : List Nat)
    (s : VhState) : VhState :=
  -- Determine CalcValue
  let CalcValue := XHdcp1x_TxValidateKsvList_CalcValue Sha1Result s.Sha1Buf
  -- Read the value from the far end
  match E.PortRead s.w.Hist s.Offset 4 with
  | some data =>
    let w1 := s.w.call (.PortRead s.Offset 4)
    let Buf1 := bufStore s.Buf data 4
    -- Determine ReadValue
    let ReadValue := E.XHDCP1X_PORT_BUF_TO_UINT Buf1 32 % 2 ^ 32
    { w := w1, Buf := Buf1, Offset := (s.Offset + 4) % 256, Sha1Buf := s.Sha1Buf + 4,
      -- Check for mismatch
      IsValid := if CalcValue ≠ ReadValue then false else s.IsValid }
  | none =>
    let w1 := s.w.call (.PortRead s.Offset 4)
    -- Update ReadValue
    let ReadValue : Nat := 0
    -- Update the statistics
    let w2 := w1.setTx { w1.Tx with
      Stats := { w1.Tx.Stats with ReadFailures := w1.Tx.Stats.ReadFailures + 1 } }
    { w := w2, Buf := s.Buf, Offset := (s.Offset + 4) % 256, Sha1Buf := s.Sha1Buf + 4,
      -- Check for mismatch
      IsValid := if CalcValue ≠ ReadValue then false else s.IsValid }

/-- The do-while loop over the SHA-1 chunks, entered with the given value of
`NumIterations`: the body, `NumIterations--`, and again while
`NumIterations > 0`. -/
def XHdcp1x_TxValidateKsvList_vhLoop (E : Env) (Sha1Result : List Nat) :
    Nat → VhState → VhState
  | 0, s => XHdcp1x_TxValidateKsvList_vhBody E Sha1Result s
  | n + 1, s =>
    let s1 := XHdcp1x_TxValidateKsvList_vhBody E Sha1Result s
    if n > 0 then XHdcp1x_TxValidateKsvList_vhLoop E Sha1Result n s1 else s1

/-- Source: `XHdcp1x_TxValidateKsvList`.  Returns the instance and `IsValid`. -/
def XHdcp1x_TxValidateKsvList (E : Env) (w : XHdcp1x) (RepeaterInfo : Nat) :
    Option (XHdcp1x × Bool) :=
  -- Initialize Buf, initialize Sha1Context
  let Buf0 : List Nat := List.replicate 24 0
  let Sha1Context0 : List Nat := []
  -- Determine theNumToRead
  let NumToRead := (RepeaterInfo &&& 0x7F) * 5
  -- Read the ksv list
  match XHdcp1x_TxValidateKsvList_readLoop E (NumToRead + 1) w Sha1Context0 Buf0 NumToRead with
  | none => none
  | some (w1, Sha1Context1, Buf1, IsValid) =>
    -- Check for success
    if IsValid then
      -- Insert RepeaterInfo into the SHA-1 transform
      let Buf2 := (Buf1.set 0 ((RepeaterInfo &&& 0xFF) % 256)).set 1
        (((RepeaterInfo >>> 8) &&& 0xFF) % 256)
      let Sha1Context2 := Sha1Context1 ++ Buf2.take 2
      -- Insert the Mo into the SHA-1 transform
      let Mo := E.CipherGetMo w1.Hist % 2 ^ 64
      let w2 := w1.call .CipherGetMo
      let Buf3 := E.XHDCP1X_PORT_UINT_TO_BUF Buf2 Mo 64
      let Sha1Context3 := Sha1Context2 ++ Buf3.take 8
      -- Finalize the SHA-1 result and confirm success
      match E.SHA1 Sha1Context3 with
      | some Sha1Result =>
        let s := XHdcp1x_TxValidateKsvList_vhLoop E Sha1Result (E.SHA1HashSize >>> 2)
          { w := w2, Buf := Buf3, Offset := E.XHDCP1X_PORT_OFFSET_VH0 % 256, Sha1Buf := 0,
            IsValid := IsValid }
        some (s.w, s.IsValid)
      | none => some (w2, false)
    else some (w1, IsValid)

/-- The do-while loop of `XHdcp1x_TxReadKsvList`, entered with the given value
of `NumAttempts`. -/
def XHdcp1x_TxReadKsvList_loop (E : Env) (RepeaterInfo : Nat) :
    Nat → XHdcp1x → Option (XHdcp1x × Bool)
  | 0, w => XHdcp1x_TxValidateKsvList E w RepeaterInfo
  | n + 1, w =>
    -- Attempt to validate the ksv list
    match XHdcp1x_TxValidateKsvList E w RepeaterInfo with
    | none => none
    | some (w1, KsvListIsValid) =>
      if n > 0 ∧ ¬ KsvListIsValid then XHdcp1x_TxReadKsvList_loop E RepeaterInfo n w1
      else some (w1, KsvListIsValid)

/-- Source: `XHdcp1x_TxReadKsvList`. -/
def XHdcp1x_TxReadKsvList (E : Env) (w : XHdcp1x) :
    Option (XHdcp1x × XHdcp1x_StateType) :=
  -- Determine RepeaterInfo
  let RepeaterInfo := (w.Tx.StateHelper &&& 0x0FFF) % 2 ^ 16
  -- Iterate through the attempts
  match XHdcp1x_TxReadKsvList_loop E RepeaterInfo 3 w with
  | none => none
  | some (w1, KsvListIsValid) =>
    -- Check for success
    if KsvListIsValid then
      -- log "ksv list validated"
      some (w1, .AUTHENTICATED)
    else
      -- log "ksv list invalid"
      some (w1, .UNAUTHENTICATED)

/-! ## State handlers -/

/-- Source: `XHdcp1x_TxRunDisabledState`. -/
def XHdcp1x_TxRunDisabledState (w : XHdcp1x) (Event : XHdcp1x_EventType)
    (NextState : XHdcp1x_StateType) : XHdcp1x × XHdcp1x_StateType :=
  match Event with
  -- For enable
  | .ENABLE =>
    if w.Tx.Flags &&& XVPHY_FLAG_PHY_UP = 0 then (w, .PHYDOWN) else (w, .UNAUTHENTICATED)
  -- For physical layer down
  | .PHYDOWN =>
    (w.setTx { w.Tx with Flags := w.Tx.Flags &&& not32 XVPHY_FLAG_PHY_UP }, NextState)
  -- For physical layer up
  | .PHYUP =>
    (w.setTx { w.Tx with Flags := w.Tx.Flags ||| XVPHY_FLAG_PHY_UP }, NextState)
  | _ => (w, NextState)

/-- Source: `XHdcp1x_TxRunDetermineRxCapableState`. -/
def XHdcp1x_TxRunDetermineRxCapableState (w : XHdcp1x) (Event : XHdcp1x_EventType)
    (NextState : XHdcp1x_StateType) : XHdcp1x × XHdcp1x_StateType :=
  match Event with
  | .DISABLE => (w, .DISABLED)
  | .PHYDOWN => (w, .PHYDOWN)
  | _ => (w, NextState)

/-- Source: `XHdcp1x_TxRunExchangeKsvsState`. -/
def XHdcp1x_TxRunExchangeKsvsState (w : XHdcp1x) (Event : XHdcp1x_EventType)
    (NextState : XHdcp1x_StateType) : XHdcp1x × XHdcp1x_StateType :=
  match Event with
  | .DISABLE => (w, .DISABLED)
  | .PHYDOWN => (w, .PHYDOWN)
  | _ => (w, NextState)

/-- Source: `XHdcp1x_TxRunComputationsState`. -/
def XHdcp1x_TxRunComputationsState (E : Env) (w : XHdcp1x) (Event : XHdcp1x_EventType)
    (NextState : XHdcp1x_StateType) : XHdcp1x × XHdcp1x_StateType :=
  match Event with
  | .AUTHENTICATE => (w, .DETERMINERXCAPABLE)
  | .DISABLE => (w, .DISABLED)
  | .PHYDOWN => (w, .PHYDOWN)
  -- For poll
  | .POLL => XHdcp1x_TxPollForComputations E w NextState
  | _ => (w, NextState)

/-- Source: `XHdcp1x_TxRunValidateRxState`. -/
def XHdcp1x_TxRunValidateRxState (E : Env) (w : XHdcp1x) (Event : XHdcp1x_EventType)
    (NextState : XHdcp1x_StateType) : XHdcp1x × XHdcp1x_StateType :=
  match Event with
  | .AUTHENTICATE => (w, .DETERMINERXCAPABLE)
  | .DISABLE => (w, .DISABLED)
  | .PHYDOWN => (w, .PHYDOWN)
  -- For timeout: log "validate-rx timeout"
  | .TIMEOUT => XHdcp1x_TxValidateRx E w
  | _ => (w, NextState)

/-- Source: `XHdcp1x_TxRunAuthenticatedState`. -/
def XHdcp1x_TxRunAuthenticatedState (w : XHdcp1x) (Event : XHdcp1x_EventType)
    (NextState : XHdcp1x_StateType) : XHdcp1x × XHdcp1x_StateType :=
  match Event with
  | .AUTHENTICATE => (w, .DETERMINERXCAPABLE)
  -- For check
  | .CHECK => (w, .LINKINTEGRITYCHECK)
  | .DISABLE => (w, .DISABLED)
  | .PHYDOWN => (w, .PHYDOWN)
  | _ => (w, NextState)

/-- Source: `XHdcp1x_TxRunLinkIntegrityCheckState`. -/
def XHdcp1x_TxRunLinkIntegrityCheckState (E : Env) (w : XHdcp1x)
    (Event : XHdcp1x_EventType) (NextState : XHdcp1x_StateType) :
    XHdcp1x × XHdcp1x_StateType :=
  match Event with
  | .AUTHENTICATE => (w, .DETERMINERXCAPABLE)
  | .DISABLE => (w, .DISABLED)
  | .PHYDOWN => (w, .PHYDOWN)
  -- For poll
  | .POLL => XHdcp1x_TxCheckLinkIntegrity E w
  | _ => (w, NextState)

/-- Source: `XHdcp1x_TxRunTestForRepeaterState`. -/
def XHdcp1x_TxRunTestForRepeaterState (E : Env) (w : XHdcp1x)
    (Event : XHdcp1x_EventType) (NextState : XHdcp1x_StateType) :
    XHdcp1x × XHdcp1x_StateType :=
  match Event with
  | .AUTHENTICATE => (w, .DETERMINERXCAPABLE)
  | .DISABLE => (w, .DISABLED)
  | .PHYDOWN => (w, .PHYDOWN)
  -- For poll
  | .POLL => XHdcp1x_TxTestForRepeater E w
  | _ => (w, NextState)

/-- Source: `XHdcp1x_TxRunWaitForReadyState`. -/
def XHdcp1x_TxRunWaitForReadyState (E : Env) (w : XHdcp1x)
    (Event : XHdcp1x_EventType) (NextState : XHdcp1x_StateType) :
    XHdcp1x × XHdcp1x_StateType :=
  match Event with
  | .AUTHENTICATE => (w, .DETERMINERXCAPABLE)
  | .DISABLE => (w, .DISABLED)
  | .PHYDOWN => (w, .PHYDOWN)
  -- For poll
  | .POLL => XHdcp1x_TxPollForWaitForReady E w NextState
  -- For timeout: log "wait-for-ready timeout"
  | .TIMEOUT =>
    let r := XHdcp1x_TxPollForWaitForReady E w NextState
    if r.2 = .WAITFORREADY then (r.1, .UNAUTHENTICATED) else r
  | _ => (w, NextState)

/-- Source: `XHdcp1x_TxRunReadKsvListState`. -/
def XHdcp1x_TxRunReadKsvListState (w : XHdcp1x) (Event : XHdcp1x_EventType)
    (NextState : XHdcp1x_StateType) : XHdcp1x × XHdcp1x_StateType :=
  match Event with
  | .AUTHENTICATE => (w, .DETERMINERXCAPABLE)
  | .DISABLE => (w, .DISABLED)
  | .PHYDOWN => (w, .PHYDOWN)
  | _ => (w, NextState)

/-- Source: `XHdcp1x_TxRunUnauthenticatedState`. -/
def XHdcp1x_TxRunUnauthenticatedState (w : XHdcp1x) (Event : XHdcp1x_EventType)
    (NextState : XHdcp1x_StateType) : XHdcp1x × XHdcp1x_StateType :=
  match Event with
  | .AUTHENTICATE => (w, .DETERMINERXCAPABLE)
  | .DISABLE => (w, .DISABLED)
  | .PHYDOWN => (w, .PHYDOWN)
  | _ => (w, NextState)

/-- Source: `XHdcp1x_TxRunPhysicalLayerDownState`. -/
def XHdcp1x_TxRunPhysicalLayerDownState (w : XHdcp1x) (Event : XHdcp1x_EventType)
    (NextState : XHdcp1x_StateType) : XHdcp1x × XHdcp1x_StateType :=
  match Event with
  | .DISABLE => (w, .DISABLED)
  -- For physical layer up
  | .PHYUP =>
    if w.Tx.EncryptionMap ≠ 0 then
      (XHdcp1x_TxPostEvent w .AUTHENTICATE, .UNAUTHENTICATED)
    else (w, .UNAUTHENTICATED)
  | _ => (w, NextState)

/-! ## Entry and exit actions, the transition driver -/

/-- Source: `XHdcp1x_TxEnterState`.  `none` when a loop of the entry action
does not finish within its budget. -/
def XHdcp1x_TxEnterState (E : Env) (spin : Nat) (w : XHdcp1x)
    (State : XHdcp1x_StateType) (NextState : XHdcp1x_StateType) :
    Option (XHdcp1x × XHdcp1x_StateType) :=
  match State with
  -- For the disabled state
  | .DISABLED => some (XHdcp1x_TxDisableState w, NextState)
  -- For determine rx capable
  | .DETERMINERXCAPABLE =>
    let w1 := w.setTx { w.Tx with Flags := w.Tx.Flags ||| XVPHY_FLAG_PHY_UP }
    let w2 := XHdcp1x_TxSetCheckLinkState w1 false
    let w3 := XHdcp1x_TxDisableEncryptionState E w2
    some (XHdcp1x_TxCheckRxCapable E w3)
  -- For the exchange ksvs state
  | .EXCHANGEKSVS =>
    let w1 := w.setTx { w.Tx with StateHelper := 0 }
    XHdcp1x_TxExchangeKsvs E spin w1
  -- For the computations state
  | .COMPUTATIONS => some (XHdcp1x_TxStartComputations w, NextState)
  -- For the validate rx state
  | .VALIDATERX =>
    let w1 := w.setTx { w.Tx with StateHelper := 0 }
    some (XHdcp1x_TxStartTimer w1 XVPHY_TMO_100MS, NextState)
  -- For the wait for ready state
  | .WAITFORREADY =>
    let w1 := w.setTx { w.Tx with StateHelper := 0 }
    some (XHdcp1x_TxStartTimer w1 (5 * XVPHY_TMO_1SECOND), NextState)
  -- For the read ksv list state
  | .READKSVLIST => XHdcp1x_TxReadKsvList E w
  -- For the authenticated state
  | .AUTHENTICATED =>
    let w1 := w.setTx { w.Tx with StateHelper := 0 }
    let w2 := XHdcp1x_TxEnableEncryptionState E w1
    if w2.Tx.PreviousState ≠ .LINKINTEGRITYCHECK then
      let w3 := w2.setTx { w2.Tx with
        Stats := { w2.Tx.Stats with AuthPassed := w2.Tx.Stats.AuthPassed + 1 } }
      -- log "authenticated"
      some (XHdcp1x_TxSetCheckLinkState w3 true, NextState)
    else some (w2, NextState)
  -- For the link integrity check state
  | .LINKINTEGRITYCHECK => some (XHdcp1x_TxCheckLinkIntegrity E w)
  -- For the unauthenticated state
  | .UNAUTHENTICATED =>
    let w1 := w.setTx { w.Tx with Flags := w.Tx.Flags &&& not32 XVPHY_FLAG_IS_REPEATER }
    let w2 := w1.setTx { w1.Tx with Flags := w1.Tx.Flags ||| XVPHY_FLAG_PHY_UP }
    some (XHdcp1x_TxDisableEncryptionState E w2, NextState)
  -- For physical layer down
  | .PHYDOWN =>
    let w1 := w.setTx { w.Tx with Flags := w.Tx.Flags &&& not32 XVPHY_FLAG_PHY_UP }
    let w2 := XHdcp1x_TxDisableEncryptionState E w1
    some (w2.call .CipherDisable, NextState)
  -- For the test for repeater state: nothing
  | .TESTFORREPEATER => some (w, NextState)

/-- Source: `XHdcp1x_TxExitState`. -/
def XHdcp1x_TxExitState (w : XHdcp1x) (State : XHdcp1x_StateType) : XHdcp1x :=
  match State with
  -- For the disabled state
  | .DISABLED => XHdcp1x_TxEnableState w
  -- For the computations state
  | .COMPUTATIONS => w.setTx { w.Tx with StateHelper := 0 }
  -- For the validate rx state
  | .VALIDATERX => XHdcp1x_TxStopTimer w
  -- For the wait for ready state
  | .WAITFORREADY => XHdcp1x_TxStopTimer w
  -- For the read ksv list state
  | .READKSVLIST => w.setTx { w.Tx with StateHelper := 0 }
  -- For physical layer down
  | .PHYDOWN => w.call .CipherEnable
  | _ => w

/-- The switch of `XHdcp1x_TxDoTheState`: the handler of the current state is
run on the event, starting from `NextState = CurrentState`. -/
def XHdcp1x_TxDoTheState_switch (E : Env) (w : XHdcp1x) (Event : XHdcp1x_EventType) :
    XHdcp1x × XHdcp1x_StateType :=
  let NextState := w.Tx.CurrentState
  match w.Tx.CurrentState with
  | .DISABLED => XHdcp1x_TxRunDisabledState w Event NextState
  | .DETERMINERXCAPABLE => XHdcp1x_TxRunDetermineRxCapableState w Event NextState
  | .EXCHANGEKSVS => XHdcp1x_TxRunExchangeKsvsState w Event NextState
  | .COMPUTATIONS => XHdcp1x_TxRunComputationsState E w Event NextState
  | .VALIDATERX => XHdcp1x_TxRunValidateRxState E w Event NextState
  | .AUTHENTICATED => XHdcp1x_TxRunAuthenticatedState w Event NextState
  | .LINKINTEGRITYCHECK => XHdcp1x_TxRunLinkIntegrityCheckState E w Event NextState
  | .TESTFORREPEATER => XHdcp1x_TxRunTestForRepeaterState E w Event NextState
  | .WAITFORREADY => XHdcp1x_TxRunWaitForReadyState E w Event NextState
  | .READKSVLIST => XHdcp1x_TxRunReadKsvListState w Event NextState
  | .UNAUTHENTICATED => XHdcp1x_TxRunUnauthenticatedState w Event NextState
  | .PHYDOWN => XHdcp1x_TxRunPhysicalLayerDownState w Event NextState

/-- The loop `while (InstancePtr->Tx.CurrentState != NextState)` of
`XHdcp1x_TxDoTheState`, with a budget of `fuel` transitions: `none` when a
transition is still due after `fuel` of them, or when an entry action does not
finish. -/
def XHdcp1x_TxDoTheState_loop (E : Env) (spin : Nat) :
    Nat → XHdcp1x → XHdcp1x_StateType → Option XHdcp1x
  | 0, w, NextState => if w.Tx.CurrentState ≠ NextState then none else some w
  | fuel + 1, w, NextState =>
    if w.Tx.CurrentState ≠ NextState then
      -- Perform the state transition
      let w1 := XHdcp1x_TxExitState w w.Tx.CurrentState
      let w2 := w1.setTx { w1.Tx with PreviousState := w1.Tx.CurrentState }
      let w3 := w2.setTx { w2.Tx with CurrentState := NextState }
      match XHdcp1x_TxEnterState E spin w3 w3.Tx.CurrentState NextState with
      | none => none
      | some r => XHdcp1x_TxDoTheState_loop E spin fuel r.1 r.2
    else some w

/-- Source: `XHdcp1x_TxDoTheState`, with a budget of `spin` polls for the busy
wait of the nonce generation and of `fuel` transitions. -/
def XHdcp1x_TxDoTheState (E : Env) (spin fuel : Nat) (w : XHdcp1x)
    (Event : XHdcp1x_EventType) : Option XHdcp1x :=
  let r := XHdcp1x_TxDoTheState_switch E w Event
  XHdcp1x_TxDoTheState_loop E spin fuel r.1 r.2

/-- The event with the given numeric value, `none` for a value outside the
enum. -/
def XHdcp1x_EventType.ofNat? : Nat → Option XHdcp1x_EventType
  | 0 => some .NULL | 1 => some .AUTHENTICATE | 2 => some .CHECK | 3 => some .DISABLE
  | 4 => some .ENABLE | 5 => some .LINKDOWN | 6 => some .PHYDOWN | 7 => some .PHYUP
  | 8 => some .POLL | 9 => some .TIMEOUT | _ => none

/-- The transition driver on the numeric value of an event, as the loop of
`XHdcp1x_TxProcessPending` calls it after `Event++`.  For a value outside the
enum the switch of every handler takes its default branch, so no state is
proposed and nothing changes. -/
def XHdcp1x_TxDoTheState_num (E : Env) (spin fuel : Nat) (w : XHdcp1x) (Event : Nat) :
    Option XHdcp1x :=
  match XHdcp1x_EventType.ofNat? Event with
  | some e => XHdcp1x_TxDoTheState E spin fuel w e
  | none => some w

/-- The do-while loop of `XHdcp1x_TxProcessPending`, with a budget of `k`
passes: `none` when `Pending` is still nonzero after `k` of them or when a
dispatch does not finish. -/
def XHdcp1x_TxProcessPending_loop (E : Env) (spin fuel : Nat) :
    Nat → XHdcp1x → Nat → Nat → Option XHdcp1x
  | 0, _, _, _ => none
  | k + 1, w, Pending, Event =>
    -- Check for a pending event
    match (if Pending &&& 1 ≠ 0 then XHdcp1x_TxDoTheState_num E spin fuel w Event
           else some w) with
    | none => none
    | some w1 =>
      -- Update for loop
      let Pending1 := Pending >>> 1
      if Pending1 ≠ 0 then XHdcp1x_TxProcessPending_loop E spin fuel k w1 Pending1 (Event + 1)
      else some w1

/-- Source: `XHdcp1x_TxProcessPending`. -/
def XHdcp1x_TxProcessPending (E : Env) (spin fuel : Nat) (w : XHdcp1x) : Option XHdcp1x :=
  -- Check for any pending events
  if w.Tx.PendingEvents ≠ 0 then
    let Pending := w.Tx.PendingEvents % 2 ^ 16
    -- Update InstancePtr
    let w1 := w.setTx { w.Tx with PendingEvents := 0 }
    -- Iterate through thePending
    XHdcp1x_TxProcessPending_loop E spin fuel 16 w1 Pending XHdcp1x_EventType.NULL.toNat
  else some w

/-! ## Public functions -/

/-- Source: `XHdcp1x_TxInit`. -/
def XHdcp1x_TxInit (E : Env) (spin : Nat) (w : XHdcp1x) : Option XHdcp1x :=
  let DummyState := XHdcp1x_StateType.DISABLED
  let w1 := w.setTx { w.Tx with PendingEvents := 0 }
  -- Kick the state machine
  (XHdcp1x_TxEnterState E spin w1 .DISABLED DummyState).map Prod.fst

/-- Source: `XHdcp1x_TxPoll`.  Returns the instance and the status. -/
def XHdcp1x_TxPoll (E : Env) (spin fuel : Nat) (w : XHdcp1x) : Option (XHdcp1x × Int) :=
  -- Process any pending events
  match XHdcp1x_TxProcessPending E spin fuel w with
  | none => none
  | some w1 =>
    -- Poll it
    match XHdcp1x_TxDoTheState E spin fuel w1 .POLL with
    | none => none
    | some w2 => some (w2, E.XST_SUCCESS)

/-- Source: `XHdcp1x_TxReset`. -/
def XHdcp1x_TxReset (E : Env) (w : XHdcp1x) : XHdcp1x × Int :=
  (XHdcp1x_TxPostEvent (XHdcp1x_TxPostEvent w .DISABLE) .ENABLE, E.XST_SUCCESS)

/-- Source: `XHdcp1x_TxEnable`. -/
def XHdcp1x_TxEnable (E : Env) (w : XHdcp1x) : XHdcp1x × Int :=
  (XHdcp1x_TxPostEvent w .ENABLE, E.XST_SUCCESS)

/-- Source: `XHdcp1x_TxDisable`. -/
def XHdcp1x_TxDisable (E : Env) (w : XHdcp1x) : XHdcp1x × Int :=
  (XHdcp1x_TxPostEvent w .DISABLE, E.XST_SUCCESS)

/-- Source: `XHdcp1x_TxSetPhysicalState`. -/
def XHdcp1x_TxSetPhysicalState (E : Env) (w : XHdcp1x) (IsUp : Bool) : XHdcp1x × Int :=
  let Event := if IsUp then XHdcp1x_EventType.PHYUP else XHdcp1x_EventType.PHYDOWN
  (XHdcp1x_TxPostEvent w Event, E.XST_SUCCESS)

/-- Source: `XHdcp1x_TxSetLaneCount`.  `none` when the assertion
`LaneCount > 0` fails. -/
def XHdcp1x_TxSetLaneCount (E : Env) (w : XHdcp1x) (LaneCount : Int) :
    Option (XHdcp1x × Int) :=
  if LaneCount > 0 then
    some (w.call (.CipherSetNumLanes LaneCount), E.CipherSetNumLanes w.Hist LaneCount)
  else none

/-- Source: `XHdcp1x_TxAuthenticate`. -/
def XHdcp1x_TxAuthenticate (E : Env) (w : XHdcp1x) : XHdcp1x × Int :=
  (XHdcp1x_TxPostEvent w .AUTHENTICATE, E.XST_SUCCESS)

/-- Source: `XHdcp1x_TxIsInProgress`. -/
def XHdcp1x_TxIsInProgress (w : XHdcp1x) : Bool :=
  match w.Tx.CurrentState with
  -- For the "steady" states
  | .DISABLED | .UNAUTHENTICATED | .AUTHENTICATED | .LINKINTEGRITYCHECK => false
  | _ => true

/-- Source: `XHdcp1x_TxIsAuthenticated`. -/
def XHdcp1x_TxIsAuthenticated (w : XHdcp1x) : Bool :=
  match w.Tx.CurrentState with
  | .AUTHENTICATED | .LINKINTEGRITYCHECK => true
  | _ => false

/-- Source: `XHdcp1x_TxGetEncryption`. -/
def XHdcp1x_TxGetEncryption (w : XHdcp1x) : Nat :=
  w.Tx.EncryptionMap

/-- Source: `XHdcp1x_TxEnableEncryption`. -/
def XHdcp1x_TxEnableEncryption (E : Env) (w : XHdcp1x) (StreamMap : Nat) : XHdcp1x × Int :=
  -- Update InstancePtr
  let w1 := w.setTx { w.Tx with
    EncryptionMap := (w.Tx.EncryptionMap ||| (StreamMap % 2 ^ 64)) % 2 ^ 64 }
  -- Check for authenticated
  if XHdcp1x_TxIsAuthenticated w1 then
    (XHdcp1x_TxEnableEncryptionState E w1, E.XST_SUCCESS)
  else (w1, E.XST_SUCCESS)

/-- Bitwise complement of a 64-bit unsigned value. -/
def not64 (x : Nat) : Nat := 0xFFFFFFFFFFFFFFFF ^^^ (x % 2 ^ 64)

/-- Source: `XHdcp1x_TxDisableEncryption`. -/
def XHdcp1x_TxDisableEncryption (E : Env) (w : XHdcp1x) (StreamMap : Nat) :
    XHdcp1x × Int :=
  -- Disable it
  let Status := E.CipherDisableEncryption w.Hist (StreamMap % 2 ^ 64)
  let w1 := w.call (.CipherDisableEncryption (StreamMap % 2 ^ 64))
  -- Update InstancePtr
  if Status = E.XST_SUCCESS then
    (w1.setTx { w1.Tx with
      EncryptionMap := (w1.Tx.EncryptionMap &&& not64 StreamMap) % 2 ^ 64 }, Status)
  else (w1, Status)

/-- Source: `XHdcp1x_TxHandleTimeout`. -/
def XHdcp1x_TxHandleTimeout (w : XHdcp1x) : XHdcp1x :=
  XHdcp1x_TxPostEvent w .TIMEOUT

/-! ## Auxiliary definitions used to state properties -/

/-- Dispatch a list of events one after the other through the transition
driver. -/
def dispatchAll (E : Env) (spin fuel : Nat) : XHdcp1x → List XHdcp1x_EventType → Option XHdcp1x
  | w, [] => some w
  | w, e :: es =>
    match XHdcp1x_TxDoTheState E spin fuel w e with
    | none => none
    | some w1 => dispatchAll E spin fuel w1 es

/-- Number of one-bits of `k` among its `n` low bit positions. -/
def onesBelow (n k : Nat) : Nat :=
  ((List.range n).filter (fun i => k.testBit i)).length

/-- Number of zero-bits of `k` among its `n` low bit positions. -/
def zerosBelow (n k : Nat) : Nat :=
  ((List.range n).filter (fun i => !k.testBit i)).length

/-- The busy wait on a request issued as the newest call of history `h` ends
within `spin` polls: one of the first `spin` completion polls answers true. -/
def CompletesWithin (E : Env) (spin : Nat) (h : List Call) : Prop :=
  ∃ n, n < spin ∧
    E.CipherIsRequestComplete (List.replicate n Call.CipherIsRequestComplete ++ h) = true

/-- Every random-number request that the cipher accepts completes within `spin`
polls. -/
def RngCompletes (E : Env) (spin : Nat) : Prop :=
  ∀ h, E.CipherDoRequest h .RNG = E.XST_SUCCESS →
    CompletesWithin E spin (Call.CipherDoRequest .RNG :: h)

/-- The value of `RemoteKsv` that `XHdcp1x_TxExchangeKsvs` decodes from the
data of a successful 5-byte read. -/
def RemoteKsvOf (E : Env) (data : List Nat) : Nat :=
  E.XHDCP1X_PORT_BUF_TO_UINT (bufStore (List.replicate 8 0) data 5)
    (E.XHDCP1X_PORT_SIZE_BKSV * 8) % 2 ^ 64

/-! ### Description of one ksv list validation attempt in terms of the history -/

/-- Number of verification words that a validation attempt compares: the passes
of the do-while loop entered with `NumIterations = SHA1HashSize >> 2`. -/
def vhCount (E : Env) : Nat := max 1 (E.SHA1HashSize >>> 2)

/-- Register offset of verification read `i`: the first verification register
plus `4 * i`, in the 8-bit variable `Offset`. -/
def vhOffset (E : Env) (i : Nat) : Nat := (E.XHDCP1X_PORT_OFFSET_VH0 + 4 * i) % 256

/-- Big-endian 32-bit word `i` of a digest. -/
def digestWordBE (d : List Nat) (i : Nat) : Nat :=
  ((d.getD (4 * i) 0 % 256 * 256 + d.getD (4 * i + 1) 0 % 256) * 256 +
    d.getD (4 * i + 2) 0 % 256) * 256 + d.getD (4 * i + 3) 0 % 256

/-- History and buffer right before verification read `i`, when the first
verification read is issued at history `h0` with buffer `Buf0`. -/
def vhBefore (E : Env) (h0 : List Call) (Buf0 : List Nat) : Nat → List Call × List Nat
  | 0 => (h0, Buf0)
  | i + 1 =>
    (Call.PortRead (vhOffset E i) 4 :: (vhBefore E h0 Buf0 i).1,
      match E.PortRead (vhBefore E h0 Buf0 i).1 (vhOffset E i) 4 with
      | some data => bufStore (vhBefore E h0 Buf0 i).2 data 4
      | none => (vhBefore E h0 Buf0 i).2)

/-- The 4-byte value of verification read `i`: what the buffer macro decodes
from `Buf` after the read (bytes that the read did not store are those `Buf`
held before); `none` when the read fails. -/
def vhReadValue (E : Env) (h0 : List Call) (Buf0 : List Nat) (i : Nat) : Option Nat :=
  (E.PortRead (vhBefore E h0 Buf0 i).1 (vhOffset E i) 4).map
    (fun data => E.XHDCP1X_PORT_BUF_TO_UINT (bufStore (vhBefore E h0 Buf0 i).2 data 4) 32 % 2 ^ 32)

/-- The list read of a validation attempt as a function of the history: chunk
after chunk of at most `XHDCP1X_PORT_SIZE_KSVFIFO` bytes is read from the list
register until `NumToRead` bytes are read, and after each read the first
`NumThisTime` bytes of `Buf` are streamed into the hash (bytes that the read did
not store are those `Buf` held before).  Returns the bytes streamed into the
hash after `ctx`, the buffer and the history afterwards; `none` when a read
fails or the budget of passes is used up. -/
def ksvListRead (E : Env) :
    Nat → List Call → List Nat → List Nat → Nat → Option (List Nat × List Nat × List Call)
  | 0, _, _, _, _ => none
  | fuel + 1, h, ctx, Buf, NumToRead =>
    let n := if E.XHDCP1X_PORT_SIZE_KSVFIFO > NumToRead then NumToRead
      else E.XHDCP1X_PORT_SIZE_KSVFIFO
    match E.PortRead h E.XHDCP1X_PORT_OFFSET_KSVFIFO n with
    | some data =>
      if NumToRead - n > 0 then
        ksvListRead E fuel (Call.PortRead E.XHDCP1X_PORT_OFFSET_KSVFIFO n :: h)
          (ctx ++ (bufStore Buf data n).take n) (bufStore Buf data n) (NumToRead - n)
      else
        some (ctx ++ (bufStore Buf data n).take n, bufStore Buf data n,
          Call.PortRead E.XHDCP1X_PORT_OFFSET_KSVFIFO n :: h)
    | none => none

/-- The two bytes of the topology value as they are fed to the hash, low byte
first. -/
def topologyBytes (RepeaterInfo : Nat) : List Nat :=
  [(RepeaterInfo &&& 0xFF) % 256, ((RepeaterInfo >>> 8) &&& 0xFF) % 256]

/-- What a validation attempt that starts at history `h` hashes, when every
read of the list succeeds and the hash is finalized: the list bytes, the
message (list bytes, then the 2 bytes of the topology value, then the 8 bytes
the buffer macro makes of the cipher secret Mo), the digest, and the history
and buffer with which the first verification read is issued.  `none` when a
list read fails or the hash does not finalize. -/
def ksvDigest (E : Env) (RepeaterInfo : Nat) (h : List Call) :
    Option (List Nat × List Nat × List Nat × List Call × List Nat) :=
  match ksvListRead E ((RepeaterInfo &&& 0x7F) * 5 + 1) h [] (List.replicate 24 0)
      ((RepeaterInfo &&& 0x7F) * 5) with
  | none => none
  | some (L, Buf1, h1) =>
    let Buf2 := (Buf1.set 0 ((RepeaterInfo &&& 0xFF) % 256)).set 1
      (((RepeaterInfo >>> 8) &&& 0xFF) % 256)
    let Buf3 := E.XHDCP1X_PORT_UINT_TO_BUF Buf2 (E.CipherGetMo h1 % 2 ^ 64) 64
    let msg := L ++ topologyBytes RepeaterInfo ++ Buf3.take 8
    match E.SHA1 msg with
    | none => none
    | some d => some (L, msg, d, Call.CipherGetMo :: h1, Buf3)

/-- A validation attempt that starts at history `h` is good: every list read
succeeds, the hash is finalized, and every verification read succeeds and
delivers the corresponding big-endian word of the digest. -/
def KsvAttemptGood (E : Env) (RepeaterInfo : Nat) (h : List Call) : Prop :=
  ∃ L msg d h0 B, ksvDigest E RepeaterInfo h = some (L, msg, d, h0, B) ∧
    ∀ i, i < vhCount E → vhReadValue E h0 B i = some (digestWordBE d i)

/-- A validation attempt that starts at history `h` meets a mismatch: every list
read succeeds, the hash is finalized, and some verification read delivers a
value that differs from the corresponding word of the digest. -/
def KsvAttemptMismatch (E : Env) (RepeaterInfo : Nat) (h : List Call) : Prop :=
  ∃ L msg d h0 B, ksvDigest E RepeaterInfo h = some (L, msg, d, h0, B) ∧
    ∃ i v, i < vhCount E ∧ vhReadValue E h0 B i = some v ∧ v ≠ digestWordBE d i

/-- Number of 4-byte reads recorded in a history. -/
def numWordReads (h : List Call) : Nat :=
  h.countP (fun c => match c with | Call.PortRead _ 4 => true | _ => false)

/-- Number of failed reads among the first `j` verification reads. -/
def vhFailures (E : Env) (h0 : List Call) (Buf0 : List Nat) (j : Nat) : Nat :=
  ((List.range j).filter (fun i => (vhReadValue E h0 Buf0 i).isNone)).length

/-! ## A concrete environment and instance, used to instantiate theorems -/

/-- Little-endian value of a list of bytes. -/
def leValue : List Nat → Nat
  | [] => 0
  | b :: bs => b + 256 * leValue bs

/-- The `n` low bytes of `v`, least significant first. -/
def leBytes : Nat → Nat → List Nat
  | 0, _ => []
  | n + 1, v => v % 256 :: leBytes n (v / 256)

/-- An example environment: register map of an HDMI port, little-endian buffer
macros, a receiver that is capable, is not a repeater, delivers a key with 20
one-bits and check values equal to the local ones, a cipher whose requests are
complete when polled, and a stand-in hash with a constant digest. -/
def exampleEnv : Env where
  XST_SUCCESS := 0
  XHDCP1X_PORT_OFFSET_BKSV := 0x00
  XHDCP1X_PORT_OFFSET_RO := 0x08
  XHDCP1X_PORT_OFFSET_AN := 0x18
  XHDCP1X_PORT_OFFSET_AKSV := 0x10
  XHDCP1X_PORT_OFFSET_AINFO := 0x15
  XHDCP1X_PORT_OFFSET_KSVFIFO := 0x43
  XHDCP1X_PORT_OFFSET_VH0 := 0x20
  XHDCP1X_PORT_SIZE_BKSV := 5
  XHDCP1X_PORT_SIZE_AN := 8
  XHDCP1X_PORT_SIZE_AKSV := 5
  XHDCP1X_PORT_SIZE_AINFO := 1
  XHDCP1X_PORT_SIZE_KSVFIFO := 5
  SHA1HashSize := 20
  XHDCP1X_PORT_BUF_TO_UINT := fun buf numbits => leValue (buf.take ((numbits + 7) / 8))
  XHDCP1X_PORT_UINT_TO_BUF := fun buf v numbits =>
    leBytes ((numbits + 7) / 8) v ++ buf.drop ((numbits + 7) / 8)
  PortRead := fun _ _ len =>
    if len = 5 then some [0xFF, 0xFF, 0x0F, 0x00, 0x00]
    else if len = 2 then some [0x34, 0x12]
    else some (List.replicate len 0xAB)
  PortIsCapable := fun _ => true
  PortIsRepeater := fun _ => false
  PortGetRepeaterInfo := fun _ => (0, 1)
  CipherDoRequest := fun _ _ => 0
  CipherIsRequestComplete := fun _ => true
  CipherGetMi := fun _ => 0x0123456789ABCDEF
  CipherGetLocalKsv := fun _ => 0x0F0F0F0F0F
  CipherGetRo := fun _ => 0x1234
  CipherGetRi := fun _ => 0x1234
  CipherGetMo := fun _ => 0x1122334455667788
  CipherGetEncryption := fun _ => 0
  CipherDisableEncryption := fun _ _ => 0
  CipherSetNumLanes := fun _ _ => 0
  PlatformIsKsvRevoked := fun _ _ => false
  SHA1 := fun _ => some (List.replicate 20 0xAB)

/-- An example instance at rest in the given state, with the link-up flag set,
nothing pending, no encryption requested and all counters zero. -/
def exampleInst (s : XHdcp1x_StateType) : XHdcp1x where
  IsHDMI := true
  Tx := { CurrentState := s, PreviousState := .DISABLED, StateHelper := 0,
          Flags := XVPHY_FLAG_PHY_UP, PendingEvents := 0, EncryptionMap := 0,
          Stats := ⟨0, 0, 0, 0, 0, 0⟩ }
  Hist := []

/-- The attempt of Ro validation that starts at history `h` succeeds in
`XHdcp1x_TxValidateRx_body`: the 2-byte read returns a positive count and the
value decoded from the buffer of that pass equals the local Ro. -/
def RoAttemptOk (E : Env) (h : List Call) : Bool :=
  match E.PortRead h E.XHDCP1X_PORT_OFFSET_RO 2 with
  | some data =>
    decide (E.CipherGetRo (Call.PortRead E.XHDCP1X_PORT_OFFSET_RO 2 :: h) % 2 ^ 16 =
      E.XHDCP1X_PORT_BUF_TO_UINT (bufStore (List.replicate 2 0) data 2) (2 * 8) % 2 ^ 16)
  | none => false

/-- History after the attempt of Ro validation that started at history `h`:
the read, and the query of the local Ro when the read succeeded. -/
def RoAttemptHist (E : Env) (h : List Call) : List Call :=
  match E.PortRead h E.XHDCP1X_PORT_OFFSET_RO 2 with
  | some _ => Call.CipherGetRo :: Call.PortRead E.XHDCP1X_PORT_OFFSET_RO 2 :: h
  | none => Call.PortRead E.XHDCP1X_PORT_OFFSET_RO 2 :: h

/-- The attempt of the link-integrity check that starts at history `h`
succeeds in `XHdcp1x_TxCheckLinkIntegrity_body`: the 2-byte read returns a
positive count and the value decoded from the buffer of that pass equals the
local Ri. -/
def RiAttemptOk (E : Env) (h : List Call) : Bool :=
  match E.PortRead h E.XHDCP1X_PORT_OFFSET_RO 2 with
  | some data =>
    decide (E.CipherGetRi (Call.PortRead E.XHDCP1X_PORT_OFFSET_RO 2 :: h) % 2 ^ 16 =
      E.XHDCP1X_PORT_BUF_TO_UINT (bufStore (List.replicate 2 0) data 2) 16 % 2 ^ 16)
  | none => false

/-- History after the attempt of the link-integrity check that started at
history `h`. -/
def RiAttemptHist (E : Env) (h : List Call) : List Call :=
  match E.PortRead h E.XHDCP1X_PORT_OFFSET_RO 2 with
  | some _ => Call.CipherGetRi :: Call.PortRead E.XHDCP1X_PORT_OFFSET_RO 2 :: h
  | none => Call.PortRead E.XHDCP1X_PORT_OFFSET_RO 2 :: h

/-- Every read that returns a positive count has stored all the bytes it was
asked for.  The port adaptors that implement `XHdcp1x_PortRead` are outside the
tree; under this assumption on them a read into `Buf` leaves none of the bytes
that the transmitter decodes next as they were before the read. -/
def FullReads (E : Env) : Prop :=
  ∀ (h : List Call) (Offset n : Nat) (data : List Nat),
    E.PortRead h Offset n = some data → n ≤ data.length

/-- The read of the remote Ro issued at history `h` is successful and equal to
the local Ro: it returns a positive count, has stored both bytes, and the value
the buffer macro decodes from the two bytes equals the local Ro. -/
def RoReadOk (E : Env) (h : List Call) : Bool :=
  match E.PortRead h E.XHDCP1X_PORT_OFFSET_RO 2 with
  | some data =>
    decide (2 ≤ data.length ∧
      E.CipherGetRo (Call.PortRead E.XHDCP1X_PORT_OFFSET_RO 2 :: h) % 2 ^ 16 =
        E.XHDCP1X_PORT_BUF_TO_UINT ((data.take 2).map (fun b => b % 256)) (2 * 8) % 2 ^ 16)
  | none => false

/-- The read of the remote Ri issued at history `h` is successful and equal to
the local Ri: it returns a positive count, has stored both bytes, and the value
the buffer macro decodes from the two bytes equals the local Ri. -/
def RiReadOk (E : Env) (h : List Call) : Bool :=
  match E.PortRead h E.XHDCP1X_PORT_OFFSET_RO 2 with
  | some data =>
    decide (2 ≤ data.length ∧
      E.CipherGetRi (Call.PortRead E.XHDCP1X_PORT_OFFSET_RO 2 :: h) % 2 ^ 16 =
        E.XHDCP1X_PORT_BUF_TO_UINT ((data.take 2).map (fun b => b % 256)) 16 % 2 ^ 16)
  | none => false

/-- Number of 2-byte reads at the Ro register recorded in a history. -/
def numRoReads (E : Env) (h : List Call) : Nat :=
  h.count (Call.PortRead E.XHDCP1X_PORT_OFFSET_RO 2)

/-- The example environment with a receiver whose fifth verification word
(register offset 0x30) is wrong. -/
def exampleEnvBadFifth : Env :=
  { exampleEnv with
    PortRead := fun _ off len =>
      if len = 5 then some [0xFF, 0xFF, 0x0F, 0x00, 0x00]
      else if len = 2 then some [0x34, 0x12]
      else if off = 0x30 then some [0x00, 0x00, 0x00, 0x00]
      else some (List.replicate len 0xAB) }

/-- The example environment with a cipher whose Mo is 0x7C96F04D, a hash that
is SHA-1 on the one message that then arises (ksv FF FF 0F 00 00, status
bytes 01 00, Mo least significant byte first; its digest starts with a zero
word) and reports an error on any other, and a receiver whose first
verification register (offset 0x20) cannot be read while the other four
deliver the words of the digest. -/
def exampleEnvFailedRead : Env :=
  { exampleEnv with
    CipherGetMo := fun _ => 0x000000007C96F04D
    SHA1 := fun m =>
      if m = [0xFF, 0xFF, 0x0F, 0x00, 0x00, 0x01, 0x00,
              0x4D, 0xF0, 0x96, 0x7C, 0x00, 0x00, 0x00, 0x00] then
        some [0x00, 0x00, 0x00, 0x00, 0x03, 0x63, 0x81, 0x25, 0x39, 0xCE,
              0xD0, 0xAA, 0x3A, 0x8D, 0xB3, 0xD6, 0xED, 0x68, 0x2E, 0xA0]
      else none
    PortRead := fun _ off len =>
      if len = 5 then some [0xFF, 0xFF, 0x0F, 0x00, 0x00]
      else if len = 2 then some [0x34, 0x12]
      else if off = 0x20 then none
      else if off = 0x24 then some [0x25, 0x81, 0x63, 0x03]
      else if off = 0x28 then some [0xAA, 0xD0, 0xCE, 0x39]
      else if off = 0x2C then some [0xD6, 0xB3, 0x8D, 0x3A]
      else if off = 0x30 then some [0xA0, 0x2E, 0x68, 0xED]
      else some (List.replicate len 0xAB) }

/-- The example environment with a receiver that delivers wrong verification
words. -/
def exampleEnvBadWords : Env :=
  { exampleEnv with
    PortRead := fun _ _ len =>
      if len = 5 then some [0xFF, 0xFF, 0x0F, 0x00, 0x00]
      else if len = 2 then some [0x34, 0x12]
      else some (List.replicate len 0x00) }

/-- An example instance at rest in READ_KSV_LIST behind a repeater with one
attached device. -/
def exampleInstRepeater : XHdcp1x where
  IsHDMI := true
  Tx := { CurrentState := .READKSVLIST, PreviousState := .WAITFORREADY, StateHelper := 1,
          Flags := XVPHY_FLAG_PHY_UP ||| XVPHY_FLAG_IS_REPEATER, PendingEvents := 0,
          EncryptionMap := 0, Stats := ⟨0, 0, 0, 0, 0, 0⟩ }
  Hist := []

/-! ## Auxiliary definitions for the event queue and the transition driver -/

/-- The event is in the pending set `P` (the bit at the position of the event
identifier is set). -/
def isPending (P : Nat) (e : XHdcp1x_EventType) : Bool := P.testBit e.toNat

/-- The ten events in ascending order of their identifiers. -/
def allEvents : List XHdcp1x_EventType :=
  [.NULL, .AUTHENTICATE, .CHECK, .DISABLE, .ENABLE, .LINKDOWN, .PHYDOWN, .PHYUP, .POLL,
    .TIMEOUT]

/-- The events of the pending set `P`, in ascending order of their
identifiers. -/
def pendingList (P : Nat) : List XHdcp1x_EventType :=
  allEvents.filter (isPending P)

/-- Dispatch a list of numeric event values one after the other through the
transition driver. -/
def dispatchNums (E : Env) (spin fuel : Nat) : XHdcp1x → List Nat → Option XHdcp1x
  | w, [] => some w
  | w, e :: es =>
    match XHdcp1x_TxDoTheState_num E spin fuel w e with
    | none => none
    | some w1 => dispatchNums E spin fuel w1 es

/-- The collaborator calls of the exit action of a state, newest first. -/
def exitCalls : XHdcp1x_StateType → List Call
  | .DISABLED =>
    [.PortEnable, .PortSetCallback .PORT_HANDLER_AUTHENTICATE .TxReauthenticateCallback,
      .CipherEnable]
  | .VALIDATERX => [.PlatformTimerStop]
  | .WAITFORREADY => [.PlatformTimerStop]
  | .PHYDOWN => [.CipherEnable]
  | _ => []

/-- An example instance parked in PHY_DOWN with the link-up flag clear, PHYUP
pending and encryption requested for stream 0. -/
def exampleInstParked : XHdcp1x where
  IsHDMI := true
  Tx := { CurrentState := .PHYDOWN, PreviousState := .UNAUTHENTICATED, StateHelper := 0,
          Flags := 0, PendingEvents := 0x80, EncryptionMap := 1,
          Stats := ⟨0, 0, 0, 0, 0, 0⟩ }
  Hist := []

/-- The pairs of a state and an event that the claim about unhandled events
lists: NULL and LINKDOWN in every state; every event other than ENABLE in
DISABLED; ENABLE outside DISABLED; PHYUP outside PHY_DOWN; CHECK outside
AUTHENTICATED; TIMEOUT outside VALIDATE_RX and WAIT_FOR_READY; POLL outside
COMPUTATIONS, TEST_FOR_REPEATER, WAIT_FOR_READY and LINK_INTEGRITY_CHECK;
AUTHENTICATE in DISABLED, PHY_DOWN, DETERMINE_RX_CAPABLE and EXCHANGE_KSVS;
PHYDOWN in PHY_DOWN. -/
def listedUnhandled (s : XHdcp1x_StateType) (e : XHdcp1x_EventType) : Bool :=
  decide (e = .NULL) || decide (e = .LINKDOWN) ||
  (decide (s = .DISABLED) && !decide (e = .ENABLE)) ||
  (decide (e = .ENABLE) && !decide (s = .DISABLED)) ||
  (decide (e = .PHYUP) && !decide (s = .PHYDOWN)) ||
  (decide (e = .CHECK) && !decide (s = .AUTHENTICATED)) ||
  (decide (e = .TIMEOUT) && !decide (s = .VALIDATERX) && !decide (s = .WAITFORREADY)) ||
  (decide (e = .POLL) && !decide (s = .COMPUTATIONS) && !decide (s = .TESTFORREPEATER) &&
    !decide (s = .WAITFORREADY) && !decide (s = .LINKINTEGRITYCHECK)) ||
  (decide (e = .AUTHENTICATE) &&
    (decide (s = .DISABLED) || decide (s = .PHYDOWN) || decide (s = .DETERMINERXCAPABLE) ||
      decide (s = .EXCHANGEKSVS))) ||
  (decide (e = .PHYDOWN) && decide (s = .PHYDOWN))

/-! ## Auxiliary definitions for invariants of the transition driver -/

/-- No counter of `s` is larger than the same counter of `t`. -/
@[reducible] def StatsLe (s t : XHdcp1x_TxStats) : Prop :=
  s.AuthFailed ≤ t.AuthFailed ∧ s.AuthPassed ≤ t.AuthPassed ∧
  s.ReauthRequested ≤ t.ReauthRequested ∧ s.ReadFailures ≤ t.ReadFailures ∧
  s.LinkCheckPassed ≤ t.LinkCheckPassed ∧ s.LinkCheckFailed ≤ t.LinkCheckFailed

/-- From `a` to `b` the configuration bit, the current state and the previous
state are unchanged and no counter has decreased. -/
def TxFrame (a b : XHdcp1x) : Prop :=
  b.IsHDMI = a.IsHDMI ∧ b.Tx.CurrentState = a.Tx.CurrentState ∧
  b.Tx.PreviousState = a.Tx.PreviousState ∧ StatsLe a.Tx.Stats b.Tx.Stats

/-- The largest number of further transitions that the entry action of a state
can start: the entry actions of DETERMINE_RX_CAPABLE, EXCHANGE_KSVS,
READ_KSV_LIST and LINK_INTEGRITY_CHECK propose a next state, the others do
not. -/
def enterDepth : XHdcp1x_StateType → Nat
  | .LINKINTEGRITYCHECK => 3
  | .DETERMINERXCAPABLE => 2
  | .EXCHANGEKSVS => 1
  | .READKSVLIST => 1
  | _ => 0

/-- The loop of `XHdcp1x_TxDoTheState` with a record of its transitions: next
to the instance it returns the list of the states that were current before
each transition, oldest first. -/
def XHdcp1x_TxDoTheState_loopTrace (E : Env) (spin : Nat) :
    Nat → XHdcp1x → XHdcp1x_StateType → Option (XHdcp1x × List XHdcp1x_StateType)
  | 0, w, NextState => if w.Tx.CurrentState ≠ NextState then none else some (w, [])
  | fuel + 1, w, NextState =>
    if w.Tx.CurrentState ≠ NextState then
      -- Perform the state transition
      let w1 := XHdcp1x_TxExitState w w.Tx.CurrentState
      let w2 := w1.setTx { w1.Tx with PreviousState := w1.Tx.CurrentState }
      let w3 := w2.setTx { w2.Tx with CurrentState := NextState }
      match XHdcp1x_TxEnterState E spin w3 w3.Tx.CurrentState NextState with
      | none => none
      | some r =>
        match XHdcp1x_TxDoTheState_loopTrace E spin fuel r.1 r.2 with
        | none => none
        | some (w4, tr) => some (w4, w.Tx.CurrentState :: tr)
    else some (w, [])

/-- The transition driver `XHdcp1x_TxDoTheState` with a record of its
transitions. -/
def XHdcp1x_TxDoTheState_trace (E : Env) (spin fuel : Nat) (w : XHdcp1x)
    (Event : XHdcp1x_EventType) : Option (XHdcp1x × List XHdcp1x_StateType) :=
  let r := XHdcp1x_TxDoTheState_switch E w Event
  XHdcp1x_TxDoTheState_loopTrace E spin fuel r.1 r.2

/-- The instance on which the loop of `XHdcp1x_TxDoTheState` runs the entry
action of `NextState`: the exit action of the current state has run, the
previous state is the state left and the current state is `NextState`. -/
def beforeEntry (w : XHdcp1x) (NextState : XHdcp1x_StateType) : XHdcp1x :=
  let w1 := XHdcp1x_TxExitState w w.Tx.CurrentState
  let w2 := w1.setTx { w1.Tx with PreviousState := w1.Tx.CurrentState }
  w2.setTx { w2.Tx with CurrentState := NextState }

/-- The example environment with a receiver whose link check value never equals
the local one and whose 5-byte key register cannot be read. -/
def exampleEnvLinkLost : Env :=
  { exampleEnv with
    CipherGetRi := fun _ => 0x4321
    PortRead := fun _ _ len =>
      if len = 5 then none
      else if len = 2 then some [0x34, 0x12]
      else some (List.replicate len 0xAB) }

/-- The example environment with local check values that differ from those of
the receiver, and a receiver whose check value register can be read twice and
not a third time. -/
def exampleEnvThirdReadFails : Env :=
  { exampleEnv with
    CipherGetRo := fun _ => 0x4321
    CipherGetRi := fun _ => 0x4321
    PortRead := fun h _ len =>
      if len = 5 then some [0xFF, 0xFF, 0x0F, 0x00, 0x00]
      else if len = 2 then
        if 2 ≤ h.count (Call.PortRead 0x08 2) then none else some [0x34, 0x12]
      else some (List.replicate len 0xAB) }

/-- The example environment with a cipher that refuses to disable
encryption. -/
def exampleEnvDisableRefused : Env :=
  { exampleEnv with CipherDisableEncryption := fun _ _ => 1 }

/-! ## Auxiliary definitions for the later behaviour properties -/

/-- The example environment with a cipher that reports stream 0 as
encrypted. -/
def exampleEnvEncrypted : Env :=
  { exampleEnv with CipherGetEncryption := fun _ => 1 }

/-- An example instance in TEST_FOR_REPEATER with encryption requested for
streams 0 and 1. -/
def exampleInstRequested : XHdcp1x where
  IsHDMI := true
  Tx := { CurrentState := .TESTFORREPEATER, PreviousState := .VALIDATERX, StateHelper := 0,
          Flags := XVPHY_FLAG_PHY_UP, PendingEvents := 0, EncryptionMap := 3,
          Stats := ⟨0, 0, 0, 0, 0, 0⟩ }
  Hist := []

/-! ## The final padding of the SHA-3 driver (xsecure_sha.c) -/

/-- Source: `XSecure_Sha3Padd`, on the contents of the buffer `Dst`: `none`
when a write falls outside the buffer.  `MsgLen - 1U` is computed in 32-bit
unsigned arithmetic. -/
def XSecure_Sha3Padd (Dst : List Nat) (MsgLen : Nat) : Option (List Nat) :=
  let Last := (MsgLen + 2 ^ 32 - 1) % 2 ^ 32
  if MsgLen ≤ Dst.length ∧ 0 < Dst.length ∧ Last < Dst.length then
    -- memset(Dst, 0, MsgLen)
    let D1 := List.replicate MsgLen 0 ++ Dst.drop MsgLen
    let D2 := D1.set 0 0x1
    some (D2.set Last (D2.getD Last 0 ||| 0x80))
  else none

/-- The value of `PartialLen` that `XSecure_Sha3Finish` passes to
`XSecure_Sha3Padd`, from the accumulated length `Sha3Len`.  The block length
`XSECURE_SHA3_BLOCK_LEN` comes from a header outside the tree and is a
parameter. -/
def XSecure_Sha3Finish_PartialLen (XSECURE_SHA3_BLOCK_LEN Sha3Len : Nat) : Nat :=
  let PartialLen := Sha3Len % XSECURE_SHA3_BLOCK_LEN
  if PartialLen = 0 then XSECURE_SHA3_BLOCK_LEN
  else (XSECURE_SHA3_BLOCK_LEN - PartialLen) % 2 ^ 32

/-- The padding part of `XSecure_Sha3Finish`: the contents of the local array
`XSecure_RsaSha3Array[512]` after the call of `XSecure_Sha3Padd`. -/
def XSecure_Sha3Finish_padding (XSECURE_SHA3_BLOCK_LEN Sha3Len : Nat) :
    Option (List Nat) :=
  let XSecure_RsaSha3Array := List.replicate 512 0
  XSecure_Sha3Padd XSecure_RsaSha3Array
    (XSecure_Sha3Finish_PartialLen XSECURE_SHA3_BLOCK_LEN Sha3Len)

/-- The call is a write to the remote device. -/
def isPortWrite : Call → Bool
  | .PortWrite _ _ _ => true
  | _ => false

/-- From `a` to `b` the state helper, the flags, the requested-encryption map
and the auth-passed counter are unchanged, and the history has gained no
topology poll and no write to the remote device. -/
def TxKeeps (a b : XHdcp1x) : Prop :=
  b.Tx.StateHelper = a.Tx.StateHelper ∧ b.Tx.Flags = a.Tx.Flags ∧
  b.Tx.EncryptionMap = a.Tx.EncryptionMap ∧
  b.Tx.Stats.AuthPassed = a.Tx.Stats.AuthPassed ∧
  b.Hist.count Call.PortGetRepeaterInfo = a.Hist.count Call.PortGetRepeaterInfo ∧
  b.Hist.filter isPortWrite = a.Hist.filter isPortWrite

/-- The example environment behind a repeater. -/
def exampleEnvRepeater : Env :=
  { exampleEnv with PortIsRepeater := fun _ => true }

/-- What the event handler of state `c`, run on `w` with `ns` as the initial
next state, may return as `r`: the helper is changed only by the handler of
WAIT_FOR_READY when it proposes READ_KSV_LIST; READ_KSV_LIST is proposed only
by that handler and AUTHENTICATED only by the handlers of TEST_FOR_REPEATER,
WAIT_FOR_READY and LINK_INTEGRITY_CHECK; the link-up flag is changed only by
the handler of DISABLED; and the handlers of DISABLED and PHY_DOWN propose only
DISABLED, PHY_DOWN or UNAUTHENTICATED. -/
def HandlerOk (c : XHdcp1x_StateType) (w : XHdcp1x) (ns : XHdcp1x_StateType)
    (r : XHdcp1x × XHdcp1x_StateType) : Prop :=
  (r.1.Tx.StateHelper = w.Tx.StateHelper ∨ (r.2 = .READKSVLIST ∧ c = .WAITFORREADY)) ∧
  (r.2 = .READKSVLIST → ns = .READKSVLIST ∨ c = .WAITFORREADY) ∧
  (r.2 = .AUTHENTICATED → ns = .AUTHENTICATED ∨ c = .TESTFORREPEATER ∨ c = .WAITFORREADY ∨
    c = .LINKINTEGRITYCHECK) ∧
  (c ≠ .DISABLED → r.1.Tx.Flags &&& XVPHY_FLAG_PHY_UP = w.Tx.Flags &&& XVPHY_FLAG_PHY_UP) ∧
  (c = .DISABLED ∨ c = .PHYDOWN →
    r.2 = ns ∨ r.2 = .DISABLED ∨ r.2 = .PHYDOWN ∨ r.2 = .UNAUTHENTICATED)

/-- The transitions of a dispatch that left the states `tr`, in that order,
and ended in `final`: the pairs of a state left and the state entered from
it. -/
def transitionsOf : List XHdcp1x_StateType → XHdcp1x_StateType →
    List (XHdcp1x_StateType × XHdcp1x_StateType)
  | [], _ => []
  | [a], final => [(a, final)]
  | a :: b :: t, final => (a, b) :: transitionsOf (b :: t) final

/-- The four states from which AUTHENTICATED is entered. -/
def leadsToAuthenticated : XHdcp1x_StateType → Bool
  | .TESTFORREPEATER | .WAITFORREADY | .READKSVLIST | .LINKINTEGRITYCHECK => true
  | _ => false

/-- The condition on the state helper that holds whenever the loop of the
transition driver is about to compare the current state of `x` with the next
state `ns`: in COMPUTATIONS the helper is nonzero; elsewhere it is zero, unless
a transition is due that clears or consumes it (from WAIT_FOR_READY to
READ_KSV_LIST, out of READ_KSV_LIST, or from EXCHANGE_KSVS to COMPUTATIONS);
and COMPUTATIONS is proposed only in COMPUTATIONS itself or in EXCHANGE_KSVS
with a nonzero helper. -/
def helperDue (x : XHdcp1x) (ns : XHdcp1x_StateType) : Prop :=
  (x.Tx.CurrentState = .COMPUTATIONS → x.Tx.StateHelper ≠ 0) ∧
  (x.Tx.CurrentState ≠ .COMPUTATIONS →
    x.Tx.StateHelper = 0 ∨ (x.Tx.CurrentState = .WAITFORREADY ∧ ns = .READKSVLIST) ∨
    (x.Tx.CurrentState = .READKSVLIST ∧ ns ≠ .READKSVLIST) ∨
    (x.Tx.CurrentState = .EXCHANGEKSVS ∧ ns = .COMPUTATIONS)) ∧
  (ns = .COMPUTATIONS →
    x.Tx.CurrentState = .COMPUTATIONS ∨
    (x.Tx.CurrentState = .EXCHANGEKSVS ∧ x.Tx.StateHelper ≠ 0))

/-- The link-up flag of `x` agrees with its current state: set in every state
other than DISABLED and PHY_DOWN, clear in PHY_DOWN. -/
def linkFlagTracks (x : XHdcp1x) : Prop :=
  (x.Tx.CurrentState ≠ .DISABLED → x.Tx.CurrentState ≠ .PHYDOWN →
    x.Tx.Flags &&& XVPHY_FLAG_PHY_UP ≠ 0) ∧
  (x.Tx.CurrentState = .PHYDOWN → x.Tx.Flags &&& XVPHY_FLAG_PHY_UP = 0)

/-- The condition on the link-up flag that holds whenever the loop of the
transition driver is about to compare the current state of `x` with the next
state `ns`: the flag agrees with the current state, and out of DISABLED and
PHY_DOWN only DISABLED, PHY_DOWN or UNAUTHENTICATED is proposed. -/
def linkFlagDue (x : XHdcp1x) (ns : XHdcp1x_StateType) : Prop :=
  linkFlagTracks x ∧
  (x.Tx.CurrentState = .DISABLED ∨ x.Tx.CurrentState = .PHYDOWN →
    ns = x.Tx.CurrentState ∨ ns = .DISABLED ∨ ns = .PHYDOWN ∨ ns = .UNAUTHENTICATED)

/-! ## Theorems -/

/-! ### The bit-counting loop -/

theorem onesBelow_succ (n k : Nat) :
    onesBelow (n + 1) k = (if k &&& 1 ≠ 0 then 1 else 0) + onesBelow n (k >>> 1) := by
  unfold onesBelow
  rw [List.range_succ_eq_map, List.filter_cons, List.filter_map]
  have h1 : ((fun i => k.testBit i) ∘ Nat.succ) = (fun i => (k >>> 1).testBit i) := by
    funext i
    simp [Nat.testBit_succ, Nat.shiftRight_eq_div_pow]
  rw [h1, Nat.testBit_zero, Nat.and_one_is_mod]
  rcases Nat.mod_two_eq_zero_or_one k with h | h
  · simp [h]
  · simp [h]; omega

theorem onesBelow_zero (n : Nat) : onesBelow n 0 = 0 := by
  simp [onesBelow]

theorem TxIsKsvValid_loop_eq (n : Nat) : ∀ k acc, k < 2 ^ n →
    XHdcp1x_TxIsKsvValid_loop k acc = acc + onesBelow n k := by
  induction n with
  | zero =>
    intro k acc hk
    have : k = 0 := by simpa using hk
    subst this
    rw [XHdcp1x_TxIsKsvValid_loop]; simp [onesBelow]
  | succ n ih =>
    intro k acc hk
    rw [XHdcp1x_TxIsKsvValid_loop]
    by_cases h : k = 0
    · subst h; simp [onesBelow_zero]
    · have hk2 : k >>> 1 < 2 ^ n := by
        rw [Nat.shiftRight_eq_div_pow]; omega
      simp only [ne_eq, h, not_false_eq_true, dite_true]
      rw [ih _ _ hk2, onesBelow_succ]
      by_cases hb : k &&& 1 = 0
      · simp only [hb, ne_eq, not_true_eq_false, if_false]; omega
      · simp only [hb, ne_eq, not_false_eq_true, if_true]; omega

theorem hammingWeight_eq_onesBelow (k : Nat) : hammingWeight k = onesBelow 64 k := rfl

theorem onesBelow_add_zerosBelow (n k : Nat) : onesBelow n k + zerosBelow n k = n := by
  have h := List.length_eq_countP_add_countP (fun i => k.testBit i) (List.range n)
  simp only [List.length_range, List.countP_eq_length_filter] at h
  unfold onesBelow zerosBelow
  have e : (fun i => !k.testBit i) = (fun a => decide ¬(k.testBit a = true)) := by
    funext i; cases k.testBit i <;> simp
  rw [e]; omega

theorem TxIsKsvValid_iff (k : Nat) (hk : k < 2 ^ 64) :
    XHdcp1x_TxIsKsvValid k = true ↔ hammingWeight k = 20 := by
  unfold XHdcp1x_TxIsKsvValid
  rw [TxIsKsvValid_loop_eq 64 k 0 hk, hammingWeight_eq_onesBelow]
  simp

/-- C3: for every 64-bit value `k` the bit-counting loop of
`XHdcp1x_TxIsKsvValid` returns, for every start value of the counter, that
value plus the number of one-bits of `k` (the loop is a total function, defined
by recursion on `Ksv`, which every pass halves); the function returns TRUE
exactly when `k` has 20 one-bits; and for `k` below `2^40` exactly when `k` has
20 ones and 20 zeros among its 40 low bits. -/
theorem C3_TxIsKsvValid_iff_weight_20 (k : Nat) (hk : k < 2 ^ 64) :
    (∀ NumOnes, XHdcp1x_TxIsKsvValid_loop k NumOnes = NumOnes + hammingWeight k) ∧
    (XHdcp1x_TxIsKsvValid k = true ↔ hammingWeight k = 20) ∧
    (k < 2 ^ 40 →
      (XHdcp1x_TxIsKsvValid k = true ↔ onesBelow 40 k = 20 ∧ zerosBelow 40 k = 20)) := by
  refine ⟨fun acc => TxIsKsvValid_loop_eq 64 k acc hk, TxIsKsvValid_iff k hk, ?_⟩
  intro h40
  unfold XHdcp1x_TxIsKsvValid
  rw [TxIsKsvValid_loop_eq 40 k 0 h40]
  have hz := onesBelow_add_zerosBelow 40 k
  simp only [Nat.zero_add, ite_eq_left_iff, Bool.false_eq_true, imp_false, Decidable.not_not]
  omega

/-- Witness for C3 at the key `0xFFFFF`, which has 20 one-bits. -/
theorem C3_TxIsKsvValid_iff_weight_20_witness :
    (0xFFFFF : Nat) < 2 ^ 64 ∧ XHdcp1x_TxIsKsvValid 0xFFFFF = true :=
  ⟨by norm_num,
    (C3_TxIsKsvValid_iff_weight_20 0xFFFFF (by norm_num)).2.1.mpr (by decide)⟩

/-! ### Nonce generation and key exchange -/

theorem waitRequestComplete_frame (E : Env) (spin : Nat) :
    ∀ w w1 : XHdcp1x, waitRequestComplete E spin w = some w1 →
      w1.Tx = w.Tx ∧ w1.IsHDMI = w.IsHDMI := by
  induction spin with
  | zero => intro w w1 h; simp [waitRequestComplete] at h
  | succ spin ih =>
    intro w w1 h
    unfold waitRequestComplete at h
    split at h
    · cases h; simp [XHdcp1x.call]
    · have := ih _ _ h
      simpa [XHdcp1x.call] using this

theorem waitRequestComplete_ne_none (E : Env) (spin : Nat) :
    ∀ w : XHdcp1x, CompletesWithin E spin w.Hist → waitRequestComplete E spin w ≠ none := by
  induction spin with
  | zero =>
    intro w h
    obtain ⟨n, hn, _⟩ := h
    omega
  | succ spin ih =>
    intro w h
    unfold waitRequestComplete
    by_cases hc : E.CipherIsRequestComplete w.Hist = true
    · simp [hc]
    · simp only [hc, if_false]
      obtain ⟨n, hn, hcomp⟩ := h
      cases n with
      | zero => simp at hcomp; exact absurd hcomp hc
      | succ m =>
        apply ih
        refine ⟨m, by omega, ?_⟩
        rw [List.replicate_succ'] at hcomp
        simpa [XHdcp1x.call] using hcomp

theorem TxGenerateAn_frame (E : Env) (spin : Nat) (w w1 : XHdcp1x) (An : Nat)
    (h : XHdcp1x_TxGenerateAn E spin w = some (w1, An)) :
    w1.Tx = w.Tx ∧ w1.IsHDMI = w.IsHDMI ∧ An ≠ 0 ∧ An < 2 ^ 64 := by
  unfold XHdcp1x_TxGenerateAn at h
  by_cases hs : E.CipherDoRequest w.Hist .RNG = E.XST_SUCCESS
  · simp only [hs, if_true] at h
    split at h
    · cases h
    · rename_i w2 hw
      have hf := waitRequestComplete_frame E spin _ _ hw
      simp only [Option.some.injEq, Prod.mk.injEq] at h
      obtain ⟨h1, h2⟩ := h
      subst h1
      refine ⟨by simpa [XHdcp1x.call] using hf.1, by simpa [XHdcp1x.call] using hf.2, ?_, ?_⟩
      · rw [← h2]; split
        · norm_num
        · assumption
      · rw [← h2]; split
        · norm_num
        · exact Nat.mod_lt _ (by norm_num)
  · simp only [hs, if_false, if_true, Option.some.injEq, Prod.mk.injEq] at h
    obtain ⟨h1, h2⟩ := h
    subst h1; subst h2
    exact ⟨rfl, rfl, by norm_num, by norm_num⟩

theorem TxGenerateAn_ne_none (E : Env) (spin : Nat) (w : XHdcp1x)
    (hrng : RngCompletes E spin) : XHdcp1x_TxGenerateAn E spin w ≠ none := by
  unfold XHdcp1x_TxGenerateAn
  by_cases hs : E.CipherDoRequest w.Hist .RNG = E.XST_SUCCESS
  · simp only [hs, if_true]
    have := waitRequestComplete_ne_none E spin (w.call (.CipherDoRequest .RNG)) (hrng _ hs)
    split
    · contradiction
    · simp
  · simp [hs]

theorem RemoteKsvOf_lt (E : Env) (data : List Nat) : RemoteKsvOf E data < 2 ^ 64 :=
  Nat.mod_lt _ (by norm_num)

/-- Key exchange when the read of the remote key fails. -/
theorem TxExchangeKsvs_read_fail (E : Env) (spin : Nat) (w : XHdcp1x)
    (hread : E.PortRead w.Hist E.XHDCP1X_PORT_OFFSET_BKSV 5 = none) :
    XHdcp1x_TxExchangeKsvs E spin w =
      some ((w.call (.PortRead E.XHDCP1X_PORT_OFFSET_BKSV 5)).setTx { w.Tx with
        Stats := { w.Tx.Stats with ReadFailures := w.Tx.Stats.ReadFailures + 1 } },
        .UNAUTHENTICATED) := by
  unfold XHdcp1x_TxExchangeKsvs
  simp only [hread]
  rfl

/-- Key exchange when the key read is not valid. -/
theorem TxExchangeKsvs_invalid (E : Env) (spin : Nat) (w : XHdcp1x) (data : List Nat)
    (hread : E.PortRead w.Hist E.XHDCP1X_PORT_OFFSET_BKSV 5 = some data)
    (hv : XHdcp1x_TxIsKsvValid (RemoteKsvOf E data) = false) :
    XHdcp1x_TxExchangeKsvs E spin w =
      some (w.call (.PortRead E.XHDCP1X_PORT_OFFSET_BKSV 5), .UNAUTHENTICATED) := by
  unfold RemoteKsvOf at hv
  unfold XHdcp1x_TxExchangeKsvs
  simp only [hread, hv, Bool.false_eq_true, not_false_eq_true, if_true]

/-- Key exchange when the key read is valid and revoked. -/
theorem TxExchangeKsvs_revoked (E : Env) (spin : Nat) (w : XHdcp1x) (data : List Nat)
    (hread : E.PortRead w.Hist E.XHDCP1X_PORT_OFFSET_BKSV 5 = some data)
    (hv : XHdcp1x_TxIsKsvValid (RemoteKsvOf E data) = true)
    (hrev : E.PlatformIsKsvRevoked (Call.PortRead E.XHDCP1X_PORT_OFFSET_BKSV 5 :: w.Hist)
      (RemoteKsvOf E data) = true) :
    XHdcp1x_TxExchangeKsvs E spin w =
      some ((w.call (.PortRead E.XHDCP1X_PORT_OFFSET_BKSV 5)).call
        (.PlatformIsKsvRevoked (RemoteKsvOf E data)), .UNAUTHENTICATED) := by
  unfold RemoteKsvOf at hv hrev ⊢
  unfold XHdcp1x_TxExchangeKsvs
  simp only [hread, hv, not_true_eq_false, if_false, XHdcp1x.call, hrev, if_true]

/-- Key exchange on an accepted key: the outcome and the fields it leaves
alone. -/
theorem TxExchangeKsvs_accept (E : Env) (spin : Nat) (w : XHdcp1x) (data : List Nat)
    (hrng : RngCompletes E spin)
    (hread : E.PortRead w.Hist E.XHDCP1X_PORT_OFFSET_BKSV 5 = some data)
    (hw : hammingWeight (RemoteKsvOf E data) = 20)
    (hrev : E.PlatformIsKsvRevoked (Call.PortRead E.XHDCP1X_PORT_OFFSET_BKSV 5 :: w.Hist)
      (RemoteKsvOf E data) = false) :
    ∃ w1, XHdcp1x_TxExchangeKsvs E spin w = some (w1, .COMPUTATIONS) ∧
      w1.IsHDMI = w.IsHDMI ∧ w1.Tx.CurrentState = w.Tx.CurrentState ∧
      w1.Tx.PreviousState = w.Tx.PreviousState ∧ w1.Tx.Stats = w.Tx.Stats ∧
      w1.Tx.EncryptionMap = w.Tx.EncryptionMap ∧
      w1.Tx.PendingEvents = w.Tx.PendingEvents ∧
      w1.Tx.StateHelper ≠ 0 ∧ w1.Tx.StateHelper < 2 ^ 64 ∧
      w1.Tx.Flags =
        (if E.PortIsRepeater (Call.PlatformIsKsvRevoked (RemoteKsvOf E data) ::
            Call.PortRead E.XHDCP1X_PORT_OFFSET_BKSV 5 :: w.Hist) = true
         then w.Tx.Flags ||| XVPHY_FLAG_IS_REPEATER
         else w.Tx.Flags &&& not32 XVPHY_FLAG_IS_REPEATER) := by
  have hv := (TxIsKsvValid_iff _ (RemoteKsvOf_lt E data)).mpr hw
  unfold RemoteKsvOf at hv hrev ⊢
  unfold XHdcp1x_TxExchangeKsvs
  simp only [hread, hv, not_true_eq_false, if_false, XHdcp1x.call, hrev, Bool.false_eq_true]
  split
  · rename_i hg
    exact absurd hg (TxGenerateAn_ne_none E spin _ hrng)
  · rename_i w5 An hg
    obtain ⟨h2, h3, h4, h5⟩ := TxGenerateAn_frame E spin _ _ _ hg
    simp only [XHdcp1x.setTx] at h2 h3 ⊢
    refine ⟨_, rfl, ?_⟩
    simp only [h2, h3, true_and, ne_eq, h4, not_false_eq_true]
    exact ⟨h5, trivial⟩

/-- C2: under the assumption that an accepted random-number request completes
within the poll budget (the busy wait of the nonce generation has no timeout),
`XHdcp1x_TxExchangeKsvs` returns, and it proposes COMPUTATIONS if and only if
the 5-byte read of the remote key succeeds, the key decoded from it has exactly
20 one-bits and the revocation lookup on it answers not revoked.  In
particular a key whose weight is not 20 is rejected, whatever its value, and a
revoked key is rejected: the proposed state is then UNAUTHENTICATED. -/
theorem C2_TxExchangeKsvs_proposes_computations_iff (E : Env) (spin : Nat) (w : XHdcp1x)
    (hrng : RngCompletes E spin) :
    ∃ w1 NextState, XHdcp1x_TxExchangeKsvs E spin w = some (w1, NextState) ∧
      (NextState = .COMPUTATIONS ↔
        ∃ data, E.PortRead w.Hist E.XHDCP1X_PORT_OFFSET_BKSV 5 = some data ∧
          hammingWeight (RemoteKsvOf E data) = 20 ∧
          E.PlatformIsKsvRevoked (Call.PortRead E.XHDCP1X_PORT_OFFSET_BKSV 5 :: w.Hist)
            (RemoteKsvOf E data) = false) ∧
      (∀ data, E.PortRead w.Hist E.XHDCP1X_PORT_OFFSET_BKSV 5 = some data →
        hammingWeight (RemoteKsvOf E data) ≠ 20 → NextState = .UNAUTHENTICATED) ∧
      (∀ data, E.PortRead w.Hist E.XHDCP1X_PORT_OFFSET_BKSV 5 = some data →
        E.PlatformIsKsvRevoked (Call.PortRead E.XHDCP1X_PORT_OFFSET_BKSV 5 :: w.Hist)
          (RemoteKsvOf E data) = true → NextState = .UNAUTHENTICATED) := by
  cases hread : E.PortRead w.Hist E.XHDCP1X_PORT_OFFSET_BKSV 5 with
  | none =>
    exact ⟨_, _, TxExchangeKsvs_read_fail E spin w hread, by simp, by simp, by simp⟩
  | some data =>
    by_cases hw : hammingWeight (RemoteKsvOf E data) = 20
    · have hv := (TxIsKsvValid_iff _ (RemoteKsvOf_lt E data)).mpr hw
      cases hrev : E.PlatformIsKsvRevoked
          (Call.PortRead E.XHDCP1X_PORT_OFFSET_BKSV 5 :: w.Hist) (RemoteKsvOf E data) with
      | false =>
        obtain ⟨w1, h1, _⟩ := TxExchangeKsvs_accept E spin w data hrng hread hw hrev
        refine ⟨w1, .COMPUTATIONS, h1, ?_, ?_, ?_⟩
        · simp [hw, hrev]
        · intro d hd; cases hd; exact fun h => absurd hw h
        · intro d hd; cases hd; simp [hrev]
      | true =>
        refine ⟨_, _, TxExchangeKsvs_revoked E spin w data hread hv hrev, ?_, ?_, ?_⟩
        · simp [hrev]
        · simp
        · simp
    · have hv : XHdcp1x_TxIsKsvValid (RemoteKsvOf E data) = false := by
        cases h : XHdcp1x_TxIsKsvValid (RemoteKsvOf E data) with
        | false => rfl
        | true => exact absurd ((TxIsKsvValid_iff _ (RemoteKsvOf_lt E data)).mp h) hw
      refine ⟨_, _, TxExchangeKsvs_invalid E spin w data hread hv, ?_, ?_, ?_⟩
      · simp [hw]
      · simp
      · simp

/-! ### Frame lemmas: what the helpers leave alone -/

@[simp] theorem call_Tx (w : XHdcp1x) (c : Call) : (w.call c).Tx = w.Tx := rfl
@[simp] theorem call_IsHDMI (w : XHdcp1x) (c : Call) : (w.call c).IsHDMI = w.IsHDMI := rfl
@[simp] theorem call_Hist (w : XHdcp1x) (c : Call) : (w.call c).Hist = c :: w.Hist := rfl
@[simp] theorem setTx_Tx (w : XHdcp1x) (t : XHdcp1x_Tx) : (w.setTx t).Tx = t := rfl
@[simp] theorem setTx_IsHDMI (w : XHdcp1x) (t : XHdcp1x_Tx) : (w.setTx t).IsHDMI = w.IsHDMI := rfl
@[simp] theorem setTx_Hist (w : XHdcp1x) (t : XHdcp1x_Tx) : (w.setTx t).Hist = w.Hist := rfl

@[simp] theorem TxStartTimer_Tx (w : XHdcp1x) (t : Nat) : (XHdcp1x_TxStartTimer w t).Tx = w.Tx := rfl
@[simp] theorem TxStartTimer_IsHDMI (w : XHdcp1x) (t : Nat) :
    (XHdcp1x_TxStartTimer w t).IsHDMI = w.IsHDMI := rfl
@[simp] theorem TxStartTimer_Hist (w : XHdcp1x) (t : Nat) :
    (XHdcp1x_TxStartTimer w t).Hist = Call.PlatformTimerStart t :: w.Hist := rfl
@[simp] theorem TxStopTimer_Tx (w : XHdcp1x) : (XHdcp1x_TxStopTimer w).Tx = w.Tx := rfl
@[simp] theorem TxStopTimer_IsHDMI (w : XHdcp1x) : (XHdcp1x_TxStopTimer w).IsHDMI = w.IsHDMI := rfl
@[simp] theorem TxStopTimer_Hist (w : XHdcp1x) :
    (XHdcp1x_TxStopTimer w).Hist = Call.PlatformTimerStop :: w.Hist := rfl
@[simp] theorem TxBusyDelay_Tx (w : XHdcp1x) (t : Nat) : (XHdcp1x_TxBusyDelay w t).Tx = w.Tx := rfl
@[simp] theorem TxBusyDelay_IsHDMI (w : XHdcp1x) (t : Nat) :
    (XHdcp1x_TxBusyDelay w t).IsHDMI = w.IsHDMI := rfl

@[simp] theorem TxSetCheckLinkState_Tx (w : XHdcp1x) (b : Bool) :
    (XHdcp1x_TxSetCheckLinkState w b).Tx = w.Tx := by
  unfold XHdcp1x_TxSetCheckLinkState; (repeat' split) <;> rfl
@[simp] theorem TxSetCheckLinkState_IsHDMI (w : XHdcp1x) (b : Bool) :
    (XHdcp1x_TxSetCheckLinkState w b).IsHDMI = w.IsHDMI := by
  unfold XHdcp1x_TxSetCheckLinkState; (repeat' split) <;> rfl

@[simp] theorem TxEnableEncryptionState_Tx (E : Env) (w : XHdcp1x) :
    (XHdcp1x_TxEnableEncryptionState E w).Tx = w.Tx := by
  unfold XHdcp1x_TxEnableEncryptionState; dsimp only; (repeat' split) <;> rfl
@[simp] theorem TxEnableEncryptionState_IsHDMI (E : Env) (w : XHdcp1x) :
    (XHdcp1x_TxEnableEncryptionState E w).IsHDMI = w.IsHDMI := by
  unfold XHdcp1x_TxEnableEncryptionState; dsimp only; (repeat' split) <;> rfl
@[simp] theorem TxDisableEncryptionState_Tx (E : Env) (w : XHdcp1x) :
    (XHdcp1x_TxDisableEncryptionState E w).Tx = w.Tx := by
  unfold XHdcp1x_TxDisableEncryptionState; dsimp only; (repeat' split) <;> rfl
@[simp] theorem TxDisableEncryptionState_IsHDMI (E : Env) (w : XHdcp1x) :
    (XHdcp1x_TxDisableEncryptionState E w).IsHDMI = w.IsHDMI := by
  unfold XHdcp1x_TxDisableEncryptionState; dsimp only; (repeat' split) <;> rfl

@[simp] theorem TxStartComputations_Tx (w : XHdcp1x) :
    (XHdcp1x_TxStartComputations w).Tx = w.Tx := rfl
@[simp] theorem TxStartComputations_IsHDMI (w : XHdcp1x) :
    (XHdcp1x_TxStartComputations w).IsHDMI = w.IsHDMI := rfl
theorem TxStartComputations_Hist (w : XHdcp1x) :
    ∃ h, (XHdcp1x_TxStartComputations w).Hist = Call.CipherDoRequest .BLOCK :: h := ⟨_, rfl⟩

theorem TxDoTheState_loop_fix (E : Env) (spin fuel : Nat) (w : XHdcp1x) (ns : XHdcp1x_StateType)
    (h : w.Tx.CurrentState = ns) :
    XHdcp1x_TxDoTheState_loop E spin fuel w ns = some w := by
  cases fuel <;> simp [XHdcp1x_TxDoTheState_loop, h]

theorem TxExchangeKsvs_ne_none (E : Env) (spin : Nat) (w : XHdcp1x)
    (hrng : RngCompletes E spin) : XHdcp1x_TxExchangeKsvs E spin w ≠ none := by
  cases hread : E.PortRead w.Hist E.XHDCP1X_PORT_OFFSET_BKSV 5 with
  | none => simp [TxExchangeKsvs_read_fail E spin w hread]
  | some data =>
    cases hv : XHdcp1x_TxIsKsvValid (RemoteKsvOf E data) with
    | false => simp [TxExchangeKsvs_invalid E spin w data hread hv]
    | true =>
      cases hrev : E.PlatformIsKsvRevoked
          (Call.PortRead E.XHDCP1X_PORT_OFFSET_BKSV 5 :: w.Hist) (RemoteKsvOf E data) with
      | true => simp [TxExchangeKsvs_revoked E spin w data hread hv hrev]
      | false =>
        obtain ⟨w1, h1, _⟩ := TxExchangeKsvs_accept E spin w data hrng hread
          ((TxIsKsvValid_iff _ (RemoteKsvOf_lt E data)).mp hv) hrev
        simp [h1]

theorem TxExchangeKsvs_some_accept (E : Env) (spin : Nat) (w : XHdcp1x)
    (r : XHdcp1x × XHdcp1x_StateType) (data : List Nat)
    (hrng : RngCompletes E spin)
    (h : XHdcp1x_TxExchangeKsvs E spin w = some r)
    (hread : E.PortRead w.Hist E.XHDCP1X_PORT_OFFSET_BKSV 5 = some data)
    (hw : hammingWeight (RemoteKsvOf E data) = 20)
    (hrev : E.PlatformIsKsvRevoked (Call.PortRead E.XHDCP1X_PORT_OFFSET_BKSV 5 :: w.Hist)
      (RemoteKsvOf E data) = false) :
    r.2 = .COMPUTATIONS ∧ r.1.Tx.CurrentState = w.Tx.CurrentState ∧
      r.1.Tx.PreviousState = w.Tx.PreviousState ∧ r.1.Tx.Stats = w.Tx.Stats := by
  obtain ⟨w1, h1, h2, h3, h4, h5, _⟩ := TxExchangeKsvs_accept E spin w data hrng hread hw hrev
  rw [h1] at h
  cases h
  exact ⟨rfl, h3, h4, h5⟩

theorem dispatch_AUTHENTICATE_from_UNAUTHENTICATED (E : Env) (spin fuel : Nat) (w : XHdcp1x)
    (data : List Nat) (hfuel : 3 ≤ fuel)
    (hstate : w.Tx.CurrentState = .UNAUTHENTICATED)
    (hrng : RngCompletes E spin)
    (hcap : ∀ h, E.PortIsCapable h = true)
    (hkey : ∀ h, E.PortRead h E.XHDCP1X_PORT_OFFSET_BKSV 5 = some data)
    (hw : hammingWeight (RemoteKsvOf E data) = 20)
    (hrev : ∀ h, E.PlatformIsKsvRevoked h (RemoteKsvOf E data) = false) :
    ∃ w1, XHdcp1x_TxDoTheState E spin fuel w .AUTHENTICATE = some w1 ∧
      w1.Tx.CurrentState = .COMPUTATIONS ∧ w1.Tx.Stats = w.Tx.Stats ∧
      ∃ h, w1.Hist = Call.CipherDoRequest .BLOCK :: h := by
  obtain ⟨k, rfl⟩ : ∃ k, fuel = k + 3 := ⟨fuel - 3, by omega⟩
  simp [XHdcp1x_TxDoTheState, XHdcp1x_TxDoTheState_switch, hstate,
      XHdcp1x_TxRunUnauthenticatedState,
      XHdcp1x_TxDoTheState_loop, XHdcp1x_TxExitState,
      XHdcp1x_TxEnterState, XHdcp1x_TxCheckRxCapable, hcap]
  split
  · rename_i heq
    exact absurd heq (TxExchangeKsvs_ne_none E spin _ hrng)
  · rename_i r heq
    obtain ⟨h1, h2, h3, h4⟩ :=
      TxExchangeKsvs_some_accept E spin _ _ data hrng heq (hkey _) hw (hrev _)
    simp at h2 h3 h4
    simp [h1, h2, h3, h4, XHdcp1x_TxExitState, XHdcp1x_TxEnterState, TxDoTheState_loop_fix]
    exact TxStartComputations_Hist _

theorem dispatch_POLL_from_COMPUTATIONS (E : Env) (spin fuel : Nat) (w : XHdcp1x)
    (hfuel : 1 ≤ fuel) (hstate : w.Tx.CurrentState = .COMPUTATIONS)
    (hblk : E.CipherIsRequestComplete w.Hist = true) :
    ∃ w1, XHdcp1x_TxDoTheState E spin fuel w .POLL = some w1 ∧
      w1.Tx.CurrentState = .VALIDATERX ∧ w1.Tx.Stats = w.Tx.Stats ∧
      ∃ h, w1.Hist = Call.PlatformTimerStart 100 :: h := by
  obtain ⟨k, rfl⟩ : ∃ k, fuel = k + 1 := ⟨fuel - 1, by omega⟩
  simp [XHdcp1x_TxDoTheState, XHdcp1x_TxDoTheState_switch, hstate,
      XHdcp1x_TxRunComputationsState, XHdcp1x_TxPollForComputations, hblk,
      XHdcp1x_TxDoTheState_loop, XHdcp1x_TxExitState,
      XHdcp1x_TxEnterState, XVPHY_TMO_100MS, TxDoTheState_loop_fix]

/-! ### Ro validation -/

theorem TxValidateRx_body_snd (E : Env) (n : Nat) (w : XHdcp1x) (ns : XHdcp1x_StateType) :
    (XHdcp1x_TxValidateRx_body E n w ns).2 =
      if RoAttemptOk E w.Hist = true then .TESTFORREPEATER else ns := by
  unfold XHdcp1x_TxValidateRx_body RoAttemptOk
  cases hr : E.PortRead w.Hist E.XHDCP1X_PORT_OFFSET_RO 2 with
  | none => simp
  | some data =>
    simp only [call_Hist, decide_eq_true_eq]
    split
    · rfl
    · split <;> rfl

theorem TxValidateRx_body_Hist (E : Env) (n : Nat) (w : XHdcp1x) (ns : XHdcp1x_StateType) :
    (XHdcp1x_TxValidateRx_body E n w ns).1.Hist = RoAttemptHist E w.Hist := by
  unfold XHdcp1x_TxValidateRx_body RoAttemptHist
  cases hr : E.PortRead w.Hist E.XHDCP1X_PORT_OFFSET_RO 2 with
  | none => simp
  | some data =>
    simp only [call_Hist]
    split
    · rfl
    · split <;> rfl

theorem TxValidateRx_body_ok (E : Env) (n : Nat) (w : XHdcp1x) (ns : XHdcp1x_StateType)
    (h : RoAttemptOk E w.Hist = true) :
    (XHdcp1x_TxValidateRx_body E n w ns).1.Tx = w.Tx ∧
    (XHdcp1x_TxValidateRx_body E n w ns).1.IsHDMI = w.IsHDMI := by
  unfold RoAttemptOk at h
  unfold XHdcp1x_TxValidateRx_body
  cases hr : E.PortRead w.Hist E.XHDCP1X_PORT_OFFSET_RO 2 with
  | none => simp [hr] at h
  | some data =>
    simp only [hr, decide_eq_true_eq] at h
    simp only [call_Hist, h, if_true]
    exact ⟨rfl, rfl⟩

theorem numRoReads_RoAttemptHist (E : Env) (h : List Call) :
    numRoReads E (RoAttemptHist E h) = numRoReads E h + 1 := by
  unfold numRoReads RoAttemptHist
  cases E.PortRead h E.XHDCP1X_PORT_OFFSET_RO 2 <;> simp

/-- A read that stores all `n` bytes into a buffer of at most `n` bytes leaves
nothing of the previous contents. -/
theorem bufStore_full (Buf data : List Nat) (n : Nat) (hd : n ≤ data.length)
    (hB : Buf.length ≤ n) :
    bufStore Buf data n = (data.take n).map (fun b => b % 256) := by
  unfold bufStore
  rw [List.drop_eq_nil_of_le hB, List.append_nil, List.append_assoc,
    List.take_append_of_le_length (by rw [List.length_map]; exact hd), List.map_take]

/-- A read that stores fewer bytes than asked for leaves the other bytes of the
buffer as they were. -/
theorem bufStore_short_read_keeps_rest :
    bufStore [0x11, 0x22, 0x33, 0x44, 0x55] [0xAA] 4 = [0xAA, 0x22, 0x33, 0x44, 0x55] := by
  decide

theorem exampleEnv_FullReads : FullReads exampleEnv := by
  intro h Offset n data hr
  simp only [exampleEnv] at hr
  split at hr
  · cases hr; simp only [List.length_cons, List.length_nil]; omega
  · split at hr
    · cases hr; simp only [List.length_cons, List.length_nil]; omega
    · cases hr; simp

/-- When the reads store every byte asked for, an attempt of Ro validation
succeeds exactly when the Ro read is successful and equal to the local Ro,
whatever `Buf` held before. -/
theorem RoAttemptOk_eq_RoReadOk (E : Env) (hfull : FullReads E) (h : List Call) :
    RoAttemptOk E h = RoReadOk E h := by
  unfold RoAttemptOk RoReadOk
  cases hr : E.PortRead h E.XHDCP1X_PORT_OFFSET_RO 2 with
  | none => rfl
  | some data =>
    have hl : 2 ≤ data.length := hfull _ _ _ _ hr
    simp only [bufStore_full (List.replicate 2 0) data 2 hl (by simp), hl, true_and]

/-- C4: Ro validation makes at most 3 attempts and stops at the first
success.  The reads are assumed to store every byte asked for when they return
a positive count, so that the comparison does not see what the uninitialised
`Buf` held before.  With `h1` the history at entry, `h2` the history after a
failed first attempt and `h3` the history after a failed second attempt: it
proposes TEST_FOR_REPEATER if and only if the read at `h1`, at `h2` or at `h3`
is successful and equal to the local Ro (it returns a positive count and the
value of its two bytes equals the local Ro); when the first such read is that
of attempt k it has made exactly k reads; when all three attempts fail (by a
failed read or by a mismatch) it has made exactly 3 reads and proposes
UNAUTHENTICATED. -/
theorem C4_TxValidateRx_attempts (E : Env) (w : XHdcp1x) (hfull : FullReads E) :
    ((XHdcp1x_TxValidateRx E w).2 = .TESTFORREPEATER ↔
      (RoReadOk E w.Hist = true ∨ RoReadOk E (RoAttemptHist E w.Hist) = true ∨
        RoReadOk E (RoAttemptHist E (RoAttemptHist E w.Hist)) = true)) ∧
    (RoReadOk E w.Hist = true →
      (XHdcp1x_TxValidateRx E w).2 = .TESTFORREPEATER ∧
      numRoReads E (XHdcp1x_TxValidateRx E w).1.Hist = numRoReads E w.Hist + 1) ∧
    (RoReadOk E w.Hist = false → RoReadOk E (RoAttemptHist E w.Hist) = true →
      (XHdcp1x_TxValidateRx E w).2 = .TESTFORREPEATER ∧
      numRoReads E (XHdcp1x_TxValidateRx E w).1.Hist = numRoReads E w.Hist + 2) ∧
    (RoReadOk E w.Hist = false → RoReadOk E (RoAttemptHist E w.Hist) = false →
      RoReadOk E (RoAttemptHist E (RoAttemptHist E w.Hist)) = true →
      (XHdcp1x_TxValidateRx E w).2 = .TESTFORREPEATER ∧
      numRoReads E (XHdcp1x_TxValidateRx E w).1.Hist = numRoReads E w.Hist + 3) ∧
    (RoReadOk E w.Hist = false → RoReadOk E (RoAttemptHist E w.Hist) = false →
      RoReadOk E (RoAttemptHist E (RoAttemptHist E w.Hist)) = false →
      (XHdcp1x_TxValidateRx E w).2 = .UNAUTHENTICATED ∧
      numRoReads E (XHdcp1x_TxValidateRx E w).1.Hist = numRoReads E w.Hist + 3) := by
  simp only [← RoAttemptOk_eq_RoReadOk E hfull]
  cases h1 : RoAttemptOk E w.Hist <;>
  cases h2 : RoAttemptOk E (RoAttemptHist E w.Hist) <;>
  cases h3 : RoAttemptOk E (RoAttemptHist E (RoAttemptHist E w.Hist)) <;>
  simp [XHdcp1x_TxValidateRx, XHdcp1x_TxValidateRx_loop, TxValidateRx_body_snd,
    TxValidateRx_body_Hist, numRoReads_RoAttemptHist, h1, h2, h3]

/-- Witness for C4: the example environment, whose reads store every byte and
whose receiver delivers the local Ro at the first attempt. -/
theorem C4_TxValidateRx_attempts_witness :
    FullReads exampleEnv ∧ RoReadOk exampleEnv (exampleInst .VALIDATERX).Hist = true ∧
    (XHdcp1x_TxValidateRx exampleEnv (exampleInst .VALIDATERX)).2 = .TESTFORREPEATER ∧
    numRoReads exampleEnv (XHdcp1x_TxValidateRx exampleEnv (exampleInst .VALIDATERX)).1.Hist =
      numRoReads exampleEnv (exampleInst .VALIDATERX).Hist + 1 :=
  ⟨exampleEnv_FullReads, by decide,
    (C4_TxValidateRx_attempts exampleEnv (exampleInst .VALIDATERX) exampleEnv_FullReads).2.1
      (by decide)⟩

theorem TxValidateRx_first_ok (E : Env) (w : XHdcp1x) (h : RoAttemptOk E w.Hist = true) :
    (XHdcp1x_TxValidateRx E w).2 = .TESTFORREPEATER ∧
    (XHdcp1x_TxValidateRx E w).1.Tx = w.Tx ∧
    (XHdcp1x_TxValidateRx E w).1.IsHDMI = w.IsHDMI := by
  simp [XHdcp1x_TxValidateRx, XHdcp1x_TxValidateRx_loop, TxValidateRx_body_snd, h,
    TxValidateRx_body_ok]

theorem dispatch_TIMEOUT_from_VALIDATERX (E : Env) (spin fuel : Nat) (w : XHdcp1x)
    (hfuel : 1 ≤ fuel) (hstate : w.Tx.CurrentState = .VALIDATERX)
    (hro : RoAttemptOk E w.Hist = true) :
    ∃ w1, XHdcp1x_TxDoTheState E spin fuel w .TIMEOUT = some w1 ∧
      w1.Tx.CurrentState = .TESTFORREPEATER ∧ w1.Tx.Stats = w.Tx.Stats := by
  obtain ⟨k, rfl⟩ : ∃ k, fuel = k + 1 := ⟨fuel - 1, by omega⟩
  obtain ⟨h1, h2, h3⟩ := TxValidateRx_first_ok E w hro
  simp [XHdcp1x_TxDoTheState, XHdcp1x_TxDoTheState_switch, hstate,
      XHdcp1x_TxRunValidateRxState, h1, h2, h3,
      XHdcp1x_TxDoTheState_loop, XHdcp1x_TxExitState,
      XHdcp1x_TxEnterState, TxDoTheState_loop_fix]

theorem dispatch_POLL_from_TESTFORREPEATER (E : Env) (spin fuel : Nat) (w : XHdcp1x)
    (hfuel : 1 ≤ fuel) (hstate : w.Tx.CurrentState = .TESTFORREPEATER)
    (hrep : E.PortIsRepeater w.Hist = false) :
    ∃ w1, XHdcp1x_TxDoTheState E spin fuel w .POLL = some w1 ∧
      w1.Tx.CurrentState = .AUTHENTICATED ∧
      w1.Tx.Stats = { w.Tx.Stats with AuthPassed := w.Tx.Stats.AuthPassed + 1 } := by
  obtain ⟨k, rfl⟩ : ∃ k, fuel = k + 1 := ⟨fuel - 1, by omega⟩
  simp [XHdcp1x_TxDoTheState, XHdcp1x_TxDoTheState_switch, hstate,
      XHdcp1x_TxRunTestForRepeaterState, XHdcp1x_TxTestForRepeater, hrep,
      XHdcp1x_TxDoTheState_loop, XHdcp1x_TxExitState,
      XHdcp1x_TxEnterState, TxDoTheState_loop_fix]

/-- C1: full authentication of a non-repeater.  Starting at rest in
UNAUTHENTICATED, if the receiver reports capable, the 5-byte key read delivers
a key of Hamming weight 20 that the revocation lookup reports not revoked, the
block computation is complete when it is polled right after it was requested
(the first POLL), the Ro read issued right after the 100 ms timer was armed
(the first Ro read) succeeds and equals the local Ro, and the transport reports
no repeater, then dispatching AUTHENTICATE, POLL, TIMEOUT, POLL in that order
returns with the machine in AUTHENTICATED, the auth-passed counter one higher,
and the auth-failed, link-check-failed and read-failure counters unchanged.
It is assumed that an accepted random-number request completes within the poll
budget, that a read which returns a positive count has stored every byte asked
for, and that the auth-passed counter is below 0xFFFFFFFF at the start, so that
the increment of the 32-bit counter does not wrap; the budget of transitions
per dispatch is at least 3. -/
theorem C1_full_authentication_non_repeater (E : Env) (spin fuel : Nat) (w : XHdcp1x)
    (data : List Nat) (hfuel : 3 ≤ fuel)
    (hstate : w.Tx.CurrentState = .UNAUTHENTICATED)
    (hrng : RngCompletes E spin)
    (hcap : ∀ h, E.PortIsCapable h = true)
    (hkey : ∀ h, E.PortRead h E.XHDCP1X_PORT_OFFSET_BKSV 5 = some data)
    (hw : hammingWeight (RemoteKsvOf E data) = 20)
    (hrev : ∀ h, E.PlatformIsKsvRevoked h (RemoteKsvOf E data) = false)
    (hblk : ∀ h, E.CipherIsRequestComplete (Call.CipherDoRequest .BLOCK :: h) = true)
    (hfull : FullReads E)
    (hro : ∀ h, RoReadOk E (Call.PlatformTimerStart 100 :: h) = true)
    (hrep : ∀ h, E.PortIsRepeater h = false)
    (hwrap : w.Tx.Stats.AuthPassed < 0xFFFFFFFF) :
    ∃ w4, dispatchAll E spin fuel w [.AUTHENTICATE, .POLL, .TIMEOUT, .POLL] = some w4 ∧
      w4.Tx.CurrentState = .AUTHENTICATED ∧
      w4.Tx.Stats.AuthPassed = w.Tx.Stats.AuthPassed + 1 ∧
      w4.Tx.Stats.AuthPassed ≤ 0xFFFFFFFF ∧
      w4.Tx.Stats.AuthFailed = w.Tx.Stats.AuthFailed ∧
      w4.Tx.Stats.LinkCheckFailed = w.Tx.Stats.LinkCheckFailed ∧
      w4.Tx.Stats.ReadFailures = w.Tx.Stats.ReadFailures := by
  obtain ⟨w1, e1, s1, t1, h1, hh1⟩ :=
    dispatch_AUTHENTICATE_from_UNAUTHENTICATED E spin fuel w data hfuel hstate hrng hcap hkey
      hw hrev
  obtain ⟨w2, e2, s2, t2, h2, hh2⟩ :=
    dispatch_POLL_from_COMPUTATIONS E spin fuel w1 (by omega) s1 (by rw [hh1]; exact hblk _)
  obtain ⟨w3, e3, s3, t3⟩ :=
    dispatch_TIMEOUT_from_VALIDATERX E spin fuel w2 (by omega) s2
      (by rw [hh2, RoAttemptOk_eq_RoReadOk E hfull]; exact hro _)
  obtain ⟨w4, e4, s4, t4⟩ :=
    dispatch_POLL_from_TESTFORREPEATER E spin fuel w3 (by omega) s3 (hrep _)
  have hpassed : w4.Tx.Stats.AuthPassed = w.Tx.Stats.AuthPassed + 1 := by
    simp [t4, t3, t2, t1]
  refine ⟨w4, ?_, s4, hpassed, by omega, ?_, ?_, ?_⟩
  · simp [dispatchAll, e1, e2, e3, e4]
  all_goals simp [t4, t3, t2, t1]

/-- Witness for C1: the example environment and an instance at rest in
UNAUTHENTICATED, with one poll of budget for the busy wait and three
transitions per dispatch. -/
theorem C1_full_authentication_non_repeater_witness :
    ∃ w4, dispatchAll exampleEnv 1 3 (exampleInst .UNAUTHENTICATED)
        [.AUTHENTICATE, .POLL, .TIMEOUT, .POLL] = some w4 ∧
      w4.Tx.CurrentState = .AUTHENTICATED ∧
      w4.Tx.Stats.AuthPassed = (exampleInst .UNAUTHENTICATED).Tx.Stats.AuthPassed + 1 ∧
      w4.Tx.Stats.AuthPassed ≤ 0xFFFFFFFF ∧
      w4.Tx.Stats.AuthFailed = (exampleInst .UNAUTHENTICATED).Tx.Stats.AuthFailed ∧
      w4.Tx.Stats.LinkCheckFailed = (exampleInst .UNAUTHENTICATED).Tx.Stats.LinkCheckFailed ∧
      w4.Tx.Stats.ReadFailures = (exampleInst .UNAUTHENTICATED).Tx.Stats.ReadFailures :=
  C1_full_authentication_non_repeater exampleEnv 1 3 (exampleInst .UNAUTHENTICATED)
    [0xFF, 0xFF, 0x0F, 0x00, 0x00] (by decide) rfl
    (fun _ _ => ⟨0, by decide, rfl⟩) (fun _ => rfl) (fun _ => rfl) (by decide)
    (fun _ => rfl) (fun _ => rfl) exampleEnv_FullReads (fun _ => rfl) (fun _ => rfl)
    (by decide)

/-- Witness for C2: the example environment, whose cipher completes a request
at the first poll. -/
theorem C2_TxExchangeKsvs_proposes_computations_iff_witness :
    RngCompletes exampleEnv 1 ∧
    ∃ w1 NextState, XHdcp1x_TxExchangeKsvs exampleEnv 1 (exampleInst .EXCHANGEKSVS) =
        some (w1, NextState) ∧ NextState = .COMPUTATIONS :=
  ⟨fun _ _ => ⟨0, by decide, rfl⟩, by
    obtain ⟨w1, ns, h1, h2, -⟩ := C2_TxExchangeKsvs_proposes_computations_iff exampleEnv 1
      (exampleInst .EXCHANGEKSVS) (fun _ _ => ⟨0, by decide, rfl⟩)
    exact ⟨w1, ns, h1, h2.mpr ⟨[0xFF, 0xFF, 0x0F, 0x00, 0x00], rfl, by decide, rfl⟩⟩⟩

/-! ### Link-integrity check -/

theorem TxCheckLinkIntegrity_body_snd (E : Env) (w : XHdcp1x) (ns : XHdcp1x_StateType) :
    (XHdcp1x_TxCheckLinkIntegrity_body E w ns).2 =
      if RiAttemptOk E w.Hist = true then .AUTHENTICATED else ns := by
  unfold XHdcp1x_TxCheckLinkIntegrity_body RiAttemptOk
  cases hr : E.PortRead w.Hist E.XHDCP1X_PORT_OFFSET_RO 2 with
  | none => simp
  | some data =>
    simp only [call_Hist, decide_eq_true_eq]
    split <;> rfl

theorem TxCheckLinkIntegrity_body_Hist (E : Env) (w : XHdcp1x) (ns : XHdcp1x_StateType) :
    (XHdcp1x_TxCheckLinkIntegrity_body E w ns).1.Hist = RiAttemptHist E w.Hist := by
  unfold XHdcp1x_TxCheckLinkIntegrity_body RiAttemptHist
  cases hr : E.PortRead w.Hist E.XHDCP1X_PORT_OFFSET_RO 2 with
  | none => simp
  | some data =>
    simp only [call_Hist]
    split <;> rfl

theorem TxCheckLinkIntegrity_body_LinkCheck (E : Env) (w : XHdcp1x) (ns : XHdcp1x_StateType) :
    (XHdcp1x_TxCheckLinkIntegrity_body E w ns).1.Tx.Stats.LinkCheckPassed =
      w.Tx.Stats.LinkCheckPassed ∧
    (XHdcp1x_TxCheckLinkIntegrity_body E w ns).1.Tx.Stats.LinkCheckFailed =
      w.Tx.Stats.LinkCheckFailed := by
  unfold XHdcp1x_TxCheckLinkIntegrity_body
  cases hr : E.PortRead w.Hist E.XHDCP1X_PORT_OFFSET_RO 2 with
  | none => simp
  | some data =>
    simp only [call_Hist]
    split <;> exact ⟨rfl, rfl⟩

theorem numRoReads_RiAttemptHist (E : Env) (h : List Call) :
    numRoReads E (RiAttemptHist E h) = numRoReads E h + 1 := by
  unfold numRoReads RiAttemptHist
  cases E.PortRead h E.XHDCP1X_PORT_OFFSET_RO 2 <;> simp

/-- When the reads store every byte asked for, an attempt of the link-integrity
check succeeds exactly when the Ri read is successful and equal to the local
Ri, whatever `Buf` held before. -/
theorem RiAttemptOk_eq_RiReadOk (E : Env) (hfull : FullReads E) (h : List Call) :
    RiAttemptOk E h = RiReadOk E h := by
  unfold RiAttemptOk RiReadOk
  cases hr : E.PortRead h E.XHDCP1X_PORT_OFFSET_RO 2 with
  | none => rfl
  | some data =>
    have hl : 2 ≤ data.length := hfull _ _ _ _ hr
    simp only [bufStore_full (List.replicate 2 0) data 2 hl (by simp), hl, true_and]

/-- C5: the link-integrity check makes at most 3 attempts.  The reads are
assumed to store every byte asked for when they return a positive count, so
that the comparison does not see what the uninitialised `Buf` held before.
With `h1` the history at entry, `h2` the history after a failed first attempt
and `h3` the history after a failed second attempt: if the read at `h1`, at
`h2` or at `h3` is successful and equal to the local Ri (it returns a positive
count and the value of its two bytes equals the local Ri; for instance two
mismatches and then a match) it proposes AUTHENTICATED, the link-check-failed
counter is unchanged and, when the link-check-passed counter was below
0xFFFFFFFF, that counter is one higher (the 32-bit increment does not wrap); if
all three fail it proposes DETERMINE_RX_CAPABLE, the link-check-passed counter
is unchanged and, when the link-check-failed counter was below 0xFFFFFFFF, that
counter is one higher.  In every case it has made at least one and at most 3
reads. -/
theorem C5_TxCheckLinkIntegrity_attempts (E : Env) (w : XHdcp1x) (hfull : FullReads E) :
    ((RiReadOk E w.Hist = true ∨ RiReadOk E (RiAttemptHist E w.Hist) = true ∨
        RiReadOk E (RiAttemptHist E (RiAttemptHist E w.Hist)) = true) →
      (XHdcp1x_TxCheckLinkIntegrity E w).2 = .AUTHENTICATED ∧
      (XHdcp1x_TxCheckLinkIntegrity E w).1.Tx.Stats.LinkCheckFailed =
        w.Tx.Stats.LinkCheckFailed ∧
      (w.Tx.Stats.LinkCheckPassed < 0xFFFFFFFF →
        (XHdcp1x_TxCheckLinkIntegrity E w).1.Tx.Stats.LinkCheckPassed =
          w.Tx.Stats.LinkCheckPassed + 1 ∧
        (XHdcp1x_TxCheckLinkIntegrity E w).1.Tx.Stats.LinkCheckPassed ≤ 0xFFFFFFFF)) ∧
    ((RiReadOk E w.Hist = false ∧ RiReadOk E (RiAttemptHist E w.Hist) = false ∧
        RiReadOk E (RiAttemptHist E (RiAttemptHist E w.Hist)) = false) →
      (XHdcp1x_TxCheckLinkIntegrity E w).2 = .DETERMINERXCAPABLE ∧
      (XHdcp1x_TxCheckLinkIntegrity E w).1.Tx.Stats.LinkCheckPassed =
        w.Tx.Stats.LinkCheckPassed ∧
      (w.Tx.Stats.LinkCheckFailed < 0xFFFFFFFF →
        (XHdcp1x_TxCheckLinkIntegrity E w).1.Tx.Stats.LinkCheckFailed =
          w.Tx.Stats.LinkCheckFailed + 1 ∧
        (XHdcp1x_TxCheckLinkIntegrity E w).1.Tx.Stats.LinkCheckFailed ≤ 0xFFFFFFFF)) ∧
    numRoReads E w.Hist + 1 ≤ numRoReads E (XHdcp1x_TxCheckLinkIntegrity E w).1.Hist ∧
    numRoReads E (XHdcp1x_TxCheckLinkIntegrity E w).1.Hist ≤ numRoReads E w.Hist + 3 := by
  simp only [← RiAttemptOk_eq_RiReadOk E hfull]
  cases h1 : RiAttemptOk E w.Hist <;>
  cases h2 : RiAttemptOk E (RiAttemptHist E w.Hist) <;>
  cases h3 : RiAttemptOk E (RiAttemptHist E (RiAttemptHist E w.Hist)) <;>
  simp [XHdcp1x_TxCheckLinkIntegrity, XHdcp1x_TxCheckLinkIntegrity_loop,
    TxCheckLinkIntegrity_body_snd, TxCheckLinkIntegrity_body_Hist,
    TxCheckLinkIntegrity_body_LinkCheck, numRoReads_RiAttemptHist, h1, h2, h3] <;>
  omega

/-- Witness for C5: the example environment, whose reads store every byte and
whose receiver delivers the local Ri at the first attempt. -/
theorem C5_TxCheckLinkIntegrity_attempts_witness :
    FullReads exampleEnv ∧
    RiReadOk exampleEnv (exampleInst .LINKINTEGRITYCHECK).Hist = true ∧
    (exampleInst .LINKINTEGRITYCHECK).Tx.Stats.LinkCheckPassed < 0xFFFFFFFF ∧
    (XHdcp1x_TxCheckLinkIntegrity exampleEnv (exampleInst .LINKINTEGRITYCHECK)).2 =
      .AUTHENTICATED ∧
    (XHdcp1x_TxCheckLinkIntegrity exampleEnv
      (exampleInst .LINKINTEGRITYCHECK)).1.Tx.Stats.LinkCheckPassed =
      (exampleInst .LINKINTEGRITYCHECK).Tx.Stats.LinkCheckPassed + 1 :=
  ⟨exampleEnv_FullReads, by decide, by decide,
    ((C5_TxCheckLinkIntegrity_attempts exampleEnv (exampleInst .LINKINTEGRITYCHECK)
      exampleEnv_FullReads).1 (Or.inl (by decide))).1,
    (((C5_TxCheckLinkIntegrity_attempts exampleEnv (exampleInst .LINKINTEGRITYCHECK)
      exampleEnv_FullReads).1 (Or.inl (by decide))).2.2 (by decide)).1⟩

/-! ### Ready-wait poll -/

theorem lor_eq_zero_iff (a b : Nat) : a ||| b = 0 ↔ a = 0 ∧ b = 0 := by
  constructor
  · intro h
    constructor
    · apply Nat.eq_of_testBit_eq; intro i
      have := congrArg (fun x => x.testBit i) h
      simp [Nat.testBit_or] at this
      simp [this.1]
    · apply Nat.eq_of_testBit_eq; intro i
      have := congrArg (fun x => x.testBit i) h
      simp [Nat.testBit_or] at this
      simp [this.2]
  · rintro ⟨rfl, rfl⟩; rfl

theorem land_0880_eq_zero_iff (r : Nat) :
    r &&& 0x0880 = 0 ↔ r &&& 0x0800 = 0 ∧ r &&& 0x0080 = 0 := by
  have : (0x0880 : Nat) = 0x0800 ||| 0x0080 := by decide
  rw [this, Nat.and_or_distrib_left, lor_eq_zero_iff]

/-- C10: the ready-wait poll.  For every 16-bit topology value `r` that the
read delivers with status success: if `r` has the max-cascade bit (0x0800) or
the max-devices bit (0x0080) set it proposes UNAUTHENTICATED and leaves the
session fields alone; otherwise, if the device count `r & 0x7F` is nonzero it
stores `r` in the state helper, changes no other session field and proposes
READ_KSV_LIST; otherwise it proposes AUTHENTICATED and leaves the session
fields alone.  If the read does not report success it returns the next state
it was given (no transition) and changes no session field. -/
theorem C10_TxPollForWaitForReady (E : Env) (w : XHdcp1x) (NextState : XHdcp1x_StateType) :
    (∀ r, r < 2 ^ 16 → E.PortGetRepeaterInfo w.Hist = (E.XST_SUCCESS, r) →
      ((r &&& 0x0800 ≠ 0 ∨ r &&& 0x0080 ≠ 0) →
        (XHdcp1x_TxPollForWaitForReady E w NextState).2 = .UNAUTHENTICATED ∧
        (XHdcp1x_TxPollForWaitForReady E w NextState).1.Tx = w.Tx) ∧
      (r &&& 0x0800 = 0 → r &&& 0x0080 = 0 → r &&& 0x7F ≠ 0 →
        (XHdcp1x_TxPollForWaitForReady E w NextState).2 = .READKSVLIST ∧
        (XHdcp1x_TxPollForWaitForReady E w NextState).1.Tx =
          { w.Tx with StateHelper := r }) ∧
      (r &&& 0x0800 = 0 → r &&& 0x0080 = 0 → r &&& 0x7F = 0 →
        (XHdcp1x_TxPollForWaitForReady E w NextState).2 = .AUTHENTICATED ∧
        (XHdcp1x_TxPollForWaitForReady E w NextState).1.Tx = w.Tx)) ∧
    ((E.PortGetRepeaterInfo w.Hist).1 ≠ E.XST_SUCCESS →
      (XHdcp1x_TxPollForWaitForReady E w NextState).2 = NextState ∧
      (XHdcp1x_TxPollForWaitForReady E w NextState).1.Tx = w.Tx ∧
      (XHdcp1x_TxPollForWaitForReady E w NextState).1.IsHDMI = w.IsHDMI) := by
  constructor
  · intro r hr hinfo
    have hmod : r % 2 ^ 16 = r := Nat.mod_eq_of_lt hr
    unfold XHdcp1x_TxPollForWaitForReady
    simp only [hinfo, hmod, if_true]
    refine ⟨?_, ?_, ?_⟩
    · intro hbits
      have : ¬ (r &&& 0x0880 = 0) := by
        rw [land_0880_eq_zero_iff]; intro h; rcases hbits with h1 | h1
        · exact h1 h.1
        · exact h1 h.2
      simp only [this, if_false, call_Tx, and_self]
    · intro h1 h2 h3
      have : r &&& 0x0880 = 0 := (land_0880_eq_zero_iff r).mpr ⟨h1, h2⟩
      simp only [this, if_true, ne_eq, h3, not_false_eq_true, setTx_Tx, call_Tx, and_self]
    · intro h1 h2 h3
      have : r &&& 0x0880 = 0 := (land_0880_eq_zero_iff r).mpr ⟨h1, h2⟩
      simp only [this, if_true, ne_eq, h3, not_true_eq_false, if_false, call_Tx, and_self]
  · intro hfail
    unfold XHdcp1x_TxPollForWaitForReady
    simp only [hfail, if_false, call_Tx, call_IsHDMI, and_self]

/-! ### Validation of the ksv list -/

theorem bufStore_length (Buf data : List Nat) (n : Nat) (h : n ≤ Buf.length) :
    (bufStore Buf data n).length = Buf.length := by
  simp [bufStore]; omega

theorem bufStore_take (Buf data : List Nat) (n : Nat) :
    ((bufStore Buf data n).take n).length = n := by
  simp [bufStore]; omega

theorem TxValidateKsvList_readLoop_of_ksvListRead (E : Env) (fuel : Nat) :
    ∀ (w : XHdcp1x) (ctx Buf : List Nat) (N : Nat) (L B : List Nat) (h1 : List Call),
      ksvListRead E fuel w.Hist ctx Buf N = some (L, B, h1) →
      XHdcp1x_TxValidateKsvList_readLoop E fuel w ctx Buf N =
        some ({ w with Hist := h1 }, L, B, true) := by
  induction fuel with
  | zero => intro w ctx Buf N L B h1 h; simp [ksvListRead] at h
  | succ fuel ih =>
    intro w ctx Buf N L B h1 h
    unfold ksvListRead at h
    unfold XHdcp1x_TxValidateKsvList_readLoop
    simp only at h ⊢
    generalize (if E.XHDCP1X_PORT_SIZE_KSVFIFO > N then N
      else E.XHDCP1X_PORT_SIZE_KSVFIFO) = n at h ⊢
    cases hr : E.PortRead w.Hist E.XHDCP1X_PORT_OFFSET_KSVFIFO n with
    | none => simp [hr] at h
    | some data =>
      simp only [hr] at h ⊢
      by_cases hpos : N - n > 0
      · simp only [hpos, if_true] at h ⊢
        have := ih (w.call (.PortRead E.XHDCP1X_PORT_OFFSET_KSVFIFO n)) _ _ _ L B h1 h
        rw [this]
        rfl
      · simp only [hpos, if_false, Option.some.injEq, Prod.mk.injEq] at h ⊢
        obtain ⟨rfl, rfl, rfl⟩ := h
        simp [XHdcp1x.call]

theorem TxValidateKsvList_readLoop_none_of_ksvListRead (E : Env) (fuel : Nat) :
    ∀ (w : XHdcp1x) (ctx Buf : List Nat) (N : Nat),
      ksvListRead E fuel w.Hist ctx Buf N = none →
      ∀ r, XHdcp1x_TxValidateKsvList_readLoop E fuel w ctx Buf N = some r → r.2.2.2 = false := by
  induction fuel with
  | zero => intro w ctx Buf N _ r h; simp [XHdcp1x_TxValidateKsvList_readLoop] at h
  | succ fuel ih =>
    intro w ctx Buf N h r hres
    unfold ksvListRead at h
    unfold XHdcp1x_TxValidateKsvList_readLoop at hres
    simp only at h hres
    generalize (if E.XHDCP1X_PORT_SIZE_KSVFIFO > N then N
      else E.XHDCP1X_PORT_SIZE_KSVFIFO) = n at h hres
    cases hr : E.PortRead w.Hist E.XHDCP1X_PORT_OFFSET_KSVFIFO n with
    | none =>
      simp only [hr, Option.some.injEq] at hres
      rw [← hres]
    | some data =>
      simp only [hr] at h hres
      by_cases hpos : N - n > 0
      · simp only [hpos, if_true] at h hres
        exact ih (w.call (.PortRead E.XHDCP1X_PORT_OFFSET_KSVFIFO n)) _ _ _ h r hres
      · simp [hpos] at h

theorem shl8_or (x b : Nat) (hx : x < 2 ^ 24) (hb : b < 256) :
    ((x <<< 8) % 2 ^ 32) ||| b = x * 256 + b := by
  have h1 : x <<< 8 = 2 ^ 8 * x := by rw [Nat.shiftLeft_eq]; ring
  have h2 : (x <<< 8) % 2 ^ 32 = 2 ^ 8 * x := by
    rw [h1]; apply Nat.mod_eq_of_lt; omega
  rw [h2, ← Nat.mul_add_lt_is_or (by simpa using hb)]
  ring

theorem CalcValue_eq_digestWordBE (d : List Nat) (i : Nat) :
    XHdcp1x_TxValidateKsvList_CalcValue d (4 * i) = digestWordBE d i := by
  unfold XHdcp1x_TxValidateKsvList_CalcValue digestWordBE
  simp only [Nat.add_zero]
  have b0 : d.getD (4 * i) 0 % 256 < 256 := Nat.mod_lt _ (by norm_num)
  have b1 : d.getD (4 * i + 1) 0 % 256 < 256 := Nat.mod_lt _ (by norm_num)
  have b2 : d.getD (4 * i + 2) 0 % 256 < 256 := Nat.mod_lt _ (by norm_num)
  have b3 : d.getD (4 * i + 3) 0 % 256 < 256 := Nat.mod_lt _ (by norm_num)
  rw [shl8_or _ _ (by omega) b1, shl8_or _ _ (by omega) b2, shl8_or _ _ (by omega) b3]

theorem TxValidateKsvList_vhLoop_eq_iterate (E : Env) (d : List Nat) (n : Nat) :
    ∀ s, XHdcp1x_TxValidateKsvList_vhLoop E d n s =
      (XHdcp1x_TxValidateKsvList_vhBody E d)^[max 1 n] s := by
  induction n with
  | zero => intro s; rfl
  | succ n ih =>
    intro s
    unfold XHdcp1x_TxValidateKsvList_vhLoop
    by_cases hn : n > 0
    · simp only [hn, if_true, ih]
      have : max 1 (n + 1) = (max 1 n) + 1 := by omega
      rw [this, Function.iterate_succ_apply]
    · have : n = 0 := by omega
      subst this
      simp

theorem vhFailures_succ (E : Env) (h0 : List Call) (Buf0 : List Nat) (j : Nat) :
    vhFailures E h0 Buf0 (j + 1) =
      vhFailures E h0 Buf0 j + (if (vhReadValue E h0 Buf0 j).isNone then 1 else 0) := by
  unfold vhFailures
  rw [List.range_succ, List.filter_append, List.length_append]
  by_cases h : (vhReadValue E h0 Buf0 j).isNone <;> simp [h]

/-- One pass of the loop over the SHA-1 chunks. -/
theorem TxValidateKsvList_vhBody_spec (E : Env) (d : List Nat) (s : VhState) :
    (XHdcp1x_TxValidateKsvList_vhBody E d s).w.Hist = Call.PortRead s.Offset 4 :: s.w.Hist ∧
    (XHdcp1x_TxValidateKsvList_vhBody E d s).Buf =
      (match E.PortRead s.w.Hist s.Offset 4 with
        | some data => bufStore s.Buf data 4
        | none => s.Buf) ∧
    (XHdcp1x_TxValidateKsvList_vhBody E d s).Offset = (s.Offset + 4) % 256 ∧
    (XHdcp1x_TxValidateKsvList_vhBody E d s).Sha1Buf = s.Sha1Buf + 4 ∧
    (XHdcp1x_TxValidateKsvList_vhBody E d s).w.IsHDMI = s.w.IsHDMI ∧
    (XHdcp1x_TxValidateKsvList_vhBody E d s).w.Tx =
      { s.w.Tx with Stats := { s.w.Tx.Stats with
          ReadFailures := s.w.Tx.Stats.ReadFailures +
            (if (E.PortRead s.w.Hist s.Offset 4).isNone then 1 else 0) } } ∧
    ((XHdcp1x_TxValidateKsvList_vhBody E d s).IsValid = true ↔
      s.IsValid = true ∧
        ((E.PortRead s.w.Hist s.Offset 4).map (fun data =>
          E.XHDCP1X_PORT_BUF_TO_UINT (bufStore s.Buf data 4) 32 % 2 ^ 32)).getD 0 =
          XHdcp1x_TxValidateKsvList_CalcValue d s.Sha1Buf) := by
  unfold XHdcp1x_TxValidateKsvList_vhBody
  have key : ∀ (C R : Nat) (v : Bool),
      ((if C ≠ R then false else v) = true ↔ v = true ∧ R = C) := by
    intro C R v
    by_cases h : C = R
    · subst h; simp
    · simp only [ne_eq, h, not_false_eq_true, if_true, Bool.false_eq_true, false_iff, not_and]
      exact fun _ h2 => h h2.symm
  cases hr : E.PortRead s.w.Hist s.Offset 4 with
  | none => exact ⟨rfl, rfl, rfl, rfl, rfl, rfl, key _ _ _⟩
  | some data => exact ⟨rfl, rfl, rfl, rfl, rfl, rfl, key _ _ _⟩

/-- The state of the loop over the SHA-1 chunks after `j` passes. -/
theorem TxValidateKsvList_vhBody_iterate (E : Env) (d : List Nat) (s0 : VhState)
    (hoff : s0.Offset = vhOffset E 0) (hbuf : s0.Sha1Buf = 0) (j : Nat) :
    ((XHdcp1x_TxValidateKsvList_vhBody E d)^[j] s0).w.Hist = (vhBefore E s0.w.Hist s0.Buf j).1 ∧
    ((XHdcp1x_TxValidateKsvList_vhBody E d)^[j] s0).Buf = (vhBefore E s0.w.Hist s0.Buf j).2 ∧
    ((XHdcp1x_TxValidateKsvList_vhBody E d)^[j] s0).Offset = vhOffset E j ∧
    ((XHdcp1x_TxValidateKsvList_vhBody E d)^[j] s0).Sha1Buf = 4 * j ∧
    ((XHdcp1x_TxValidateKsvList_vhBody E d)^[j] s0).w.IsHDMI = s0.w.IsHDMI ∧
    ((XHdcp1x_TxValidateKsvList_vhBody E d)^[j] s0).w.Tx =
      { s0.w.Tx with Stats := { s0.w.Tx.Stats with
          ReadFailures := s0.w.Tx.Stats.ReadFailures + vhFailures E s0.w.Hist s0.Buf j } } ∧
    (((XHdcp1x_TxValidateKsvList_vhBody E d)^[j] s0).IsValid = true ↔
      s0.IsValid = true ∧
        ∀ i, i < j → (vhReadValue E s0.w.Hist s0.Buf i).getD 0 = digestWordBE d i) := by
  induction j with
  | zero =>
    simp [vhBefore, hoff, hbuf, vhFailures]
  | succ j ih =>
    obtain ⟨i1, i2, i3, i4, i5, i6, i7⟩ := ih
    rw [Function.iterate_succ_apply']
    generalize (XHdcp1x_TxValidateKsvList_vhBody E d)^[j] s0 = s at i1 i2 i3 i4 i5 i6 i7
    obtain ⟨b1, b2, b3, b4, b5, b6, b7⟩ := TxValidateKsvList_vhBody_spec E d s
    have hoff1 : (vhOffset E j + 4) % 256 = vhOffset E (j + 1) := by
      unfold vhOffset; omega
    have hrv : vhReadValue E s0.w.Hist s0.Buf j =
        (E.PortRead s.w.Hist s.Offset 4).map (fun data =>
          E.XHDCP1X_PORT_BUF_TO_UINT (bufStore s.Buf data 4) 32 % 2 ^ 32) := by
      unfold vhReadValue; rw [i1, i2, i3]
    have hnone : (vhReadValue E s0.w.Hist s0.Buf j).isNone =
        (E.PortRead s.w.Hist s.Offset 4).isNone := by
      rw [hrv]; cases E.PortRead s.w.Hist s.Offset 4 <;> rfl
    refine ⟨?_, ?_, ?_, ?_, ?_, ?_, ?_⟩
    · rw [b1, i1, i3]; rfl
    · rw [b2, i1, i2, i3]; rfl
    · rw [b3, i3, hoff1]
    · rw [b4, i4]; ring
    · rw [b5, i5]
    · rw [b6, i6, vhFailures_succ, hnone]
      simp only [XHdcp1x_Tx.mk.injEq, XHdcp1x_TxStats.mk.injEq, true_and, and_true]
      ring
    · rw [b7, i7, ← hrv, i4, CalcValue_eq_digestWordBE]
      constructor
      · rintro ⟨⟨h1, h2⟩, h3⟩
        refine ⟨h1, fun i hi => ?_⟩
        rcases Nat.lt_succ_iff_lt_or_eq.mp hi with h | h
        · exact h2 i h
        · subst h; exact h3
      · rintro ⟨h1, h2⟩
        exact ⟨⟨h1, fun i hi => h2 i (by omega)⟩, h2 j (by omega)⟩

theorem bufStore_length_ge (Buf data : List Nat) (n : Nat) :
    Buf.length ≤ (bufStore Buf data n).length := by
  simp [bufStore]; omega

theorem ksvListRead_props (E : Env) (fuel : Nat) :
    ∀ (h : List Call) (ctx Buf : List Nat) (N : Nat) (L B : List Nat) (h1 : List Call),
      ksvListRead E fuel h ctx Buf N = some (L, B, h1) →
      Buf.length ≤ B.length ∧ L.length = ctx.length + N := by
  induction fuel with
  | zero => intro h ctx Buf N L B h1 hk; simp [ksvListRead] at hk
  | succ fuel ih =>
    intro h ctx Buf N L B h1 hk
    unfold ksvListRead at hk
    simp only at hk
    have hn : (if E.XHDCP1X_PORT_SIZE_KSVFIFO > N then N
      else E.XHDCP1X_PORT_SIZE_KSVFIFO) ≤ N := by split <;> omega
    generalize (if E.XHDCP1X_PORT_SIZE_KSVFIFO > N then N
      else E.XHDCP1X_PORT_SIZE_KSVFIFO) = n at hk hn
    cases hr : E.PortRead h E.XHDCP1X_PORT_OFFSET_KSVFIFO n with
    | none => simp [hr] at hk
    | some data =>
      simp only [hr] at hk
      have hl := bufStore_length_ge Buf data n
      have ht := bufStore_take Buf data n
      by_cases hpos : N - n > 0
      · simp only [hpos, if_true] at hk
        obtain ⟨a, b⟩ := ih _ _ _ _ L B h1 hk
        refine ⟨by omega, ?_⟩
        rw [b, List.length_append, ht]; omega
      · simp only [hpos, if_false, Option.some.injEq, Prod.mk.injEq] at hk
        obtain ⟨rfl, rfl, rfl⟩ := hk
        refine ⟨hl, ?_⟩
        rw [List.length_append, ht]; omega

theorem take_two_set_set (B : List Nat) (a b : Nat) (h : 2 ≤ B.length) :
    ((B.set 0 a).set 1 b).take 2 = [a, b] := by
  match B, h with
  | x :: y :: rest, _ => rfl

/-- The start state of the loop over the SHA-1 chunks. -/
theorem TxValidateKsvList_of_ksvDigest (E : Env) (w : XHdcp1x) (RepeaterInfo : Nat)
    (L msg d : List Nat) (h0 : List Call) (B : List Nat)
    (h : ksvDigest E RepeaterInfo w.Hist = some (L, msg, d, h0, B)) :
    XHdcp1x_TxValidateKsvList E w RepeaterInfo =
      some (((XHdcp1x_TxValidateKsvList_vhBody E d)^[vhCount E]
          { w := { w with Hist := h0 }, Buf := B, Offset := vhOffset E 0, Sha1Buf := 0,
            IsValid := true }).w,
        ((XHdcp1x_TxValidateKsvList_vhBody E d)^[vhCount E]
          { w := { w with Hist := h0 }, Buf := B, Offset := vhOffset E 0, Sha1Buf := 0,
            IsValid := true }).IsValid) := by
  unfold ksvDigest at h
  split at h
  · cases h
  · rename_i L1 Buf1 h1 hk
    have hlen := (ksvListRead_props E _ _ _ _ _ _ _ _ hk).1
    have htake := take_two_set_set Buf1 ((RepeaterInfo &&& 0xFF) % 256)
      (((RepeaterInfo >>> 8) &&& 0xFF) % 256) (by simp at hlen; omega)
    have hloop := TxValidateKsvList_readLoop_of_ksvListRead E _ w _ _ _ _ _ _ hk
    dsimp only at h
    split at h
    · cases h
    · rename_i d1 hs
      simp only [Option.some.injEq, Prod.mk.injEq] at h
      obtain ⟨rfl, rfl, rfl, rfl, rfl⟩ := h
      unfold topologyBytes at hs
      unfold XHdcp1x_TxValidateKsvList
      dsimp only
      rw [hloop]
      dsimp only
      rw [if_pos rfl, htake, hs]
      dsimp only
      rw [TxValidateKsvList_vhLoop_eq_iterate]
      rfl

theorem vhBefore_fst (E : Env) (h0 : List Call) (B : List Nat) (j : Nat) :
    (vhBefore E h0 B j).1 =
      ((List.range j).reverse.map (fun i => Call.PortRead (vhOffset E i) 4)) ++ h0 := by
  induction j with
  | zero => rfl
  | succ j ih =>
    rw [List.range_succ, List.reverse_append]
    simp only [vhBefore, ih, List.reverse_cons, List.reverse_nil, List.nil_append,
      List.singleton_append, List.map_cons, List.cons_append]

/-- One validation attempt whose list reads succeed and whose hash is
finalized: the result, the calls it makes and the fields it changes. -/
theorem TxValidateKsvList_spec (E : Env) (w : XHdcp1x) (RepeaterInfo : Nat)
    (L msg d : List Nat) (h0 : List Call) (B : List Nat)
    (h : ksvDigest E RepeaterInfo w.Hist = some (L, msg, d, h0, B)) :
    ∃ w1 v, XHdcp1x_TxValidateKsvList E w RepeaterInfo = some (w1, v) ∧
      w1.Hist = (vhBefore E h0 B (vhCount E)).1 ∧ w1.IsHDMI = w.IsHDMI ∧
      w1.Tx = { w.Tx with Stats := { w.Tx.Stats with
        ReadFailures := w.Tx.Stats.ReadFailures + vhFailures E h0 B (vhCount E) } } ∧
      (v = true ↔
        ∀ i, i < vhCount E → (vhReadValue E h0 B i).getD 0 = digestWordBE d i) := by
  refine ⟨_, _, TxValidateKsvList_of_ksvDigest E w RepeaterInfo L msg d h0 B h, ?_⟩
  obtain ⟨i1, _, _, _, i5, i6, i7⟩ := TxValidateKsvList_vhBody_iterate E d
    { w := { w with Hist := h0 }, Buf := B, Offset := vhOffset E 0, Sha1Buf := 0,
      IsValid := true } rfl rfl (vhCount E)
  refine ⟨i1, i5, i6, ?_⟩
  rw [i7]
  simp

theorem getD_eq_of_isSome (o : Option Nat) (x : Nat) (h : o.isSome = true) :
    (o.getD 0 = x ↔ o = some x) := by
  cases o with
  | none => simp at h
  | some v => simp

theorem TxValidateKsvList_readLoop_ne_none (E : Env)
    (hpos : 0 < E.XHDCP1X_PORT_SIZE_KSVFIFO) (fuel : Nat) :
    ∀ (w : XHdcp1x) (ctx Buf : List Nat) (N : Nat), N < fuel →
      XHdcp1x_TxValidateKsvList_readLoop E fuel w ctx Buf N ≠ none := by
  induction fuel with
  | zero => intro w ctx Buf N h; omega
  | succ fuel ih =>
    intro w ctx Buf N hN
    unfold XHdcp1x_TxValidateKsvList_readLoop
    simp only
    have hn : N - (if E.XHDCP1X_PORT_SIZE_KSVFIFO > N then N
        else E.XHDCP1X_PORT_SIZE_KSVFIFO) > 0 →
        N - (if E.XHDCP1X_PORT_SIZE_KSVFIFO > N then N
          else E.XHDCP1X_PORT_SIZE_KSVFIFO) < fuel := by
      split <;> omega
    generalize (if E.XHDCP1X_PORT_SIZE_KSVFIFO > N then N
      else E.XHDCP1X_PORT_SIZE_KSVFIFO) = n at hn
    cases hr : E.PortRead w.Hist E.XHDCP1X_PORT_OFFSET_KSVFIFO n with
    | none => simp
    | some data =>
      by_cases hp : N - n > 0
      · simp only [hp, if_true]
        exact ih _ _ _ _ (hn hp)
      · simp [hp]

theorem TxValidateKsvList_ne_none (E : Env) (hpos : 0 < E.XHDCP1X_PORT_SIZE_KSVFIFO)
    (w : XHdcp1x) (RepeaterInfo : Nat) :
    XHdcp1x_TxValidateKsvList E w RepeaterInfo ≠ none := by
  unfold XHdcp1x_TxValidateKsvList
  dsimp only
  have := TxValidateKsvList_readLoop_ne_none E hpos ((RepeaterInfo &&& 0x7F) * 5 + 1) w []
    (List.replicate 24 0) ((RepeaterInfo &&& 0x7F) * 5) (by omega)
  split
  · contradiction
  · split
    · split <;> simp
    · simp

theorem TxValidateKsvList_isSome (E : Env) (hpos : 0 < E.XHDCP1X_PORT_SIZE_KSVFIFO)
    (w : XHdcp1x) (RepeaterInfo : Nat) :
    ∃ w1 v, XHdcp1x_TxValidateKsvList E w RepeaterInfo = some (w1, v) := by
  cases h : XHdcp1x_TxValidateKsvList E w RepeaterInfo with
  | none => exact absurd h (TxValidateKsvList_ne_none E hpos w RepeaterInfo)
  | some r => exact ⟨r.1, r.2, rfl⟩

/-- A validation attempt that meets a mismatch returns invalid. -/
theorem TxValidateKsvList_mismatch (E : Env) (w : XHdcp1x) (RepeaterInfo : Nat)
    (h : KsvAttemptMismatch E RepeaterInfo w.Hist) :
    ∃ w1, XHdcp1x_TxValidateKsvList E w RepeaterInfo = some (w1, false) := by
  obtain ⟨L, msg, d, h0, B, hd, i, v, hi, hv, hne⟩ := h
  obtain ⟨w1, b, h1, _, _, _, h5⟩ := TxValidateKsvList_spec E w RepeaterInfo L msg d h0 B hd
  cases b with
  | false => exact ⟨w1, h1⟩
  | true =>
    have := h5.mp rfl i hi
    rw [hv] at this
    exact absurd this hne

/-- A good validation attempt returns valid and changes no session field. -/
theorem TxValidateKsvList_good (E : Env) (w : XHdcp1x) (RepeaterInfo : Nat)
    (L msg d : List Nat) (h0 : List Call) (B : List Nat)
    (hd : ksvDigest E RepeaterInfo w.Hist = some (L, msg, d, h0, B))
    (hw : ∀ i, i < vhCount E → vhReadValue E h0 B i = some (digestWordBE d i)) :
    ∃ w1, XHdcp1x_TxValidateKsvList E w RepeaterInfo = some (w1, true) ∧
      w1.Hist = (vhBefore E h0 B (vhCount E)).1 ∧ w1.IsHDMI = w.IsHDMI ∧ w1.Tx = w.Tx := by
  obtain ⟨w1, b, h1, h2, h3, h4, h5⟩ := TxValidateKsvList_spec E w RepeaterInfo L msg d h0 B hd
  have hb : b = true := h5.mpr (fun i hi => by rw [hw i hi]; rfl)
  subst hb
  have hf : vhFailures E h0 B (vhCount E) = 0 := by
    unfold vhFailures
    rw [List.length_eq_zero, List.filter_eq_nil_iff]
    intro i hi
    rw [hw i (List.mem_range.mp hi)]
    simp
  refine ⟨w1, h1, h2, h3, ?_⟩
  rw [h4, hf]
  rfl

/-- C6 (as amended): in one validation attempt in which every list read
succeeds, the hash is finalized and every verification read succeeds, the
attempt returns, and it returns valid exactly when each of the
`max 1 (SHA1HashSize >> 2)` big-endian 32-bit words of the digest (five for the
20-byte SHA-1 digest) equals the 4-byte value read from the remote at the
corresponding offset; the verification reads it makes are exactly those at the
offsets `VH0 + 4 * i` (in the 8-bit variable `Offset`), in ascending order of
`i`.  The digest is that of the bytes the attempt streams into the hash, which
are the first bytes of `Buf` after each list read, and the value of a
verification read is decoded from the first four bytes of `Buf` after the read:
where a read has stored fewer bytes than asked for, the others are those that
`Buf` held before. -/
theorem C6_TxValidateKsvList_words (E : Env) (w : XHdcp1x) (RepeaterInfo : Nat)
    (L msg d : List Nat) (h0 : List Call) (B : List Nat)
    (hd : ksvDigest E RepeaterInfo w.Hist = some (L, msg, d, h0, B))
    (hvr : ∀ i, i < vhCount E → (vhReadValue E h0 B i).isSome = true) :
    ∃ w1 v, XHdcp1x_TxValidateKsvList E w RepeaterInfo = some (w1, v) ∧
      (v = true ↔ ∀ i, i < vhCount E → vhReadValue E h0 B i = some (digestWordBE d i)) ∧
      w1.Hist =
        ((List.range (vhCount E)).reverse.map (fun i => Call.PortRead (vhOffset E i) 4)) ++ h0 ∧
      (E.SHA1HashSize = 20 → vhCount E = 5) := by
  obtain ⟨w1, v, h1, h2, _, _, h5⟩ := TxValidateKsvList_spec E w RepeaterInfo L msg d h0 B hd
  refine ⟨w1, v, h1, ?_, ?_, ?_⟩
  · rw [h5]
    constructor
    · intro h i hi
      exact (getD_eq_of_isSome _ _ (hvr i hi)).mp (h i hi)
    · intro h i hi
      rw [h i hi]; rfl
  · rw [h2, vhBefore_fst]
  · intro h20
    unfold vhCount
    rw [h20]
    decide

/-- Witness for C6: the example environment, one attached device. -/
theorem C6_TxValidateKsvList_words_witness :
    ∃ w1 v, XHdcp1x_TxValidateKsvList exampleEnv (exampleInst .READKSVLIST) 1 = some (w1, v) ∧
      (v = true ↔ ∀ i, i < vhCount exampleEnv →
        vhReadValue exampleEnv [Call.CipherGetMo, Call.PortRead 0x43 5]
          ([0x88, 0x77, 0x66, 0x55, 0x44, 0x33, 0x22, 0x11] ++ List.replicate 16 0) i =
          some (digestWordBE (List.replicate 20 0xAB) i)) ∧
      w1.Hist =
        ((List.range (vhCount exampleEnv)).reverse.map
          (fun i => Call.PortRead (vhOffset exampleEnv i) 4)) ++
          [Call.CipherGetMo, Call.PortRead 0x43 5] ∧
      (exampleEnv.SHA1HashSize = 20 → vhCount exampleEnv = 5) :=
  C6_TxValidateKsvList_words exampleEnv (exampleInst .READKSVLIST) 1
    [0xFF, 0xFF, 0x0F, 0x00, 0x00]
    ([0xFF, 0xFF, 0x0F, 0x00, 0x00] ++ [1, 0] ++ [0x88, 0x77, 0x66, 0x55, 0x44, 0x33, 0x22, 0x11])
    (List.replicate 20 0xAB) [Call.CipherGetMo, Call.PortRead 0x43 5]
    ([0x88, 0x77, 0x66, 0x55, 0x44, 0x33, 0x22, 0x11] ++ List.replicate 16 0)
    (by decide) (by decide)

/-- Counterexample to C6 as stated: with the 20-byte digest of SHA-1, an
attempt in which every list read succeeds and the first four words of the
digest equal the four values read at the first four verification offsets is
nevertheless invalid, because the attempt reads and compares a fifth word; it
makes five verification reads, not four. -/
theorem C6_counterexample_fifth_word :
    ksvDigest exampleEnvBadFifth 1 (exampleInst .READKSVLIST).Hist =
      some ([0xFF, 0xFF, 0x0F, 0x00, 0x00],
        [0xFF, 0xFF, 0x0F, 0x00, 0x00, 1, 0, 0x88, 0x77, 0x66, 0x55, 0x44, 0x33, 0x22, 0x11],
        List.replicate 20 0xAB, [Call.CipherGetMo, Call.PortRead 0x43 5],
        [0x88, 0x77, 0x66, 0x55, 0x44, 0x33, 0x22, 0x11] ++ List.replicate 16 0) ∧
    (∀ i, i < 4 →
      vhReadValue exampleEnvBadFifth [Call.CipherGetMo, Call.PortRead 0x43 5]
        ([0x88, 0x77, 0x66, 0x55, 0x44, 0x33, 0x22, 0x11] ++ List.replicate 16 0) i =
        some (digestWordBE (List.replicate 20 0xAB) i)) ∧
    (XHdcp1x_TxValidateKsvList exampleEnvBadFifth (exampleInst .READKSVLIST) 1).map Prod.snd =
      some false ∧
    (XHdcp1x_TxValidateKsvList exampleEnvBadFifth (exampleInst .READKSVLIST) 1).map
      (fun r => numWordReads r.1.Hist) = some 5 := by
  refine ⟨by decide, by decide, by decide, by decide⟩

/-- C9, evaluation at the failing input: the digest has the first word zero and
the read of the first verification word fails; the attempt counts the failed
read and still returns valid. -/
theorem C9_failed_verification_read_returns_valid :
    exampleEnvFailedRead.PortRead [Call.CipherGetMo, Call.PortRead 0x43 5] 0x20 4 = none ∧
    (XHdcp1x_TxValidateKsvList exampleEnvFailedRead (exampleInst .READKSVLIST) 1).map Prod.snd =
      some true ∧
    (XHdcp1x_TxValidateKsvList exampleEnvFailedRead (exampleInst .READKSVLIST) 1).map
      (fun r => r.1.Tx.Stats.ReadFailures) = some 1 := by
  refine ⟨by decide, by decide, by decide⟩

/-! ### The retry loop of the ksv list read -/

theorem TxReadKsvList_first_valid (E : Env) (w w1 : XHdcp1x)
    (h : XHdcp1x_TxValidateKsvList E w ((w.Tx.StateHelper &&& 0x0FFF) % 2 ^ 16) =
      some (w1, true)) :
    XHdcp1x_TxReadKsvList E w = some (w1, .AUTHENTICATED) := by
  unfold XHdcp1x_TxReadKsvList
  generalize (w.Tx.StateHelper &&& 0x0FFF) % 2 ^ 16 = info at h
  simp only [XHdcp1x_TxReadKsvList_loop, h]
  simp

theorem TxReadKsvList_second_valid (E : Env) (w w1 w2 : XHdcp1x)
    (h1 : XHdcp1x_TxValidateKsvList E w ((w.Tx.StateHelper &&& 0x0FFF) % 2 ^ 16) =
      some (w1, false))
    (h2 : XHdcp1x_TxValidateKsvList E w1 ((w.Tx.StateHelper &&& 0x0FFF) % 2 ^ 16) =
      some (w2, true)) :
    XHdcp1x_TxReadKsvList E w = some (w2, .AUTHENTICATED) := by
  unfold XHdcp1x_TxReadKsvList
  generalize (w.Tx.StateHelper &&& 0x0FFF) % 2 ^ 16 = info at h1 h2
  simp only [XHdcp1x_TxReadKsvList_loop, h1]
  simp only [gt_iff_lt, Nat.ofNat_pos, Bool.false_eq_true, not_false_eq_true, and_self, if_true,
    h2]
  simp

theorem TxReadKsvList_third (E : Env) (w w1 w2 w3 : XHdcp1x) (v3 : Bool)
    (h1 : XHdcp1x_TxValidateKsvList E w ((w.Tx.StateHelper &&& 0x0FFF) % 2 ^ 16) =
      some (w1, false))
    (h2 : XHdcp1x_TxValidateKsvList E w1 ((w.Tx.StateHelper &&& 0x0FFF) % 2 ^ 16) =
      some (w2, false))
    (h3 : XHdcp1x_TxValidateKsvList E w2 ((w.Tx.StateHelper &&& 0x0FFF) % 2 ^ 16) =
      some (w3, v3)) :
    XHdcp1x_TxReadKsvList E w =
      some (w3, if v3 = true then .AUTHENTICATED else .UNAUTHENTICATED) := by
  unfold XHdcp1x_TxReadKsvList
  generalize (w.Tx.StateHelper &&& 0x0FFF) % 2 ^ 16 = info at h1 h2 h3
  simp only [XHdcp1x_TxReadKsvList_loop, h1]
  simp only [gt_iff_lt, Nat.ofNat_pos, Bool.false_eq_true, not_false_eq_true, and_self, if_true,
    h2, zero_lt_one]
  simp only [h3]
  cases v3 <;> simp

/-- C8: the retry budget of the ksv list read.  With `RepeaterInfo` the low 12
bits of the state helper, `XHdcp1x_TxReadKsvList` runs validation attempts one
after the other until the first valid one and never more than three: it
returns the instance left by the first valid attempt with AUTHENTICATED, or,
when the three attempts are invalid, the instance left by the third with
UNAUTHENTICATED; so it proposes AUTHENTICATED if and only if one of the
attempts it ran is valid.  An attempt in which a verification word read from
the remote (the value decoded from `Buf` after the read) differs from the word
of the digest computed over the bytes that the attempt hashed is invalid; when
that happens in each of the three attempts, exactly three attempts are run and
UNAUTHENTICATED is proposed.  The chunk size of the list register is assumed
positive (otherwise the list read does not end). -/
theorem C8_TxReadKsvList_retry_budget (E : Env) (w : XHdcp1x)
    (hpos : 0 < E.XHDCP1X_PORT_SIZE_KSVFIFO) :
    (∃ w1 v1, XHdcp1x_TxValidateKsvList E w ((w.Tx.StateHelper &&& 0x0FFF) % 2 ^ 16) =
        some (w1, v1) ∧
      (v1 = true → XHdcp1x_TxReadKsvList E w = some (w1, .AUTHENTICATED)) ∧
      (v1 = false →
        ∃ w2 v2, XHdcp1x_TxValidateKsvList E w1 ((w.Tx.StateHelper &&& 0x0FFF) % 2 ^ 16) =
            some (w2, v2) ∧
          (v2 = true → XHdcp1x_TxReadKsvList E w = some (w2, .AUTHENTICATED)) ∧
          (v2 = false →
            ∃ w3 v3, XHdcp1x_TxValidateKsvList E w2 ((w.Tx.StateHelper &&& 0x0FFF) % 2 ^ 16) =
                some (w3, v3) ∧
              (v3 = true → XHdcp1x_TxReadKsvList E w = some (w3, .AUTHENTICATED)) ∧
              (v3 = false → XHdcp1x_TxReadKsvList E w = some (w3, .UNAUTHENTICATED))))) ∧
    (KsvAttemptMismatch E ((w.Tx.StateHelper &&& 0x0FFF) % 2 ^ 16) w.Hist →
      ∃ w1, XHdcp1x_TxValidateKsvList E w ((w.Tx.StateHelper &&& 0x0FFF) % 2 ^ 16) =
          some (w1, false) ∧
        (KsvAttemptMismatch E ((w.Tx.StateHelper &&& 0x0FFF) % 2 ^ 16) w1.Hist →
          ∃ w2, XHdcp1x_TxValidateKsvList E w1 ((w.Tx.StateHelper &&& 0x0FFF) % 2 ^ 16) =
              some (w2, false) ∧
            (KsvAttemptMismatch E ((w.Tx.StateHelper &&& 0x0FFF) % 2 ^ 16) w2.Hist →
              ∃ w3, XHdcp1x_TxValidateKsvList E w2 ((w.Tx.StateHelper &&& 0x0FFF) % 2 ^ 16) =
                  some (w3, false) ∧
                XHdcp1x_TxReadKsvList E w = some (w3, .UNAUTHENTICATED)))) := by
  constructor
  · obtain ⟨w1, v1, h1⟩ := TxValidateKsvList_isSome E hpos w ((w.Tx.StateHelper &&& 0x0FFF) % 2 ^ 16)
    refine ⟨w1, v1, h1, ?_, ?_⟩
    · intro hv; subst hv; exact TxReadKsvList_first_valid E w w1 h1
    · intro hv; subst hv
      obtain ⟨w2, v2, h2⟩ :=
        TxValidateKsvList_isSome E hpos w1 ((w.Tx.StateHelper &&& 0x0FFF) % 2 ^ 16)
      refine ⟨w2, v2, h2, ?_, ?_⟩
      · intro hv; subst hv; exact TxReadKsvList_second_valid E w w1 w2 h1 h2
      · intro hv; subst hv
        obtain ⟨w3, v3, h3⟩ :=
          TxValidateKsvList_isSome E hpos w2 ((w.Tx.StateHelper &&& 0x0FFF) % 2 ^ 16)
        refine ⟨w3, v3, h3, ?_, ?_⟩
        · intro hv; subst hv
          simpa using TxReadKsvList_third E w w1 w2 w3 true h1 h2 h3
        · intro hv; subst hv
          simpa using TxReadKsvList_third E w w1 w2 w3 false h1 h2 h3
  · intro m1
    obtain ⟨w1, h1⟩ := TxValidateKsvList_mismatch E w _ m1
    refine ⟨w1, h1, fun m2 => ?_⟩
    obtain ⟨w2, h2⟩ := TxValidateKsvList_mismatch E w1 _ m2
    refine ⟨w2, h2, fun m3 => ?_⟩
    obtain ⟨w3, h3⟩ := TxValidateKsvList_mismatch E w2 _ m3
    refine ⟨w3, h3, ?_⟩
    simpa using TxReadKsvList_third E w w1 w2 w3 false h1 h2 h3

/-- Witness for C8: a receiver that delivers wrong verification words in every
attempt; the chunk size of the list register is 5. -/
theorem C8_TxReadKsvList_retry_budget_witness :
    0 < exampleEnvBadWords.XHDCP1X_PORT_SIZE_KSVFIFO ∧
    (XHdcp1x_TxReadKsvList exampleEnvBadWords exampleInstRepeater).map Prod.snd =
      some .UNAUTHENTICATED := by
  refine ⟨by decide, ?_⟩
  obtain ⟨-, h⟩ := C8_TxReadKsvList_retry_budget exampleEnvBadWords exampleInstRepeater
    (by decide)
  have m : ∀ h : List Call, KsvAttemptMismatch exampleEnvBadWords 1 h := fun h =>
    ⟨_, _, _, _, _, rfl, 0, 0, by decide, rfl, by decide⟩
  obtain ⟨w1, -, h⟩ := h (m _)
  obtain ⟨w2, -, h⟩ := h (m _)
  obtain ⟨w3, -, h⟩ := h (m _)
  rw [h]; rfl

/-! ### The repeater path -/

theorem TxPollForWaitForReady_list_ready (E : Env) (w : XHdcp1x) (ns : XHdcp1x_StateType)
    (r : Nat) (hinfo : E.PortGetRepeaterInfo w.Hist = (E.XST_SUCCESS, r)) (hr : r < 2 ^ 16)
    (he1 : r &&& 0x0800 = 0) (he2 : r &&& 0x0080 = 0) (hn : r &&& 0x7F ≠ 0) :
    XHdcp1x_TxPollForWaitForReady E w ns =
      ((w.call .PortGetRepeaterInfo).setTx { w.Tx with StateHelper := r }, .READKSVLIST) := by
  have hmod : r % 2 ^ 16 = r := Nat.mod_eq_of_lt hr
  have h880 : r &&& 0x0880 = 0 := (land_0880_eq_zero_iff r).mpr ⟨he1, he2⟩
  unfold XHdcp1x_TxPollForWaitForReady
  simp only [hinfo, hmod, if_true, h880, ne_eq, hn, not_false_eq_true, call_Tx]

theorem count_GetMo_ksvListRead (E : Env) (fuel : Nat) :
    ∀ (h : List Call) (ctx Buf : List Nat) (N : Nat) (L B : List Nat) (h1 : List Call),
      ksvListRead E fuel h ctx Buf N = some (L, B, h1) →
      h1.count Call.CipherGetMo = h.count Call.CipherGetMo := by
  induction fuel with
  | zero => intro h ctx Buf N L B h1 hk; simp [ksvListRead] at hk
  | succ fuel ih =>
    intro h ctx Buf N L B h1 hk
    unfold ksvListRead at hk
    simp only at hk
    generalize (if E.XHDCP1X_PORT_SIZE_KSVFIFO > N then N
      else E.XHDCP1X_PORT_SIZE_KSVFIFO) = n at hk
    cases hr : E.PortRead h E.XHDCP1X_PORT_OFFSET_KSVFIFO n with
    | none => simp [hr] at hk
    | some data =>
      simp only [hr] at hk
      by_cases hpos : N - n > 0
      · simp only [hpos, if_true] at hk
        rw [ih _ _ _ _ L B h1 hk]
        simp
      · simp only [hpos, if_false, Option.some.injEq, Prod.mk.injEq] at hk
        obtain ⟨rfl, rfl, rfl⟩ := hk
        simp

theorem count_GetMo_vhBefore (E : Env) (h0 : List Call) (B : List Nat) (j : Nat) :
    (vhBefore E h0 B j).1.count Call.CipherGetMo = h0.count Call.CipherGetMo := by
  induction j with
  | zero => rfl
  | succ j ih => simp [vhBefore, ih]

theorem count_GetMo_ksvDigest (E : Env) (RepeaterInfo : Nat) (h : List Call)
    (L msg d : List Nat) (h0 : List Call) (B : List Nat)
    (hd : ksvDigest E RepeaterInfo h = some (L, msg, d, h0, B)) :
    h0.count Call.CipherGetMo = h.count Call.CipherGetMo + 1 ∧
    L.length = (RepeaterInfo &&& 0x7F) * 5 ∧
    msg = L ++ topologyBytes RepeaterInfo ++ B.take 8 := by
  unfold ksvDigest at hd
  split at hd
  · cases hd
  · rename_i L1 Buf1 h1 hk
    dsimp only at hd
    split at hd
    · cases hd
    · simp only [Option.some.injEq, Prod.mk.injEq] at hd
      obtain ⟨rfl, rfl, rfl, rfl, rfl⟩ := hd
      refine ⟨?_, ?_, rfl⟩
      · rw [List.count_cons_self, count_GetMo_ksvListRead E _ _ _ _ _ _ _ _ hk]
      · have := (ksvListRead_props E _ _ _ _ _ _ _ _ hk).2
        simpa using this

theorem count_GetMo_TxEnableEncryptionState (E : Env) (w : XHdcp1x) :
    (XHdcp1x_TxEnableEncryptionState E w).Hist.count Call.CipherGetMo =
      w.Hist.count Call.CipherGetMo := by
  unfold XHdcp1x_TxEnableEncryptionState XHdcp1x_TxBusyDelay
  dsimp only
  (repeat' split) <;> simp

theorem count_GetMo_TxSetCheckLinkState (w : XHdcp1x) (b : Bool) :
    (XHdcp1x_TxSetCheckLinkState w b).Hist.count Call.CipherGetMo =
      w.Hist.count Call.CipherGetMo := by
  unfold XHdcp1x_TxSetCheckLinkState
  (repeat' split) <;> simp

theorem land_0FFF_land_7F (r : Nat) : (r &&& 0x0FFF) &&& 0x7F = r &&& 0x7F := by
  rw [Nat.and_assoc]; rfl

theorem land_0FFF_mod (r : Nat) : (r &&& 0x0FFF) % 2 ^ 16 = r &&& 0x0FFF := by
  apply Nat.mod_eq_of_lt
  have : r &&& 0x0FFF ≤ 0x0FFF := Nat.and_le_right
  omega

/-- The ksv list read when its first validation attempt is good. -/
theorem TxReadKsvList_good (E : Env) (x : XHdcp1x)
    (res : Option (XHdcp1x × XHdcp1x_StateType))
    (L msg d : List Nat) (h0 : List Call) (B : List Nat)
    (heq : XHdcp1x_TxReadKsvList E x = res)
    (hd : ksvDigest E ((x.Tx.StateHelper &&& 0x0FFF) % 2 ^ 16) x.Hist = some (L, msg, d, h0, B))
    (hw : ∀ i, i < vhCount E → vhReadValue E h0 B i = some (digestWordBE d i)) :
    ∃ w2, res = some (w2, .AUTHENTICATED) ∧ w2.Tx = x.Tx ∧ w2.IsHDMI = x.IsHDMI ∧
      w2.Hist = (vhBefore E h0 B (vhCount E)).1 := by
  obtain ⟨w2, g1, g2, g3, g4⟩ := TxValidateKsvList_good E x _ L msg d h0 B hd hw
  exact ⟨w2, by rw [← heq]; exact TxReadKsvList_first_valid E x w2 g1, g4, g3, g2⟩

theorem not32_shl_testBit (k i : Nat) (hk : k < 32) :
    (not32 (1 <<< k)).testBit i = (decide (i < 32) && !decide (i = k)) := by
  unfold not32
  have h1 : (1 <<< k) % 2 ^ 32 = 2 ^ k := by
    rw [Nat.one_shiftLeft]
    exact Nat.mod_eq_of_lt (Nat.pow_lt_pow_right (by norm_num) hk)
  have h2 : (0xFFFFFFFF : Nat) = 2 ^ 32 - 1 := by norm_num
  rw [h1, Nat.testBit_xor, h2, Nat.testBit_two_pow_sub_one, Nat.testBit_two_pow]
  by_cases h32 : i < 32
  · by_cases hik : i = k
    · subst hik; simp [h32]
    · have : ¬ k = i := fun h => hik h.symm
      simp [h32, hik, this]
  · have : ¬ k = i := by omega
    have : ¬ i = k := by omega
    simp [h32, *]

theorem clearBit_testBit (P k i : Nat) (hk : k < 16) :
    ((P &&& not32 (1 <<< k)) % 2 ^ 16).testBit i =
      (decide (i < 16) && (P.testBit i && !decide (i = k))) := by
  rw [Nat.testBit_mod_two_pow, Nat.testBit_and, not32_shl_testBit k i (by omega)]
  by_cases h16 : i < 16
  · have h32 : i < 32 := by omega
    simp [h16, h32]
  · simp [h16]

theorem TxPostEvent_testBit (w : XHdcp1x) (e : XHdcp1x_EventType) (i : Nat)
    (hP : w.Tx.PendingEvents < 2 ^ 16) :
    (XHdcp1x_TxPostEvent w e).Tx.PendingEvents.testBit i =
      (decide (i = e.toNat) ||
        (w.Tx.PendingEvents.testBit i &&
          !(decide (e = .DISABLE) && decide (i = XHdcp1x_EventType.ENABLE.toNat)) &&
          !(decide (e = .PHYDOWN) && decide (i = XHdcp1x_EventType.PHYUP.toNat)))) := by
  have hhi : ∀ j, 16 ≤ j → w.Tx.PendingEvents.testBit j = false := fun j hj =>
    Nat.testBit_eq_false_of_lt (lt_of_lt_of_le hP (Nat.pow_le_pow_right (by norm_num) hj))
  have he : e.toNat < 16 := by cases e <;> decide
  have hE := clearBit_testBit w.Tx.PendingEvents XHdcp1x_EventType.ENABLE.toNat i (by decide)
  have hU := clearBit_testBit w.Tx.PendingEvents XHdcp1x_EventType.PHYUP.toNat i (by decide)
  unfold XHdcp1x_TxPostEvent
  simp only [XHdcp1x.setTx]
  rw [Nat.testBit_mod_two_pow, Nat.testBit_or, Nat.one_shiftLeft (n := e.toNat),
    Nat.testBit_two_pow]
  by_cases h16 : i < 16
  · cases e <;> simp only [reduceCtorEq, if_false, if_true, hE, hU] <;>
      simp [XHdcp1x_EventType.toNat, h16, eq_comm, Bool.or_comm]
  · have := hhi i (by omega)
    have hne : ¬ e.toNat = i := by omega
    have hne2 : ¬ i = e.toNat := by omega
    simp [h16, hne, hne2, this]

/-- C11.  Posting an event on a session whose pending set fits its 16-bit
field: only the pending set changes; an event is pending afterwards exactly
when it is the posted one, or it was pending before and is neither ENABLE
under a posted DISABLE nor PHYUP under a posted PHYDOWN; the bits above the ten
event identifiers are kept.  Hence DISABLE then ENABLE leaves ENABLE pending,
ENABLE then DISABLE leaves DISABLE pending and ENABLE not pending, posting
ENABLE does not change whether DISABLE is pending, and posting PHYUP does not
change whether PHYDOWN is pending. -/
theorem C11_TxPostEvent_pending_set (w : XHdcp1x) (e : XHdcp1x_EventType)
    (hP : w.Tx.PendingEvents < 2 ^ 16) :
    XHdcp1x_TxPostEvent w e =
        { w with Tx := { w.Tx with
          PendingEvents := (XHdcp1x_TxPostEvent w e).Tx.PendingEvents } } ∧
    (XHdcp1x_TxPostEvent w e).Tx.PendingEvents < 2 ^ 16 ∧
    (∀ x : XHdcp1x_EventType,
      isPending (XHdcp1x_TxPostEvent w e).Tx.PendingEvents x =
        (decide (x = e) ||
          (isPending w.Tx.PendingEvents x &&
            !(decide (e = .DISABLE) && decide (x = .ENABLE)) &&
            !(decide (e = .PHYDOWN) && decide (x = .PHYUP))))) ∧
    (∀ i, 10 ≤ i →
      (XHdcp1x_TxPostEvent w e).Tx.PendingEvents.testBit i = w.Tx.PendingEvents.testBit i) ∧
    isPending (XHdcp1x_TxPostEvent (XHdcp1x_TxPostEvent w .DISABLE) .ENABLE).Tx.PendingEvents
      .ENABLE = true ∧
    isPending (XHdcp1x_TxPostEvent (XHdcp1x_TxPostEvent w .ENABLE) .DISABLE).Tx.PendingEvents
      .DISABLE = true ∧
    isPending (XHdcp1x_TxPostEvent (XHdcp1x_TxPostEvent w .ENABLE) .DISABLE).Tx.PendingEvents
      .ENABLE = false ∧
    isPending (XHdcp1x_TxPostEvent w .ENABLE).Tx.PendingEvents .DISABLE =
      isPending w.Tx.PendingEvents .DISABLE ∧
    isPending (XHdcp1x_TxPostEvent w .PHYUP).Tx.PendingEvents .PHYDOWN =
      isPending w.Tx.PendingEvents .PHYDOWN := by
  have hlt : ∀ (v : XHdcp1x) (x : XHdcp1x_EventType),
      (XHdcp1x_TxPostEvent v x).Tx.PendingEvents < 2 ^ 16 := fun v x =>
    Nat.mod_lt _ (by norm_num)
  refine ⟨rfl, hlt w e, ?_, ?_, ?_, ?_, ?_, ?_, ?_⟩
  · intro x
    unfold isPending
    rw [TxPostEvent_testBit w e x.toNat hP]
    cases x <;> cases e <;> simp [XHdcp1x_EventType.toNat]
  · intro i hi
    rw [TxPostEvent_testBit w e i hP]
    have hk : ∀ k, k < 10 → ¬ i = k := fun k hk h => by omega
    cases e <;> simp [XHdcp1x_EventType.toNat, hk]
  · unfold isPending
    rw [TxPostEvent_testBit _ _ _ (hlt w _)]
    simp
  · unfold isPending
    rw [TxPostEvent_testBit _ _ _ (hlt w _)]
    simp
  · unfold isPending
    rw [TxPostEvent_testBit _ _ _ (hlt w _)]
    simp [XHdcp1x_EventType.toNat]
  · unfold isPending
    rw [TxPostEvent_testBit _ _ _ hP]
    simp [XHdcp1x_EventType.toNat]
  · unfold isPending
    rw [TxPostEvent_testBit _ _ _ hP]
    simp [XHdcp1x_EventType.toNat]

/-- Witness for C11: posting DISABLE on a session in which ENABLE is pending. -/
theorem C11_TxPostEvent_pending_set_witness :
    (XHdcp1x_TxPostEvent (exampleInst .DISABLED) .ENABLE).Tx.PendingEvents < 2 ^ 16 ∧
    isPending (XHdcp1x_TxPostEvent (XHdcp1x_TxPostEvent (exampleInst .DISABLED) .ENABLE)
      .DISABLE).Tx.PendingEvents .ENABLE = false ∧
    isPending (XHdcp1x_TxPostEvent (XHdcp1x_TxPostEvent (exampleInst .DISABLED) .ENABLE)
      .DISABLE).Tx.PendingEvents .DISABLE = true :=
  ⟨by decide,
    ((C11_TxPostEvent_pending_set (XHdcp1x_TxPostEvent (exampleInst .DISABLED) .ENABLE)
      .DISABLE (by decide)).2.2.1 .ENABLE).trans (by decide),
    ((C11_TxPostEvent_pending_set (XHdcp1x_TxPostEvent (exampleInst .DISABLED) .ENABLE)
      .DISABLE (by decide)).2.2.1 .DISABLE).trans (by decide)⟩

/-! ### Draining the pending set -/

theorem land_one_ne_zero_iff (P ev : Nat) : (P >>> ev) &&& 1 ≠ 0 ↔ P.testBit ev = true := by
  rw [Nat.testBit, Nat.one_and_eq_mod_two, Nat.and_one_is_mod]
  simp

theorem testBit_false_of_shiftRight_eq_zero (P ev i : Nat) (h : P >>> ev = 0) (hi : ev ≤ i) :
    P.testBit i = false := by
  have h1 : P < 2 ^ ev := by
    rw [Nat.shiftRight_eq_div_pow] at h
    exact (Nat.div_eq_zero_iff (by positivity)).mp h
  exact Nat.testBit_eq_false_of_lt (lt_of_lt_of_le h1 (Nat.pow_le_pow_right (by norm_num) hi))

theorem filter_range_eq_nil (P ev k : Nat) (h : P >>> ev = 0) :
    (List.range' ev k).filter (fun i => P.testBit i) = [] := by
  rw [List.filter_eq_nil_iff]
  intro i hi
  rw [List.mem_range'_1] at hi
  simp [testBit_false_of_shiftRight_eq_zero P ev i h hi.1]

theorem TxProcessPending_loop_eq (E : Env) (spin fuel P : Nat) :
    ∀ k ev w, P >>> ev < 2 ^ k → 0 < k →
      XHdcp1x_TxProcessPending_loop E spin fuel k w (P >>> ev) ev =
        dispatchNums E spin fuel w ((List.range' ev k).filter (fun i => P.testBit i)) := by
  intro k
  induction k with
  | zero => intro ev w _ h; omega
  | succ k ih =>
    intro ev w hlt _
    have hsh : P >>> ev >>> 1 = P >>> (ev + 1) := by rw [Nat.shiftRight_add]
    have hrest : ∀ w1, (if P >>> ev >>> 1 ≠ 0 then
          XHdcp1x_TxProcessPending_loop E spin fuel k w1 (P >>> ev >>> 1) (ev + 1)
        else some w1) =
        dispatchNums E spin fuel w1 ((List.range' (ev + 1) k).filter (fun i => P.testBit i)) := by
      intro w1
      rw [hsh]
      by_cases h0 : P >>> (ev + 1) = 0
      · rw [if_neg (by simpa using h0), filter_range_eq_nil P (ev + 1) k h0]; rfl
      · rw [if_pos h0]
        have hk : 0 < k := by
          rcases Nat.eq_zero_or_pos k with hk | hk
          · subst hk
            have h0' : P >>> ev >>> 1 ≠ 0 := by rw [hsh]; exact h0
            generalize P >>> ev = q at hlt h0'
            rw [Nat.shiftRight_eq_div_pow] at h0'
            simp only [Nat.zero_add, Nat.pow_one] at hlt h0'
            omega
          · exact hk
        apply ih (ev + 1) w1 _ hk
        rw [← hsh]
        generalize P >>> ev = q at hlt
        rw [Nat.shiftRight_eq_div_pow, Nat.pow_one]
        rw [Nat.pow_succ] at hlt
        omega
    rw [List.range'_succ, List.filter_cons]
    unfold XHdcp1x_TxProcessPending_loop
    by_cases hb : P.testBit ev = true
    · rw [if_pos ((land_one_ne_zero_iff P ev).mpr hb), if_pos hb]
      simp only [dispatchNums]
      cases XHdcp1x_TxDoTheState_num E spin fuel w ev with
      | none => rfl
      | some w1 => exact hrest w1
    · rw [if_neg (fun h => hb ((land_one_ne_zero_iff P ev).mp h)), if_neg hb]
      exact hrest w

theorem ofNat?_toNat (e : XHdcp1x_EventType) :
    XHdcp1x_EventType.ofNat? e.toNat = some e := by
  cases e <;> rfl

theorem ofNat?_of_ge (i : Nat) (h : 10 ≤ i) : XHdcp1x_EventType.ofNat? i = none := by
  obtain ⟨n, rfl⟩ : ∃ n, i = n + 10 := ⟨i - 10, by omega⟩
  rfl

theorem dispatchNums_append (E : Env) (spin fuel : Nat) (a b : List Nat) :
    ∀ w, dispatchNums E spin fuel w (a ++ b) =
      (dispatchNums E spin fuel w a).bind (fun w1 => dispatchNums E spin fuel w1 b) := by
  induction a with
  | nil => intro w; rfl
  | cons x xs ih =>
    intro w
    simp only [List.cons_append, dispatchNums]
    cases XHdcp1x_TxDoTheState_num E spin fuel w x with
    | none => rfl
    | some w1 => exact ih w1

theorem dispatchNums_of_ge (E : Env) (spin fuel : Nat) (l : List Nat)
    (h : ∀ i ∈ l, 10 ≤ i) : ∀ w, dispatchNums E spin fuel w l = some w := by
  induction l with
  | nil => intro w; rfl
  | cons x xs ih =>
    intro w
    have hx : XHdcp1x_TxDoTheState_num E spin fuel w x = some w := by
      unfold XHdcp1x_TxDoTheState_num
      rw [ofNat?_of_ge x (h x (List.mem_cons_self _ _))]
    simp only [dispatchNums, hx]
    exact ih (fun i hi => h i (List.mem_cons_of_mem _ hi)) w

theorem dispatchNums_map_toNat (E : Env) (spin fuel : Nat) (l : List XHdcp1x_EventType) :
    ∀ w, dispatchNums E spin fuel w (l.map XHdcp1x_EventType.toNat) =
      dispatchAll E spin fuel w l := by
  induction l with
  | nil => intro w; rfl
  | cons x xs ih =>
    intro w
    simp only [List.map_cons, dispatchNums, dispatchAll, XHdcp1x_TxDoTheState_num,
      ofNat?_toNat]
    cases XHdcp1x_TxDoTheState E spin fuel w x with
    | none => rfl
    | some w1 => exact ih w1

theorem dispatchNums_filter_range (E : Env) (spin fuel P : Nat) (w : XHdcp1x) :
    dispatchNums E spin fuel w ((List.range' 0 16).filter (fun i => P.testBit i)) =
      dispatchAll E spin fuel w (pendingList P) := by
  have hr : List.range' 0 16 =
      allEvents.map XHdcp1x_EventType.toNat ++ [10, 11, 12, 13, 14, 15] := by decide
  rw [hr, List.filter_append, dispatchNums_append, List.filter_map, dispatchNums_map_toNat]
  have hp : allEvents.filter ((fun i => P.testBit i) ∘ XHdcp1x_EventType.toNat) =
      pendingList P := rfl
  rw [hp]
  cases dispatchAll E spin fuel w (pendingList P) with
  | none => rfl
  | some w1 =>
    exact dispatchNums_of_ge E spin fuel _
      (fun i hi => by
        have := List.mem_of_mem_filter hi
        simp only [List.mem_cons, List.mem_singleton, List.not_mem_nil, or_false] at this
        omega) w1

theorem pendingList_zero : pendingList 0 = [] := by decide

theorem TxProcessPending_eq_dispatchAll (E : Env) (spin fuel : Nat) (w : XHdcp1x)
    (hP : w.Tx.PendingEvents < 2 ^ 16) :
    XHdcp1x_TxProcessPending E spin fuel w =
      dispatchAll E spin fuel { w with Tx := { w.Tx with PendingEvents := 0 } }
        (pendingList w.Tx.PendingEvents) := by
  unfold XHdcp1x_TxProcessPending
  by_cases h0 : w.Tx.PendingEvents = 0
  · rw [if_neg (by simpa using h0), h0, pendingList_zero]
    simp only [dispatchAll]
    congr 1
    cases w with
    | mk a t h =>
      cases t
      simp only at h0
      subst h0
      rfl
  · rw [if_pos h0]
    simp only [Nat.mod_eq_of_lt hP, XHdcp1x.setTx, XHdcp1x_EventType.toNat]
    have h := TxProcessPending_loop_eq E spin fuel w.Tx.PendingEvents 16 0
      { w with Tx := { w.Tx with PendingEvents := 0 } } (by simpa using hP) (by norm_num)
    rw [Nat.shiftRight_zero] at h
    rw [h, dispatchNums_filter_range]

/-- C12.  Draining a session whose pending set `P` fits its 16-bit field is the
same as clearing the pending set and then handing the events of `P` to the
transition driver one after the other in ascending order of their identifiers
(the result of either is absent exactly when that of the other is); the events
handed over are pairwise distinct and are exactly those of `P`; with an empty
pending set the session is returned as it is. -/
theorem C12_TxProcessPending_ascending (E : Env) (spin fuel : Nat) (w : XHdcp1x)
    (hP : w.Tx.PendingEvents < 2 ^ 16) :
    XHdcp1x_TxProcessPending E spin fuel w =
        dispatchAll E spin fuel { w with Tx := { w.Tx with PendingEvents := 0 } }
          (pendingList w.Tx.PendingEvents) ∧
    (pendingList w.Tx.PendingEvents).Pairwise (fun a b => a.toNat < b.toNat) ∧
    (∀ e, e ∈ pendingList w.Tx.PendingEvents ↔ isPending w.Tx.PendingEvents e = true) ∧
    (w.Tx.PendingEvents = 0 → XHdcp1x_TxProcessPending E spin fuel w = some w) := by
  refine ⟨TxProcessPending_eq_dispatchAll E spin fuel w hP, ?_, ?_, ?_⟩
  · exact List.Pairwise.filter _ (by decide)
  · intro e
    unfold pendingList
    rw [List.mem_filter]
    exact ⟨fun h => h.2, fun h => ⟨by cases e <;> decide, h⟩⟩
  · intro h0
    unfold XHdcp1x_TxProcessPending
    rw [if_neg (by simpa using h0)]

/-- Witness for C12: ENABLE and PHYUP pending on a disabled session whose
link-up flag is set. -/
theorem C12_TxProcessPending_ascending_witness :
    (XHdcp1x_TxPostEvent (XHdcp1x_TxPostEvent (exampleInst .DISABLED) .PHYUP)
      .ENABLE).Tx.PendingEvents < 2 ^ 16 ∧
    XHdcp1x_TxProcessPending exampleEnv 1 1
        (XHdcp1x_TxPostEvent (XHdcp1x_TxPostEvent (exampleInst .DISABLED) .PHYUP) .ENABLE) =
      dispatchAll exampleEnv 1 1 (exampleInst .DISABLED) [.ENABLE, .PHYUP] ∧
    (dispatchAll exampleEnv 1 1 (exampleInst .DISABLED) [.ENABLE, .PHYUP]).map
      (fun r => r.Tx.CurrentState) = some .UNAUTHENTICATED :=
  ⟨by decide,
    (C12_TxProcessPending_ascending exampleEnv 1 1
      (XHdcp1x_TxPostEvent (XHdcp1x_TxPostEvent (exampleInst .DISABLED) .PHYUP) .ENABLE)
      (by decide)).1,
    by decide⟩

/-! ### Enabling and disabling -/

/-- C14.  Dispatching ENABLE while in DISABLED returns (one transition of
budget is enough) with previous state DISABLED, in UNAUTHENTICATED when the
link-up flag is set and in PHY_DOWN when it is clear. -/
theorem C14_ENABLE_from_DISABLED (E : Env) (spin fuel : Nat) (w : XHdcp1x)
    (hs : w.Tx.CurrentState = .DISABLED) :
    ∃ w1, XHdcp1x_TxDoTheState E spin (fuel + 1) w .ENABLE = some w1 ∧
      w1.Tx.PreviousState = .DISABLED ∧
      (w.Tx.Flags &&& XVPHY_FLAG_PHY_UP ≠ 0 → w1.Tx.CurrentState = .UNAUTHENTICATED) ∧
      (w.Tx.Flags &&& XVPHY_FLAG_PHY_UP = 0 → w1.Tx.CurrentState = .PHYDOWN) := by
  by_cases hf : w.Tx.Flags &&& XVPHY_FLAG_PHY_UP = 0 <;>
  simp [XHdcp1x_TxDoTheState, XHdcp1x_TxDoTheState_switch, hs, hf,
      XHdcp1x_TxRunDisabledState, XHdcp1x_TxDoTheState_loop, XHdcp1x_TxExitState,
      XHdcp1x_TxEnterState, XHdcp1x_TxEnableState, TxDoTheState_loop_fix]

/-- Witness for C14: a disabled session whose link-up flag is set. -/
theorem C14_ENABLE_from_DISABLED_witness :
    (exampleInst .DISABLED).Tx.CurrentState = .DISABLED ∧
    ∃ w1, XHdcp1x_TxDoTheState exampleEnv 1 1 (exampleInst .DISABLED) .ENABLE = some w1 ∧
      w1.Tx.PreviousState = .DISABLED ∧ w1.Tx.CurrentState = .UNAUTHENTICATED := by
  refine ⟨rfl, ?_⟩
  obtain ⟨w1, h1, h2, h3, -⟩ :=
    C14_ENABLE_from_DISABLED exampleEnv 1 0 (exampleInst .DISABLED) rfl
  exact ⟨w1, h1, h2, h3 (by decide)⟩

theorem land_not32_land_self (x f : Nat) : (x &&& not32 f) &&& f = 0 := by
  apply Nat.eq_of_testBit_eq
  intro i
  unfold not32
  rw [Nat.testBit_and, Nat.testBit_and, Nat.testBit_xor, Nat.zero_testBit,
    Nat.testBit_mod_two_pow]
  have h2 : (0xFFFFFFFF : Nat) = 2 ^ 32 - 1 := by norm_num
  rw [h2, Nat.testBit_two_pow_sub_one]
  by_cases h32 : i < 32 <;> cases f.testBit i <;> simp [h32]

theorem dispatch_DISABLE_of_ne_DISABLED (E : Env) (spin fuel : Nat) (w : XHdcp1x)
    (hs : w.Tx.CurrentState ≠ .DISABLED) :
    XHdcp1x_TxDoTheState E spin (fuel + 1) w .DISABLE =
      some
        { IsHDMI := w.IsHDMI
          Tx :=
            { CurrentState := .DISABLED
              PreviousState := w.Tx.CurrentState
              StateHelper := 0
              Flags := w.Tx.Flags &&& not32 XVPHY_FLAG_IS_REPEATER
              PendingEvents := w.Tx.PendingEvents
              EncryptionMap := 0
              Stats := w.Tx.Stats }
          Hist := [Call.PlatformTimerStop, Call.CipherDisable, Call.PortDisable] ++
            exitCalls w.Tx.CurrentState ++ w.Hist } := by
  cases hc : w.Tx.CurrentState <;>
  simp [XHdcp1x_TxDoTheState, XHdcp1x_TxDoTheState_switch, hc,
      XHdcp1x_TxRunDetermineRxCapableState, XHdcp1x_TxRunExchangeKsvsState,
      XHdcp1x_TxRunComputationsState, XHdcp1x_TxRunValidateRxState,
      XHdcp1x_TxRunAuthenticatedState, XHdcp1x_TxRunLinkIntegrityCheckState,
      XHdcp1x_TxRunTestForRepeaterState, XHdcp1x_TxRunWaitForReadyState,
      XHdcp1x_TxRunReadKsvListState, XHdcp1x_TxRunUnauthenticatedState,
      XHdcp1x_TxRunPhysicalLayerDownState,
      XHdcp1x_TxDoTheState_loop, XHdcp1x_TxExitState,
      XHdcp1x_TxEnterState, XHdcp1x_TxDisableState, TxDoTheState_loop_fix, exitCalls,
      XHdcp1x.setTx, XHdcp1x.call, XHdcp1x_TxStopTimer] at hs ⊢

theorem dispatch_DISABLE_of_DISABLED (E : Env) (spin fuel : Nat) (w : XHdcp1x)
    (hs : w.Tx.CurrentState = .DISABLED) :
    XHdcp1x_TxDoTheState E spin fuel w .DISABLE = some w := by
  simp [XHdcp1x_TxDoTheState, XHdcp1x_TxDoTheState_switch, hs,
    XHdcp1x_TxRunDisabledState, TxDoTheState_loop_fix]

/-- C15.  For every state other than DISABLED and every environment,
dispatching DISABLE returns (one transition of budget is enough) with current
state DISABLED, previous state the state that was current before, state helper
zero, requested-encryption map zero and the repeater flag clear, and the newest
collaborator call is the timer stop, issued after all calls made before. -/
theorem C15_DISABLE_forces_DISABLED (E : Env) (spin fuel : Nat) (w : XHdcp1x)
    (hs : w.Tx.CurrentState ≠ .DISABLED) :
    ∃ w1, XHdcp1x_TxDoTheState E spin (fuel + 1) w .DISABLE = some w1 ∧
      w1.Tx.CurrentState = .DISABLED ∧
      w1.Tx.PreviousState = w.Tx.CurrentState ∧
      w1.Tx.StateHelper = 0 ∧
      w1.Tx.EncryptionMap = 0 ∧
      w1.Tx.Flags &&& XVPHY_FLAG_IS_REPEATER = 0 ∧
      ∃ pre, w1.Hist = Call.PlatformTimerStop :: (pre ++ w.Hist) :=
  ⟨_, dispatch_DISABLE_of_ne_DISABLED E spin fuel w hs, rfl, rfl, rfl, rfl,
    land_not32_land_self _ _, _, rfl⟩

/-- Witness for C15: an authenticated session. -/
theorem C15_DISABLE_forces_DISABLED_witness :
    (exampleInst .AUTHENTICATED).Tx.CurrentState ≠ .DISABLED ∧
    ∃ w1, XHdcp1x_TxDoTheState exampleEnv 1 1 (exampleInst .AUTHENTICATED) .DISABLE =
        some w1 ∧
      w1.Tx.CurrentState = .DISABLED ∧ w1.Tx.PreviousState = .AUTHENTICATED := by
  refine ⟨by decide, ?_⟩
  obtain ⟨w1, h1, h2, h3, -⟩ :=
    C15_DISABLE_forces_DISABLED exampleEnv 1 0 (exampleInst .AUTHENTICATED) (by decide)
  exact ⟨w1, h1, h2, h3⟩

/-- C16, as amended.  For every state other than DISABLED, dispatching DISABLE
runs the exit action of the active state and then the DISABLED entry action:
the calls made are those of the exit action (none, but the timer stop when
leaving VALIDATE_RX or WAIT_FOR_READY and the cipher enable when leaving
PHY_DOWN) followed by port disable, cipher disable and timer stop; the state
becomes DISABLED with the left state as previous state, the repeater flag, the
helper and the encryption map are cleared, and the link-up flag, the pending
set and the counters are kept. -/
theorem C16_DISABLE_runs_exit_then_entry (E : Env) (spin fuel : Nat) (w : XHdcp1x)
    (hs : w.Tx.CurrentState ≠ .DISABLED) :
    XHdcp1x_TxDoTheState E spin (fuel + 1) w .DISABLE =
        some
          { IsHDMI := w.IsHDMI
            Tx :=
              { CurrentState := .DISABLED
                PreviousState := w.Tx.CurrentState
                StateHelper := 0
                Flags := w.Tx.Flags &&& not32 XVPHY_FLAG_IS_REPEATER
                PendingEvents := w.Tx.PendingEvents
                EncryptionMap := 0
                Stats := w.Tx.Stats }
            Hist := [Call.PlatformTimerStop, Call.CipherDisable, Call.PortDisable] ++
              exitCalls w.Tx.CurrentState ++ w.Hist } ∧
    (XHdcp1x_TxExitState w w.Tx.CurrentState).Hist = exitCalls w.Tx.CurrentState ++ w.Hist ∧
    (XHdcp1x_TxDisableState w).Hist =
      [Call.PlatformTimerStop, Call.CipherDisable, Call.PortDisable] ++ w.Hist := by
  refine ⟨dispatch_DISABLE_of_ne_DISABLED E spin fuel w hs, ?_, rfl⟩
  cases hc : w.Tx.CurrentState <;> rfl

/-- Witness for C16: DISABLE while in VALIDATE_RX. -/
theorem C16_DISABLE_runs_exit_then_entry_witness :
    (exampleInst .VALIDATERX).Tx.CurrentState ≠ .DISABLED ∧
    (XHdcp1x_TxDoTheState exampleEnv 1 1 (exampleInst .VALIDATERX) .DISABLE).map
        (fun r => r.Hist) =
      some [Call.PlatformTimerStop, Call.CipherDisable, Call.PortDisable,
        Call.PlatformTimerStop] := by
  refine ⟨by decide, ?_⟩
  rw [(C16_DISABLE_runs_exit_then_entry exampleEnv 1 0 (exampleInst .VALIDATERX)
    (by decide)).1]
  rfl

/-- C16, counterexample to the claim as stated: DISABLE while in PHY_DOWN
issues the cipher enable of the PHY_DOWN exit action before the three calls of
the DISABLED entry action. -/
theorem C16_counterexample_exit_from_PHYDOWN :
    (XHdcp1x_TxDoTheState exampleEnv 1 1 (exampleInst .PHYDOWN) .DISABLE).map
        (fun r => r.Hist) =
      some [Call.PlatformTimerStop, Call.CipherDisable, Call.PortDisable, Call.CipherEnable] ∧
    (XHdcp1x_TxDisableState (exampleInst .PHYDOWN)).Hist =
      [Call.PlatformTimerStop, Call.CipherDisable, Call.PortDisable] ∧
    (XHdcp1x_TxDoTheState exampleEnv 1 1 (exampleInst .PHYDOWN) .DISABLE).map
        (fun r => r.Hist) ≠
      some (XHdcp1x_TxDisableState (exampleInst .PHYDOWN)).Hist := by
  refine ⟨by decide, by decide, by decide⟩

/-- C17.  Dispatching DISABLE on any session returns a session in DISABLED, and
dispatching DISABLE on that session again (with any budget) returns it
unchanged, history of collaborator calls included; so two dispatches in a row
give the same session as one. -/
theorem C17_DISABLE_idempotent (E : Env) (spin fuel : Nat) (w : XHdcp1x) :
    ∃ w1, XHdcp1x_TxDoTheState E spin (fuel + 1) w .DISABLE = some w1 ∧
      w1.Tx.CurrentState = .DISABLED ∧
      (∀ fuel2, XHdcp1x_TxDoTheState E spin fuel2 w1 .DISABLE = some w1) ∧
      dispatchAll E spin (fuel + 1) w [.DISABLE, .DISABLE] =
        dispatchAll E spin (fuel + 1) w [.DISABLE] := by
  by_cases hs : w.Tx.CurrentState = .DISABLED
  · have h1 := dispatch_DISABLE_of_DISABLED E spin (fuel + 1) w hs
    refine ⟨w, h1, hs, fun f => dispatch_DISABLE_of_DISABLED E spin f w hs, ?_⟩
    simp [dispatchAll, h1]
  · have h1 := dispatch_DISABLE_of_ne_DISABLED E spin fuel w hs
    refine ⟨_, h1, rfl, fun f => dispatch_DISABLE_of_DISABLED E spin f _ rfl, ?_⟩
    simp only [dispatchAll, h1]
    rw [dispatch_DISABLE_of_DISABLED E spin (fuel + 1) _ rfl]

/-! ### Link-up while parked, reset, unhandled events, initialization -/

theorem dispatch_PHYUP_from_PHYDOWN (E : Env) (spin fuel : Nat) (w : XHdcp1x)
    (hs : w.Tx.CurrentState = .PHYDOWN) :
    ∃ w1, XHdcp1x_TxDoTheState E spin (fuel + 1) w .PHYUP = some w1 ∧
      w1.Tx.CurrentState = .UNAUTHENTICATED ∧
      w1.Tx.PreviousState = .PHYDOWN ∧
      w1.Tx.PendingEvents =
        (if w.Tx.EncryptionMap ≠ 0 then (XHdcp1x_TxPostEvent w .AUTHENTICATE).Tx.PendingEvents
         else w.Tx.PendingEvents) := by
  by_cases hm : w.Tx.EncryptionMap = 0 <;>
  simp [XHdcp1x_TxDoTheState, XHdcp1x_TxDoTheState_switch, hs, hm,
      XHdcp1x_TxRunPhysicalLayerDownState, XHdcp1x_TxDoTheState_loop, XHdcp1x_TxExitState,
      XHdcp1x_TxEnterState, TxDoTheState_loop_fix, XHdcp1x_TxPostEvent]

/-- C13.  Draining the pending set that holds PHYUP alone while resting in
PHY_DOWN returns (one transition of budget is enough) in UNAUTHENTICATED with
previous state PHY_DOWN, so no transition beyond the one out of PHY_DOWN was
made; when the requested-encryption map is nonzero the pending set afterwards
holds AUTHENTICATE alone, and when it is zero the pending set is empty. -/
theorem C13_PHYUP_while_parked (E : Env) (spin fuel : Nat) (w : XHdcp1x)
    (hs : w.Tx.CurrentState = .PHYDOWN)
    (hP : w.Tx.PendingEvents = 1 <<< XHdcp1x_EventType.PHYUP.toNat) :
    ∃ w1, XHdcp1x_TxProcessPending E spin (fuel + 1) w = some w1 ∧
      w1.Tx.CurrentState = .UNAUTHENTICATED ∧
      w1.Tx.PreviousState = .PHYDOWN ∧
      (w.Tx.EncryptionMap ≠ 0 →
        w1.Tx.PendingEvents = 1 <<< XHdcp1x_EventType.AUTHENTICATE.toNat ∧
        isPending w1.Tx.PendingEvents .AUTHENTICATE = true) ∧
      (w.Tx.EncryptionMap = 0 → w1.Tx.PendingEvents = 0) := by
  have hlt : w.Tx.PendingEvents < 2 ^ 16 := by rw [hP]; decide
  have hl : pendingList w.Tx.PendingEvents = [.PHYUP] := by rw [hP]; decide
  rw [TxProcessPending_eq_dispatchAll E spin (fuel + 1) w hlt, hl]
  obtain ⟨w1, h1, h2, h3, h4⟩ := dispatch_PHYUP_from_PHYDOWN E spin fuel
    { w with Tx := { w.Tx with PendingEvents := 0 } } hs
  refine ⟨w1, by simp only [dispatchAll, h1], h2, h3, ?_, ?_⟩
  · intro hm
    have hm' : ({ w with Tx := { w.Tx with PendingEvents := 0 } } : XHdcp1x).Tx.EncryptionMap
        ≠ 0 := hm
    rw [if_pos hm'] at h4
    have hpe : (XHdcp1x_TxPostEvent { w with Tx := { w.Tx with PendingEvents := 0 } }
        .AUTHENTICATE).Tx.PendingEvents = 1 <<< XHdcp1x_EventType.AUTHENTICATE.toNat := by
      simp [XHdcp1x_TxPostEvent, XHdcp1x_EventType.toNat]
    rw [h4, hpe]
    exact ⟨rfl, by decide⟩
  · intro hm
    have hm' : ¬ ({ w with Tx := { w.Tx with PendingEvents := 0 } } : XHdcp1x).Tx.EncryptionMap
        ≠ 0 := fun h => h hm
    rw [if_neg hm'] at h4
    exact h4

/-- Witness for C13: a session parked in PHY_DOWN with encryption requested. -/
theorem C13_PHYUP_while_parked_witness :
    exampleInstParked.Tx.CurrentState = .PHYDOWN ∧
    exampleInstParked.Tx.PendingEvents = 1 <<< XHdcp1x_EventType.PHYUP.toNat ∧
    ∃ w1, XHdcp1x_TxProcessPending exampleEnv 1 1 exampleInstParked = some w1 ∧
      w1.Tx.CurrentState = .UNAUTHENTICATED ∧
      isPending w1.Tx.PendingEvents .AUTHENTICATE = true := by
  refine ⟨rfl, by decide, ?_⟩
  obtain ⟨w1, h1, h2, -, h4, -⟩ :=
    C13_PHYUP_while_parked exampleEnv 1 0 exampleInstParked rfl (by decide)
  exact ⟨w1, h1, h2, (h4 (by decide)).2⟩

/-- C18.  For every session, `XHdcp1x_TxReset` returns success and leaves
exactly the session that `XHdcp1x_TxDisable` followed by `XHdcp1x_TxEnable`
leaves, which is the given session with only the pending set changed; a poll
made next gives the same result in both cases. -/
theorem C18_TxReset_eq_Disable_then_Enable (E : Env) (spin fuel : Nat) (w : XHdcp1x) :
    (XHdcp1x_TxReset E w).1 = (XHdcp1x_TxEnable E (XHdcp1x_TxDisable E w).1).1 ∧
    (XHdcp1x_TxReset E w).2 = E.XST_SUCCESS ∧
    (XHdcp1x_TxDisable E w).2 = E.XST_SUCCESS ∧
    (XHdcp1x_TxEnable E (XHdcp1x_TxDisable E w).1).2 = E.XST_SUCCESS ∧
    (XHdcp1x_TxReset E w).1 =
      { w with Tx := { w.Tx with
        PendingEvents := (XHdcp1x_TxReset E w).1.Tx.PendingEvents } } ∧
    XHdcp1x_TxPoll E spin fuel (XHdcp1x_TxReset E w).1 =
      XHdcp1x_TxPoll E spin fuel (XHdcp1x_TxEnable E (XHdcp1x_TxDisable E w).1).1 :=
  ⟨rfl, rfl, rfl, rfl, rfl, rfl⟩

/-- C19, as amended.  For every listed pair of a state and an event,
dispatching the event in that state returns (with any budget) and leaves the
session unchanged, except that in DISABLED the event PHYUP sets the link-up
flag and the event PHYDOWN clears it; there too the current and previous state,
the other flags, the helper, the encryption map, the counters, the pending set
and the history of collaborator calls are unchanged. -/
theorem C19_unhandled_events_are_noops (E : Env) (spin fuel : Nat) (w : XHdcp1x)
    (e : XHdcp1x_EventType) (h : listedUnhandled w.Tx.CurrentState e = true) :
    XHdcp1x_TxDoTheState E spin fuel w e =
      some
        (if w.Tx.CurrentState = .DISABLED ∧ e = .PHYUP then
          { w with Tx := { w.Tx with Flags := w.Tx.Flags ||| XVPHY_FLAG_PHY_UP } }
        else if w.Tx.CurrentState = .DISABLED ∧ e = .PHYDOWN then
          { w with Tx := { w.Tx with Flags := w.Tx.Flags &&& not32 XVPHY_FLAG_PHY_UP } }
        else w) := by
  cases hc : w.Tx.CurrentState <;> rw [hc] at h <;> cases e <;>
    first
    | exact absurd h (by decide)
    | simp [XHdcp1x_TxDoTheState, XHdcp1x_TxDoTheState_switch, hc,
        XHdcp1x_TxRunDisabledState,
        XHdcp1x_TxRunDetermineRxCapableState, XHdcp1x_TxRunExchangeKsvsState,
        XHdcp1x_TxRunComputationsState, XHdcp1x_TxRunValidateRxState,
        XHdcp1x_TxRunAuthenticatedState, XHdcp1x_TxRunLinkIntegrityCheckState,
        XHdcp1x_TxRunTestForRepeaterState, XHdcp1x_TxRunWaitForReadyState,
        XHdcp1x_TxRunReadKsvListState, XHdcp1x_TxRunUnauthenticatedState,
        XHdcp1x_TxRunPhysicalLayerDownState, TxDoTheState_loop_fix, XHdcp1x.setTx]

/-- Witness for C19: ENABLE dispatched in AUTHENTICATED. -/
theorem C19_unhandled_events_are_noops_witness :
    listedUnhandled (exampleInst .AUTHENTICATED).Tx.CurrentState .ENABLE = true ∧
    XHdcp1x_TxDoTheState exampleEnv 1 1 (exampleInst .AUTHENTICATED) .ENABLE =
      some (exampleInst .AUTHENTICATED) :=
  ⟨by decide,
    C19_unhandled_events_are_noops exampleEnv 1 1 (exampleInst .AUTHENTICATED) .ENABLE
      (by decide)⟩

/-- C19, counterexample to the claim as stated: PHYDOWN in DISABLED is a
listed pair, and dispatching it on a disabled session whose link-up flag is set
clears the flag. -/
theorem C19_counterexample_PHYDOWN_in_DISABLED :
    listedUnhandled (exampleInst .DISABLED).Tx.CurrentState .PHYDOWN = true ∧
    (exampleInst .DISABLED).Tx.Flags = 1 ∧
    (XHdcp1x_TxDoTheState exampleEnv 1 1 (exampleInst .DISABLED) .PHYDOWN).map
      (fun r => r.Tx.Flags) = some 0 := by
  refine ⟨by decide, by decide, by decide⟩

theorem TxInit_eq (E : Env) (spin : Nat) (w : XHdcp1x) :
    XHdcp1x_TxInit E spin w =
      some
        { IsHDMI := w.IsHDMI
          Tx :=
            { CurrentState := w.Tx.CurrentState
              PreviousState := w.Tx.PreviousState
              StateHelper := 0
              Flags := w.Tx.Flags &&& not32 XVPHY_FLAG_IS_REPEATER
              PendingEvents := 0
              EncryptionMap := 0
              Stats := w.Tx.Stats }
          Hist := Call.PlatformTimerStop :: Call.CipherDisable :: Call.PortDisable :: w.Hist } :=
  rfl

/-- C20, evaluation at the failing input: `XHdcp1x_TxInit` on a session whose
current state is AUTHENTICATED returns with the pending set empty, the helper
and the encryption map zero and only the three calls of the DISABLED entry
action issued, and with current state still AUTHENTICATED, so that
`XHdcp1x_TxIsAuthenticated` answers true. -/
theorem C20_TxInit_keeps_current_state :
    (XHdcp1x_TxInit exampleEnv 1 (exampleInst .AUTHENTICATED)).map
      (fun r => r.Tx.CurrentState) = some .AUTHENTICATED ∧
    (XHdcp1x_TxInit exampleEnv 1 (exampleInst .AUTHENTICATED)).map
      XHdcp1x_TxIsAuthenticated = some true ∧
    (XHdcp1x_TxInit exampleEnv 1 (exampleInst .AUTHENTICATED)).map
      (fun r => (r.Tx.PendingEvents, r.Tx.StateHelper, r.Tx.EncryptionMap)) =
        some (0, 0, 0) ∧
    (XHdcp1x_TxInit exampleEnv 1 (exampleInst .AUTHENTICATED)).map (fun r => r.Hist) =
      some [Call.PlatformTimerStop, Call.CipherDisable, Call.PortDisable] := by
  refine ⟨by decide, by decide, by decide, by decide⟩

/-! ### Invariants of the transition driver -/

theorem TxDoTheState_loopTrace_fst (E : Env) (spin : Nat) :
    ∀ fuel w ns, (XHdcp1x_TxDoTheState_loopTrace E spin fuel w ns).map Prod.fst =
      XHdcp1x_TxDoTheState_loop E spin fuel w ns := by
  intro fuel
  induction fuel with
  | zero =>
    intro w ns
    unfold XHdcp1x_TxDoTheState_loopTrace XHdcp1x_TxDoTheState_loop
    split <;> rfl
  | succ k ih =>
    intro w ns
    unfold XHdcp1x_TxDoTheState_loopTrace XHdcp1x_TxDoTheState_loop
    split
    · dsimp only
      cases XHdcp1x_TxEnterState E spin _ _ ns with
      | none => rfl
      | some r =>
        dsimp only
        rw [← ih r.1 r.2]
        cases XHdcp1x_TxDoTheState_loopTrace E spin k r.1 r.2 with
        | none => rfl
        | some p => rfl
    · rfl

theorem TxDoTheState_trace_fst (E : Env) (spin fuel : Nat) (w : XHdcp1x)
    (e : XHdcp1x_EventType) :
    (XHdcp1x_TxDoTheState_trace E spin fuel w e).map Prod.fst =
      XHdcp1x_TxDoTheState E spin fuel w e :=
  TxDoTheState_loopTrace_fst E spin fuel _ _

theorem StatsLe_refl (s : XHdcp1x_TxStats) : StatsLe s s :=
  ⟨le_refl _, le_refl _, le_refl _, le_refl _, le_refl _, le_refl _⟩

theorem StatsLe_trans {s t u : XHdcp1x_TxStats} (h1 : StatsLe s t) (h2 : StatsLe t u) :
    StatsLe s u :=
  ⟨le_trans h1.1 h2.1, le_trans h1.2.1 h2.2.1, le_trans h1.2.2.1 h2.2.2.1,
    le_trans h1.2.2.2.1 h2.2.2.2.1, le_trans h1.2.2.2.2.1 h2.2.2.2.2.1,
    le_trans h1.2.2.2.2.2 h2.2.2.2.2.2⟩

theorem TxFrame_refl (a : XHdcp1x) : TxFrame a a := ⟨rfl, rfl, rfl, StatsLe_refl _⟩

theorem TxFrame_trans {a b c : XHdcp1x} (h1 : TxFrame a b) (h2 : TxFrame b c) :
    TxFrame a c :=
  ⟨h2.1.trans h1.1, h2.2.1.trans h1.2.1, h2.2.2.1.trans h1.2.2.1,
    StatsLe_trans h1.2.2.2 h2.2.2.2⟩

theorem TxFrame_of_Tx_eq {a b : XHdcp1x} (h1 : b.IsHDMI = a.IsHDMI) (h2 : b.Tx = a.Tx) :
    TxFrame a b := by
  refine ⟨h1, by rw [h2], by rw [h2], ?_⟩
  rw [h2]; exact StatsLe_refl _

theorem TxFrame_CheckRxCapable (E : Env) (w : XHdcp1x) :
    TxFrame w (XHdcp1x_TxCheckRxCapable E w).1 ∧
    ((XHdcp1x_TxCheckRxCapable E w).2 = .EXCHANGEKSVS ∨
      (XHdcp1x_TxCheckRxCapable E w).2 = .UNAUTHENTICATED) := by
  unfold XHdcp1x_TxCheckRxCapable
  split <;> simp [TxFrame, StatsLe]

theorem TxFrame_ExchangeKsvs (E : Env) (spin : Nat) (w : XHdcp1x)
    (r : XHdcp1x × XHdcp1x_StateType) (h : XHdcp1x_TxExchangeKsvs E spin w = some r) :
    TxFrame w r.1 ∧ (r.2 = .COMPUTATIONS ∨ r.2 = .UNAUTHENTICATED) ∧
    (r.2 = .COMPUTATIONS → r.1.Tx.StateHelper ≠ 0 ∧ r.1.Tx.StateHelper < 2 ^ 64) := by
  unfold XHdcp1x_TxExchangeKsvs at h
  dsimp only at h
  split at h
  · split at h
    · cases h; simp [TxFrame, StatsLe]
    · split at h
      · cases h; simp [TxFrame, StatsLe]
      · split at h
        · cases h
        · rename_i w5 An hgen
          cases h
          obtain ⟨h1, h2, h3, h4⟩ := TxGenerateAn_frame E spin _ _ _ hgen
          refine ⟨?_, Or.inl rfl, fun _ => ⟨h3, h4⟩⟩
          simp [TxFrame, StatsLe, h1, h2]
  · cases h; simp [TxFrame, StatsLe]

theorem TxFrame_PollForComputations (E : Env) (w : XHdcp1x) (ns : XHdcp1x_StateType) :
    TxFrame w (XHdcp1x_TxPollForComputations E w ns).1 := by
  unfold XHdcp1x_TxPollForComputations
  split <;> simp [TxFrame, StatsLe]

theorem TxFrame_ValidateRx_body (E : Env) (n : Nat) (w : XHdcp1x) (ns : XHdcp1x_StateType) :
    TxFrame w (XHdcp1x_TxValidateRx_body E n w ns).1 := by
  unfold XHdcp1x_TxValidateRx_body
  dsimp only
  (repeat' split) <;> simp [TxFrame, StatsLe]

theorem TxFrame_ValidateRx_loop (E : Env) :
    ∀ n w ns, TxFrame w (XHdcp1x_TxValidateRx_loop E n w ns).1 := by
  intro n
  induction n with
  | zero => intro w ns; exact TxFrame_ValidateRx_body E 0 w ns
  | succ k ih =>
    intro w ns
    unfold XHdcp1x_TxValidateRx_loop
    dsimp only
    split
    · exact TxFrame_trans (TxFrame_ValidateRx_body E (k + 1) w ns) (ih _ _)
    · exact TxFrame_ValidateRx_body E (k + 1) w ns

theorem TxFrame_ValidateRx (E : Env) (w : XHdcp1x) :
    TxFrame w (XHdcp1x_TxValidateRx E w).1 :=
  TxFrame_ValidateRx_loop E 3 w _

theorem TxFrame_CheckLinkIntegrity_body (E : Env) (w : XHdcp1x) (ns : XHdcp1x_StateType) :
    TxFrame w (XHdcp1x_TxCheckLinkIntegrity_body E w ns).1 ∧
    ((XHdcp1x_TxCheckLinkIntegrity_body E w ns).2 = .AUTHENTICATED ∨
      (XHdcp1x_TxCheckLinkIntegrity_body E w ns).2 = ns) := by
  unfold XHdcp1x_TxCheckLinkIntegrity_body
  dsimp only
  (repeat' split) <;> simp [TxFrame, StatsLe]

theorem TxFrame_CheckLinkIntegrity_loop (E : Env) :
    ∀ n w ns, TxFrame w (XHdcp1x_TxCheckLinkIntegrity_loop E n w ns).1 ∧
      ((XHdcp1x_TxCheckLinkIntegrity_loop E n w ns).2 = .AUTHENTICATED ∨
        (XHdcp1x_TxCheckLinkIntegrity_loop E n w ns).2 = ns) := by
  intro n
  induction n with
  | zero => intro w ns; exact TxFrame_CheckLinkIntegrity_body E w ns
  | succ k ih =>
    intro w ns
    unfold XHdcp1x_TxCheckLinkIntegrity_loop
    dsimp only
    have hb := TxFrame_CheckLinkIntegrity_body E w ns
    split
    · have hi := ih (XHdcp1x_TxCheckLinkIntegrity_body E w ns).1
        (XHdcp1x_TxCheckLinkIntegrity_body E w ns).2
      refine ⟨TxFrame_trans hb.1 hi.1, ?_⟩
      rcases hi.2 with h | h
      · exact Or.inl h
      · rcases hb.2 with h2 | h2
        · exact Or.inl (h.trans h2)
        · exact Or.inr (h.trans h2)
    · exact hb

theorem TxFrame_CheckLinkIntegrity (E : Env) (w : XHdcp1x) :
    TxFrame w (XHdcp1x_TxCheckLinkIntegrity E w).1 ∧
    ((XHdcp1x_TxCheckLinkIntegrity E w).2 = .AUTHENTICATED ∨
      (XHdcp1x_TxCheckLinkIntegrity E w).2 = .DETERMINERXCAPABLE) := by
  have hl := TxFrame_CheckLinkIntegrity_loop E 3 w .DETERMINERXCAPABLE
  unfold XHdcp1x_TxCheckLinkIntegrity
  dsimp only
  obtain ⟨h1, h2, h3, h4⟩ := hl.1
  split
  · refine ⟨⟨h1, h2, h3, ?_⟩, hl.2⟩
    obtain ⟨a, b, c, d, e, f⟩ := h4
    exact ⟨a, b, c, d, Nat.le_succ_of_le e, f⟩
  · refine ⟨⟨h1, h2, h3, ?_⟩, hl.2⟩
    obtain ⟨a, b, c, d, e, f⟩ := h4
    exact ⟨a, b, c, d, e, Nat.le_succ_of_le f⟩

theorem TxFrame_TestForRepeater (E : Env) (w : XHdcp1x) :
    TxFrame w (XHdcp1x_TxTestForRepeater E w).1 := by
  unfold XHdcp1x_TxTestForRepeater
  split <;> simp [TxFrame, StatsLe]

theorem TxFrame_PollForWaitForReady (E : Env) (w : XHdcp1x) (ns : XHdcp1x_StateType) :
    TxFrame w (XHdcp1x_TxPollForWaitForReady E w ns).1 := by
  unfold XHdcp1x_TxPollForWaitForReady
  dsimp only
  (repeat' split) <;> simp [TxFrame, StatsLe]

theorem TxFrame_readLoop (E : Env) :
    ∀ fuel w ctx Buf N r, XHdcp1x_TxValidateKsvList_readLoop E fuel w ctx Buf N = some r →
      TxFrame w r.1 := by
  intro fuel
  induction fuel with
  | zero => intro w ctx Buf N r h; cases h
  | succ k ih =>
    intro w ctx Buf N r h
    unfold XHdcp1x_TxValidateKsvList_readLoop at h
    dsimp only at h
    generalize (if E.XHDCP1X_PORT_SIZE_KSVFIFO > N then N
      else E.XHDCP1X_PORT_SIZE_KSVFIFO) = n at h
    split at h
    · split at h
      · exact TxFrame_trans (by simp [TxFrame, StatsLe]) (ih _ _ _ _ _ h)
      · cases h; simp [TxFrame, StatsLe]
    · cases h; simp [TxFrame, StatsLe]

theorem TxFrame_vhBody (E : Env) (d : List Nat) (s : VhState) :
    TxFrame s.w (XHdcp1x_TxValidateKsvList_vhBody E d s).w := by
  unfold XHdcp1x_TxValidateKsvList_vhBody
  dsimp only
  split <;> simp [TxFrame, StatsLe]

theorem TxFrame_vhLoop (E : Env) (d : List Nat) :
    ∀ n s, TxFrame s.w (XHdcp1x_TxValidateKsvList_vhLoop E d n s).w := by
  intro n
  induction n with
  | zero => intro s; exact TxFrame_vhBody E d s
  | succ k ih =>
    intro s
    unfold XHdcp1x_TxValidateKsvList_vhLoop
    dsimp only
    split
    · exact TxFrame_trans (TxFrame_vhBody E d s) (ih _)
    · exact TxFrame_vhBody E d s

theorem TxFrame_ValidateKsvList (E : Env) (w : XHdcp1x) (RepeaterInfo : Nat)
    (r : XHdcp1x × Bool) (h : XHdcp1x_TxValidateKsvList E w RepeaterInfo = some r) :
    TxFrame w r.1 := by
  unfold XHdcp1x_TxValidateKsvList at h
  dsimp only at h
  split at h
  · cases h
  · rename_i w1 ctx Buf1 v hread
    have h1 := TxFrame_readLoop E _ _ _ _ _ _ hread
    split at h
    · split at h
      · cases h
        exact TxFrame_trans h1 (TxFrame_trans (by simp [TxFrame, StatsLe])
          (TxFrame_vhLoop E _ _ _))
      · cases h
        exact TxFrame_trans h1 (by simp [TxFrame, StatsLe])
    · cases h; exact h1

theorem TxFrame_ReadKsvList_loop (E : Env) (RepeaterInfo : Nat) :
    ∀ n w r, XHdcp1x_TxReadKsvList_loop E RepeaterInfo n w = some r → TxFrame w r.1 := by
  intro n
  induction n with
  | zero => intro w r h; exact TxFrame_ValidateKsvList E w RepeaterInfo r h
  | succ k ih =>
    intro w r h
    unfold XHdcp1x_TxReadKsvList_loop at h
    split at h
    · cases h
    · rename_i w1 v hv
      have h1 := TxFrame_ValidateKsvList E w RepeaterInfo _ hv
      split at h
      · exact TxFrame_trans h1 (ih _ _ h)
      · cases h; exact h1

theorem TxFrame_ReadKsvList (E : Env) (w : XHdcp1x) (r : XHdcp1x × XHdcp1x_StateType)
    (h : XHdcp1x_TxReadKsvList E w = some r) :
    TxFrame w r.1 ∧ (r.2 = .AUTHENTICATED ∨ r.2 = .UNAUTHENTICATED) := by
  unfold XHdcp1x_TxReadKsvList at h
  dsimp only at h
  split at h
  · cases h
  · rename_i w1 v hv
    have h1 := TxFrame_ReadKsvList_loop E _ _ _ _ hv
    split at h <;> cases h
    · exact ⟨h1, Or.inl rfl⟩
    · exact ⟨h1, Or.inr rfl⟩

theorem TxReadKsvList_loop_ne_none (E : Env) (hpos : 0 < E.XHDCP1X_PORT_SIZE_KSVFIFO)
    (RepeaterInfo : Nat) :
    ∀ n w, XHdcp1x_TxReadKsvList_loop E RepeaterInfo n w ≠ none := by
  intro n
  induction n with
  | zero => intro w; exact TxValidateKsvList_ne_none E hpos w RepeaterInfo
  | succ k ih =>
    intro w
    unfold XHdcp1x_TxReadKsvList_loop
    obtain ⟨w1, v, hv⟩ := TxValidateKsvList_isSome E hpos w RepeaterInfo
    rw [hv]
    dsimp only
    split
    · exact ih w1
    · simp

theorem TxReadKsvList_ne_none (E : Env) (hpos : 0 < E.XHDCP1X_PORT_SIZE_KSVFIFO)
    (w : XHdcp1x) : XHdcp1x_TxReadKsvList E w ≠ none := by
  unfold XHdcp1x_TxReadKsvList
  dsimp only
  have h := TxReadKsvList_loop_ne_none E hpos ((w.Tx.StateHelper &&& 0x0FFF) % 2 ^ 16) 3 w
  split
  · rename_i heq; exact absurd heq h
  · split <;> simp

theorem TxDoTheState_loopTrace_induct (E : Env) (spin : Nat)
    (I : XHdcp1x → XHdcp1x_StateType → Prop)
    (Q : XHdcp1x → XHdcp1x_StateType → XHdcp1x → List XHdcp1x_StateType → Prop)
    (hbase : ∀ w, Q w w.Tx.CurrentState w [])
    (hstep : ∀ w ns r w1 tr, I w ns → w.Tx.CurrentState ≠ ns →
      XHdcp1x_TxEnterState E spin (beforeEntry w ns) ns ns = some r →
      I r.1 r.2 ∧ (Q r.1 r.2 w1 tr → Q w ns w1 (w.Tx.CurrentState :: tr))) :
    ∀ fuel w ns w1 tr, I w ns →
      XHdcp1x_TxDoTheState_loopTrace E spin fuel w ns = some (w1, tr) → Q w ns w1 tr := by
  intro fuel
  induction fuel with
  | zero =>
    intro w ns w1 tr _ h
    unfold XHdcp1x_TxDoTheState_loopTrace at h
    split at h
    · cases h
    · rename_i hc
      cases h
      have hc' : w.Tx.CurrentState = ns := by simpa using hc
      subst hc'
      exact hbase w
  | succ k ih =>
    intro w ns w1 tr hI h
    unfold XHdcp1x_TxDoTheState_loopTrace at h
    split at h
    · rename_i hc
      dsimp only at h
      split at h
      · cases h
      · rename_i r hr
        split at h
        · cases h
        · rename_i w4 tr4 hl
          cases h
          have hs := hstep w ns r w1 tr4 hI hc hr
          exact hs.2 (ih r.1 r.2 w1 tr4 hs.1 hl)
    · rename_i hc
      cases h
      have hc' : w.Tx.CurrentState = ns := by simpa using hc
      subst hc'
      exact hbase w

theorem TxExitState_frame (w : XHdcp1x) (s : XHdcp1x_StateType) :
    (XHdcp1x_TxExitState w s).IsHDMI = w.IsHDMI ∧
    (XHdcp1x_TxExitState w s).Tx.CurrentState = w.Tx.CurrentState ∧
    (XHdcp1x_TxExitState w s).Tx.PreviousState = w.Tx.PreviousState ∧
    (s ≠ .DISABLED → (XHdcp1x_TxExitState w s).Tx.Stats = w.Tx.Stats) ∧
    (s = .EXCHANGEKSVS → (XHdcp1x_TxExitState w s).Tx.StateHelper = w.Tx.StateHelper) := by
  cases s <;> simp [XHdcp1x_TxExitState, XHdcp1x_TxEnableState]

theorem beforeEntry_frame (w : XHdcp1x) (ns : XHdcp1x_StateType) :
    (beforeEntry w ns).IsHDMI = w.IsHDMI ∧
    (beforeEntry w ns).Tx.CurrentState = ns ∧
    (beforeEntry w ns).Tx.PreviousState = w.Tx.CurrentState ∧
    (w.Tx.CurrentState ≠ .DISABLED → (beforeEntry w ns).Tx.Stats = w.Tx.Stats) ∧
    (w.Tx.CurrentState = .EXCHANGEKSVS →
      (beforeEntry w ns).Tx.StateHelper = w.Tx.StateHelper) := by
  obtain ⟨h1, h2, h3, h4, h5⟩ := TxExitState_frame w w.Tx.CurrentState
  exact ⟨h1, rfl, h2, h4, h5⟩

theorem TxEnterState_analysis (E : Env) (spin : Nat) (w : XHdcp1x) (s : XHdcp1x_StateType)
    (r : XHdcp1x × XHdcp1x_StateType) (h : XHdcp1x_TxEnterState E spin w s s = some r) :
    TxFrame w r.1 ∧ (r.2 = s ∨ enterDepth r.2 < enterDepth s) ∧
    (r.2 = .COMPUTATIONS →
      s = .COMPUTATIONS ∨ (s = .EXCHANGEKSVS ∧ r.1.Tx.StateHelper ≠ 0)) ∧
    (s = .COMPUTATIONS → r.1.Tx.StateHelper = w.Tx.StateHelper) := by
  cases s
  case EXCHANGEKSVS =>
    obtain ⟨h1, h2, h3⟩ := TxFrame_ExchangeKsvs E spin _ r h
    refine ⟨TxFrame_trans (by simp [TxFrame, StatsLe]) h1, ?_, ?_, by simp⟩
    · rcases h2 with h2 | h2 <;> rw [h2] <;> exact Or.inr (by decide)
    · intro hc; exact Or.inr ⟨rfl, (h3 hc).1⟩
  case READKSVLIST =>
    obtain ⟨h1, h2⟩ := TxFrame_ReadKsvList E w r h
    refine ⟨h1, ?_, ?_, by simp⟩
    · rcases h2 with h2 | h2 <;> rw [h2] <;> exact Or.inr (by decide)
    · rcases h2 with h2 | h2 <;> rw [h2] <;> simp
  case DETERMINERXCAPABLE =>
    simp only [XHdcp1x_TxEnterState, Option.some.injEq] at h
    subst h
    obtain ⟨h1, h2⟩ := TxFrame_CheckRxCapable E
      (XHdcp1x_TxDisableEncryptionState E (XHdcp1x_TxSetCheckLinkState
        (w.setTx { w.Tx with Flags := w.Tx.Flags ||| XVPHY_FLAG_PHY_UP }) false))
    refine ⟨TxFrame_trans (by simp [TxFrame, StatsLe]) h1, ?_, ?_, by simp⟩
    · rcases h2 with h2 | h2 <;> rw [h2] <;> exact Or.inr (by decide)
    · rcases h2 with h2 | h2 <;> rw [h2] <;> simp
  case LINKINTEGRITYCHECK =>
    simp only [XHdcp1x_TxEnterState, Option.some.injEq] at h
    subst h
    obtain ⟨h1, h2⟩ := TxFrame_CheckLinkIntegrity E w
    refine ⟨h1, ?_, ?_, by simp⟩
    · rcases h2 with h2 | h2 <;> rw [h2] <;> exact Or.inr (by decide)
    · rcases h2 with h2 | h2 <;> rw [h2] <;> simp
  case AUTHENTICATED =>
    simp only [XHdcp1x_TxEnterState] at h
    split at h <;> cases h <;> simp [TxFrame, StatsLe]
  all_goals
    simp only [XHdcp1x_TxEnterState, Option.some.injEq] at h
    subst h
    simp [TxFrame, StatsLe, XHdcp1x_TxDisableState]

theorem TxEnterState_ne_none (E : Env) (spin : Nat) (hrng : RngCompletes E spin)
    (hpos : 0 < E.XHDCP1X_PORT_SIZE_KSVFIFO) (w : XHdcp1x) (s ns : XHdcp1x_StateType) :
    XHdcp1x_TxEnterState E spin w s ns ≠ none := by
  cases s
  case EXCHANGEKSVS => exact TxExchangeKsvs_ne_none E spin _ hrng
  case READKSVLIST => exact TxReadKsvList_ne_none E hpos w
  case AUTHENTICATED => simp only [XHdcp1x_TxEnterState]; split <;> simp
  all_goals simp [XHdcp1x_TxEnterState]

theorem TxValidateRx_loop_snd (E : Env) :
    ∀ n w ns, (XHdcp1x_TxValidateRx_loop E n w ns).2 = .TESTFORREPEATER ∨
      (XHdcp1x_TxValidateRx_loop E n w ns).2 = ns := by
  intro n
  induction n with
  | zero =>
    intro w ns
    simp only [XHdcp1x_TxValidateRx_loop, TxValidateRx_body_snd]
    split <;> simp
  | succ k ih =>
    intro w ns
    unfold XHdcp1x_TxValidateRx_loop
    dsimp only
    have hb : (XHdcp1x_TxValidateRx_body E (k + 1) w ns).2 = .TESTFORREPEATER ∨
        (XHdcp1x_TxValidateRx_body E (k + 1) w ns).2 = ns := by
      rw [TxValidateRx_body_snd]; split <;> simp
    split
    · rcases ih (XHdcp1x_TxValidateRx_body E (k + 1) w ns).1
        (XHdcp1x_TxValidateRx_body E (k + 1) w ns).2 with h | h
      · exact Or.inl h
      · rcases hb with h2 | h2
        · exact Or.inl (h.trans h2)
        · exact Or.inr (h.trans h2)
    · exact hb

theorem TxValidateRx_snd (E : Env) (w : XHdcp1x) :
    (XHdcp1x_TxValidateRx E w).2 = .TESTFORREPEATER ∨
      (XHdcp1x_TxValidateRx E w).2 = .UNAUTHENTICATED :=
  TxValidateRx_loop_snd E 3 w _

theorem TxTestForRepeater_snd (E : Env) (w : XHdcp1x) :
    (XHdcp1x_TxTestForRepeater E w).2 = .WAITFORREADY ∨
      (XHdcp1x_TxTestForRepeater E w).2 = .AUTHENTICATED := by
  unfold XHdcp1x_TxTestForRepeater
  split <;> simp

theorem TxPollForWaitForReady_snd (E : Env) (w : XHdcp1x) (ns : XHdcp1x_StateType) :
    (XHdcp1x_TxPollForWaitForReady E w ns).2 = .READKSVLIST ∨
    (XHdcp1x_TxPollForWaitForReady E w ns).2 = .AUTHENTICATED ∨
    (XHdcp1x_TxPollForWaitForReady E w ns).2 = .UNAUTHENTICATED ∨
    (XHdcp1x_TxPollForWaitForReady E w ns).2 = ns := by
  unfold XHdcp1x_TxPollForWaitForReady
  dsimp only
  (repeat' split) <;> simp

theorem TxPollForComputations_snd (E : Env) (w : XHdcp1x) (ns : XHdcp1x_StateType) :
    (XHdcp1x_TxPollForComputations E w ns).2 = .VALIDATERX ∨
    (XHdcp1x_TxPollForComputations E w ns).2 = ns := by
  unfold XHdcp1x_TxPollForComputations
  split <;> simp

theorem TxFrame_PostEvent (w : XHdcp1x) (e : XHdcp1x_EventType) :
    TxFrame w (XHdcp1x_TxPostEvent w e) := by
  simp [TxFrame, StatsLe, XHdcp1x_TxPostEvent]

theorem TxRunDisabledState_ok (w : XHdcp1x) (e : XHdcp1x_EventType)
    (ns : XHdcp1x_StateType) :
    TxFrame w (XHdcp1x_TxRunDisabledState w e ns).1 ∧
    ((XHdcp1x_TxRunDisabledState w e ns).2 = .COMPUTATIONS → ns = .COMPUTATIONS) := by
  cases e <;> simp only [XHdcp1x_TxRunDisabledState] <;> (try split) <;>
    simp [TxFrame, StatsLe]

theorem TxRunDetermineRxCapableState_ok (w : XHdcp1x) (e : XHdcp1x_EventType)
    (ns : XHdcp1x_StateType) :
    TxFrame w (XHdcp1x_TxRunDetermineRxCapableState w e ns).1 ∧
    ((XHdcp1x_TxRunDetermineRxCapableState w e ns).2 = .COMPUTATIONS → ns = .COMPUTATIONS) := by
  cases e <;> simp [XHdcp1x_TxRunDetermineRxCapableState, TxFrame, StatsLe]

theorem TxRunExchangeKsvsState_ok (w : XHdcp1x) (e : XHdcp1x_EventType)
    (ns : XHdcp1x_StateType) :
    TxFrame w (XHdcp1x_TxRunExchangeKsvsState w e ns).1 ∧
    ((XHdcp1x_TxRunExchangeKsvsState w e ns).2 = .COMPUTATIONS → ns = .COMPUTATIONS) := by
  cases e <;> simp [XHdcp1x_TxRunExchangeKsvsState, TxFrame, StatsLe]

theorem TxRunComputationsState_ok (E : Env) (w : XHdcp1x) (e : XHdcp1x_EventType)
    (ns : XHdcp1x_StateType) :
    TxFrame w (XHdcp1x_TxRunComputationsState E w e ns).1 ∧
    ((XHdcp1x_TxRunComputationsState E w e ns).2 = .COMPUTATIONS → ns = .COMPUTATIONS) := by
  cases e
  case POLL =>
    refine ⟨TxFrame_PollForComputations E w ns, fun h => ?_⟩
    rcases TxPollForComputations_snd E w ns with h2 | h2
    · simp only [XHdcp1x_TxRunComputationsState] at h
      rw [h2] at h; cases h
    · simp only [XHdcp1x_TxRunComputationsState] at h
      rw [h2] at h; exact h
  all_goals simp [XHdcp1x_TxRunComputationsState, TxFrame, StatsLe]

theorem TxRunValidateRxState_ok (E : Env) (w : XHdcp1x) (e : XHdcp1x_EventType)
    (ns : XHdcp1x_StateType) :
    TxFrame w (XHdcp1x_TxRunValidateRxState E w e ns).1 ∧
    ((XHdcp1x_TxRunValidateRxState E w e ns).2 = .COMPUTATIONS → ns = .COMPUTATIONS) := by
  cases e
  case TIMEOUT =>
    refine ⟨TxFrame_ValidateRx E w, fun h => ?_⟩
    simp only [XHdcp1x_TxRunValidateRxState] at h
    rcases TxValidateRx_snd E w with h2 | h2 <;> rw [h2] at h <;> cases h
  all_goals simp [XHdcp1x_TxRunValidateRxState, TxFrame, StatsLe]

theorem TxRunAuthenticatedState_ok (w : XHdcp1x) (e : XHdcp1x_EventType)
    (ns : XHdcp1x_StateType) :
    TxFrame w (XHdcp1x_TxRunAuthenticatedState w e ns).1 ∧
    ((XHdcp1x_TxRunAuthenticatedState w e ns).2 = .COMPUTATIONS → ns = .COMPUTATIONS) := by
  cases e <;> simp [XHdcp1x_TxRunAuthenticatedState, TxFrame, StatsLe]

theorem TxRunLinkIntegrityCheckState_ok (E : Env) (w : XHdcp1x) (e : XHdcp1x_EventType)
    (ns : XHdcp1x_StateType) :
    TxFrame w (XHdcp1x_TxRunLinkIntegrityCheckState E w e ns).1 ∧
    ((XHdcp1x_TxRunLinkIntegrityCheckState E w e ns).2 = .COMPUTATIONS →
      ns = .COMPUTATIONS) := by
  cases e
  case POLL =>
    refine ⟨(TxFrame_CheckLinkIntegrity E w).1, fun h => ?_⟩
    simp only [XHdcp1x_TxRunLinkIntegrityCheckState] at h
    rcases (TxFrame_CheckLinkIntegrity E w).2 with h2 | h2 <;> rw [h2] at h <;> cases h
  all_goals simp [XHdcp1x_TxRunLinkIntegrityCheckState, TxFrame, StatsLe]

theorem TxRunTestForRepeaterState_ok (E : Env) (w : XHdcp1x) (e : XHdcp1x_EventType)
    (ns : XHdcp1x_StateType) :
    TxFrame w (XHdcp1x_TxRunTestForRepeaterState E w e ns).1 ∧
    ((XHdcp1x_TxRunTestForRepeaterState E w e ns).2 = .COMPUTATIONS → ns = .COMPUTATIONS) := by
  cases e
  case POLL =>
    refine ⟨TxFrame_TestForRepeater E w, fun h => ?_⟩
    simp only [XHdcp1x_TxRunTestForRepeaterState] at h
    rcases TxTestForRepeater_snd E w with h2 | h2 <;> rw [h2] at h <;> cases h
  all_goals simp [XHdcp1x_TxRunTestForRepeaterState, TxFrame, StatsLe]

theorem TxRunWaitForReadyState_ok (E : Env) (w : XHdcp1x) (e : XHdcp1x_EventType)
    (ns : XHdcp1x_StateType) :
    TxFrame w (XHdcp1x_TxRunWaitForReadyState E w e ns).1 ∧
    ((XHdcp1x_TxRunWaitForReadyState E w e ns).2 = .COMPUTATIONS → ns = .COMPUTATIONS) := by
  have hp := TxPollForWaitForReady_snd E w ns
  cases e
  case POLL =>
    refine ⟨TxFrame_PollForWaitForReady E w ns, fun h => ?_⟩
    simp only [XHdcp1x_TxRunWaitForReadyState] at h
    rcases hp with h2 | h2 | h2 | h2 <;> rw [h2] at h
    · cases h
    · cases h
    · cases h
    · exact h
  case TIMEOUT =>
    simp only [XHdcp1x_TxRunWaitForReadyState]
    split
    · exact ⟨TxFrame_PollForWaitForReady E w ns, fun h => by cases h⟩
    · refine ⟨TxFrame_PollForWaitForReady E w ns, fun h => ?_⟩
      rcases hp with h2 | h2 | h2 | h2 <;> rw [h2] at h
      · cases h
      · cases h
      · cases h
      · exact h
  all_goals simp [XHdcp1x_TxRunWaitForReadyState, TxFrame, StatsLe]

theorem TxRunReadKsvListState_ok (w : XHdcp1x) (e : XHdcp1x_EventType)
    (ns : XHdcp1x_StateType) :
    TxFrame w (XHdcp1x_TxRunReadKsvListState w e ns).1 ∧
    ((XHdcp1x_TxRunReadKsvListState w e ns).2 = .COMPUTATIONS → ns = .COMPUTATIONS) := by
  cases e <;> simp [XHdcp1x_TxRunReadKsvListState, TxFrame, StatsLe]

theorem TxRunUnauthenticatedState_ok (w : XHdcp1x) (e : XHdcp1x_EventType)
    (ns : XHdcp1x_StateType) :
    TxFrame w (XHdcp1x_TxRunUnauthenticatedState w e ns).1 ∧
    ((XHdcp1x_TxRunUnauthenticatedState w e ns).2 = .COMPUTATIONS → ns = .COMPUTATIONS) := by
  cases e <;> simp [XHdcp1x_TxRunUnauthenticatedState, TxFrame, StatsLe]

theorem TxRunPhysicalLayerDownState_ok (w : XHdcp1x) (e : XHdcp1x_EventType)
    (ns : XHdcp1x_StateType) :
    TxFrame w (XHdcp1x_TxRunPhysicalLayerDownState w e ns).1 ∧
    ((XHdcp1x_TxRunPhysicalLayerDownState w e ns).2 = .COMPUTATIONS → ns = .COMPUTATIONS) := by
  cases e <;> simp only [XHdcp1x_TxRunPhysicalLayerDownState] <;> (try split) <;>
    simp [TxFrame, StatsLe, XHdcp1x_TxPostEvent]

theorem TxDoTheState_switch_analysis (E : Env) (w : XHdcp1x) (e : XHdcp1x_EventType) :
    TxFrame w (XHdcp1x_TxDoTheState_switch E w e).1 ∧
    ((XHdcp1x_TxDoTheState_switch E w e).2 = .COMPUTATIONS →
      w.Tx.CurrentState = .COMPUTATIONS) := by
  unfold XHdcp1x_TxDoTheState_switch
  dsimp only
  split
  · exact TxRunDisabledState_ok w e _
  · exact TxRunDetermineRxCapableState_ok w e _
  · exact TxRunExchangeKsvsState_ok w e _
  · exact TxRunComputationsState_ok E w e _
  · exact TxRunValidateRxState_ok E w e _
  · exact TxRunAuthenticatedState_ok w e _
  · exact TxRunLinkIntegrityCheckState_ok E w e _
  · exact TxRunTestForRepeaterState_ok E w e _
  · exact TxRunWaitForReadyState_ok E w e _
  · exact TxRunReadKsvListState_ok w e _
  · exact TxRunUnauthenticatedState_ok w e _
  · exact TxRunPhysicalLayerDownState_ok w e _

theorem TxDoTheState_switch_DISABLED (E : Env) (w : XHdcp1x) (e : XHdcp1x_EventType)
    (hs : w.Tx.CurrentState = .DISABLED) (he : e ≠ .ENABLE) :
    (XHdcp1x_TxDoTheState_switch E w e).2 = .DISABLED ∧
    (XHdcp1x_TxDoTheState_switch E w e).1.Tx.Stats = w.Tx.Stats ∧
    (XHdcp1x_TxDoTheState_switch E w e).1.Tx.CurrentState = .DISABLED := by
  cases e <;> simp [XHdcp1x_TxDoTheState_switch, hs, XHdcp1x_TxRunDisabledState] at he ⊢

theorem TxDoTheState_loopTrace_previous (E : Env) (spin : Nat) :
    ∀ fuel w ns w1 tr,
      XHdcp1x_TxDoTheState_loopTrace E spin fuel w ns = some (w1, tr) →
      (tr = [] → w1 = w) ∧
      (tr ≠ [] → tr.getLast? = some w1.Tx.PreviousState ∧
        w1.Tx.PreviousState ≠ w1.Tx.CurrentState ∧ tr.head? = some w.Tx.CurrentState) := by
  intro fuel w ns w1 tr h
  refine TxDoTheState_loopTrace_induct E spin (fun _ _ => True)
    (fun w ns w1 tr => (tr = [] → w1 = w) ∧
      (tr ≠ [] → tr.getLast? = some w1.Tx.PreviousState ∧
        w1.Tx.PreviousState ≠ w1.Tx.CurrentState ∧ tr.head? = some w.Tx.CurrentState))
    ?_ ?_ fuel w ns w1 tr trivial h
  · intro w
    exact ⟨fun _ => rfl, fun h => absurd rfl h⟩
  · intro w ns r w1 tr _ hne hr
    refine ⟨trivial, fun hQ => ⟨fun h => List.noConfusion h, fun _ => ?_⟩⟩
    obtain ⟨⟨-, hcur, hprev, -⟩, -⟩ := TxEnterState_analysis E spin _ ns r hr
    obtain ⟨-, hb2, hb3, -⟩ := beforeEntry_frame w ns
    cases tr with
    | nil =>
      have hw := hQ.1 rfl
      subst hw
      refine ⟨?_, ?_, rfl⟩
      · simp [hprev, hb3]
      · rw [hprev, hb3, hcur, hb2]; exact hne
    | cons a t =>
      obtain ⟨h1, h2, -⟩ := hQ.2 (by simp)
      refine ⟨?_, h2, rfl⟩
      rw [List.getLast?_cons_cons]; exact h1

/-- C21.  For every environment, state and event, whenever the transition
driver returns: if the dispatch made no transition, the instance is the one the
event handler left, so current state and previous state are those from before
the dispatch; if it made at least one transition, the previous state is the
state that was current immediately before the last transition (the last entry
of the record of transitions), it differs from the current state, and the first
state left is the state that was current before the dispatch.  The record does
not change what the driver returns. -/
theorem C21_previous_state_reflects_last_transition (E : Env) (spin fuel : Nat)
    (w : XHdcp1x) (e : XHdcp1x_EventType) (w1 : XHdcp1x) (tr : List XHdcp1x_StateType)
    (h : XHdcp1x_TxDoTheState_trace E spin fuel w e = some (w1, tr)) :
    XHdcp1x_TxDoTheState E spin fuel w e = some w1 ∧
    (tr = [] → w1 = (XHdcp1x_TxDoTheState_switch E w e).1 ∧
      w1.Tx.CurrentState = w.Tx.CurrentState ∧ w1.Tx.PreviousState = w.Tx.PreviousState) ∧
    (tr ≠ [] → tr.getLast? = some w1.Tx.PreviousState ∧
      w1.Tx.PreviousState ≠ w1.Tx.CurrentState ∧ tr.head? = some w.Tx.CurrentState) := by
  have hfst := TxDoTheState_trace_fst E spin fuel w e
  rw [h] at hfst
  obtain ⟨⟨-, hc, hp, -⟩, -⟩ := TxDoTheState_switch_analysis E w e
  obtain ⟨h1, h2⟩ := TxDoTheState_loopTrace_previous E spin fuel _ _ w1 tr h
  refine ⟨hfst.symm, fun h0 => ?_, fun hne => ?_⟩
  · have := h1 h0
    subst this
    exact ⟨rfl, hc, hp⟩
  · obtain ⟨a, b, c⟩ := h2 hne
    exact ⟨a, b, by rw [c, hc]⟩

/-- Witness for C21: CHECK dispatched in AUTHENTICATED with a matching link
check value, which makes two transitions and ends in AUTHENTICATED with
previous state LINK_INTEGRITY_CHECK. -/
theorem C21_previous_state_reflects_last_transition_witness :
    ∃ w1 tr, XHdcp1x_TxDoTheState_trace exampleEnv 1 2 (exampleInst .AUTHENTICATED) .CHECK =
        some (w1, tr) ∧
      tr = [.AUTHENTICATED, .LINKINTEGRITYCHECK] ∧
      w1.Tx.PreviousState = .LINKINTEGRITYCHECK ∧ w1.Tx.CurrentState = .AUTHENTICATED := by
  have hs : (XHdcp1x_TxDoTheState_trace exampleEnv 1 2 (exampleInst .AUTHENTICATED)
      .CHECK).map (fun p => (p.2, p.1.Tx.CurrentState)) =
      some ([.AUTHENTICATED, .LINKINTEGRITYCHECK], .AUTHENTICATED) := by decide
  cases hx : XHdcp1x_TxDoTheState_trace exampleEnv 1 2 (exampleInst .AUTHENTICATED) .CHECK with
  | none => rw [hx] at hs; cases hs
  | some p =>
    rw [hx] at hs
    simp only [Option.map_some', Option.some.injEq, Prod.mk.injEq] at hs
    obtain ⟨w1, tr⟩ := p
    obtain ⟨ht, hc⟩ := hs
    simp only at ht hc
    obtain ⟨-, -, h3⟩ := C21_previous_state_reflects_last_transition exampleEnv 1 2
      (exampleInst .AUTHENTICATED) .CHECK w1 tr hx
    obtain ⟨h4, -, -⟩ := h3 (by rw [ht]; simp)
    rw [ht] at h4
    simp at h4
    exact ⟨w1, tr, rfl, ht, h4.symm, hc⟩

theorem TxDoTheState_loopTrace_terminates (E : Env) (spin : Nat)
    (hrng : RngCompletes E spin) (hpos : 0 < E.XHDCP1X_PORT_SIZE_KSVFIFO) :
    ∀ n ns w, enterDepth ns ≤ n →
      ∃ w1 tr, tr.length ≤ n + 1 ∧
        ∀ fuel, n + 1 ≤ fuel →
          XHdcp1x_TxDoTheState_loopTrace E spin fuel w ns = some (w1, tr) := by
  intro n
  induction n with
  | zero =>
    intro ns w hd
    by_cases hc : w.Tx.CurrentState = ns
    · refine ⟨w, [], by simp, fun fuel _ => ?_⟩
      cases fuel <;> simp [XHdcp1x_TxDoTheState_loopTrace, hc]
    · cases hr : XHdcp1x_TxEnterState E spin (beforeEntry w ns) ns ns with
      | none => exact absurd hr (TxEnterState_ne_none E spin hrng hpos _ _ _)
      | some r =>
        obtain ⟨⟨-, hcur, -, -⟩, h2, -, -⟩ := TxEnterState_analysis E spin _ ns r hr
        have hr2 : r.2 = ns := by
          rcases h2 with h2 | h2
          · exact h2
          · omega
        have hstay : r.1.Tx.CurrentState = r.2 := by
          rw [hcur, hr2]; exact (beforeEntry_frame w ns).2.1
        refine ⟨r.1, [w.Tx.CurrentState], by simp, fun fuel hf => ?_⟩
        obtain ⟨k, rfl⟩ : ∃ k, fuel = k + 1 := ⟨fuel - 1, by omega⟩
        have hr' : XHdcp1x_TxEnterState E spin (beforeEntry w ns)
            (beforeEntry w ns).Tx.CurrentState ns = some r := hr
        have hl : XHdcp1x_TxDoTheState_loopTrace E spin k r.1 r.2 = some (r.1, []) := by
          cases k <;> simp [XHdcp1x_TxDoTheState_loopTrace, hstay]
        unfold XHdcp1x_TxDoTheState_loopTrace
        rw [if_pos hc]
        show (match XHdcp1x_TxEnterState E spin (beforeEntry w ns)
            (beforeEntry w ns).Tx.CurrentState ns with
          | none => none
          | some r =>
            match XHdcp1x_TxDoTheState_loopTrace E spin k r.1 r.2 with
            | none => none
            | some (w4, tr) => some (w4, w.Tx.CurrentState :: tr)) = _
        rw [hr']
        simp only [hl]
  | succ m ih =>
    intro ns w hd
    by_cases hc : w.Tx.CurrentState = ns
    · refine ⟨w, [], by simp, fun fuel _ => ?_⟩
      cases fuel <;> simp [XHdcp1x_TxDoTheState_loopTrace, hc]
    · cases hr : XHdcp1x_TxEnterState E spin (beforeEntry w ns) ns ns with
      | none => exact absurd hr (TxEnterState_ne_none E spin hrng hpos _ _ _)
      | some r =>
        obtain ⟨⟨-, hcur, -, -⟩, h2, -, -⟩ := TxEnterState_analysis E spin _ ns r hr
        have hr' : XHdcp1x_TxEnterState E spin (beforeEntry w ns)
            (beforeEntry w ns).Tx.CurrentState ns = some r := hr
        have hnext : ∃ w1 tr, tr.length ≤ m + 1 ∧ ∀ fuel, m + 1 ≤ fuel →
            XHdcp1x_TxDoTheState_loopTrace E spin fuel r.1 r.2 = some (w1, tr) := by
          rcases h2 with h2 | h2
          · have hstay : r.1.Tx.CurrentState = r.2 := by
              rw [hcur, h2]; exact (beforeEntry_frame w ns).2.1
            refine ⟨r.1, [], by simp, fun fuel _ => ?_⟩
            cases fuel <;> simp [XHdcp1x_TxDoTheState_loopTrace, hstay]
          · exact ih r.2 r.1 (by omega)
        obtain ⟨w1, tr, hlen, hall⟩ := hnext
        refine ⟨w1, w.Tx.CurrentState :: tr, by simp; omega, fun fuel hf => ?_⟩
        obtain ⟨k, rfl⟩ : ∃ k, fuel = k + 1 := ⟨fuel - 1, by omega⟩
        have hl := hall k (by omega)
        unfold XHdcp1x_TxDoTheState_loopTrace
        rw [if_pos hc]
        show (match XHdcp1x_TxEnterState E spin (beforeEntry w ns)
            (beforeEntry w ns).Tx.CurrentState ns with
          | none => none
          | some r =>
            match XHdcp1x_TxDoTheState_loopTrace E spin k r.1 r.2 with
            | none => none
            | some (w4, tr) => some (w4, w.Tx.CurrentState :: tr)) = _
        rw [hr']
        simp only [hl]

theorem enterDepth_le_three (s : XHdcp1x_StateType) : enterDepth s ≤ 3 := by
  cases s <;> decide

/-- C22.  When every accepted random-number request completes within the poll
budget and the chunk size of the ksv list register is positive, the transition
driver returns for every state and event after at most 4 transitions: with a
budget of 4 transitions it returns an instance and a record of at most 4
transitions, and with any larger budget it returns the same instance, so no
further transition was due. -/
theorem C22_TxDoTheState_fixed_point_within_4 (E : Env) (spin : Nat)
    (hrng : RngCompletes E spin) (hpos : 0 < E.XHDCP1X_PORT_SIZE_KSVFIFO)
    (w : XHdcp1x) (e : XHdcp1x_EventType) :
    ∃ w1 tr, XHdcp1x_TxDoTheState_trace E spin 4 w e = some (w1, tr) ∧
      tr.length ≤ 4 ∧
      ∀ fuel, 4 ≤ fuel →
        XHdcp1x_TxDoTheState_trace E spin fuel w e = some (w1, tr) ∧
        XHdcp1x_TxDoTheState E spin fuel w e = some w1 := by
  obtain ⟨w1, tr, hlen, hall⟩ := TxDoTheState_loopTrace_terminates E spin hrng hpos 3
    (XHdcp1x_TxDoTheState_switch E w e).2 (XHdcp1x_TxDoTheState_switch E w e).1
    (enterDepth_le_three _)
  refine ⟨w1, tr, hall 4 (le_refl _), hlen, fun fuel hf => ⟨hall fuel hf, ?_⟩⟩
  rw [← TxDoTheState_trace_fst]
  show (XHdcp1x_TxDoTheState_loopTrace E spin fuel _ _).map Prod.fst = _
  rw [hall fuel hf]
  rfl

/-- Witness for C22: CHECK dispatched in AUTHENTICATED when the link check
fails three times and the key read fails then; the dispatch makes 4
transitions. -/
theorem C22_TxDoTheState_fixed_point_within_4_witness :
    RngCompletes exampleEnvLinkLost 1 ∧ 0 < exampleEnvLinkLost.XHDCP1X_PORT_SIZE_KSVFIFO ∧
    ∃ w1 tr, XHdcp1x_TxDoTheState_trace exampleEnvLinkLost 1 4 (exampleInst .AUTHENTICATED)
        .CHECK = some (w1, tr) ∧
      tr = [.AUTHENTICATED, .LINKINTEGRITYCHECK, .DETERMINERXCAPABLE, .EXCHANGEKSVS] ∧
      tr.length ≤ 4 := by
  refine ⟨fun _ _ => ⟨0, by decide, rfl⟩, by decide, ?_⟩
  obtain ⟨w1, tr, h, hlen, -⟩ := C22_TxDoTheState_fixed_point_within_4 exampleEnvLinkLost 1
    (fun _ _ => ⟨0, by decide, rfl⟩) (by decide) (exampleInst .AUTHENTICATED) .CHECK
  have hs : (XHdcp1x_TxDoTheState_trace exampleEnvLinkLost 1 4 (exampleInst .AUTHENTICATED)
      .CHECK).map Prod.snd =
      some [.AUTHENTICATED, .LINKINTEGRITYCHECK, .DETERMINERXCAPABLE, .EXCHANGEKSVS] := by
    decide
  rw [h] at hs
  simp only [Option.map_some', Option.some.injEq] at hs
  exact ⟨w1, tr, h, hs, hlen⟩

/-! ### Failures of the key read and of the Ro validation -/

/-- C23, as amended.  When the 5-byte read of the remote key fails and the
read-failure counter is below 0xFFFFFFFF (so that the increment of the 32-bit
counter does not wrap), the key exchange returns with the read-failure counter
incremented by exactly 1, the read as its only collaborator call (no
random-number request, no write to the remote), every other field unchanged
(the state helper holds no new nonce), and UNAUTHENTICATED as proposed next
state; the loop of the transition driver then leaves EXCHANGE_KSVS for
UNAUTHENTICATED, with the read-failure counter one higher than before the
exchange and within 32 bits. -/
theorem C23_key_read_failure (E : Env) (spin : Nat) (w : XHdcp1x)
    (hread : E.PortRead w.Hist E.XHDCP1X_PORT_OFFSET_BKSV 5 = none)
    (hwrap : w.Tx.Stats.ReadFailures < 0xFFFFFFFF) :
    (∃ r, XHdcp1x_TxExchangeKsvs E spin w = some r ∧
      r =
        ({ IsHDMI := w.IsHDMI
           Tx := { w.Tx with
             Stats := { w.Tx.Stats with ReadFailures := w.Tx.Stats.ReadFailures + 1 } }
           Hist := Call.PortRead E.XHDCP1X_PORT_OFFSET_BKSV 5 :: w.Hist },
          .UNAUTHENTICATED) ∧
      r.1.Tx.Stats.ReadFailures ≤ 0xFFFFFFFF) ∧
    (w.Tx.CurrentState = .EXCHANGEKSVS →
      ∀ r, XHdcp1x_TxExchangeKsvs E spin w = some r →
        ∀ fuel, ∃ w2, XHdcp1x_TxDoTheState_loop E spin (fuel + 1) r.1 r.2 = some w2 ∧
          w2.Tx.CurrentState = .UNAUTHENTICATED ∧ w2.Tx.PreviousState = .EXCHANGEKSVS ∧
          w2.Tx.Stats.ReadFailures = w.Tx.Stats.ReadFailures + 1 ∧
          w2.Tx.Stats.ReadFailures ≤ 0xFFFFFFFF ∧
          w2.Tx.StateHelper = w.Tx.StateHelper) := by
  have h1 := TxExchangeKsvs_read_fail E spin w hread
  refine ⟨⟨_, h1, rfl, ?_⟩, fun hs r hr fuel => ?_⟩
  · show w.Tx.Stats.ReadFailures + 1 ≤ 0xFFFFFFFF
    omega
  · rw [h1] at hr
    cases hr
    have hle : w.Tx.Stats.ReadFailures + 1 ≤ 0xFFFFFFFF := by omega
    simp [XHdcp1x_TxDoTheState_loop, hs, XHdcp1x_TxExitState, XHdcp1x_TxEnterState,
      TxDoTheState_loop_fix, hle]

/-- Witness for C23: a receiver whose key register cannot be read. -/
theorem C23_key_read_failure_witness :
    exampleEnvLinkLost.PortRead (exampleInst .EXCHANGEKSVS).Hist
      exampleEnvLinkLost.XHDCP1X_PORT_OFFSET_BKSV 5 = none ∧
    (exampleInst .EXCHANGEKSVS).Tx.Stats.ReadFailures < 0xFFFFFFFF ∧
    ∃ r, XHdcp1x_TxExchangeKsvs exampleEnvLinkLost 1 (exampleInst .EXCHANGEKSVS) = some r ∧
      r =
        ({ IsHDMI := true
           Tx := { (exampleInst .EXCHANGEKSVS).Tx with Stats := ⟨0, 0, 0, 1, 0, 0⟩ }
           Hist := [Call.PortRead 0 5] },
          .UNAUTHENTICATED) ∧
      r.1.Tx.Stats.ReadFailures ≤ 0xFFFFFFFF :=
  ⟨rfl, by decide,
    (C23_key_read_failure exampleEnvLinkLost 1 (exampleInst .EXCHANGEKSVS) rfl (by decide)).1⟩

/-- C23, counterexample to the claim as stated: with a key register that
cannot be read, the key exchange proposes UNAUTHENTICATED, and the dispatch of
AUTHENTICATE in UNAUTHENTICATED passes through EXCHANGE_KSVS and ends in
UNAUTHENTICATED with previous state EXCHANGE_KSVS and one read failure. -/
theorem C23_counterexample_leaves_EXCHANGEKSVS :
    exampleEnvLinkLost.PortRead [] exampleEnvLinkLost.XHDCP1X_PORT_OFFSET_BKSV 5 = none ∧
    (XHdcp1x_TxExchangeKsvs exampleEnvLinkLost 1 (exampleInst .EXCHANGEKSVS)).map Prod.snd =
      some .UNAUTHENTICATED ∧
    (XHdcp1x_TxExchangeKsvs exampleEnvLinkLost 1 (exampleInst .EXCHANGEKSVS)).map Prod.snd ≠
      some .EXCHANGEKSVS ∧
    (XHdcp1x_TxDoTheState exampleEnvLinkLost 1 3 (exampleInst .UNAUTHENTICATED)
        .AUTHENTICATE).map
      (fun r => (r.Tx.CurrentState, r.Tx.PreviousState, r.Tx.Stats.ReadFailures)) =
      some (.UNAUTHENTICATED, .EXCHANGEKSVS, 1) := by
  refine ⟨by decide, by decide, by decide, by decide⟩

/-- C24, evaluation at the failing input: the first two attempts of the Ro
validation fail by a mismatch and the third by a read failure; the validation
proposes UNAUTHENTICATED after 3 reads with one read failure counted and the
auth-failed counter still zero, whereas the link-integrity check on the same
receiver counts its failure. -/
theorem C24_read_failure_on_last_attempt_not_counted :
    (XHdcp1x_TxValidateRx exampleEnvThirdReadFails (exampleInst .VALIDATERX)).2 =
      .UNAUTHENTICATED ∧
    numRoReads exampleEnvThirdReadFails
      (XHdcp1x_TxValidateRx exampleEnvThirdReadFails (exampleInst .VALIDATERX)).1.Hist = 3 ∧
    (XHdcp1x_TxValidateRx exampleEnvThirdReadFails
      (exampleInst .VALIDATERX)).1.Tx.Stats.ReadFailures = 1 ∧
    (XHdcp1x_TxValidateRx exampleEnvThirdReadFails
      (exampleInst .VALIDATERX)).1.Tx.Stats.AuthFailed = 0 ∧
    (XHdcp1x_TxCheckLinkIntegrity exampleEnvThirdReadFails
      (exampleInst .LINKINTEGRITYCHECK)).1.Tx.Stats.LinkCheckFailed = 1 := by
  refine ⟨by decide, by decide, by decide, by decide, by decide⟩

/-! ### The nonce -/

theorem land_0FFFFFFF (x : Nat) : x &&& 0x0FFFFFFF = x % 2 ^ 28 := by
  have h : (0x0FFFFFFF : Nat) = 2 ^ 28 - 1 := by norm_num
  rw [h, Nat.and_pow_two_sub_one_eq_mod]

theorem land_FF (x : Nat) : x &&& 0x000000FF = x % 2 ^ 8 := by
  have h : (0x000000FF : Nat) = 2 ^ 8 - 1 := by norm_num
  rw [h, Nat.and_pow_two_sub_one_eq_mod]

theorem lor_shl8 (z : Nat) (hz : z < 2 ^ 8) : z ||| (1 <<< 8) = 2 ^ 8 + z := by
  have h := Nat.mul_add_lt_is_or hz 1
  rw [Nat.mul_one] at h
  rw [h, Nat.one_shiftLeft, Nat.lor_comm]

/-- C26.  For every nonce `A` below `2^64` held in the state helper,
`XHdcp1x_TxStartComputations` loads the cipher with `X = A mod 2^28`,
`Y = (A / 2^28) mod 2^28` and `Z = A / 2^56`, plus `2^8` when the repeater flag
is set, and then requests the block computation; so `Z mod 2^8 = A / 2^56`, bit
8 of `Z` is set exactly when the repeater flag is set, no higher bit of `Z` is
set, and `X + Y * 2^28 + (Z mod 2^8) * 2^56 = A`. -/
theorem C26_TxStartComputations_nonce_split (w : XHdcp1x)
    (hA : w.Tx.StateHelper < 2 ^ 64) :
    ∃ X Y Z, (XHdcp1x_TxStartComputations w).Hist =
        Call.CipherDoRequest .BLOCK :: Call.CipherSetB X Y Z :: w.Hist ∧
      X = w.Tx.StateHelper % 2 ^ 28 ∧
      Y = (w.Tx.StateHelper / 2 ^ 28) % 2 ^ 28 ∧
      Z = w.Tx.StateHelper / 2 ^ 56 +
        (if w.Tx.Flags &&& XVPHY_FLAG_IS_REPEATER ≠ 0 then 2 ^ 8 else 0) ∧
      Z % 2 ^ 8 = w.Tx.StateHelper / 2 ^ 56 ∧
      (Z.testBit 8 = true ↔ w.Tx.Flags &&& XVPHY_FLAG_IS_REPEATER ≠ 0) ∧
      (∀ i, 8 < i → Z.testBit i = false) ∧
      X + Y * 2 ^ 28 + (Z % 2 ^ 8) * 2 ^ 56 = w.Tx.StateHelper := by
  have hz : w.Tx.StateHelper / 2 ^ 56 < 2 ^ 8 := by
    rw [Nat.div_lt_iff_lt_mul (by positivity)]
    calc w.Tx.StateHelper < 2 ^ 64 := hA
      _ = 2 ^ 8 * 2 ^ 56 := by norm_num
  have hZ0 : ((w.Tx.StateHelper % 2 ^ 64) >>> 28 >>> 28 &&& 0x000000FF) % 2 ^ 32 =
      w.Tx.StateHelper / 2 ^ 56 := by
    rw [Nat.mod_eq_of_lt hA, land_FF, ← Nat.shiftRight_add, Nat.shiftRight_eq_div_pow,
      Nat.mod_eq_of_lt hz, Nat.mod_eq_of_lt (lt_trans hz (by norm_num))]
  have hX : ((w.Tx.StateHelper % 2 ^ 64) &&& 0x0FFFFFFF) % 2 ^ 32 =
      w.Tx.StateHelper % 2 ^ 28 := by
    rw [Nat.mod_eq_of_lt hA, land_0FFFFFFF]
    exact Nat.mod_eq_of_lt (lt_trans (Nat.mod_lt _ (by positivity)) (by norm_num))
  have hY : ((w.Tx.StateHelper % 2 ^ 64) >>> 28 &&& 0x0FFFFFFF) % 2 ^ 32 =
      (w.Tx.StateHelper / 2 ^ 28) % 2 ^ 28 := by
    rw [Nat.mod_eq_of_lt hA, land_0FFFFFFF, Nat.shiftRight_eq_div_pow]
    exact Nat.mod_eq_of_lt (lt_trans (Nat.mod_lt _ (by positivity)) (by norm_num))
  have hZ : (if w.Tx.Flags &&& XVPHY_FLAG_IS_REPEATER ≠ 0 then
        (((w.Tx.StateHelper % 2 ^ 64) >>> 28 >>> 28 &&& 0x000000FF) % 2 ^ 32 |||
          (1 <<< 8)) % 2 ^ 32
      else ((w.Tx.StateHelper % 2 ^ 64) >>> 28 >>> 28 &&& 0x000000FF) % 2 ^ 32) =
      w.Tx.StateHelper / 2 ^ 56 +
        (if w.Tx.Flags &&& XVPHY_FLAG_IS_REPEATER ≠ 0 then 2 ^ 8 else 0) := by
    rw [hZ0]
    split
    · rw [lor_shl8 _ hz, Nat.add_comm]
      exact Nat.mod_eq_of_lt (by omega)
    · rfl
  have hsplit : w.Tx.StateHelper % 2 ^ 28 + (w.Tx.StateHelper / 2 ^ 28) % 2 ^ 28 * 2 ^ 28 +
      w.Tx.StateHelper / 2 ^ 56 * 2 ^ 56 = w.Tx.StateHelper := by
    have h1 := Nat.div_add_mod w.Tx.StateHelper (2 ^ 28)
    have h2 := Nat.div_add_mod (w.Tx.StateHelper / 2 ^ 28) (2 ^ 28)
    have h3 : w.Tx.StateHelper / 2 ^ 28 / 2 ^ 28 = w.Tx.StateHelper / 2 ^ 56 := by
      rw [Nat.div_div_eq_div_mul, ← Nat.pow_add]
    rw [h3] at h2
    omega
  have hmod : (w.Tx.StateHelper / 2 ^ 56 +
      (if w.Tx.Flags &&& XVPHY_FLAG_IS_REPEATER ≠ 0 then 2 ^ 8 else 0)) % 2 ^ 8 =
      w.Tx.StateHelper / 2 ^ 56 := by
    split
    · rw [Nat.add_mod_right]; exact Nat.mod_eq_of_lt hz
    · exact Nat.mod_eq_of_lt hz
  refine ⟨w.Tx.StateHelper % 2 ^ 28, (w.Tx.StateHelper / 2 ^ 28) % 2 ^ 28,
    w.Tx.StateHelper / 2 ^ 56 +
      (if w.Tx.Flags &&& XVPHY_FLAG_IS_REPEATER ≠ 0 then 2 ^ 8 else 0),
    ?_, rfl, rfl, rfl, hmod, ?_, ?_, ?_⟩
  · unfold XHdcp1x_TxStartComputations
    simp only [call_Hist]
    rw [hX, hY, hZ]
  · split
    · rename_i hr
      rw [Nat.add_comm, Nat.testBit_two_pow_add_eq, Nat.testBit_lt_two_pow hz]
      simp [hr]
    · rename_i hr
      rw [Nat.add_zero, Nat.testBit_lt_two_pow hz]
      simp [hr]
  · intro i hi
    apply Nat.testBit_lt_two_pow
    have h9 : w.Tx.StateHelper / 2 ^ 56 +
        (if w.Tx.Flags &&& XVPHY_FLAG_IS_REPEATER ≠ 0 then 2 ^ 8 else 0) < 2 ^ 9 := by
      split <;> omega
    exact lt_of_lt_of_le h9 (Nat.pow_le_pow_right (by norm_num) hi)
  · rw [hmod]; exact hsplit

/-- Witness for C26: the nonce of the example environment, on a session whose
repeater flag is set. -/
theorem C26_TxStartComputations_nonce_split_witness :
    ({ exampleInstRepeater with
        Tx := { exampleInstRepeater.Tx with StateHelper := 0x0123456789ABCDEF } } :
      XHdcp1x).Tx.StateHelper < 2 ^ 64 ∧
    ∃ X Y Z, (XHdcp1x_TxStartComputations { exampleInstRepeater with
        Tx := { exampleInstRepeater.Tx with StateHelper := 0x0123456789ABCDEF } }).Hist =
        [Call.CipherDoRequest .BLOCK, Call.CipherSetB X Y Z] ∧
      X = 0x789ABCDEF % 2 ^ 28 ∧ Z = 0x101 := by
  refine ⟨by decide, ?_⟩
  obtain ⟨X, Y, Z, h1, h2, -, h4, -⟩ := C26_TxStartComputations_nonce_split
    { exampleInstRepeater with
      Tx := { exampleInstRepeater.Tx with StateHelper := 0x0123456789ABCDEF } } (by decide)
  exact ⟨X, Y, Z, h1, h2.trans (by decide), h4.trans (by decide)⟩

theorem TxGenerateAn_value (E : Env) (spin : Nat) (w : XHdcp1x) (r : XHdcp1x × Nat)
    (h : XHdcp1x_TxGenerateAn E spin w = some r) :
    (E.CipherDoRequest w.Hist .RNG ≠ E.XST_SUCCESS →
      r.2 = 0x351F7175406A74D ∧ r.1.Hist = Call.CipherDoRequest .RNG :: w.Hist) ∧
    (E.CipherDoRequest w.Hist .RNG = E.XST_SUCCESS →
      ∃ h1, r.1.Hist = Call.CipherGetMi :: h1 ∧
        r.2 = if E.CipherGetMi h1 % 2 ^ 64 = 0 then 0x351F7175406A74D
          else E.CipherGetMi h1 % 2 ^ 64) := by
  unfold XHdcp1x_TxGenerateAn at h
  dsimp only at h
  split at h
  · rename_i hs
    split at h
    · cases h
    · rename_i w2 hw
      cases h
      exact ⟨fun hn => absurd hs hn, fun _ => ⟨w2.Hist, rfl, rfl⟩⟩
  · rename_i hs
    cases h
    exact ⟨fun _ => ⟨rfl, rfl⟩, fun hn => absurd hn hs⟩

theorem TxDoTheState_loopTrace_nonce (E : Env) (spin : Nat) :
    ∀ fuel w ns w1 tr,
      (ns = .COMPUTATIONS → w.Tx.CurrentState = .COMPUTATIONS ∨
        (w.Tx.CurrentState = .EXCHANGEKSVS ∧ w.Tx.StateHelper ≠ 0)) →
      XHdcp1x_TxDoTheState_loopTrace E spin fuel w ns = some (w1, tr) →
      (tr = [] → w1 = w) ∧
      (tr ≠ [] → w1.Tx.CurrentState = .COMPUTATIONS → w1.Tx.StateHelper ≠ 0) := by
  refine TxDoTheState_loopTrace_induct E spin
    (fun w ns => ns = .COMPUTATIONS → w.Tx.CurrentState = .COMPUTATIONS ∨
        (w.Tx.CurrentState = .EXCHANGEKSVS ∧ w.Tx.StateHelper ≠ 0))
    (fun w _ w1 tr => (tr = [] → w1 = w) ∧
      (tr ≠ [] → w1.Tx.CurrentState = .COMPUTATIONS → w1.Tx.StateHelper ≠ 0))
    ?_ ?_
  · intro w
    exact ⟨fun _ => rfl, fun h => absurd rfl h⟩
  · intro w ns r w1 tr hI hne hr
    obtain ⟨⟨-, hcur, -, -⟩, -, h3, h4⟩ := TxEnterState_analysis E spin _ ns r hr
    obtain ⟨-, hb2, -, -, hb5⟩ := beforeEntry_frame w ns
    refine ⟨fun hc => ?_, fun hQ => ⟨fun h => List.noConfusion h, fun _ hcomp => ?_⟩⟩
    · rcases h3 hc with h | ⟨h, hh⟩
      · exact Or.inl (by rw [hcur, hb2, h])
      · exact Or.inr ⟨by rw [hcur, hb2, h], hh⟩
    · cases tr with
      | nil =>
        have hw := hQ.1 rfl
        subst hw
        have hns : ns = .COMPUTATIONS := by rw [← hb2, ← hcur]; exact hcomp
        rcases hI hns with h | ⟨h, hh⟩
        · exact absurd (h.trans hns.symm) hne
        · rw [h4 hns, hb5 h]; exact hh
      | cons a t => exact hQ.2 (by simp) hcomp

/-- C25.  When every accepted random-number request completes within the poll
budget: `XHdcp1x_TxGenerateAn` returns, and the value it returns is nonzero and
below `2^64`; it is the constant 0x351F7175406A74D when the request is refused,
and otherwise the value read from the cipher, replaced by that constant when it
is zero.  The key exchange proposes COMPUTATIONS only with a nonzero state
helper, and whenever a dispatch has made a transition and ends in COMPUTATIONS
the state helper is nonzero. -/
theorem C25_nonce_never_zero (E : Env) (spin : Nat) (hrng : RngCompletes E spin) :
    (0x351F7175406A74D : Nat) ≠ 0 ∧
    (∀ w, ∃ w1 An, XHdcp1x_TxGenerateAn E spin w = some (w1, An) ∧
      An ≠ 0 ∧ An < 2 ^ 64 ∧
      (E.CipherDoRequest w.Hist .RNG ≠ E.XST_SUCCESS → An = 0x351F7175406A74D) ∧
      (E.CipherDoRequest w.Hist .RNG = E.XST_SUCCESS →
        ∃ h1, w1.Hist = Call.CipherGetMi :: h1 ∧
          An = if E.CipherGetMi h1 % 2 ^ 64 = 0 then 0x351F7175406A74D
            else E.CipherGetMi h1 % 2 ^ 64)) ∧
    (∀ w r, XHdcp1x_TxExchangeKsvs E spin w = some r → r.2 = .COMPUTATIONS →
      r.1.Tx.StateHelper ≠ 0) ∧
    (∀ fuel w e w1 tr, XHdcp1x_TxDoTheState_trace E spin fuel w e = some (w1, tr) →
      tr ≠ [] → w1.Tx.CurrentState = .COMPUTATIONS → w1.Tx.StateHelper ≠ 0) := by
  refine ⟨by norm_num, fun w => ?_, fun w r h hc => ?_, fun fuel w e w1 tr h hne hc => ?_⟩
  · cases hg : XHdcp1x_TxGenerateAn E spin w with
    | none => exact absurd hg (TxGenerateAn_ne_none E spin w hrng)
    | some r =>
      obtain ⟨-, -, h3, h4⟩ := TxGenerateAn_frame E spin w r.1 r.2 hg
      obtain ⟨h5, h6⟩ := TxGenerateAn_value E spin w r hg
      exact ⟨r.1, r.2, rfl, h3, h4, fun hn => (h5 hn).1, h6⟩
  · exact ((TxFrame_ExchangeKsvs E spin w r h).2.2 hc).1
  · obtain ⟨hf, hcomp⟩ := TxDoTheState_switch_analysis E w e
    refine (TxDoTheState_loopTrace_nonce E spin fuel _ _ w1 tr (fun hns => ?_) h).2 hne hc
    exact Or.inl (by rw [hf.2.1]; exact hcomp hns)

/-- Witness for C25: the example environment, whose cipher delivers the value
0x0123456789ABCDEF. -/
theorem C25_nonce_never_zero_witness :
    RngCompletes exampleEnv 1 ∧
    ∃ w1 An, XHdcp1x_TxGenerateAn exampleEnv 1 (exampleInst .EXCHANGEKSVS) = some (w1, An) ∧
      An ≠ 0 ∧ An = 0x0123456789ABCDEF := by
  refine ⟨fun _ _ => ⟨0, by decide, rfl⟩, ?_⟩
  obtain ⟨w1, An, h1, h2, -, -, h5⟩ :=
    (C25_nonce_never_zero exampleEnv 1 (fun _ _ => ⟨0, by decide, rfl⟩)).2.1
      (exampleInst .EXCHANGEKSVS)
  obtain ⟨h', -, h7⟩ := h5 rfl
  exact ⟨w1, An, h1, h2, h7.trans rfl⟩

/-! ### The counters -/

theorem TxDoTheState_loopTrace_stats (E : Env) (spin : Nat) :
    ∀ fuel w ns w1 tr, (w.Tx.CurrentState = .DISABLED → ns = .DISABLED) →
      XHdcp1x_TxDoTheState_loopTrace E spin fuel w ns = some (w1, tr) →
      StatsLe w.Tx.Stats w1.Tx.Stats := by
  refine TxDoTheState_loopTrace_induct E spin
    (fun w ns => w.Tx.CurrentState = .DISABLED → ns = .DISABLED)
    (fun w _ w1 _ => StatsLe w.Tx.Stats w1.Tx.Stats) ?_ ?_
  · intro w; exact StatsLe_refl _
  · intro w ns r w1 tr hI hne hr
    obtain ⟨⟨-, hcur, -, hst⟩, h2, -, -⟩ := TxEnterState_analysis E spin _ ns r hr
    obtain ⟨-, hb2, -, hb4, -⟩ := beforeEntry_frame w ns
    have hnd : w.Tx.CurrentState ≠ .DISABLED := fun h => hne (h.trans (hI h).symm)
    refine ⟨fun hc => ?_, fun hQ => ?_⟩
    · have hns : ns = .DISABLED := by rw [← hb2, ← hcur]; exact hc
      rcases h2 with h | h
      · exact h.trans hns
      · rw [hns] at h; exact absurd h (by simp [enterDepth])
    · rw [hb4 hnd] at hst
      exact StatsLe_trans hst hQ

theorem dispatch_ENABLE_from_DISABLED_stats (E : Env) (spin fuel : Nat) (w w1 : XHdcp1x)
    (hs : w.Tx.CurrentState = .DISABLED)
    (h : XHdcp1x_TxDoTheState E spin fuel w .ENABLE = some w1) :
    w1.Tx.CurrentState ≠ .DISABLED ∧ w1.Tx.Stats = ⟨0, 0, 0, 0, 0, 0⟩ := by
  cases fuel with
  | zero =>
    by_cases hf : w.Tx.Flags &&& XVPHY_FLAG_PHY_UP = 0 <;>
    simp [XHdcp1x_TxDoTheState, XHdcp1x_TxDoTheState_switch, hs, hf,
      XHdcp1x_TxRunDisabledState, XHdcp1x_TxDoTheState_loop] at h
  | succ k =>
    by_cases hf : w.Tx.Flags &&& XVPHY_FLAG_PHY_UP = 0 <;>
    simp [XHdcp1x_TxDoTheState, XHdcp1x_TxDoTheState_switch, hs, hf,
      XHdcp1x_TxRunDisabledState, XHdcp1x_TxDoTheState_loop, XHdcp1x_TxExitState,
      XHdcp1x_TxEnterState, XHdcp1x_TxEnableState, TxDoTheState_loop_fix] at h <;>
    subst h <;> simp

/-- C27.  Whenever the dispatch of an event returns: if the state before was
not DISABLED, no counter is smaller afterwards than before; if the state before
was DISABLED, then either the state is still DISABLED and the counters are
unchanged, or the event was ENABLE, the state is no longer DISABLED and all
counters are zero.  The counters are unbounded naturals, so no increment
wraps. -/
theorem C27_counters_monotone (E : Env) (spin fuel : Nat) (w : XHdcp1x)
    (e : XHdcp1x_EventType) (w1 : XHdcp1x)
    (h : XHdcp1x_TxDoTheState E spin fuel w e = some w1) :
    (w.Tx.CurrentState ≠ .DISABLED → StatsLe w.Tx.Stats w1.Tx.Stats) ∧
    (w.Tx.CurrentState = .DISABLED →
      (w1.Tx.CurrentState = .DISABLED ∧ w1.Tx.Stats = w.Tx.Stats) ∨
      (e = .ENABLE ∧ w1.Tx.CurrentState ≠ .DISABLED ∧ w1.Tx.Stats = ⟨0, 0, 0, 0, 0, 0⟩)) := by
  constructor
  · intro hnd
    have hfst := TxDoTheState_trace_fst E spin fuel w e
    rw [h] at hfst
    cases ht : XHdcp1x_TxDoTheState_trace E spin fuel w e with
    | none => rw [ht] at hfst; cases hfst
    | some p =>
      rw [ht] at hfst
      simp only [Option.map_some', Option.some.injEq] at hfst
      obtain ⟨⟨-, hc, -, hst⟩, -⟩ := TxDoTheState_switch_analysis E w e
      have := TxDoTheState_loopTrace_stats E spin fuel _ _ p.1 p.2
        (fun hd => absurd (hc.symm.trans hd) hnd) ht
      rw [hfst] at this
      exact StatsLe_trans hst this
  · intro hs
    by_cases he : e = .ENABLE
    · subst he
      exact Or.inr ⟨rfl, dispatch_ENABLE_from_DISABLED_stats E spin fuel w w1 hs h⟩
    · obtain ⟨h1, h2, h3⟩ := TxDoTheState_switch_DISABLED E w e hs he
      unfold XHdcp1x_TxDoTheState at h
      dsimp only at h
      rw [TxDoTheState_loop_fix E spin fuel _ _ (h3.trans h1.symm)] at h
      cases h
      exact Or.inl ⟨h3, h2⟩

/-- Witness for C27: CHECK dispatched in AUTHENTICATED with a matching link
check value, which counts one passed link check. -/
theorem C27_counters_monotone_witness :
    ∃ w1, XHdcp1x_TxDoTheState exampleEnv 1 2 (exampleInst .AUTHENTICATED) .CHECK = some w1 ∧
      StatsLe (exampleInst .AUTHENTICATED).Tx.Stats w1.Tx.Stats ∧
      w1.Tx.Stats.LinkCheckPassed = 1 := by
  have hs : (XHdcp1x_TxDoTheState exampleEnv 1 2 (exampleInst .AUTHENTICATED) .CHECK).map
      (fun r => r.Tx.Stats.LinkCheckPassed) = some 1 := by decide
  cases hx : XHdcp1x_TxDoTheState exampleEnv 1 2 (exampleInst .AUTHENTICATED) .CHECK with
  | none => rw [hx] at hs; cases hs
  | some w1 =>
    rw [hx] at hs
    simp only [Option.map_some', Option.some.injEq] at hs
    exact ⟨w1, rfl, (C27_counters_monotone exampleEnv 1 2 (exampleInst .AUTHENTICATED)
      .CHECK w1 hx).1 (by decide), hs⟩

/-! ### The stream map and the status queries -/

theorem not64_testBit (m i : Nat) (hm : m < 2 ^ 64) :
    (not64 m).testBit i = (decide (i < 64) && !m.testBit i) := by
  unfold not64
  have h2 : (0xFFFFFFFFFFFFFFFF : Nat) = 2 ^ 64 - 1 := by norm_num
  rw [Nat.mod_eq_of_lt hm, Nat.testBit_xor, h2, Nat.testBit_two_pow_sub_one]
  by_cases h64 : i < 64
  · cases m.testBit i <;> simp [h64]
  · have : m.testBit i = false :=
      Nat.testBit_eq_false_of_lt (lt_of_lt_of_le hm (Nat.pow_le_pow_right (by norm_num)
        (by omega)))
    simp [h64, this]

/-- C28.  For every state and every stream map `m` (both maps below `2^64`),
`XHdcp1x_TxEnableEncryption` returns success and sets the requested-encryption
map to the old map OR `m`, which `XHdcp1x_TxGetEncryption` then returns.  When
the current state is neither AUTHENTICATED nor LINK_INTEGRITY_CHECK nothing
else changes and no collaborator call is made; in those two states the rest is
the work of `XHdcp1x_TxEnableEncryptionState` on the updated instance. -/
theorem C28_TxEnableEncryption (E : Env) (w : XHdcp1x) (m : Nat)
    (hold : w.Tx.EncryptionMap < 2 ^ 64) (hm : m < 2 ^ 64) :
    (XHdcp1x_TxEnableEncryption E w m).2 = E.XST_SUCCESS ∧
    (XHdcp1x_TxEnableEncryption E w m).1.Tx.EncryptionMap = w.Tx.EncryptionMap ||| m ∧
    XHdcp1x_TxGetEncryption (XHdcp1x_TxEnableEncryption E w m).1 = w.Tx.EncryptionMap ||| m ∧
    (XHdcp1x_TxIsAuthenticated w = true ↔
      (w.Tx.CurrentState = .AUTHENTICATED ∨ w.Tx.CurrentState = .LINKINTEGRITYCHECK)) ∧
    (¬ (w.Tx.CurrentState = .AUTHENTICATED ∨ w.Tx.CurrentState = .LINKINTEGRITYCHECK) →
      (XHdcp1x_TxEnableEncryption E w m).1 =
        { w with Tx := { w.Tx with EncryptionMap := w.Tx.EncryptionMap ||| m } }) ∧
    ((w.Tx.CurrentState = .AUTHENTICATED ∨ w.Tx.CurrentState = .LINKINTEGRITYCHECK) →
      (XHdcp1x_TxEnableEncryption E w m).1 =
        XHdcp1x_TxEnableEncryptionState E
          { w with Tx := { w.Tx with EncryptionMap := w.Tx.EncryptionMap ||| m } }) := by
  have hor : (w.Tx.EncryptionMap ||| m % 2 ^ 64) % 2 ^ 64 = w.Tx.EncryptionMap ||| m := by
    rw [Nat.mod_eq_of_lt hm]
    exact Nat.mod_eq_of_lt (Nat.or_lt_two_pow hold hm)
  have hauth : XHdcp1x_TxIsAuthenticated w = true ↔
      (w.Tx.CurrentState = .AUTHENTICATED ∨ w.Tx.CurrentState = .LINKINTEGRITYCHECK) := by
    unfold XHdcp1x_TxIsAuthenticated
    cases w.Tx.CurrentState <;> simp
  unfold XHdcp1x_TxEnableEncryption XHdcp1x_TxGetEncryption
  simp only [hor, XHdcp1x.setTx]
  have hauth2 : XHdcp1x_TxIsAuthenticated
      { w with Tx := { w.Tx with EncryptionMap := w.Tx.EncryptionMap ||| m } } =
      XHdcp1x_TxIsAuthenticated w := rfl
  rw [hauth2]
  by_cases ha : XHdcp1x_TxIsAuthenticated w = true
  · have hs := hauth.mp ha
    simp [ha, hs, hauth]
  · have hs : ¬ (w.Tx.CurrentState = .AUTHENTICATED ∨
        w.Tx.CurrentState = .LINKINTEGRITYCHECK) := fun h => ha (hauth.mpr h)
    simp [ha, hs, hauth]

/-- Witness for C28: stream 1 requested on an unauthenticated session. -/
theorem C28_TxEnableEncryption_witness :
    (exampleInst .UNAUTHENTICATED).Tx.EncryptionMap < 2 ^ 64 ∧ (2 : Nat) < 2 ^ 64 ∧
    XHdcp1x_TxGetEncryption
      (XHdcp1x_TxEnableEncryption exampleEnv (exampleInst .UNAUTHENTICATED) 2).1 = 2 ∧
    (XHdcp1x_TxEnableEncryption exampleEnv (exampleInst .UNAUTHENTICATED) 2).1.Hist = [] := by
  obtain ⟨-, -, h3, -, h5, -⟩ := C28_TxEnableEncryption exampleEnv
    (exampleInst .UNAUTHENTICATED) 2 (by decide) (by decide)
  refine ⟨by decide, by decide, h3.trans (by decide), ?_⟩
  rw [h5 (by decide)]
  rfl

/-- C29.  For all stream maps below `2^64`, `XHdcp1x_TxDisableEncryption`
issues the cipher's disable call and returns its status.  When that status is
success, the requested-encryption map becomes the old map AND NOT `m` (bit `i`
is set afterwards exactly when it was set before and is not set in `m`) and
nothing else changes; otherwise the map is unchanged as is every other
field. -/
theorem C29_TxDisableEncryption (E : Env) (w : XHdcp1x) (m : Nat)
    (hold : w.Tx.EncryptionMap < 2 ^ 64) (hm : m < 2 ^ 64) :
    (XHdcp1x_TxDisableEncryption E w m).2 = E.CipherDisableEncryption w.Hist m ∧
    (XHdcp1x_TxDisableEncryption E w m).1.Hist = Call.CipherDisableEncryption m :: w.Hist ∧
    (XHdcp1x_TxDisableEncryption E w m).1.IsHDMI = w.IsHDMI ∧
    (E.CipherDisableEncryption w.Hist m = E.XST_SUCCESS →
      (XHdcp1x_TxDisableEncryption E w m).2 = E.XST_SUCCESS ∧
      (XHdcp1x_TxDisableEncryption E w m).1.Tx =
        { w.Tx with EncryptionMap := (XHdcp1x_TxDisableEncryption E w m).1.Tx.EncryptionMap } ∧
      (∀ i, (XHdcp1x_TxDisableEncryption E w m).1.Tx.EncryptionMap.testBit i =
        (w.Tx.EncryptionMap.testBit i && !m.testBit i))) ∧
    (E.CipherDisableEncryption w.Hist m ≠ E.XST_SUCCESS →
      (XHdcp1x_TxDisableEncryption E w m).2 ≠ E.XST_SUCCESS ∧
      (XHdcp1x_TxDisableEncryption E w m).1.Tx = w.Tx) := by
  have hmm : m % 2 ^ 64 = m := Nat.mod_eq_of_lt hm
  by_cases hs : E.CipherDisableEncryption w.Hist m = E.XST_SUCCESS
  · have hres : XHdcp1x_TxDisableEncryption E w m =
        ((w.call (.CipherDisableEncryption m)).setTx { w.Tx with
          EncryptionMap := (w.Tx.EncryptionMap &&& not64 m) % 2 ^ 64 },
          E.CipherDisableEncryption w.Hist m) := by
      unfold XHdcp1x_TxDisableEncryption
      simp only [hmm, if_pos hs, call_Tx]
    rw [hres]
    refine ⟨rfl, rfl, rfl, fun _ => ⟨hs, rfl, fun i => ?_⟩, fun hn => absurd hs hn⟩
    simp only [setTx_Tx]
    rw [Nat.testBit_mod_two_pow, Nat.testBit_and, not64_testBit m i hm]
    by_cases h64 : i < 64
    · simp [h64]
    · have : w.Tx.EncryptionMap.testBit i = false :=
        Nat.testBit_eq_false_of_lt (lt_of_lt_of_le hold (Nat.pow_le_pow_right (by norm_num)
          (by omega)))
      simp [h64, this]
  · have hres : XHdcp1x_TxDisableEncryption E w m =
        (w.call (.CipherDisableEncryption m), E.CipherDisableEncryption w.Hist m) := by
      unfold XHdcp1x_TxDisableEncryption
      simp only [hmm, if_neg hs]
    rw [hres]
    exact ⟨rfl, rfl, rfl, fun h => absurd h hs, fun _ => ⟨hs, rfl⟩⟩

/-- Witness for C29: a cipher that refuses the call; the map keeps its
value. -/
theorem C29_TxDisableEncryption_witness :
    exampleInstParked.Tx.EncryptionMap < 2 ^ 64 ∧ (1 : Nat) < 2 ^ 64 ∧
    (XHdcp1x_TxDisableEncryption exampleEnvDisableRefused exampleInstParked 1).2 = 1 ∧
    (XHdcp1x_TxDisableEncryption exampleEnvDisableRefused exampleInstParked 1).1.Tx =
      exampleInstParked.Tx := by
  obtain ⟨h1, -, -, -, h5⟩ := C29_TxDisableEncryption exampleEnvDisableRefused
    exampleInstParked 1 (by decide) (by decide)
  exact ⟨by decide, by decide, h1, (h5 (by decide)).2⟩

/-- C30.  `XHdcp1x_TxIsAuthenticated` answers true exactly in AUTHENTICATED and
LINK_INTEGRITY_CHECK; `XHdcp1x_TxIsInProgress` answers false exactly in
DISABLED, UNAUTHENTICATED, AUTHENTICATED and LINK_INTEGRITY_CHECK, and so true
in the eight other states, PHY_DOWN among them; they are never true together.
Both are functions of the current state alone and return nothing but the
answer. -/
theorem C30_status_queries (w : XHdcp1x) :
    (XHdcp1x_TxIsAuthenticated w = true ↔
      (w.Tx.CurrentState = .AUTHENTICATED ∨ w.Tx.CurrentState = .LINKINTEGRITYCHECK)) ∧
    (XHdcp1x_TxIsInProgress w = false ↔
      (w.Tx.CurrentState = .DISABLED ∨ w.Tx.CurrentState = .UNAUTHENTICATED ∨
        w.Tx.CurrentState = .AUTHENTICATED ∨ w.Tx.CurrentState = .LINKINTEGRITYCHECK)) ∧
    (XHdcp1x_TxIsInProgress w = true ↔
      (w.Tx.CurrentState = .DETERMINERXCAPABLE ∨ w.Tx.CurrentState = .EXCHANGEKSVS ∨
        w.Tx.CurrentState = .COMPUTATIONS ∨ w.Tx.CurrentState = .VALIDATERX ∨
        w.Tx.CurrentState = .TESTFORREPEATER ∨ w.Tx.CurrentState = .WAITFORREADY ∨
        w.Tx.CurrentState = .READKSVLIST ∨ w.Tx.CurrentState = .PHYDOWN)) ∧
    ¬ (XHdcp1x_TxIsAuthenticated w = true ∧ XHdcp1x_TxIsInProgress w = true) ∧
    (∀ v : XHdcp1x, v.Tx.CurrentState = w.Tx.CurrentState →
      XHdcp1x_TxIsAuthenticated v = XHdcp1x_TxIsAuthenticated w ∧
      XHdcp1x_TxIsInProgress v = XHdcp1x_TxIsInProgress w) := by
  refine ⟨?_, ?_, ?_, ?_, ?_⟩
  · unfold XHdcp1x_TxIsAuthenticated
    cases w.Tx.CurrentState <;> simp
  · unfold XHdcp1x_TxIsInProgress
    cases w.Tx.CurrentState <;> simp
  · unfold XHdcp1x_TxIsInProgress
    cases w.Tx.CurrentState <;> simp
  · unfold XHdcp1x_TxIsAuthenticated XHdcp1x_TxIsInProgress
    cases w.Tx.CurrentState <;> simp
  · intro v hv
    unfold XHdcp1x_TxIsAuthenticated XHdcp1x_TxIsInProgress
    rw [hv]
    exact ⟨rfl, rfl⟩

/-! ### Realization of the requested encryption -/

/-- C34.  `XHdcp1x_TxEnableEncryptionState` makes no call when the requested
map is zero; otherwise it queries the active map of the cipher, and when that
differs from the requested map it waits the settle delay of 5 ms and then asks
the cipher to enable exactly the requested map, and when it equals the
requested map it does nothing more.  `XHdcp1x_TxDisableEncryptionState` queries
the active map, and when that is nonzero it asks the cipher to disable the
all-ones map and then waits 5 ms, and when it is zero it does nothing more.
Neither changes a field of the transmitter, the requested map among them. -/
theorem C34_encryption_realization (E : Env) (w : XHdcp1x) :
    (w.Tx.EncryptionMap = 0 → XHdcp1x_TxEnableEncryptionState E w = w) ∧
    (w.Tx.EncryptionMap ≠ 0 → E.CipherGetEncryption w.Hist % 2 ^ 64 ≠ w.Tx.EncryptionMap →
      (XHdcp1x_TxEnableEncryptionState E w).Hist =
        Call.CipherEnableEncryption w.Tx.EncryptionMap :: Call.PlatformTimerBusy 5 ::
          Call.CipherGetEncryption :: w.Hist) ∧
    (w.Tx.EncryptionMap ≠ 0 → E.CipherGetEncryption w.Hist % 2 ^ 64 = w.Tx.EncryptionMap →
      (XHdcp1x_TxEnableEncryptionState E w).Hist = Call.CipherGetEncryption :: w.Hist) ∧
    (E.CipherGetEncryption w.Hist % 2 ^ 64 ≠ 0 →
      (XHdcp1x_TxDisableEncryptionState E w).Hist =
        Call.PlatformTimerBusy 5 :: Call.CipherDisableEncryption (2 ^ 64 - 1) ::
          Call.CipherGetEncryption :: w.Hist) ∧
    (E.CipherGetEncryption w.Hist % 2 ^ 64 = 0 →
      (XHdcp1x_TxDisableEncryptionState E w).Hist = Call.CipherGetEncryption :: w.Hist) ∧
    (XHdcp1x_TxEnableEncryptionState E w).Tx = w.Tx ∧
    (XHdcp1x_TxDisableEncryptionState E w).Tx = w.Tx ∧
    (XHdcp1x_TxEnableEncryptionState E w).IsHDMI = w.IsHDMI ∧
    (XHdcp1x_TxDisableEncryptionState E w).IsHDMI = w.IsHDMI := by
  refine ⟨fun h => ?_, fun h1 h2 => ?_, fun h1 h2 => ?_, fun h => ?_, fun h => ?_,
    TxEnableEncryptionState_Tx E w, TxDisableEncryptionState_Tx E w,
    TxEnableEncryptionState_IsHDMI E w, TxDisableEncryptionState_IsHDMI E w⟩
  · simp [XHdcp1x_TxEnableEncryptionState, h]
  · simp only [XHdcp1x_TxEnableEncryptionState]
    rw [if_pos h1, if_pos h2]
    rfl
  · simp only [XHdcp1x_TxEnableEncryptionState]
    rw [if_pos h1, if_neg (by simpa using h2)]
    rfl
  · simp only [XHdcp1x_TxDisableEncryptionState]
    rw [if_pos h]
    simp [XHdcp1x_TxBusyDelay, XVPHY_TMO_5MS]
  · simp only [XHdcp1x_TxDisableEncryptionState]
    rw [if_neg (by simpa using h)]
    simp

/-- Witness for C34: streams 0 and 1 requested while the cipher encrypts
stream 0 only. -/
theorem C34_encryption_realization_witness :
    exampleInstRequested.Tx.EncryptionMap ≠ 0 ∧
    exampleEnvEncrypted.CipherGetEncryption exampleInstRequested.Hist % 2 ^ 64 ≠
      exampleInstRequested.Tx.EncryptionMap ∧
    (XHdcp1x_TxEnableEncryptionState exampleEnvEncrypted exampleInstRequested).Hist =
      [Call.CipherEnableEncryption 3, Call.PlatformTimerBusy 5, Call.CipherGetEncryption] ∧
    (XHdcp1x_TxDisableEncryptionState exampleEnvEncrypted exampleInstRequested).Hist =
      [Call.PlatformTimerBusy 5, Call.CipherDisableEncryption (2 ^ 64 - 1),
        Call.CipherGetEncryption] :=
  ⟨by decide, by decide,
    (C34_encryption_realization exampleEnvEncrypted exampleInstRequested).2.1
      (by decide) (by decide),
    (C34_encryption_realization exampleEnvEncrypted exampleInstRequested).2.2.2.1
      (by decide)⟩

/-! ### The final padding of the SHA-3 driver -/

theorem Sha3Padd_spec (Dst : List Nat) (p : Nat) (h1 : 1 ≤ p) (hp : p ≤ Dst.length)
    (h32 : Dst.length < 2 ^ 32) :
    ∃ buf, XSecure_Sha3Padd Dst p = some buf ∧ buf.length = Dst.length ∧
      (buf.getD 0 0).testBit 0 = true ∧ (buf.getD (p - 1) 0).testBit 7 = true := by
  have hlast : (p + 2 ^ 32 - 1) % 2 ^ 32 = p - 1 := by
    have : p + 2 ^ 32 - 1 = (p - 1) + 2 ^ 32 := by omega
    rw [this, Nat.add_mod_right]
    exact Nat.mod_eq_of_lt (by omega)
  have hlen : (List.replicate p 0 ++ Dst.drop p).length = Dst.length := by
    simp only [List.length_append, List.length_replicate, List.length_drop]; omega
  unfold XSecure_Sha3Padd
  simp only [hlast]
  rw [if_pos ⟨hp, by omega, by omega⟩]
  generalize hD : List.replicate p 0 ++ Dst.drop p = D at hlen
  have hl2 : p - 1 < (D.set 0 1).length := by rw [List.length_set, hlen]; omega
  have h7 : ∀ x : Nat, (x ||| 0x80).testBit 7 = true := fun x => by
    rw [Nat.testBit_or]
    have : (0x80 : Nat).testBit 7 = true := by decide
    rw [this, Bool.or_true]
  refine ⟨_, rfl, by rw [List.length_set, List.length_set, hlen], ?_, ?_⟩
  · rw [List.getD_eq_getElem?_getD]
    by_cases h0 : p - 1 = 0
    · rw [h0] at hl2 ⊢
      rw [List.getElem?_set_self hl2, Option.getD_some, List.getD_eq_getElem?_getD,
        List.getElem?_set_self (by rw [hlen]; omega), Option.getD_some]
      decide
    · rw [List.getElem?_set_ne h0, List.getElem?_set_self (by rw [hlen]; omega),
        Option.getD_some]
      decide
  · rw [List.getD_eq_getElem?_getD, List.getElem?_set_self hl2, Option.getD_some]
    exact h7 _

/-- C40.  For every block length `B` with `0 < B ≤ 512` and every accumulated
length `L`, the padding length of `XSecure_Sha3Finish` is `B` when
`L mod B = 0` and `B - L mod B` otherwise; it lies between 1 and `B`, makes
`L` plus the padding a multiple of `B`, and is at most 512, so that
`XSecure_Sha3Padd` stays within the 512-byte array: it returns an array of 512
bytes whose byte 0 has bit 0 set and whose byte at the padding length minus one
has bit 7 set. -/
theorem C40_Sha3Finish_padding_length (B L : Nat) (hB : 0 < B) (hB512 : B ≤ 512) :
    (L % B = 0 → XSecure_Sha3Finish_PartialLen B L = B) ∧
    (L % B ≠ 0 → XSecure_Sha3Finish_PartialLen B L = B - L % B) ∧
    1 ≤ XSecure_Sha3Finish_PartialLen B L ∧
    XSecure_Sha3Finish_PartialLen B L ≤ B ∧
    (L + XSecure_Sha3Finish_PartialLen B L) % B = 0 ∧
    XSecure_Sha3Finish_PartialLen B L ≤ 512 ∧
    ∃ buf, XSecure_Sha3Finish_padding B L = some buf ∧ buf.length = 512 ∧
      (buf.getD 0 0).testBit 0 = true ∧
      (buf.getD (XSecure_Sha3Finish_PartialLen B L - 1) 0).testBit 7 = true := by
  have hlt : L % B < B := Nat.mod_lt _ hB
  have hp : XSecure_Sha3Finish_PartialLen B L = if L % B = 0 then B else B - L % B := by
    unfold XSecure_Sha3Finish_PartialLen
    dsimp only
    split
    · rfl
    · exact Nat.mod_eq_of_lt (by omega)
  have h1 : 1 ≤ XSecure_Sha3Finish_PartialLen B L := by rw [hp]; split <;> omega
  have h2 : XSecure_Sha3Finish_PartialLen B L ≤ B := by rw [hp]; split <;> omega
  have h3 : (L + XSecure_Sha3Finish_PartialLen B L) % B = 0 := by
    rw [hp]
    split
    · rename_i h0
      rw [Nat.add_mod_right]; exact h0
    · have hd := Nat.div_add_mod L B
      have : L + (B - L % B) = B * (L / B + 1) := by
        rw [Nat.mul_add, Nat.mul_one]; omega
      rw [this, Nat.mul_mod_right]
  refine ⟨fun h => by rw [hp, if_pos h], fun h => by rw [hp, if_neg h], h1, h2, h3,
    le_trans h2 hB512, ?_⟩
  obtain ⟨buf, hb1, hb2, hb3, hb4⟩ := Sha3Padd_spec (List.replicate 512 0)
    (XSecure_Sha3Finish_PartialLen B L) h1
    (by rw [List.length_replicate]; exact le_trans h2 hB512)
    (by rw [List.length_replicate]; norm_num)
  exact ⟨buf, hb1, by rw [hb2, List.length_replicate], hb3, hb4⟩

set_option maxRecDepth 20000 in
/-- Witness for C40: the block length 104 of the documentation and an
accumulated length of 200 bytes, for which the padding has 8 bytes. -/
theorem C40_Sha3Finish_padding_length_witness :
    (0 : Nat) < 104 ∧ (104 : Nat) ≤ 512 ∧
    XSecure_Sha3Finish_PartialLen 104 200 = 8 ∧
    (200 + XSecure_Sha3Finish_PartialLen 104 200) % 104 = 0 ∧
    XSecure_Sha3Finish_padding 104 200 =
      some ([0x01, 0, 0, 0, 0, 0, 0, 0x80] ++ List.replicate 504 0) :=
  ⟨by decide, by decide, by decide,
    (C40_Sha3Finish_padding_length 104 200 (by decide) (by decide)).2.2.2.2.1,
    by decide⟩

/-! ### The flag bits -/

theorem shl_testBit (k i : Nat) : (1 <<< k).testBit i = decide (k = i) := by
  rw [Nat.one_shiftLeft, Nat.testBit_two_pow]

theorem lor_shl_land_self (x k : Nat) : (x ||| 1 <<< k) &&& 1 <<< k ≠ 0 := by
  intro h
  have := congrArg (fun n => n.testBit k) h
  simp [Nat.testBit_and, Nat.testBit_or, shl_testBit] at this

theorem lor_shl_land_shl_ne (x j k : Nat) (h : j ≠ k) :
    (x ||| 1 <<< j) &&& 1 <<< k = x &&& 1 <<< k := by
  apply Nat.eq_of_testBit_eq
  intro i
  simp only [Nat.testBit_and, Nat.testBit_or, shl_testBit]
  by_cases hk : k = i
  · have : ¬ j = i := by omega
    simp [hk, this]
  · simp [hk]

theorem land_not32_shl_land_shl_ne (x j k : Nat) (hj : j < 32) (hk : k < 32) (h : j ≠ k) :
    (x &&& not32 (1 <<< j)) &&& 1 <<< k = x &&& 1 <<< k := by
  apply Nat.eq_of_testBit_eq
  intro i
  simp only [Nat.testBit_and, shl_testBit, not32_shl_testBit j i hj]
  by_cases hki : k = i
  · have h1 : ¬ i = j := by omega
    have h2 : i < 32 := by omega
    simp [hki, h1, h2]
  · simp [hki]

theorem flags_set_PHY_UP (x : Nat) : (x ||| XVPHY_FLAG_PHY_UP) &&& XVPHY_FLAG_PHY_UP ≠ 0 :=
  lor_shl_land_self x 0

theorem flags_set_PHY_UP_repeater (x : Nat) :
    (x ||| XVPHY_FLAG_PHY_UP) &&& XVPHY_FLAG_IS_REPEATER = x &&& XVPHY_FLAG_IS_REPEATER :=
  lor_shl_land_shl_ne x 0 1 (by decide)

theorem flags_clear_PHY_UP_repeater (x : Nat) :
    (x &&& not32 XVPHY_FLAG_PHY_UP) &&& XVPHY_FLAG_IS_REPEATER =
      x &&& XVPHY_FLAG_IS_REPEATER :=
  land_not32_shl_land_shl_ne x 0 1 (by decide) (by decide) (by decide)

theorem flags_set_REPEATER_phy (x : Nat) :
    (x ||| XVPHY_FLAG_IS_REPEATER) &&& XVPHY_FLAG_PHY_UP = x &&& XVPHY_FLAG_PHY_UP :=
  lor_shl_land_shl_ne x 1 0 (by decide)

theorem flags_clear_REPEATER_phy (x : Nat) :
    (x &&& not32 XVPHY_FLAG_IS_REPEATER) &&& XVPHY_FLAG_PHY_UP = x &&& XVPHY_FLAG_PHY_UP :=
  land_not32_shl_land_shl_ne x 1 0 (by decide) (by decide) (by decide)

/-! ### The physical-link status while disabled -/

theorem dispatch_PHYUP_in_DISABLED (E : Env) (spin fuel : Nat) (w : XHdcp1x)
    (hs : w.Tx.CurrentState = .DISABLED) :
    XHdcp1x_TxDoTheState E spin fuel w .PHYUP =
      some (w.setTx { w.Tx with Flags := w.Tx.Flags ||| XVPHY_FLAG_PHY_UP }) := by
  simp [XHdcp1x_TxDoTheState, XHdcp1x_TxDoTheState_switch, hs,
    XHdcp1x_TxRunDisabledState, TxDoTheState_loop_fix]

theorem dispatch_PHYDOWN_in_DISABLED (E : Env) (spin fuel : Nat) (w : XHdcp1x)
    (hs : w.Tx.CurrentState = .DISABLED) :
    XHdcp1x_TxDoTheState E spin fuel w .PHYDOWN =
      some (w.setTx { w.Tx with Flags := w.Tx.Flags &&& not32 XVPHY_FLAG_PHY_UP }) := by
  simp [XHdcp1x_TxDoTheState, XHdcp1x_TxDoTheState_switch, hs,
    XHdcp1x_TxRunDisabledState, TxDoTheState_loop_fix]

theorem dispatch_ENABLE_in_DISABLED (E : Env) (spin fuel : Nat) (w : XHdcp1x)
    (hs : w.Tx.CurrentState = .DISABLED) :
    ∃ w1, XHdcp1x_TxDoTheState E spin (fuel + 1) w .ENABLE = some w1 ∧
      (w.Tx.Flags &&& XVPHY_FLAG_PHY_UP ≠ 0 → w1.Tx.CurrentState = .UNAUTHENTICATED) ∧
      (w.Tx.Flags &&& XVPHY_FLAG_PHY_UP = 0 → w1.Tx.CurrentState = .PHYDOWN) := by
  by_cases hf : w.Tx.Flags &&& XVPHY_FLAG_PHY_UP = 0 <;>
  simp [XHdcp1x_TxDoTheState, XHdcp1x_TxDoTheState_switch, hs, hf,
      XHdcp1x_TxRunDisabledState, XHdcp1x_TxDoTheState_loop, XHdcp1x_TxExitState,
      XHdcp1x_TxEnterState, XHdcp1x_TxEnableState, TxDoTheState_loop_fix]

/-- C39.  For a session in DISABLED and every environment: dispatching PHYUP
returns the session with the link-up flag set and dispatching PHYDOWN returns
it with the link-up flag cleared, and nothing else is changed (no transition,
no collaborator call; the repeater flag, helper, encryption map, counters and
previous state are those from before).  An ENABLE dispatched afterwards ends in
UNAUTHENTICATED when the most recent of them was PHYUP and in PHY_DOWN when it
was PHYDOWN. -/
theorem C39_link_status_recorded_while_DISABLED (E : Env) (spin fuel : Nat) (w : XHdcp1x)
    (hs : w.Tx.CurrentState = .DISABLED) :
    XHdcp1x_TxDoTheState E spin fuel w .PHYUP =
      some (w.setTx { w.Tx with Flags := w.Tx.Flags ||| XVPHY_FLAG_PHY_UP }) ∧
    XHdcp1x_TxDoTheState E spin fuel w .PHYDOWN =
      some (w.setTx { w.Tx with Flags := w.Tx.Flags &&& not32 XVPHY_FLAG_PHY_UP }) ∧
    (w.Tx.Flags ||| XVPHY_FLAG_PHY_UP) &&& XVPHY_FLAG_PHY_UP ≠ 0 ∧
    (w.Tx.Flags &&& not32 XVPHY_FLAG_PHY_UP) &&& XVPHY_FLAG_PHY_UP = 0 ∧
    (w.Tx.Flags ||| XVPHY_FLAG_PHY_UP) &&& XVPHY_FLAG_IS_REPEATER =
      w.Tx.Flags &&& XVPHY_FLAG_IS_REPEATER ∧
    (w.Tx.Flags &&& not32 XVPHY_FLAG_PHY_UP) &&& XVPHY_FLAG_IS_REPEATER =
      w.Tx.Flags &&& XVPHY_FLAG_IS_REPEATER ∧
    (∃ w1, dispatchAll E spin (fuel + 1) w [.PHYUP, .ENABLE] = some w1 ∧
      w1.Tx.CurrentState = .UNAUTHENTICATED) ∧
    (∃ w1, dispatchAll E spin (fuel + 1) w [.PHYDOWN, .ENABLE] = some w1 ∧
      w1.Tx.CurrentState = .PHYDOWN) ∧
    (∃ w1, dispatchAll E spin (fuel + 1) w [.PHYDOWN, .PHYUP, .ENABLE] = some w1 ∧
      w1.Tx.CurrentState = .UNAUTHENTICATED) ∧
    (∃ w1, dispatchAll E spin (fuel + 1) w [.PHYUP, .PHYDOWN, .ENABLE] = some w1 ∧
      w1.Tx.CurrentState = .PHYDOWN) := by
  have hup : ∀ x : XHdcp1x, x.Tx.CurrentState = .DISABLED →
      ∃ w1, dispatchAll E spin (fuel + 1) x [.PHYUP, .ENABLE] = some w1 ∧
        w1.Tx.CurrentState = .UNAUTHENTICATED := by
    intro x hx
    obtain ⟨w1, h1, h2, -⟩ := dispatch_ENABLE_in_DISABLED E spin fuel
      (x.setTx { x.Tx with Flags := x.Tx.Flags ||| XVPHY_FLAG_PHY_UP }) hx
    refine ⟨w1, ?_, h2 (flags_set_PHY_UP _)⟩
    simp only [dispatchAll, dispatch_PHYUP_in_DISABLED E spin (fuel + 1) x hx, h1]
  have hdown : ∀ x : XHdcp1x, x.Tx.CurrentState = .DISABLED →
      ∃ w1, dispatchAll E spin (fuel + 1) x [.PHYDOWN, .ENABLE] = some w1 ∧
        w1.Tx.CurrentState = .PHYDOWN := by
    intro x hx
    obtain ⟨w1, h1, -, h3⟩ := dispatch_ENABLE_in_DISABLED E spin fuel
      (x.setTx { x.Tx with Flags := x.Tx.Flags &&& not32 XVPHY_FLAG_PHY_UP }) hx
    refine ⟨w1, ?_, h3 (land_not32_land_self _ _)⟩
    simp only [dispatchAll, dispatch_PHYDOWN_in_DISABLED E spin (fuel + 1) x hx, h1]
  refine ⟨dispatch_PHYUP_in_DISABLED E spin fuel w hs,
    dispatch_PHYDOWN_in_DISABLED E spin fuel w hs, flags_set_PHY_UP _,
    land_not32_land_self _ _, flags_set_PHY_UP_repeater _, flags_clear_PHY_UP_repeater _,
    hup w hs, hdown w hs, ?_, ?_⟩
  · obtain ⟨w1, h1, h2⟩ := hup
      (w.setTx { w.Tx with Flags := w.Tx.Flags &&& not32 XVPHY_FLAG_PHY_UP }) hs
    refine ⟨w1, ?_, h2⟩
    rw [← h1]
    simp only [dispatchAll, dispatch_PHYDOWN_in_DISABLED E spin (fuel + 1) w hs]
  · obtain ⟨w1, h1, h2⟩ := hdown
      (w.setTx { w.Tx with Flags := w.Tx.Flags ||| XVPHY_FLAG_PHY_UP }) hs
    refine ⟨w1, ?_, h2⟩
    rw [← h1]
    simp only [dispatchAll, dispatch_PHYUP_in_DISABLED E spin (fuel + 1) w hs]

/-- Witness for C39: the disabled example session, whose link-up flag is set;
after PHYDOWN it is clear and an ENABLE ends in PHY_DOWN. -/
theorem C39_link_status_recorded_while_DISABLED_witness :
    (exampleInst .DISABLED).Tx.CurrentState = .DISABLED ∧
    XHdcp1x_TxDoTheState exampleEnv 1 1 (exampleInst .DISABLED) .PHYDOWN =
      some ((exampleInst .DISABLED).setTx
        { (exampleInst .DISABLED).Tx with Flags := 0 }) ∧
    (dispatchAll exampleEnv 1 1 (exampleInst .DISABLED) [.PHYDOWN, .ENABLE]).map
      (fun r => r.Tx.CurrentState) = some .PHYDOWN :=
  ⟨rfl,
    (C39_link_status_recorded_while_DISABLED exampleEnv 1 1 (exampleInst .DISABLED) rfl).2.1.trans
      (by decide),
    by decide⟩

/-! ### Fields and calls that the protocol steps leave alone -/

theorem TxKeeps_refl (a : XHdcp1x) : TxKeeps a a := ⟨rfl, rfl, rfl, rfl, rfl, rfl⟩

theorem TxKeeps_trans {a b c : XHdcp1x} (h1 : TxKeeps a b) (h2 : TxKeeps b c) :
    TxKeeps a c :=
  ⟨h2.1.trans h1.1, h2.2.1.trans h1.2.1, h2.2.2.1.trans h1.2.2.1,
    h2.2.2.2.1.trans h1.2.2.2.1, h2.2.2.2.2.1.trans h1.2.2.2.2.1,
    h2.2.2.2.2.2.trans h1.2.2.2.2.2⟩

theorem TxKeeps_EnableEncryptionState (E : Env) (w : XHdcp1x) :
    TxKeeps w (XHdcp1x_TxEnableEncryptionState E w) := by
  unfold XHdcp1x_TxEnableEncryptionState XHdcp1x_TxBusyDelay
  dsimp only
  (repeat' split) <;> simp [TxKeeps, isPortWrite]

theorem TxKeeps_DisableEncryptionState (E : Env) (w : XHdcp1x) :
    TxKeeps w (XHdcp1x_TxDisableEncryptionState E w) := by
  unfold XHdcp1x_TxDisableEncryptionState XHdcp1x_TxBusyDelay
  dsimp only
  (repeat' split) <;> simp [TxKeeps, isPortWrite]

theorem TxKeeps_SetCheckLinkState (w : XHdcp1x) (b : Bool) :
    TxKeeps w (XHdcp1x_TxSetCheckLinkState w b) := by
  unfold XHdcp1x_TxSetCheckLinkState
  (repeat' split) <;> simp [TxKeeps, isPortWrite]

theorem TxKeeps_CheckRxCapable (E : Env) (w : XHdcp1x) :
    TxKeeps w (XHdcp1x_TxCheckRxCapable E w).1 := by
  unfold XHdcp1x_TxCheckRxCapable
  split <;> simp [TxKeeps, isPortWrite]

theorem TxKeeps_StartComputations (w : XHdcp1x) :
    TxKeeps w (XHdcp1x_TxStartComputations w) := by
  simp [TxKeeps, isPortWrite, XHdcp1x_TxStartComputations, XHdcp1x.call]

theorem TxKeeps_PollForComputations (E : Env) (w : XHdcp1x) (ns : XHdcp1x_StateType) :
    TxKeeps w (XHdcp1x_TxPollForComputations E w ns).1 := by
  unfold XHdcp1x_TxPollForComputations
  split <;> simp [TxKeeps, isPortWrite]

theorem TxKeeps_ValidateRx_body (E : Env) (n : Nat) (w : XHdcp1x) (ns : XHdcp1x_StateType) :
    TxKeeps w (XHdcp1x_TxValidateRx_body E n w ns).1 := by
  unfold XHdcp1x_TxValidateRx_body
  dsimp only
  (repeat' split) <;> simp [TxKeeps, isPortWrite]

theorem TxKeeps_ValidateRx_loop (E : Env) :
    ∀ n w ns, TxKeeps w (XHdcp1x_TxValidateRx_loop E n w ns).1 := by
  intro n
  induction n with
  | zero => intro w ns; exact TxKeeps_ValidateRx_body E 0 w ns
  | succ k ih =>
    intro w ns
    unfold XHdcp1x_TxValidateRx_loop
    dsimp only
    split
    · exact TxKeeps_trans (TxKeeps_ValidateRx_body E (k + 1) w ns) (ih _ _)
    · exact TxKeeps_ValidateRx_body E (k + 1) w ns

theorem TxKeeps_ValidateRx (E : Env) (w : XHdcp1x) :
    TxKeeps w (XHdcp1x_TxValidateRx E w).1 :=
  TxKeeps_ValidateRx_loop E 3 w _

theorem TxKeeps_CheckLinkIntegrity_body (E : Env) (w : XHdcp1x) (ns : XHdcp1x_StateType) :
    TxKeeps w (XHdcp1x_TxCheckLinkIntegrity_body E w ns).1 := by
  unfold XHdcp1x_TxCheckLinkIntegrity_body
  dsimp only
  (repeat' split) <;> simp [TxKeeps, isPortWrite]

theorem TxKeeps_CheckLinkIntegrity_loop (E : Env) :
    ∀ n w ns, TxKeeps w (XHdcp1x_TxCheckLinkIntegrity_loop E n w ns).1 := by
  intro n
  induction n with
  | zero => intro w ns; exact TxKeeps_CheckLinkIntegrity_body E w ns
  | succ k ih =>
    intro w ns
    unfold XHdcp1x_TxCheckLinkIntegrity_loop
    dsimp only
    split
    · exact TxKeeps_trans (TxKeeps_CheckLinkIntegrity_body E w ns) (ih _ _)
    · exact TxKeeps_CheckLinkIntegrity_body E w ns

theorem TxKeeps_CheckLinkIntegrity (E : Env) (w : XHdcp1x) :
    TxKeeps w (XHdcp1x_TxCheckLinkIntegrity E w).1 := by
  have hl := TxKeeps_CheckLinkIntegrity_loop E 3 w .DETERMINERXCAPABLE
  unfold XHdcp1x_TxCheckLinkIntegrity
  dsimp only
  split <;> exact TxKeeps_trans hl (by simp [TxKeeps])

theorem TxKeeps_readLoop (E : Env) :
    ∀ fuel w ctx Buf N r, XHdcp1x_TxValidateKsvList_readLoop E fuel w ctx Buf N = some r →
      TxKeeps w r.1 := by
  intro fuel
  induction fuel with
  | zero => intro w ctx Buf N r h; cases h
  | succ k ih =>
    intro w ctx Buf N r h
    unfold XHdcp1x_TxValidateKsvList_readLoop at h
    dsimp only at h
    generalize (if E.XHDCP1X_PORT_SIZE_KSVFIFO > N then N
      else E.XHDCP1X_PORT_SIZE_KSVFIFO) = n at h
    split at h
    · split at h
      · exact TxKeeps_trans (by simp [TxKeeps, isPortWrite]) (ih _ _ _ _ _ h)
      · cases h; simp [TxKeeps, isPortWrite]
    · cases h; simp [TxKeeps, isPortWrite]

theorem TxKeeps_vhBody (E : Env) (d : List Nat) (s : VhState) :
    TxKeeps s.w (XHdcp1x_TxValidateKsvList_vhBody E d s).w := by
  unfold XHdcp1x_TxValidateKsvList_vhBody
  dsimp only
  split <;> simp [TxKeeps, isPortWrite]

theorem TxKeeps_vhLoop (E : Env) (d : List Nat) :
    ∀ n s, TxKeeps s.w (XHdcp1x_TxValidateKsvList_vhLoop E d n s).w := by
  intro n
  induction n with
  | zero => intro s; exact TxKeeps_vhBody E d s
  | succ k ih =>
    intro s
    unfold XHdcp1x_TxValidateKsvList_vhLoop
    dsimp only
    split
    · exact TxKeeps_trans (TxKeeps_vhBody E d s) (ih _)
    · exact TxKeeps_vhBody E d s

theorem TxKeeps_ValidateKsvList (E : Env) (w : XHdcp1x) (RepeaterInfo : Nat)
    (r : XHdcp1x × Bool) (h : XHdcp1x_TxValidateKsvList E w RepeaterInfo = some r) :
    TxKeeps w r.1 := by
  unfold XHdcp1x_TxValidateKsvList at h
  dsimp only at h
  split at h
  · cases h
  · rename_i w1 ctx Buf1 v hread
    have h1 := TxKeeps_readLoop E _ _ _ _ _ _ hread
    split at h
    · split at h
      · cases h
        exact TxKeeps_trans h1 (TxKeeps_trans (by simp [TxKeeps, isPortWrite])
          (TxKeeps_vhLoop E _ _ _))
      · cases h
        exact TxKeeps_trans h1 (by simp [TxKeeps, isPortWrite])
    · cases h; exact h1

theorem TxKeeps_ReadKsvList_loop (E : Env) (RepeaterInfo : Nat) :
    ∀ n w r, XHdcp1x_TxReadKsvList_loop E RepeaterInfo n w = some r → TxKeeps w r.1 := by
  intro n
  induction n with
  | zero => intro w r h; exact TxKeeps_ValidateKsvList E w RepeaterInfo r h
  | succ k ih =>
    intro w r h
    unfold XHdcp1x_TxReadKsvList_loop at h
    split at h
    · cases h
    · rename_i w1 v hv
      have h1 := TxKeeps_ValidateKsvList E w RepeaterInfo _ hv
      split at h
      · exact TxKeeps_trans h1 (ih _ _ h)
      · cases h; exact h1

theorem TxKeeps_ReadKsvList (E : Env) (w : XHdcp1x) (r : XHdcp1x × XHdcp1x_StateType)
    (h : XHdcp1x_TxReadKsvList E w = some r) : TxKeeps w r.1 := by
  unfold XHdcp1x_TxReadKsvList at h
  dsimp only at h
  split at h
  · cases h
  · rename_i w1 v hv
    have h1 := TxKeeps_ReadKsvList_loop E _ _ _ _ hv
    split at h <;> cases h <;> exact h1

theorem TxDoTheState_loop_step (E : Env) (spin fuel : Nat) (w : XHdcp1x)
    (ns : XHdcp1x_StateType) (r : XHdcp1x × XHdcp1x_StateType)
    (hc : w.Tx.CurrentState ≠ ns)
    (hr : XHdcp1x_TxEnterState E spin (beforeEntry w ns) ns ns = some r) :
    XHdcp1x_TxDoTheState_loop E spin (fuel + 1) w ns =
      XHdcp1x_TxDoTheState_loop E spin fuel r.1 r.2 := by
  have hr' : XHdcp1x_TxEnterState E spin (beforeEntry w ns)
      (beforeEntry w ns).Tx.CurrentState ns = some r := hr
  conv_lhs => unfold XHdcp1x_TxDoTheState_loop
  rw [if_pos hc]
  show (match XHdcp1x_TxEnterState E spin (beforeEntry w ns)
      (beforeEntry w ns).Tx.CurrentState ns with
    | none => none
    | some r => XHdcp1x_TxDoTheState_loop E spin fuel r.1 r.2) = _
  rw [hr']

/-! ### Repeater detection -/

/-- C31.  For a session in TEST_FOR_REPEATER, dispatching POLL returns (one
transition of budget is enough).  If the transport reports a repeater, the
session ends in WAIT_FOR_READY with previous state TEST_FOR_REPEATER and helper
zero, the repeater flag is set, the calls made are the repeater query, then
the write of `XHDCP1X_PORT_SIZE_AINFO` zero bytes to the announce-info
register, then those of the encryption-realization helper, then the start of
the 5 s timer, and that write is the only write to the remote.  If it reports
no repeater, the session ends in AUTHENTICATED with the repeater flag cleared,
and no write to the remote is made. -/
theorem C31_repeater_detection (E : Env) (spin fuel : Nat) (w : XHdcp1x)
    (hs : w.Tx.CurrentState = .TESTFORREPEATER) :
    (E.PortIsRepeater w.Hist = true →
      ∃ w1, XHdcp1x_TxDoTheState E spin (fuel + 1) w .POLL = some w1 ∧
        w1.Tx.CurrentState = .WAITFORREADY ∧
        w1.Tx.PreviousState = .TESTFORREPEATER ∧
        w1.Tx.StateHelper = 0 ∧
        w1.Tx.Flags = w.Tx.Flags ||| XVPHY_FLAG_IS_REPEATER ∧
        w1.Tx.Flags &&& XVPHY_FLAG_IS_REPEATER ≠ 0 ∧
        w1.Hist = Call.PlatformTimerStart 5000 ::
          (XHdcp1x_TxEnableEncryptionState E
            (((w.call .PortIsRepeater).setTx
              { w.Tx with Flags := w.Tx.Flags ||| XVPHY_FLAG_IS_REPEATER }).call
              (.PortWrite E.XHDCP1X_PORT_OFFSET_AINFO
                (List.replicate E.XHDCP1X_PORT_SIZE_AINFO 0) E.XHDCP1X_PORT_SIZE_AINFO))).Hist ∧
        w1.Hist.filter isPortWrite =
          Call.PortWrite E.XHDCP1X_PORT_OFFSET_AINFO
            (List.replicate E.XHDCP1X_PORT_SIZE_AINFO 0) E.XHDCP1X_PORT_SIZE_AINFO ::
            w.Hist.filter isPortWrite) ∧
    (E.PortIsRepeater w.Hist = false →
      ∃ w1, XHdcp1x_TxDoTheState E spin (fuel + 1) w .POLL = some w1 ∧
        w1.Tx.CurrentState = .AUTHENTICATED ∧
        w1.Tx.PreviousState = .TESTFORREPEATER ∧
        w1.Tx.Flags = w.Tx.Flags &&& not32 XVPHY_FLAG_IS_REPEATER ∧
        w1.Tx.Flags &&& XVPHY_FLAG_IS_REPEATER = 0 ∧
        w1.Hist.filter isPortWrite = w.Hist.filter isPortWrite) := by
  constructor
  · intro hrep
    have hk := TxKeeps_EnableEncryptionState E
      (((w.call .PortIsRepeater).setTx
        { w.Tx with Flags := w.Tx.Flags ||| XVPHY_FLAG_IS_REPEATER }).call
        (.PortWrite E.XHDCP1X_PORT_OFFSET_AINFO
          (List.replicate E.XHDCP1X_PORT_SIZE_AINFO 0) E.XHDCP1X_PORT_SIZE_AINFO))
    obtain ⟨-, -, -, -, -, hf⟩ := hk
    have hne := lor_shl_land_self w.Tx.Flags 1
    simp [XHdcp1x_TxDoTheState, XHdcp1x_TxDoTheState_switch, hs,
      XHdcp1x_TxRunTestForRepeaterState, XHdcp1x_TxTestForRepeater, hrep,
      XHdcp1x_TxDoTheState_loop, XHdcp1x_TxExitState,
      XHdcp1x_TxEnterState, TxDoTheState_loop_fix, XVPHY_TMO_1SECOND]
    refine ⟨hne, ?_⟩
    simpa [isPortWrite, hs] using hf
  · intro hrep
    have h1 := TxKeeps_EnableEncryptionState E
    have h2 := TxKeeps_SetCheckLinkState
    simp [XHdcp1x_TxDoTheState, XHdcp1x_TxDoTheState_switch, hs,
      XHdcp1x_TxRunTestForRepeaterState, XHdcp1x_TxTestForRepeater, hrep,
      XHdcp1x_TxDoTheState_loop, XHdcp1x_TxExitState,
      XHdcp1x_TxEnterState, TxDoTheState_loop_fix]
    refine ⟨land_not32_land_self _ _, ?_⟩
    rw [(h2 _ true).2.2.2.2.2]
    simp only [setTx_Hist]
    rw [(h1 _).2.2.2.2.2]
    simp [isPortWrite]

/-- Witness for C31: the example session in TEST_FOR_REPEATER with encryption
requested, behind a repeater (one write to the remote, the session ends in
WAIT_FOR_READY) and behind a plain receiver (no write, AUTHENTICATED). -/
theorem C31_repeater_detection_witness :
    exampleInstRequested.Tx.CurrentState = .TESTFORREPEATER ∧
    (∃ w1, XHdcp1x_TxDoTheState exampleEnvRepeater 1 1 exampleInstRequested .POLL = some w1 ∧
      w1.Tx.CurrentState = .WAITFORREADY ∧
      w1.Hist.filter isPortWrite = [Call.PortWrite 0x15 [0] 1]) ∧
    (XHdcp1x_TxDoTheState exampleEnv 1 1 exampleInstRequested .POLL).map
      (fun r => (r.Tx.CurrentState, r.Hist.filter isPortWrite)) =
        some (.AUTHENTICATED, []) := by
  refine ⟨rfl, ?_, by decide⟩
  obtain ⟨w1, h1, h2, -, -, -, -, -, h3⟩ :=
    (C31_repeater_detection exampleEnvRepeater 1 0 exampleInstRequested rfl).1 rfl
  exact ⟨w1, h1, h2, h3⟩

/-! ### The ready-wait timeout -/

theorem count_GetRepeaterInfo_DisableEncryptionState (E : Env) (w : XHdcp1x) :
    (XHdcp1x_TxDisableEncryptionState E w).Hist.count Call.PortGetRepeaterInfo =
      w.Hist.count Call.PortGetRepeaterInfo :=
  (TxKeeps_DisableEncryptionState E w).2.2.2.2.1

theorem count_GetRepeaterInfo_EnableEncryptionState (E : Env) (w : XHdcp1x) :
    (XHdcp1x_TxEnableEncryptionState E w).Hist.count Call.PortGetRepeaterInfo =
      w.Hist.count Call.PortGetRepeaterInfo :=
  (TxKeeps_EnableEncryptionState E w).2.2.2.2.1

theorem count_GetRepeaterInfo_SetCheckLinkState (w : XHdcp1x) (b : Bool) :
    (XHdcp1x_TxSetCheckLinkState w b).Hist.count Call.PortGetRepeaterInfo =
      w.Hist.count Call.PortGetRepeaterInfo :=
  (TxKeeps_SetCheckLinkState w b).2.2.2.2.1

theorem TxPollForWaitForReady_cases (E : Env) (w : XHdcp1x) (ns : XHdcp1x_StateType) :
    ((E.PortGetRepeaterInfo w.Hist).1 ≠ E.XST_SUCCESS →
      XHdcp1x_TxPollForWaitForReady E w ns = (w.call .PortGetRepeaterInfo, ns)) ∧
    ((E.PortGetRepeaterInfo w.Hist).1 = E.XST_SUCCESS →
      ((E.PortGetRepeaterInfo w.Hist).2 % 2 ^ 16) &&& 0x0880 ≠ 0 →
      XHdcp1x_TxPollForWaitForReady E w ns =
        (w.call .PortGetRepeaterInfo, .UNAUTHENTICATED)) ∧
    ((E.PortGetRepeaterInfo w.Hist).1 = E.XST_SUCCESS →
      ((E.PortGetRepeaterInfo w.Hist).2 % 2 ^ 16) &&& 0x0880 = 0 →
      ((E.PortGetRepeaterInfo w.Hist).2 % 2 ^ 16) &&& 0x007F = 0 →
      XHdcp1x_TxPollForWaitForReady E w ns =
        (w.call .PortGetRepeaterInfo, .AUTHENTICATED)) ∧
    ((E.PortGetRepeaterInfo w.Hist).1 = E.XST_SUCCESS →
      ((E.PortGetRepeaterInfo w.Hist).2 % 2 ^ 16) &&& 0x0880 = 0 →
      ((E.PortGetRepeaterInfo w.Hist).2 % 2 ^ 16) &&& 0x007F ≠ 0 →
      XHdcp1x_TxPollForWaitForReady E w ns =
        ((w.call .PortGetRepeaterInfo).setTx
          { w.Tx with StateHelper := (E.PortGetRepeaterInfo w.Hist).2 % 2 ^ 16 },
          .READKSVLIST)) := by
  refine ⟨fun h1 => ?_, fun h1 h2 => ?_, fun h1 h2 h3 => ?_, fun h1 h2 h3 => ?_⟩
  · unfold XHdcp1x_TxPollForWaitForReady
    dsimp only
    rw [if_neg h1]
  · unfold XHdcp1x_TxPollForWaitForReady
    dsimp only
    rw [if_pos h1, if_neg h2]
  · unfold XHdcp1x_TxPollForWaitForReady
    dsimp only
    rw [if_pos h1, if_pos h2, if_neg (not_not.mpr h3)]
  · unfold XHdcp1x_TxPollForWaitForReady
    dsimp only
    rw [if_pos h1, if_pos h2, if_pos h3]
    rfl

theorem TxDoTheState_loop_enter_stable (E : Env) (spin fuel : Nat) (w : XHdcp1x)
    (ns : XHdcp1x_StateType) (r : XHdcp1x × XHdcp1x_StateType)
    (hc : w.Tx.CurrentState ≠ ns)
    (hr : XHdcp1x_TxEnterState E spin (beforeEntry w ns) ns ns = some r)
    (h2 : r.2 = ns) :
    XHdcp1x_TxDoTheState_loop E spin (fuel + 1) w ns = some r.1 := by
  rw [TxDoTheState_loop_step E spin fuel w ns r hc hr]
  obtain ⟨⟨-, hcur, -, -⟩, -⟩ := TxEnterState_analysis E spin _ ns r hr
  exact TxDoTheState_loop_fix E spin fuel _ _
    (by rw [hcur, h2]; exact (beforeEntry_frame w ns).2.1)

theorem TxEnterState_UNAUTHENTICATED (E : Env) (spin : Nat) (w : XHdcp1x) :
    ∃ r, XHdcp1x_TxEnterState E spin w .UNAUTHENTICATED .UNAUTHENTICATED = some r ∧
      r.2 = .UNAUTHENTICATED ∧ r.1.Tx.CurrentState = w.Tx.CurrentState ∧
      r.1.Tx.PreviousState = w.Tx.PreviousState ∧ r.1.Tx.StateHelper = w.Tx.StateHelper ∧
      r.1.Tx.Stats = w.Tx.Stats ∧
      r.1.Hist.count Call.PortGetRepeaterInfo = w.Hist.count Call.PortGetRepeaterInfo := by
  refine ⟨_, rfl, rfl, ?_⟩
  simp [count_GetRepeaterInfo_DisableEncryptionState]

theorem TxEnableEncryptionState_Hist_congr (E : Env) (a b : XHdcp1x)
    (h1 : a.Tx.EncryptionMap = b.Tx.EncryptionMap) (h2 : a.Hist = b.Hist) :
    (XHdcp1x_TxEnableEncryptionState E a).Hist =
      (XHdcp1x_TxEnableEncryptionState E b).Hist := by
  unfold XHdcp1x_TxEnableEncryptionState XHdcp1x_TxBusyDelay
  dsimp only
  rw [h1, h2]
  (repeat' split) <;> simp [h2]

theorem TxSetCheckLinkState_Hist_congr (a b : XHdcp1x) (v : Bool)
    (h1 : a.IsHDMI = b.IsHDMI) (h2 : a.Hist = b.Hist) :
    (XHdcp1x_TxSetCheckLinkState a v).Hist = (XHdcp1x_TxSetCheckLinkState b v).Hist := by
  unfold XHdcp1x_TxSetCheckLinkState
  rw [h1]
  (repeat' split) <;> simp [h2]

theorem TxEnterState_AUTHENTICATED (E : Env) (spin : Nat) (w : XHdcp1x) :
    ∃ r, XHdcp1x_TxEnterState E spin w .AUTHENTICATED .AUTHENTICATED = some r ∧
      r.2 = .AUTHENTICATED ∧ r.1.Tx.CurrentState = w.Tx.CurrentState ∧
      r.1.Tx.PreviousState = w.Tx.PreviousState ∧ r.1.Tx.StateHelper = 0 ∧
      r.1.Tx.Stats.AuthPassed = w.Tx.Stats.AuthPassed +
        (if w.Tx.PreviousState = .LINKINTEGRITYCHECK then 0 else 1) ∧
      r.1.Hist.count Call.PortGetRepeaterInfo = w.Hist.count Call.PortGetRepeaterInfo ∧
      r.1.Hist = (if w.Tx.PreviousState = .LINKINTEGRITYCHECK then
          XHdcp1x_TxEnableEncryptionState E w
        else XHdcp1x_TxSetCheckLinkState (XHdcp1x_TxEnableEncryptionState E w) true).Hist := by
  have hE : (XHdcp1x_TxEnableEncryptionState E (w.setTx { w.Tx with StateHelper := 0 })).Hist =
      (XHdcp1x_TxEnableEncryptionState E w).Hist :=
    TxEnableEncryptionState_Hist_congr E _ _ rfl rfl
  by_cases hp : w.Tx.PreviousState = .LINKINTEGRITYCHECK
  · refine ⟨(XHdcp1x_TxEnableEncryptionState E (w.setTx { w.Tx with StateHelper := 0 }),
      .AUTHENTICATED), ?_, rfl, ?_⟩
    · simp [XHdcp1x_TxEnterState, hp]
    · simp only [TxEnableEncryptionState_Tx, setTx_Tx, if_pos hp,
        count_GetRepeaterInfo_EnableEncryptionState, setTx_Hist, Nat.add_zero, true_and]
      exact hE
  · refine ⟨(XHdcp1x_TxSetCheckLinkState
        ((XHdcp1x_TxEnableEncryptionState E (w.setTx { w.Tx with StateHelper := 0 })).setTx
          { (XHdcp1x_TxEnableEncryptionState E (w.setTx { w.Tx with StateHelper := 0 })).Tx with
            Stats := { (XHdcp1x_TxEnableEncryptionState E
              (w.setTx { w.Tx with StateHelper := 0 })).Tx.Stats with
              AuthPassed := (XHdcp1x_TxEnableEncryptionState E
                (w.setTx { w.Tx with StateHelper := 0 })).Tx.Stats.AuthPassed + 1 } }) true,
      .AUTHENTICATED), ?_, rfl, ?_⟩
    · simp [XHdcp1x_TxEnterState, hp]
    · simp only [TxSetCheckLinkState_Tx, setTx_Tx, TxEnableEncryptionState_Tx, if_neg hp,
        count_GetRepeaterInfo_SetCheckLinkState, setTx_Hist,
        count_GetRepeaterInfo_EnableEncryptionState, true_and]
      exact TxSetCheckLinkState_Hist_congr _ _ true (by simp) (by simpa using hE)

theorem TxExitState_keeps (w : XHdcp1x) (s : XHdcp1x_StateType) :
    (XHdcp1x_TxExitState w s).Tx.Flags = w.Tx.Flags ∧
    (XHdcp1x_TxExitState w s).Tx.EncryptionMap = w.Tx.EncryptionMap ∧
    (XHdcp1x_TxExitState w s).Tx.StateHelper =
      (if s = .COMPUTATIONS ∨ s = .READKSVLIST then 0 else w.Tx.StateHelper) ∧
    (XHdcp1x_TxExitState w s).Hist.count Call.PortGetRepeaterInfo =
      w.Hist.count Call.PortGetRepeaterInfo ∧
    (XHdcp1x_TxExitState w s).Hist.filter isPortWrite = w.Hist.filter isPortWrite := by
  cases s <;> simp [XHdcp1x_TxExitState, XHdcp1x_TxEnableState, isPortWrite]

theorem beforeEntry_keeps (w : XHdcp1x) (ns : XHdcp1x_StateType) :
    (beforeEntry w ns).Tx.Flags = w.Tx.Flags ∧
    (beforeEntry w ns).Tx.EncryptionMap = w.Tx.EncryptionMap ∧
    (beforeEntry w ns).Tx.StateHelper =
      (if w.Tx.CurrentState = .COMPUTATIONS ∨ w.Tx.CurrentState = .READKSVLIST then 0
        else w.Tx.StateHelper) ∧
    (beforeEntry w ns).Hist.count Call.PortGetRepeaterInfo =
      w.Hist.count Call.PortGetRepeaterInfo ∧
    (beforeEntry w ns).Hist.filter isPortWrite = w.Hist.filter isPortWrite :=
  TxExitState_keeps w w.Tx.CurrentState

theorem TxDoTheState_loop_to_UNAUTHENTICATED (E : Env) (spin fuel : Nat) (x : XHdcp1x)
    (hx : x.Tx.CurrentState ≠ .UNAUTHENTICATED) :
    ∃ w1, XHdcp1x_TxDoTheState_loop E spin (fuel + 1) x .UNAUTHENTICATED = some w1 ∧
      w1.Tx.CurrentState = .UNAUTHENTICATED ∧ w1.Tx.PreviousState = x.Tx.CurrentState ∧
      w1.Hist.count Call.PortGetRepeaterInfo = x.Hist.count Call.PortGetRepeaterInfo := by
  obtain ⟨r, hr, h2, h3, h4, -, -, h7⟩ :=
    TxEnterState_UNAUTHENTICATED E spin (beforeEntry x .UNAUTHENTICATED)
  obtain ⟨-, b2, b3, -⟩ := beforeEntry_frame x .UNAUTHENTICATED
  exact ⟨r.1, TxDoTheState_loop_enter_stable E spin fuel x _ r hx hr h2, h3.trans b2,
    h4.trans b3, h7.trans (beforeEntry_keeps x _).2.2.2.1⟩

theorem TxDoTheState_loop_to_AUTHENTICATED (E : Env) (spin fuel : Nat) (x : XHdcp1x)
    (hx : x.Tx.CurrentState ≠ .AUTHENTICATED) :
    ∃ w1, XHdcp1x_TxDoTheState_loop E spin (fuel + 1) x .AUTHENTICATED = some w1 ∧
      w1.Tx.CurrentState = .AUTHENTICATED ∧ w1.Tx.PreviousState = x.Tx.CurrentState ∧
      w1.Hist.count Call.PortGetRepeaterInfo = x.Hist.count Call.PortGetRepeaterInfo ∧
      w1.Tx.StateHelper = 0 ∧
      w1.Tx.Stats.AuthPassed = (beforeEntry x .AUTHENTICATED).Tx.Stats.AuthPassed +
        (if x.Tx.CurrentState = .LINKINTEGRITYCHECK then 0 else 1) ∧
      w1.Hist = (if x.Tx.CurrentState = .LINKINTEGRITYCHECK then
          XHdcp1x_TxEnableEncryptionState E (beforeEntry x .AUTHENTICATED)
        else XHdcp1x_TxSetCheckLinkState
          (XHdcp1x_TxEnableEncryptionState E (beforeEntry x .AUTHENTICATED)) true).Hist := by
  obtain ⟨r, hr, h2, h3, h4, h5, h6, h7, h8⟩ :=
    TxEnterState_AUTHENTICATED E spin (beforeEntry x .AUTHENTICATED)
  obtain ⟨-, b2, b3, -⟩ := beforeEntry_frame x .AUTHENTICATED
  rw [b3] at h6 h8
  exact ⟨r.1, TxDoTheState_loop_enter_stable E spin fuel x _ r hx hr h2, h3.trans b2,
    h4.trans b3, h7.trans (beforeEntry_keeps x _).2.2.2.1, h5, h6, h8⟩

/-- C32.  For a session in WAIT_FOR_READY, when the chunk size of the ksv list
register is positive, dispatching TIMEOUT returns (two transitions of budget
are enough) in a state other than WAIT_FOR_READY, after exactly one more
topology poll.  If the poll fails, or succeeds with an error bit (0x0880) set,
the session ends in UNAUTHENTICATED with previous state WAIT_FOR_READY; if it
succeeds without error bit and with device count zero, in AUTHENTICATED with
previous state WAIT_FOR_READY; if it succeeds without error bit and with a
nonzero device count, the session went through READ_KSV_LIST (its previous
state) and ends in AUTHENTICATED or UNAUTHENTICATED. -/
theorem C32_TIMEOUT_in_WAITFORREADY (E : Env) (spin fuel : Nat) (w : XHdcp1x)
    (hpos : 0 < E.XHDCP1X_PORT_SIZE_KSVFIFO)
    (hs : w.Tx.CurrentState = .WAITFORREADY) :
    ∃ w1, XHdcp1x_TxDoTheState E spin (fuel + 2) w .TIMEOUT = some w1 ∧
      w1.Tx.CurrentState ≠ .WAITFORREADY ∧
      w1.Hist.count Call.PortGetRepeaterInfo = w.Hist.count Call.PortGetRepeaterInfo + 1 ∧
      ((E.PortGetRepeaterInfo w.Hist).1 ≠ E.XST_SUCCESS →
        w1.Tx.CurrentState = .UNAUTHENTICATED ∧ w1.Tx.PreviousState = .WAITFORREADY) ∧
      ((E.PortGetRepeaterInfo w.Hist).1 = E.XST_SUCCESS →
        ((E.PortGetRepeaterInfo w.Hist).2 % 2 ^ 16) &&& 0x0880 ≠ 0 →
        w1.Tx.CurrentState = .UNAUTHENTICATED ∧ w1.Tx.PreviousState = .WAITFORREADY) ∧
      ((E.PortGetRepeaterInfo w.Hist).1 = E.XST_SUCCESS →
        ((E.PortGetRepeaterInfo w.Hist).2 % 2 ^ 16) &&& 0x0880 = 0 →
        ((E.PortGetRepeaterInfo w.Hist).2 % 2 ^ 16) &&& 0x007F = 0 →
        w1.Tx.CurrentState = .AUTHENTICATED ∧ w1.Tx.PreviousState = .WAITFORREADY) ∧
      ((E.PortGetRepeaterInfo w.Hist).1 = E.XST_SUCCESS →
        ((E.PortGetRepeaterInfo w.Hist).2 % 2 ^ 16) &&& 0x0880 = 0 →
        ((E.PortGetRepeaterInfo w.Hist).2 % 2 ^ 16) &&& 0x007F ≠ 0 →
        w1.Tx.PreviousState = .READKSVLIST ∧
        (w1.Tx.CurrentState = .AUTHENTICATED ∨ w1.Tx.CurrentState = .UNAUTHENTICATED)) := by
  obtain ⟨k1, k2, k3, k4⟩ := TxPollForWaitForReady_cases E w .WAITFORREADY
  have hsw : XHdcp1x_TxDoTheState E spin (fuel + 2) w .TIMEOUT =
      XHdcp1x_TxDoTheState_loop E spin (fuel + 2)
        (if (XHdcp1x_TxPollForWaitForReady E w .WAITFORREADY).2 = .WAITFORREADY then
          ((XHdcp1x_TxPollForWaitForReady E w .WAITFORREADY).1, .UNAUTHENTICATED)
         else XHdcp1x_TxPollForWaitForReady E w .WAITFORREADY).1
        (if (XHdcp1x_TxPollForWaitForReady E w .WAITFORREADY).2 = .WAITFORREADY then
          ((XHdcp1x_TxPollForWaitForReady E w .WAITFORREADY).1, .UNAUTHENTICATED)
         else XHdcp1x_TxPollForWaitForReady E w .WAITFORREADY).2 := by
    simp only [XHdcp1x_TxDoTheState, XHdcp1x_TxDoTheState_switch, hs,
      XHdcp1x_TxRunWaitForReadyState]
  have hx : (w.call Call.PortGetRepeaterInfo).Tx.CurrentState = .WAITFORREADY := hs
  have hcount : (w.call Call.PortGetRepeaterInfo).Hist.count Call.PortGetRepeaterInfo =
      w.Hist.count Call.PortGetRepeaterInfo + 1 := by simp
  by_cases hst : (E.PortGetRepeaterInfo w.Hist).1 = E.XST_SUCCESS
  · by_cases herr : ((E.PortGetRepeaterInfo w.Hist).2 % 2 ^ 16) &&& 0x0880 = 0
    · by_cases hdev : ((E.PortGetRepeaterInfo w.Hist).2 % 2 ^ 16) &&& 0x007F = 0
      · rw [k3 hst herr hdev] at hsw
        obtain ⟨w1, h1, h2, h3, h4, -⟩ := TxDoTheState_loop_to_AUTHENTICATED E spin (fuel + 1)
          (w.call Call.PortGetRepeaterInfo) (by rw [hx]; decide)
        refine ⟨w1, hsw.trans h1, by rw [h2]; decide, h4.trans hcount,
          fun h => absurd hst h, fun _ h => absurd herr h,
          fun _ _ _ => ⟨h2, h3.trans hx⟩, fun _ _ h => absurd hdev h⟩
      · rw [k4 hst herr hdev] at hsw
        generalize hxd : (w.call Call.PortGetRepeaterInfo).setTx
          { w.Tx with StateHelper := (E.PortGetRepeaterInfo w.Hist).2 % 2 ^ 16 } = x at hsw
        have hxc : x.Tx.CurrentState = .WAITFORREADY := by rw [← hxd]; exact hs
        have hxh : x.Hist.count Call.PortGetRepeaterInfo =
            w.Hist.count Call.PortGetRepeaterInfo + 1 := by rw [← hxd]; exact hcount
        cases hr : XHdcp1x_TxReadKsvList E (beforeEntry x .READKSVLIST) with
        | none => exact absurd hr (TxReadKsvList_ne_none E hpos _)
        | some r =>
          obtain ⟨⟨-, f2, -, -⟩, hr2⟩ := TxFrame_ReadKsvList E _ r hr
          have hk := (TxKeeps_ReadKsvList E _ r hr).2.2.2.2.1
          have hstep := TxDoTheState_loop_step E spin (fuel + 1) x .READKSVLIST r
            (by rw [hxc]; decide) hr
          have hrc : r.1.Tx.CurrentState = .READKSVLIST :=
            f2.trans (beforeEntry_frame x _).2.1
          have hrh : r.1.Hist.count Call.PortGetRepeaterInfo =
              w.Hist.count Call.PortGetRepeaterInfo + 1 :=
            hk.trans ((beforeEntry_keeps x _).2.2.2.1.trans hxh)
          have hfin : ∃ w1, XHdcp1x_TxDoTheState_loop E spin (fuel + 1) r.1 r.2 = some w1 ∧
              w1.Tx.CurrentState = r.2 ∧ w1.Tx.PreviousState = .READKSVLIST ∧
              w1.Hist.count Call.PortGetRepeaterInfo =
                w.Hist.count Call.PortGetRepeaterInfo + 1 := by
            rcases hr2 with h | h
            · rw [h]
              obtain ⟨w1, h1, h2, h3, h4, -⟩ := TxDoTheState_loop_to_AUTHENTICATED E spin fuel
                r.1 (by rw [hrc]; decide)
              exact ⟨w1, h1, h2, h3.trans hrc, h4.trans hrh⟩
            · rw [h]
              obtain ⟨w1, h1, h2, h3, h4⟩ := TxDoTheState_loop_to_UNAUTHENTICATED E spin fuel
                r.1 (by rw [hrc]; decide)
              exact ⟨w1, h1, h2, h3.trans hrc, h4.trans hrh⟩
          obtain ⟨w1, h1, h2, h3, h4⟩ := hfin
          have hcur : w1.Tx.CurrentState = .AUTHENTICATED ∨
              w1.Tx.CurrentState = .UNAUTHENTICATED := by
            rcases hr2 with h | h
            · exact Or.inl (h2.trans h)
            · exact Or.inr (h2.trans h)
          refine ⟨w1, hsw.trans (hstep.trans h1), ?_, h4,
            fun h => absurd hst h, fun _ h => absurd herr h, fun _ _ h => absurd h hdev,
            fun _ _ _ => ⟨h3, hcur⟩⟩
          rcases hcur with h | h <;> rw [h] <;> decide
    · rw [k2 hst herr] at hsw
      obtain ⟨w1, h1, h2, h3, h4⟩ := TxDoTheState_loop_to_UNAUTHENTICATED E spin (fuel + 1)
        (w.call Call.PortGetRepeaterInfo) (by rw [hx]; decide)
      refine ⟨w1, hsw.trans h1, by rw [h2]; decide, h4.trans hcount,
        fun h => absurd hst h, fun _ _ => ⟨h2, h3.trans hx⟩,
        fun _ h => absurd h herr, fun _ h => absurd h herr⟩
  · rw [k1 hst] at hsw
    obtain ⟨w1, h1, h2, h3, h4⟩ := TxDoTheState_loop_to_UNAUTHENTICATED E spin (fuel + 1)
      (w.call Call.PortGetRepeaterInfo) (by rw [hx]; decide)
    refine ⟨w1, hsw.trans h1, by rw [h2]; decide, h4.trans hcount,
      fun _ => ⟨h2, h3.trans hx⟩, fun h => absurd h hst, fun h => absurd h hst,
      fun h => absurd h hst⟩

/-- Witness for C32: the example environment, whose topology poll reports one
attached device, and the example session in WAIT_FOR_READY. -/
theorem C32_TIMEOUT_in_WAITFORREADY_witness :
    0 < exampleEnv.XHDCP1X_PORT_SIZE_KSVFIFO ∧
    (exampleInst .WAITFORREADY).Tx.CurrentState = .WAITFORREADY ∧
    ∃ w1, XHdcp1x_TxDoTheState exampleEnv 1 2 (exampleInst .WAITFORREADY) .TIMEOUT = some w1 ∧
      w1.Tx.CurrentState ≠ .WAITFORREADY ∧
      w1.Hist.count Call.PortGetRepeaterInfo = 1 ∧
      w1.Tx.PreviousState = .READKSVLIST := by
  refine ⟨by decide, rfl, ?_⟩
  obtain ⟨w1, h1, h2, h3, -, -, -, h7⟩ :=
    C32_TIMEOUT_in_WAITFORREADY exampleEnv 1 0 (exampleInst .WAITFORREADY) (by decide) rfl
  exact ⟨w1, h1, h2, h3, (h7 rfl (by decide) (by decide)).1⟩

/-! ### The auth-passed counter -/

/-- C33.  For a session whose auth-passed counter is below 0xFFFFFFFF (so that
the increment of the 32-bit counter does not wrap): the entry action of
AUTHENTICATED returns with helper zero, the calls of the encryption-realization
helper made, and the auth-passed counter one higher than before when the
previous state (the state left) is not LINK_INTEGRITY_CHECK and unchanged when
it is, in both cases within 32 bits.  A transition into
AUTHENTICATED (the loop of the transition driver run on a session whose
current state is not AUTHENTICATED, with AUTHENTICATED as the next state; one
transition of budget is enough) ends in AUTHENTICATED with helper zero, and the
auth-passed counter is one higher than before the transition when the state
left is neither LINK_INTEGRITY_CHECK nor DISABLED, unchanged when it is
LINK_INTEGRITY_CHECK, and 1 when it is DISABLED (whose exit action clears the
counters).  A CHECK dispatched in AUTHENTICATED whose link check passes ends in
AUTHENTICATED with previous state LINK_INTEGRITY_CHECK, the auth-passed counter
unchanged, helper zero, and the calls of the encryption-realization helper
made after those of the link check. -/
theorem C33_AuthPassed_counts_authentications (E : Env) (spin fuel : Nat) (w : XHdcp1x)
    (hwrap : w.Tx.Stats.AuthPassed < 0xFFFFFFFF) :
    (∃ r, XHdcp1x_TxEnterState E spin w .AUTHENTICATED .AUTHENTICATED = some r ∧
      r.2 = .AUTHENTICATED ∧ r.1.Tx.StateHelper = 0 ∧
      r.1.Tx.Stats.AuthPassed = w.Tx.Stats.AuthPassed +
        (if w.Tx.PreviousState = .LINKINTEGRITYCHECK then 0 else 1) ∧
      r.1.Tx.Stats.AuthPassed ≤ 0xFFFFFFFF ∧
      r.1.Hist = (if w.Tx.PreviousState = .LINKINTEGRITYCHECK then
          XHdcp1x_TxEnableEncryptionState E w
        else XHdcp1x_TxSetCheckLinkState (XHdcp1x_TxEnableEncryptionState E w) true).Hist) ∧
    (w.Tx.CurrentState ≠ .AUTHENTICATED →
      ∃ w1, XHdcp1x_TxDoTheState_loop E spin (fuel + 1) w .AUTHENTICATED = some w1 ∧
        w1.Tx.CurrentState = .AUTHENTICATED ∧ w1.Tx.PreviousState = w.Tx.CurrentState ∧
        w1.Tx.StateHelper = 0 ∧
        (w.Tx.CurrentState ≠ .DISABLED →
          w1.Tx.Stats.AuthPassed = w.Tx.Stats.AuthPassed +
            (if w.Tx.CurrentState = .LINKINTEGRITYCHECK then 0 else 1)) ∧
        (w.Tx.CurrentState = .DISABLED → w1.Tx.Stats.AuthPassed = 1) ∧
        w1.Tx.Stats.AuthPassed ≤ 0xFFFFFFFF ∧
        w1.Hist = (if w.Tx.CurrentState = .LINKINTEGRITYCHECK then
            XHdcp1x_TxEnableEncryptionState E (beforeEntry w .AUTHENTICATED)
          else XHdcp1x_TxSetCheckLinkState
            (XHdcp1x_TxEnableEncryptionState E (beforeEntry w .AUTHENTICATED)) true).Hist) ∧
    (w.Tx.CurrentState = .AUTHENTICATED →
      (XHdcp1x_TxCheckLinkIntegrity E (beforeEntry w .LINKINTEGRITYCHECK)).2 = .AUTHENTICATED →
      ∃ w1, XHdcp1x_TxDoTheState E spin (fuel + 2) w .CHECK = some w1 ∧
        w1.Tx.CurrentState = .AUTHENTICATED ∧
        w1.Tx.PreviousState = .LINKINTEGRITYCHECK ∧
        w1.Tx.Stats.AuthPassed = w.Tx.Stats.AuthPassed ∧
        w1.Tx.StateHelper = 0 ∧
        w1.Hist = (XHdcp1x_TxEnableEncryptionState E
          (XHdcp1x_TxCheckLinkIntegrity E (beforeEntry w .LINKINTEGRITYCHECK)).1).Hist) := by
  refine ⟨?_, ?_, ?_⟩
  · obtain ⟨r, hr, h2, -, -, h5, h6, -, h8⟩ := TxEnterState_AUTHENTICATED E spin w
    exact ⟨r, hr, h2, h5, h6, by rw [h6]; split <;> omega, h8⟩
  · intro hx
    obtain ⟨w1, h1, h2, h3, -, h5, h6, h7⟩ :=
      TxDoTheState_loop_to_AUTHENTICATED E spin fuel w hx
    have hA : w.Tx.CurrentState ≠ .DISABLED →
        w1.Tx.Stats.AuthPassed = w.Tx.Stats.AuthPassed +
          (if w.Tx.CurrentState = .LINKINTEGRITYCHECK then 0 else 1) := fun hd => by
      rw [h6, (beforeEntry_frame w .AUTHENTICATED).2.2.2.1 hd]
    have hB : w.Tx.CurrentState = .DISABLED → w1.Tx.Stats.AuthPassed = 1 := fun hd => by
      rw [h6, hd]
      simp [beforeEntry, hd, XHdcp1x_TxExitState, XHdcp1x_TxEnableState]
    refine ⟨w1, h1, h2, h3, h5, hA, hB, ?_, h7⟩
    by_cases hd : w.Tx.CurrentState = .DISABLED
    · rw [hB hd]; decide
    · rw [hA hd]; split <;> omega
  · intro hs hpass
    have hsw : XHdcp1x_TxDoTheState E spin (fuel + 2) w .CHECK =
        XHdcp1x_TxDoTheState_loop E spin (fuel + 2) w .LINKINTEGRITYCHECK := by
      simp only [XHdcp1x_TxDoTheState, XHdcp1x_TxDoTheState_switch, hs,
        XHdcp1x_TxRunAuthenticatedState]
    have hr : XHdcp1x_TxEnterState E spin (beforeEntry w .LINKINTEGRITYCHECK)
        .LINKINTEGRITYCHECK .LINKINTEGRITYCHECK =
        some (XHdcp1x_TxCheckLinkIntegrity E (beforeEntry w .LINKINTEGRITYCHECK)) := rfl
    have hstep := TxDoTheState_loop_step E spin (fuel + 1) w .LINKINTEGRITYCHECK _
      (by rw [hs]; decide) hr
    obtain ⟨⟨-, f2, -, -⟩, -⟩ :=
      TxFrame_CheckLinkIntegrity E (beforeEntry w .LINKINTEGRITYCHECK)
    have hk := TxKeeps_CheckLinkIntegrity E (beforeEntry w .LINKINTEGRITYCHECK)
    generalize XHdcp1x_TxCheckLinkIntegrity E (beforeEntry w .LINKINTEGRITYCHECK) = r
      at hpass hstep f2 hk ⊢
    have hrc : r.1.Tx.CurrentState = .LINKINTEGRITYCHECK :=
      f2.trans (beforeEntry_frame w _).2.1
    rw [hpass] at hstep
    obtain ⟨w1, h1, h2, h3, -, h5, h6, h7⟩ :=
      TxDoTheState_loop_to_AUTHENTICATED E spin fuel r.1 (by rw [hrc]; decide)
    refine ⟨w1, hsw.trans (hstep.trans h1), h2, h3.trans hrc, ?_, h5, ?_⟩
    · rw [h6, if_pos hrc, Nat.add_zero,
        (beforeEntry_frame r.1 .AUTHENTICATED).2.2.2.1 (by rw [hrc]; decide),
        hk.2.2.2.1, (beforeEntry_frame w .LINKINTEGRITYCHECK).2.2.2.1 (by rw [hs]; decide)]
    · rw [h7, if_pos hrc]
      refine TxEnableEncryptionState_Hist_congr E _ _ (beforeEntry_keeps r.1 _).2.1 ?_
      simp [beforeEntry, hrc, XHdcp1x_TxExitState]

/-- Witness for C33: with the example environment, whose link check value
matches, a transition from TEST_FOR_REPEATER into AUTHENTICATED counts one
authentication, and a CHECK dispatched in AUTHENTICATED counts none. -/
theorem C33_AuthPassed_counts_authentications_witness :
    (exampleInst .TESTFORREPEATER).Tx.Stats.AuthPassed < 0xFFFFFFFF ∧
    (exampleInst .AUTHENTICATED).Tx.Stats.AuthPassed < 0xFFFFFFFF ∧
    (exampleInst .TESTFORREPEATER).Tx.CurrentState ≠ .AUTHENTICATED ∧
    (exampleInst .TESTFORREPEATER).Tx.CurrentState ≠ .DISABLED ∧
    (∃ w1, XHdcp1x_TxDoTheState_loop exampleEnv 1 1 (exampleInst .TESTFORREPEATER)
        .AUTHENTICATED = some w1 ∧ w1.Tx.Stats.AuthPassed = 1) ∧
    (exampleInst .AUTHENTICATED).Tx.CurrentState = .AUTHENTICATED ∧
    (XHdcp1x_TxCheckLinkIntegrity exampleEnv
      (beforeEntry (exampleInst .AUTHENTICATED) .LINKINTEGRITYCHECK)).2 = .AUTHENTICATED ∧
    ∃ w1, XHdcp1x_TxDoTheState exampleEnv 1 2 (exampleInst .AUTHENTICATED) .CHECK = some w1 ∧
      w1.Tx.CurrentState = .AUTHENTICATED ∧ w1.Tx.Stats.AuthPassed = 0 := by
  have h := C33_AuthPassed_counts_authentications exampleEnv 1 0
  refine ⟨by decide, by decide, by decide, by decide, ?_, rfl, by decide, ?_⟩
  · obtain ⟨w1, h1, -, -, -, h5, -⟩ :=
      (h (exampleInst .TESTFORREPEATER) (by decide)).2.1 (by decide)
    exact ⟨w1, h1, (h5 (by decide)).trans rfl⟩
  · obtain ⟨w1, h1, h2, -, h4, -⟩ :=
      (h (exampleInst .AUTHENTICATED) (by decide)).2.2 rfl (by decide)
    exact ⟨w1, h1, h2, h4⟩

/-! ### What the entry actions and the event handlers propose and change -/

theorem TxExchangeKsvs_fields (E : Env) (spin : Nat) (w : XHdcp1x)
    (r : XHdcp1x × XHdcp1x_StateType) (h : XHdcp1x_TxExchangeKsvs E spin w = some r) :
    r.1.Tx.Flags &&& XVPHY_FLAG_PHY_UP = w.Tx.Flags &&& XVPHY_FLAG_PHY_UP ∧
    (r.2 ≠ .COMPUTATIONS → r.1.Tx.StateHelper = w.Tx.StateHelper) := by
  unfold XHdcp1x_TxExchangeKsvs at h
  dsimp only at h
  split at h
  · split at h
    · cases h; simp
    · split at h
      · cases h; simp
      · split at h
        · cases h
        · rename_i w5 An hgen
          cases h
          obtain ⟨h1, -, -, -⟩ := TxGenerateAn_frame E spin _ _ _ hgen
          refine ⟨?_, fun hc => absurd rfl hc⟩
          simp only [call_Tx, setTx_Tx, h1]
          split
          · exact flags_set_REPEATER_phy _
          · exact flags_clear_REPEATER_phy _
  · cases h; simp

theorem TxEnterState_proposal (E : Env) (spin : Nat) (w : XHdcp1x) (s : XHdcp1x_StateType)
    (r : XHdcp1x × XHdcp1x_StateType) (h : XHdcp1x_TxEnterState E spin w s s = some r) :
    (s = .DETERMINERXCAPABLE → r.2 = .EXCHANGEKSVS ∨ r.2 = .UNAUTHENTICATED) ∧
    (s = .EXCHANGEKSVS → r.2 = .COMPUTATIONS ∨ r.2 = .UNAUTHENTICATED) ∧
    (s = .READKSVLIST → r.2 = .AUTHENTICATED ∨ r.2 = .UNAUTHENTICATED) ∧
    (s = .LINKINTEGRITYCHECK → r.2 = .AUTHENTICATED ∨ r.2 = .DETERMINERXCAPABLE) ∧
    (s ≠ .DETERMINERXCAPABLE → s ≠ .EXCHANGEKSVS → s ≠ .READKSVLIST →
      s ≠ .LINKINTEGRITYCHECK → r.2 = s) := by
  cases s
  case EXCHANGEKSVS =>
    obtain ⟨-, h2, -⟩ := TxFrame_ExchangeKsvs E spin _ r h
    simp [h2]
  case READKSVLIST =>
    obtain ⟨-, h2⟩ := TxFrame_ReadKsvList E w r h
    simp [h2]
  case DETERMINERXCAPABLE =>
    simp only [XHdcp1x_TxEnterState, Option.some.injEq] at h
    subst h
    simp [(TxFrame_CheckRxCapable E _).2]
  case LINKINTEGRITYCHECK =>
    simp only [XHdcp1x_TxEnterState, Option.some.injEq] at h
    subst h
    simp [(TxFrame_CheckLinkIntegrity E w).2]
  case AUTHENTICATED =>
    simp only [XHdcp1x_TxEnterState] at h
    split at h <;> cases h <;> simp
  all_goals
    simp only [XHdcp1x_TxEnterState, Option.some.injEq] at h
    subst h
    simp

theorem TxEnterState_helper (E : Env) (spin : Nat) (w : XHdcp1x) (s : XHdcp1x_StateType)
    (r : XHdcp1x × XHdcp1x_StateType) (h : XHdcp1x_TxEnterState E spin w s s = some r) :
    (s = .DISABLED ∨ s = .VALIDATERX ∨ s = .WAITFORREADY ∨ s = .AUTHENTICATED →
      r.1.Tx.StateHelper = 0) ∧
    (s = .DETERMINERXCAPABLE ∨ s = .LINKINTEGRITYCHECK ∨ s = .UNAUTHENTICATED ∨
      s = .PHYDOWN ∨ s = .TESTFORREPEATER ∨ s = .COMPUTATIONS ∨ s = .READKSVLIST →
      r.1.Tx.StateHelper = w.Tx.StateHelper) ∧
    (s = .EXCHANGEKSVS → (r.2 = .COMPUTATIONS ∧ r.1.Tx.StateHelper ≠ 0) ∨
      (r.2 = .UNAUTHENTICATED ∧ r.1.Tx.StateHelper = 0)) := by
  cases s
  case EXCHANGEKSVS =>
    obtain ⟨-, h2, h3⟩ := TxFrame_ExchangeKsvs E spin _ r h
    obtain ⟨-, h4⟩ := TxExchangeKsvs_fields E spin _ r h
    refine ⟨by simp, by simp, fun _ => ?_⟩
    rcases h2 with h2 | h2
    · exact Or.inl ⟨h2, (h3 h2).1⟩
    · exact Or.inr ⟨h2, h4 (by rw [h2]; decide)⟩
  case READKSVLIST =>
    have hk := TxKeeps_ReadKsvList E w r h
    simp [hk.1]
  case DETERMINERXCAPABLE =>
    simp only [XHdcp1x_TxEnterState, Option.some.injEq] at h
    subst h
    simp [(TxKeeps_CheckRxCapable E _).1]
  case LINKINTEGRITYCHECK =>
    simp only [XHdcp1x_TxEnterState, Option.some.injEq] at h
    subst h
    simp [(TxKeeps_CheckLinkIntegrity E w).1]
  case AUTHENTICATED =>
    simp only [XHdcp1x_TxEnterState] at h
    split at h <;> cases h <;> simp
  all_goals
    simp only [XHdcp1x_TxEnterState, Option.some.injEq] at h
    subst h
    simp [XHdcp1x_TxDisableState]

theorem TxEnterState_flags (E : Env) (spin : Nat) (w : XHdcp1x) (s : XHdcp1x_StateType)
    (r : XHdcp1x × XHdcp1x_StateType) (h : XHdcp1x_TxEnterState E spin w s s = some r) :
    (s = .UNAUTHENTICATED ∨ s = .DETERMINERXCAPABLE →
      r.1.Tx.Flags &&& XVPHY_FLAG_PHY_UP ≠ 0) ∧
    (s = .PHYDOWN → r.1.Tx.Flags &&& XVPHY_FLAG_PHY_UP = 0) ∧
    (s ≠ .UNAUTHENTICATED → s ≠ .DETERMINERXCAPABLE → s ≠ .PHYDOWN →
      r.1.Tx.Flags &&& XVPHY_FLAG_PHY_UP = w.Tx.Flags &&& XVPHY_FLAG_PHY_UP) := by
  cases s
  case EXCHANGEKSVS =>
    obtain ⟨h1, -⟩ := TxExchangeKsvs_fields E spin _ r h
    simp [h1]
  case READKSVLIST =>
    have hk := TxKeeps_ReadKsvList E w r h
    simp [hk.2.1]
  case DETERMINERXCAPABLE =>
    simp only [XHdcp1x_TxEnterState, Option.some.injEq] at h
    subst h
    simp only [(TxKeeps_CheckRxCapable E _).2.1, TxDisableEncryptionState_Tx,
      TxSetCheckLinkState_Tx, setTx_Tx]
    simp [flags_set_PHY_UP]
  case LINKINTEGRITYCHECK =>
    simp only [XHdcp1x_TxEnterState, Option.some.injEq] at h
    subst h
    simp [(TxKeeps_CheckLinkIntegrity E w).2.1]
  case AUTHENTICATED =>
    simp only [XHdcp1x_TxEnterState] at h
    split at h <;> cases h <;> simp
  case UNAUTHENTICATED =>
    simp only [XHdcp1x_TxEnterState, Option.some.injEq] at h
    subst h
    simp [flags_set_PHY_UP]
  case PHYDOWN =>
    simp only [XHdcp1x_TxEnterState, Option.some.injEq] at h
    subst h
    simp [land_not32_land_self]
  case DISABLED =>
    simp only [XHdcp1x_TxEnterState, Option.some.injEq] at h
    subst h
    simp [XHdcp1x_TxDisableState, flags_clear_REPEATER_phy]
  all_goals
    simp only [XHdcp1x_TxEnterState, Option.some.injEq] at h
    subst h
    simp

theorem HandlerOk_RunDisabledState (w : XHdcp1x) (e : XHdcp1x_EventType)
    (ns : XHdcp1x_StateType) :
    HandlerOk .DISABLED w ns (XHdcp1x_TxRunDisabledState w e ns) := by
  cases e <;> simp only [XHdcp1x_TxRunDisabledState] <;> (try split) <;> simp [HandlerOk]

theorem HandlerOk_RunDetermineRxCapableState (w : XHdcp1x) (e : XHdcp1x_EventType)
    (ns : XHdcp1x_StateType) :
    HandlerOk .DETERMINERXCAPABLE w ns (XHdcp1x_TxRunDetermineRxCapableState w e ns) := by
  cases e <;> simp [XHdcp1x_TxRunDetermineRxCapableState, HandlerOk]

theorem HandlerOk_RunExchangeKsvsState (w : XHdcp1x) (e : XHdcp1x_EventType)
    (ns : XHdcp1x_StateType) :
    HandlerOk .EXCHANGEKSVS w ns (XHdcp1x_TxRunExchangeKsvsState w e ns) := by
  cases e <;> simp [XHdcp1x_TxRunExchangeKsvsState, HandlerOk]

theorem HandlerOk_RunComputationsState (E : Env) (w : XHdcp1x) (e : XHdcp1x_EventType)
    (ns : XHdcp1x_StateType) :
    HandlerOk .COMPUTATIONS w ns (XHdcp1x_TxRunComputationsState E w e ns) := by
  cases e
  case POLL =>
    have hk := TxKeeps_PollForComputations E w ns
    simp only [XHdcp1x_TxRunComputationsState, HandlerOk]
    rcases TxPollForComputations_snd E w ns with h2 | h2 <;> simp [h2, hk.1, hk.2.1]
  all_goals simp [XHdcp1x_TxRunComputationsState, HandlerOk]

theorem HandlerOk_RunValidateRxState (E : Env) (w : XHdcp1x) (e : XHdcp1x_EventType)
    (ns : XHdcp1x_StateType) :
    HandlerOk .VALIDATERX w ns (XHdcp1x_TxRunValidateRxState E w e ns) := by
  cases e
  case TIMEOUT =>
    have hk := TxKeeps_ValidateRx E w
    simp only [XHdcp1x_TxRunValidateRxState, HandlerOk]
    rcases TxValidateRx_snd E w with h2 | h2 <;> simp [h2, hk.1, hk.2.1]
  all_goals simp [XHdcp1x_TxRunValidateRxState, HandlerOk]

theorem HandlerOk_RunAuthenticatedState (w : XHdcp1x) (e : XHdcp1x_EventType)
    (ns : XHdcp1x_StateType) :
    HandlerOk .AUTHENTICATED w ns (XHdcp1x_TxRunAuthenticatedState w e ns) := by
  cases e <;> simp [XHdcp1x_TxRunAuthenticatedState, HandlerOk]

theorem HandlerOk_RunLinkIntegrityCheckState (E : Env) (w : XHdcp1x) (e : XHdcp1x_EventType)
    (ns : XHdcp1x_StateType) :
    HandlerOk .LINKINTEGRITYCHECK w ns (XHdcp1x_TxRunLinkIntegrityCheckState E w e ns) := by
  cases e
  case POLL =>
    have hk := TxKeeps_CheckLinkIntegrity E w
    simp only [XHdcp1x_TxRunLinkIntegrityCheckState, HandlerOk]
    rcases (TxFrame_CheckLinkIntegrity E w).2 with h2 | h2 <;> simp [h2, hk.1, hk.2.1]
  all_goals simp [XHdcp1x_TxRunLinkIntegrityCheckState, HandlerOk]

theorem TxTestForRepeater_fields (E : Env) (w : XHdcp1x) :
    (XHdcp1x_TxTestForRepeater E w).1.Tx.StateHelper = w.Tx.StateHelper ∧
    (XHdcp1x_TxTestForRepeater E w).1.Tx.Flags &&& XVPHY_FLAG_PHY_UP =
      w.Tx.Flags &&& XVPHY_FLAG_PHY_UP := by
  unfold XHdcp1x_TxTestForRepeater
  split <;> simp [flags_set_REPEATER_phy, flags_clear_REPEATER_phy]

theorem HandlerOk_RunTestForRepeaterState (E : Env) (w : XHdcp1x) (e : XHdcp1x_EventType)
    (ns : XHdcp1x_StateType) :
    HandlerOk .TESTFORREPEATER w ns (XHdcp1x_TxRunTestForRepeaterState E w e ns) := by
  cases e
  case POLL =>
    have hk := TxTestForRepeater_fields E w
    simp only [XHdcp1x_TxRunTestForRepeaterState, HandlerOk]
    rcases TxTestForRepeater_snd E w with h2 | h2 <;> simp [h2, hk.1, hk.2]
  all_goals simp [XHdcp1x_TxRunTestForRepeaterState, HandlerOk]

theorem TxPollForWaitForReady_fields (E : Env) (w : XHdcp1x) (ns : XHdcp1x_StateType) :
    (XHdcp1x_TxPollForWaitForReady E w ns).1.Tx.Flags = w.Tx.Flags ∧
    ((XHdcp1x_TxPollForWaitForReady E w ns).1.Tx.StateHelper = w.Tx.StateHelper ∨
      (XHdcp1x_TxPollForWaitForReady E w ns).2 = .READKSVLIST) := by
  unfold XHdcp1x_TxPollForWaitForReady
  dsimp only
  (repeat' split) <;> simp

theorem HandlerOk_RunWaitForReadyState (E : Env) (w : XHdcp1x) (e : XHdcp1x_EventType)
    (ns : XHdcp1x_StateType) :
    HandlerOk .WAITFORREADY w ns (XHdcp1x_TxRunWaitForReadyState E w e ns) := by
  obtain ⟨hf, hh⟩ := TxPollForWaitForReady_fields E w ns
  cases e
  case POLL =>
    simp only [XHdcp1x_TxRunWaitForReadyState, HandlerOk]
    rcases hh with hh | hh <;> simp [hh, hf]
  case TIMEOUT =>
    simp only [XHdcp1x_TxRunWaitForReadyState, HandlerOk]
    split
    · rename_i h2
      rcases hh with hh | hh
      · simp [hh, hf]
      · rw [hh] at h2; cases h2
    · rcases hh with hh | hh <;> simp [hh, hf]
  all_goals simp [XHdcp1x_TxRunWaitForReadyState, HandlerOk]

theorem HandlerOk_RunReadKsvListState (w : XHdcp1x) (e : XHdcp1x_EventType)
    (ns : XHdcp1x_StateType) :
    HandlerOk .READKSVLIST w ns (XHdcp1x_TxRunReadKsvListState w e ns) := by
  cases e <;> simp [XHdcp1x_TxRunReadKsvListState, HandlerOk]

theorem HandlerOk_RunUnauthenticatedState (w : XHdcp1x) (e : XHdcp1x_EventType)
    (ns : XHdcp1x_StateType) :
    HandlerOk .UNAUTHENTICATED w ns (XHdcp1x_TxRunUnauthenticatedState w e ns) := by
  cases e <;> simp [XHdcp1x_TxRunUnauthenticatedState, HandlerOk]

theorem HandlerOk_RunPhysicalLayerDownState (w : XHdcp1x) (e : XHdcp1x_EventType)
    (ns : XHdcp1x_StateType) :
    HandlerOk .PHYDOWN w ns (XHdcp1x_TxRunPhysicalLayerDownState w e ns) := by
  cases e <;> simp only [XHdcp1x_TxRunPhysicalLayerDownState] <;> (try split) <;>
    simp [HandlerOk, XHdcp1x_TxPostEvent]

theorem TxDoTheState_switch_HandlerOk (E : Env) (w : XHdcp1x) (e : XHdcp1x_EventType) :
    HandlerOk w.Tx.CurrentState w w.Tx.CurrentState (XHdcp1x_TxDoTheState_switch E w e) := by
  unfold XHdcp1x_TxDoTheState_switch
  dsimp only
  split
  · rename_i hc; rw [hc]; exact HandlerOk_RunDisabledState w e _
  · rename_i hc; rw [hc]; exact HandlerOk_RunDetermineRxCapableState w e _
  · rename_i hc; rw [hc]; exact HandlerOk_RunExchangeKsvsState w e _
  · rename_i hc; rw [hc]; exact HandlerOk_RunComputationsState E w e _
  · rename_i hc; rw [hc]; exact HandlerOk_RunValidateRxState E w e _
  · rename_i hc; rw [hc]; exact HandlerOk_RunAuthenticatedState w e _
  · rename_i hc; rw [hc]; exact HandlerOk_RunLinkIntegrityCheckState E w e _
  · rename_i hc; rw [hc]; exact HandlerOk_RunTestForRepeaterState E w e _
  · rename_i hc; rw [hc]; exact HandlerOk_RunWaitForReadyState E w e _
  · rename_i hc; rw [hc]; exact HandlerOk_RunReadKsvListState w e _
  · rename_i hc; rw [hc]; exact HandlerOk_RunUnauthenticatedState w e _
  · rename_i hc; rw [hc]; exact HandlerOk_RunPhysicalLayerDownState w e _

theorem TxDoTheState_loop_invariant (E : Env) (spin : Nat)
    (I : XHdcp1x → XHdcp1x_StateType → Prop) (P : XHdcp1x → Prop)
    (hbase : ∀ w, I w w.Tx.CurrentState → P w)
    (hstep : ∀ w ns r, I w ns → w.Tx.CurrentState ≠ ns →
      XHdcp1x_TxEnterState E spin (beforeEntry w ns) ns ns = some r → I r.1 r.2) :
    ∀ fuel w ns w1, I w ns →
      XHdcp1x_TxDoTheState_loop E spin fuel w ns = some w1 → P w1 := by
  intro fuel
  induction fuel with
  | zero =>
    intro w ns w1 hI h
    unfold XHdcp1x_TxDoTheState_loop at h
    split at h
    · cases h
    · rename_i hc
      cases h
      have hc' : w.Tx.CurrentState = ns := by simpa using hc
      subst hc'
      exact hbase w hI
  | succ k ih =>
    intro w ns w1 hI h
    by_cases hc : w.Tx.CurrentState = ns
    · rw [TxDoTheState_loop_fix E spin (k + 1) w ns hc] at h
      cases h
      subst hc
      exact hbase w hI
    · cases hr : XHdcp1x_TxEnterState E spin (beforeEntry w ns) ns ns with
      | none =>
        have hr' : XHdcp1x_TxEnterState E spin (beforeEntry w ns)
            (beforeEntry w ns).Tx.CurrentState ns = none := hr
        unfold XHdcp1x_TxDoTheState_loop at h
        rw [if_pos hc] at h
        change (match XHdcp1x_TxEnterState E spin (beforeEntry w ns)
            (beforeEntry w ns).Tx.CurrentState ns with
          | none => none
          | some r => XHdcp1x_TxDoTheState_loop E spin k r.1 r.2) = some w1 at h
        rw [hr'] at h
        cases h
      | some r =>
        rw [TxDoTheState_loop_step E spin k w ns r hc hr] at h
        exact ih r.1 r.2 w1 (hstep w ns r hI hc hr) h

theorem dispatchAll_invariant (E : Env) (spin fuel : Nat) (P : XHdcp1x → Prop)
    (hstep : ∀ w e w1, P w → XHdcp1x_TxDoTheState E spin fuel w e = some w1 → P w1) :
    ∀ es w w1, P w → dispatchAll E spin fuel w es = some w1 → P w1 := by
  intro es
  induction es with
  | nil => intro w w1 hP h; cases h; exact hP
  | cons e t ih =>
    intro w w1 hP h
    unfold dispatchAll at h
    split at h
    · cases h
    · rename_i w2 h2
      exact ih w2 w1 (hstep w e w2 hP h2) h

/-! ### Sessions reachable from DISABLED -/

theorem TxDoTheState_returns (E : Env) (spin fuel : Nat)
    (hrng : RngCompletes E spin) (hpos : 0 < E.XHDCP1X_PORT_SIZE_KSVFIFO) (hfuel : 4 ≤ fuel)
    (w : XHdcp1x) (e : XHdcp1x_EventType) :
    ∃ w1, XHdcp1x_TxDoTheState E spin fuel w e = some w1 := by
  obtain ⟨w1, tr, -, hall⟩ := TxDoTheState_loopTrace_terminates E spin hrng hpos 3
    (XHdcp1x_TxDoTheState_switch E w e).2 (XHdcp1x_TxDoTheState_switch E w e).1
    (enterDepth_le_three _)
  refine ⟨w1, ?_⟩
  rw [← TxDoTheState_trace_fst]
  show (XHdcp1x_TxDoTheState_loopTrace E spin fuel _ _).map Prod.fst = _
  rw [hall fuel hfuel]
  rfl

theorem dispatchAll_returns (E : Env) (spin fuel : Nat)
    (hrng : RngCompletes E spin) (hpos : 0 < E.XHDCP1X_PORT_SIZE_KSVFIFO) (hfuel : 4 ≤ fuel) :
    ∀ es w, ∃ w1, dispatchAll E spin fuel w es = some w1 := by
  intro es
  induction es with
  | nil => intro w; exact ⟨w, rfl⟩
  | cons e t ih =>
    intro w
    obtain ⟨w1, h1⟩ := TxDoTheState_returns E spin fuel hrng hpos hfuel w e
    obtain ⟨w2, h2⟩ := ih w1
    refine ⟨w2, ?_⟩
    unfold dispatchAll
    rw [h1]
    exact h2

theorem TxEnterState_CurrentState (E : Env) (spin : Nat) (x : XHdcp1x)
    (ns : XHdcp1x_StateType) (r : XHdcp1x × XHdcp1x_StateType)
    (hr : XHdcp1x_TxEnterState E spin (beforeEntry x ns) ns ns = some r) :
    r.1.Tx.CurrentState = ns ∧ r.1.Tx.PreviousState = x.Tx.CurrentState := by
  obtain ⟨⟨-, hcur, hprev, -⟩, -⟩ := TxEnterState_analysis E spin _ ns r hr
  exact ⟨hcur.trans (beforeEntry_frame x ns).2.1, hprev.trans (beforeEntry_frame x ns).2.2.1⟩

theorem TxEnterState_transient (E : Env) (spin : Nat) (b : XHdcp1x) (s : XHdcp1x_StateType)
    (r : XHdcp1x × XHdcp1x_StateType) (hr : XHdcp1x_TxEnterState E spin b s s = some r)
    (hs : s = .DETERMINERXCAPABLE ∨ s = .EXCHANGEKSVS ∨ s = .READKSVLIST ∨
      s = .LINKINTEGRITYCHECK) : r.2 ≠ s := by
  obtain ⟨p1, p2, p3, p4, -⟩ := TxEnterState_proposal E spin b s r hr
  rcases hs with hs | hs | hs | hs
  · rcases p1 hs with h | h <;> rw [h, hs] <;> decide
  · rcases p2 hs with h | h <;> rw [h, hs] <;> decide
  · rcases p3 hs with h | h <;> rw [h, hs] <;> decide
  · rcases p4 hs with h | h <;> rw [h, hs] <;> decide

theorem TxDoTheState_not_transient (E : Env) (spin fuel : Nat) (w : XHdcp1x)
    (e : XHdcp1x_EventType) (w1 : XHdcp1x)
    (hP : ¬ (w.Tx.CurrentState = .DETERMINERXCAPABLE ∨ w.Tx.CurrentState = .EXCHANGEKSVS ∨
      w.Tx.CurrentState = .READKSVLIST ∨ w.Tx.CurrentState = .LINKINTEGRITYCHECK))
    (h : XHdcp1x_TxDoTheState E spin fuel w e = some w1) :
    ¬ (w1.Tx.CurrentState = .DETERMINERXCAPABLE ∨ w1.Tx.CurrentState = .EXCHANGEKSVS ∨
      w1.Tx.CurrentState = .READKSVLIST ∨ w1.Tx.CurrentState = .LINKINTEGRITYCHECK) := by
  refine TxDoTheState_loop_invariant E spin
    (fun x ns => x.Tx.CurrentState = ns →
      ¬ (x.Tx.CurrentState = .DETERMINERXCAPABLE ∨ x.Tx.CurrentState = .EXCHANGEKSVS ∨
        x.Tx.CurrentState = .READKSVLIST ∨ x.Tx.CurrentState = .LINKINTEGRITYCHECK))
    (fun x => ¬ (x.Tx.CurrentState = .DETERMINERXCAPABLE ∨
      x.Tx.CurrentState = .EXCHANGEKSVS ∨ x.Tx.CurrentState = .READKSVLIST ∨
      x.Tx.CurrentState = .LINKINTEGRITYCHECK))
    (fun x hx => hx rfl) ?_ fuel _ _ w1 ?_ h
  · intro x ns r _ _ hr heq
    obtain ⟨hrc, -⟩ := TxEnterState_CurrentState E spin x ns r hr
    rw [hrc]
    intro hT
    exact TxEnterState_transient E spin _ ns r hr hT (heq.symm.trans hrc)
  · intro _
    obtain ⟨⟨-, hc, -, -⟩, -⟩ := TxDoTheState_switch_analysis E w e
    rw [hc]
    exact hP

/-- C36.  For every environment: the entry action of DETERMINE_RX_CAPABLE,
EXCHANGE_KSVS, READ_KSV_LIST or LINK_INTEGRITY_CHECK, whenever it returns,
proposes a next state other than the state entered; and starting from a
session whose current state is DISABLED, whenever the dispatch of a sequence
of events returns, the current state is none of those four.  When every
accepted random-number request completes within the poll budget, the chunk size
of the ksv list register is positive and the budget of transitions per
dispatch is at least 4, the dispatch of every sequence returns. -/
theorem C36_transient_states_never_persist (E : Env) (spin fuel : Nat) (w0 : XHdcp1x)
    (h0 : w0.Tx.CurrentState = .DISABLED) :
    (∀ b s r, XHdcp1x_TxEnterState E spin b s s = some r →
      s = .DETERMINERXCAPABLE ∨ s = .EXCHANGEKSVS ∨ s = .READKSVLIST ∨
        s = .LINKINTEGRITYCHECK → r.2 ≠ s) ∧
    (∀ es w, dispatchAll E spin fuel w0 es = some w →
      w.Tx.CurrentState ≠ .DETERMINERXCAPABLE ∧ w.Tx.CurrentState ≠ .EXCHANGEKSVS ∧
      w.Tx.CurrentState ≠ .READKSVLIST ∧ w.Tx.CurrentState ≠ .LINKINTEGRITYCHECK) ∧
    (RngCompletes E spin → 0 < E.XHDCP1X_PORT_SIZE_KSVFIFO → 4 ≤ fuel →
      ∀ es, ∃ w, dispatchAll E spin fuel w0 es = some w) := by
  refine ⟨fun b s r hr hs => TxEnterState_transient E spin b s r hr hs, fun es w h => ?_,
    fun hrng hpos hfuel es => dispatchAll_returns E spin fuel hrng hpos hfuel es w0⟩
  have hP := dispatchAll_invariant E spin fuel
    (fun x => ¬ (x.Tx.CurrentState = .DETERMINERXCAPABLE ∨
      x.Tx.CurrentState = .EXCHANGEKSVS ∨ x.Tx.CurrentState = .READKSVLIST ∨
      x.Tx.CurrentState = .LINKINTEGRITYCHECK))
    (fun x e x1 hx hd => TxDoTheState_not_transient E spin fuel x e x1 hx hd)
    es w0 w (by show ¬ _; rw [h0]; decide) h
  exact ⟨fun h => hP (Or.inl h), fun h => hP (Or.inr (Or.inl h)),
    fun h => hP (Or.inr (Or.inr (Or.inl h))), fun h => hP (Or.inr (Or.inr (Or.inr h)))⟩

/-- Witness for C36: the disabled example session and a receiver whose key
register cannot be read; ENABLE then AUTHENTICATE goes through
DETERMINE_RX_CAPABLE and EXCHANGE_KSVS and comes to rest in UNAUTHENTICATED. -/
theorem C36_transient_states_never_persist_witness :
    (exampleInst .DISABLED).Tx.CurrentState = .DISABLED ∧
    ∃ w, dispatchAll exampleEnvLinkLost 1 4 (exampleInst .DISABLED) [.ENABLE, .AUTHENTICATE] =
        some w ∧
      w.Tx.CurrentState = .UNAUTHENTICATED ∧ w.Tx.PreviousState = .EXCHANGEKSVS ∧
      w.Tx.CurrentState ≠ .EXCHANGEKSVS := by
  refine ⟨rfl, ?_⟩
  have hs : (dispatchAll exampleEnvLinkLost 1 4 (exampleInst .DISABLED)
      [.ENABLE, .AUTHENTICATE]).map (fun r => (r.Tx.CurrentState, r.Tx.PreviousState)) =
      some (.UNAUTHENTICATED, .EXCHANGEKSVS) := by decide
  cases hx : dispatchAll exampleEnvLinkLost 1 4 (exampleInst .DISABLED)
      [.ENABLE, .AUTHENTICATE] with
  | none => rw [hx] at hs; cases hs
  | some w =>
    rw [hx] at hs
    simp only [Option.map_some', Option.some.injEq, Prod.mk.injEq] at hs
    exact ⟨w, rfl, hs.1, hs.2,
      ((C36_transient_states_never_persist exampleEnvLinkLost 1 4 (exampleInst .DISABLED)
        rfl).2.1 _ w hx).2.1⟩

theorem transitionsOf_getLast (final : XHdcp1x_StateType) :
    ∀ (tr : List XHdcp1x_StateType) (a : XHdcp1x_StateType), tr.getLast? = some a →
      (a, final) ∈ transitionsOf tr final := by
  intro tr
  induction tr with
  | nil => intro a h; cases h
  | cons b t ih =>
    intro a h
    cases t with
    | nil =>
      simp only [List.getLast?_singleton, Option.some.injEq] at h
      subst h
      simp [transitionsOf]
    | cons c t2 =>
      rw [List.getLast?_cons_cons] at h
      simp only [transitionsOf, List.mem_cons]
      exact Or.inr (ih a h)

theorem TxDoTheState_loopTrace_into_AUTHENTICATED (E : Env) (spin : Nat) :
    ∀ fuel w ns w1 tr,
      (ns = .AUTHENTICATED → w.Tx.CurrentState = .AUTHENTICATED ∨
        leadsToAuthenticated w.Tx.CurrentState = true) →
      XHdcp1x_TxDoTheState_loopTrace E spin fuel w ns = some (w1, tr) →
      (tr = [] → w1 = w) ∧ (tr ≠ [] → tr.head? = some w.Tx.CurrentState) ∧
      ∀ p ∈ transitionsOf tr w1.Tx.CurrentState, p.2 = .AUTHENTICATED →
        leadsToAuthenticated p.1 = true := by
  refine TxDoTheState_loopTrace_induct E spin
    (fun w ns => ns = .AUTHENTICATED → w.Tx.CurrentState = .AUTHENTICATED ∨
      leadsToAuthenticated w.Tx.CurrentState = true)
    (fun w _ w1 tr => (tr = [] → w1 = w) ∧ (tr ≠ [] → tr.head? = some w.Tx.CurrentState) ∧
      ∀ p ∈ transitionsOf tr w1.Tx.CurrentState, p.2 = .AUTHENTICATED →
        leadsToAuthenticated p.1 = true)
    ?_ ?_
  · intro w
    exact ⟨fun _ => rfl, fun h => absurd rfl h, fun p hp => by simp [transitionsOf] at hp⟩
  · intro w ns r w1 tr hI hne hr
    obtain ⟨hrc, -⟩ := TxEnterState_CurrentState E spin w ns r hr
    obtain ⟨p1, p2, p3, p4, p5⟩ := TxEnterState_proposal E spin _ ns r hr
    have hfirst : ns = .AUTHENTICATED → leadsToAuthenticated w.Tx.CurrentState = true := by
      intro h
      rcases hI h with h1 | h1
      · exact absurd (h1.trans h.symm) hne
      · exact h1
    constructor
    · intro h2
      rw [hrc]
      by_cases hA : ns = .AUTHENTICATED
      · exact Or.inl hA
      · right
        by_cases h3 : ns = .READKSVLIST
        · rw [h3]; rfl
        · by_cases h4 : ns = .LINKINTEGRITYCHECK
          · rw [h4]; rfl
          · exfalso
            cases ns <;> simp_all
    · intro hQ
      obtain ⟨q1, q2, q3⟩ := hQ
      refine ⟨fun h => List.noConfusion h, fun _ => rfl, ?_⟩
      cases tr with
      | nil =>
        have hw := q1 rfl
        subst hw
        intro p hp
        simp only [transitionsOf, List.mem_singleton] at hp
        subst hp
        intro h
        exact hfirst (hrc.symm.trans h)
      | cons a t =>
        have ha := q2 (by simp)
        simp only [List.head?_cons, Option.some.injEq] at ha
        intro p hp
        simp only [transitionsOf, List.mem_cons] at hp
        rcases hp with hp | hp
        · subst hp
          intro h
          exact hfirst ((ha.trans hrc).symm.trans h)
        · exact q3 p hp

theorem leadsToAuthenticated_iff (s : XHdcp1x_StateType) :
    leadsToAuthenticated s = true ↔
      (s = .TESTFORREPEATER ∨ s = .WAITFORREADY ∨ s = .READKSVLIST ∨
        s = .LINKINTEGRITYCHECK) := by
  cases s <;> simp [leadsToAuthenticated]

theorem TxDoTheState_trace_into_AUTHENTICATED (E : Env) (spin fuel : Nat) (w : XHdcp1x)
    (e : XHdcp1x_EventType) (w1 : XHdcp1x) (tr : List XHdcp1x_StateType)
    (h : XHdcp1x_TxDoTheState_trace E spin fuel w e = some (w1, tr)) :
    ∀ p ∈ transitionsOf tr w1.Tx.CurrentState, p.2 = .AUTHENTICATED →
      leadsToAuthenticated p.1 = true := by
  refine (TxDoTheState_loopTrace_into_AUTHENTICATED E spin fuel _ _ w1 tr ?_ h).2.2
  intro h2
  obtain ⟨⟨-, hc, -, -⟩, -⟩ := TxDoTheState_switch_analysis E w e
  obtain ⟨-, -, k3, -, -⟩ := TxDoTheState_switch_HandlerOk E w e
  rw [hc]
  rcases k3 h2 with k | k | k | k
  · exact Or.inl k
  · exact Or.inr (by rw [k]; rfl)
  · exact Or.inr (by rw [k]; rfl)
  · exact Or.inr (by rw [k]; rfl)

theorem TxDoTheState_previous_of_AUTHENTICATED (E : Env) (spin fuel : Nat) (w : XHdcp1x)
    (e : XHdcp1x_EventType) (w1 : XHdcp1x)
    (hP : w.Tx.CurrentState = .AUTHENTICATED → leadsToAuthenticated w.Tx.PreviousState = true)
    (h : XHdcp1x_TxDoTheState E spin fuel w e = some w1) :
    w1.Tx.CurrentState = .AUTHENTICATED → leadsToAuthenticated w1.Tx.PreviousState = true := by
  have hfst := TxDoTheState_trace_fst E spin fuel w e
  rw [h] at hfst
  cases ht : XHdcp1x_TxDoTheState_trace E spin fuel w e with
  | none => rw [ht] at hfst; cases hfst
  | some p =>
    obtain ⟨w2, tr⟩ := p
    rw [ht] at hfst
    simp only [Option.map_some', Option.some.injEq] at hfst
    subst hfst
    obtain ⟨h1, h2⟩ := TxDoTheState_loopTrace_previous E spin fuel _ _ w2 tr ht
    by_cases hnil : tr = []
    · have hw := h1 hnil
      obtain ⟨⟨-, hc, hp, -⟩, -⟩ := TxDoTheState_switch_analysis E w e
      rw [hw, hc, hp]
      exact hP
    · obtain ⟨h3, -, -⟩ := h2 hnil
      intro hA
      exact TxDoTheState_trace_into_AUTHENTICATED E spin fuel w e w2 tr ht _
        (transitionsOf_getLast _ tr _ h3) hA

theorem TxReadKsvList_loop_valid (E : Env) (RepeaterInfo : Nat) :
    ∀ n x x1, XHdcp1x_TxReadKsvList_loop E RepeaterInfo n x = some (x1, true) →
      ∃ y, XHdcp1x_TxValidateKsvList E y RepeaterInfo = some (x1, true) := by
  intro n
  induction n with
  | zero => intro x x1 h; exact ⟨x, h⟩
  | succ k ih =>
    intro x x1 h
    unfold XHdcp1x_TxReadKsvList_loop at h
    split at h
    · cases h
    · rename_i w1 v hv
      split at h
      · exact ih _ _ h
      · cases h; exact ⟨x, hv⟩

theorem TxCheckLinkIntegrity_loop_match (E : Env) :
    ∀ n x ns, (XHdcp1x_TxCheckLinkIntegrity_loop E n x ns).2 = .AUTHENTICATED →
      ns = .AUTHENTICATED ∨ ∃ h, RiAttemptOk E h = true := by
  intro n
  induction n with
  | zero =>
    intro x ns h
    simp only [XHdcp1x_TxCheckLinkIntegrity_loop, TxCheckLinkIntegrity_body_snd] at h
    split at h
    · rename_i hok; exact Or.inr ⟨_, hok⟩
    · exact Or.inl h
  | succ k ih =>
    intro x ns h
    unfold XHdcp1x_TxCheckLinkIntegrity_loop at h
    dsimp only at h
    have hb := TxCheckLinkIntegrity_body_snd E x ns
    split at h
    · rcases ih _ _ h with h1 | h1
      · rw [hb] at h1
        split at h1
        · rename_i hok; exact Or.inr ⟨_, hok⟩
        · exact Or.inl h1
      · exact Or.inr h1
    · rw [hb] at h
      split at h
      · rename_i hok; exact Or.inr ⟨_, hok⟩
      · exact Or.inl h

theorem authentication_run (E : Env) (spin fuel : Nat) (w : XHdcp1x)
    (data : List Nat) (hfuel : 3 ≤ fuel)
    (hstate : w.Tx.CurrentState = .UNAUTHENTICATED)
    (hrng : RngCompletes E spin)
    (hcap : ∀ h, E.PortIsCapable h = true)
    (hkey : ∀ h, E.PortRead h E.XHDCP1X_PORT_OFFSET_BKSV 5 = some data)
    (hw : hammingWeight (RemoteKsvOf E data) = 20)
    (hrev : ∀ h, E.PlatformIsKsvRevoked h (RemoteKsvOf E data) = false)
    (hblk : ∀ h, E.CipherIsRequestComplete (Call.CipherDoRequest .BLOCK :: h) = true)
    (hro : ∀ h, RoAttemptOk E (Call.PlatformTimerStart 100 :: h) = true)
    (hrep : ∀ h, E.PortIsRepeater h = false) :
    (∃ w1, dispatchAll E spin fuel w [.AUTHENTICATE] = some w1 ∧
      w1.Tx.CurrentState = .COMPUTATIONS) ∧
    (∃ w4, dispatchAll E spin fuel w [.AUTHENTICATE, .POLL, .TIMEOUT, .POLL] = some w4 ∧
      w4.Tx.CurrentState = .AUTHENTICATED) := by
  obtain ⟨w1, e1, s1, t1, h1, hh1⟩ :=
    dispatch_AUTHENTICATE_from_UNAUTHENTICATED E spin fuel w data hfuel hstate hrng hcap hkey
      hw hrev
  obtain ⟨w2, e2, s2, t2, h2, hh2⟩ :=
    dispatch_POLL_from_COMPUTATIONS E spin fuel w1 (by omega) s1 (by rw [hh1]; exact hblk _)
  obtain ⟨w3, e3, s3, t3⟩ :=
    dispatch_TIMEOUT_from_VALIDATERX E spin fuel w2 (by omega) s2 (by rw [hh2]; exact hro _)
  obtain ⟨w4, e4, s4, t4⟩ :=
    dispatch_POLL_from_TESTFORREPEATER E spin fuel w3 (by omega) s3 (hrep _)
  exact ⟨⟨w1, by simp [dispatchAll, e1], s1⟩, ⟨w4, by simp [dispatchAll, e1, e2, e3, e4], s4⟩⟩

theorem exampleRun (es : List XHdcp1x_EventType) :
    ∃ w0, XHdcp1x_TxDoTheState exampleEnv 1 4 (exampleInst .DISABLED) .ENABLE = some w0 ∧
      dispatchAll exampleEnv 1 4 (exampleInst .DISABLED) (.ENABLE :: es) =
        dispatchAll exampleEnv 1 4 w0 es ∧
      (∃ w1, dispatchAll exampleEnv 1 4 w0 [.AUTHENTICATE] = some w1 ∧
        w1.Tx.CurrentState = .COMPUTATIONS) ∧
      (∃ w4, dispatchAll exampleEnv 1 4 w0 [.AUTHENTICATE, .POLL, .TIMEOUT, .POLL] = some w4 ∧
        w4.Tx.CurrentState = .AUTHENTICATED) := by
  obtain ⟨w0, e0, s0, -⟩ := dispatch_ENABLE_in_DISABLED exampleEnv 1 3 (exampleInst .DISABLED) rfl
  have hr := authentication_run exampleEnv 1 4 w0 [0xFF, 0xFF, 0x0F, 0x00, 0x00] (by decide)
    (s0 (by decide)) (fun _ _ => ⟨0, by decide, rfl⟩) (fun _ => rfl) (fun _ => rfl) (by decide)
    (fun _ => rfl) (fun _ => rfl) (fun _ => rfl) (fun _ => rfl)
  refine ⟨w0, e0, ?_, hr.1, hr.2⟩
  conv_lhs => unfold dispatchAll
  rw [e0]

theorem helperDue_step (E : Env) (spin : Nat) (x : XHdcp1x) (ns : XHdcp1x_StateType)
    (r : XHdcp1x × XHdcp1x_StateType) (hI : helperDue x ns) (hc : x.Tx.CurrentState ≠ ns)
    (hr : XHdcp1x_TxEnterState E spin (beforeEntry x ns) ns ns = some r) :
    helperDue r.1 r.2 := by
  obtain ⟨hrc, -⟩ := TxEnterState_CurrentState E spin x ns r hr
  obtain ⟨p1, p2, p3, p4, p5⟩ := TxEnterState_proposal E spin _ ns r hr
  obtain ⟨e1, e2, e3⟩ := TxEnterState_helper E spin _ ns r hr
  have hb := (beforeEntry_keeps x ns).2.2.1
  rw [hb] at e2
  obtain ⟨i1, i2, i3⟩ := hI
  unfold helperDue
  rw [hrc]
  clear hr hb
  generalize x.Tx.CurrentState = c at *
  generalize x.Tx.StateHelper = a at *
  generalize r.1.Tx.StateHelper = a1 at *
  generalize r.2 = n2 at *
  clear hrc
  cases ns <;> simp at p1 p2 p3 p4 p5 e1 e2 e3 i3 ⊢ <;> cases c <;> simp_all <;>
    first
    | (rcases p1 with h | h <;> simp_all)
    | (rcases p2 with h | h <;> simp_all)
    | (rcases p3 with h | h <;> simp_all)
    | (rcases p4 with h | h <;> simp_all)

theorem TxDoTheState_helper (E : Env) (spin fuel : Nat) (w : XHdcp1x)
    (e : XHdcp1x_EventType) (w1 : XHdcp1x)
    (hP : (w.Tx.CurrentState ≠ .COMPUTATIONS → w.Tx.StateHelper = 0) ∧
      (w.Tx.CurrentState = .COMPUTATIONS → w.Tx.StateHelper ≠ 0))
    (h : XHdcp1x_TxDoTheState E spin fuel w e = some w1) :
    (w1.Tx.CurrentState ≠ .COMPUTATIONS → w1.Tx.StateHelper = 0) ∧
    (w1.Tx.CurrentState = .COMPUTATIONS → w1.Tx.StateHelper ≠ 0) := by
  refine TxDoTheState_loop_invariant E spin helperDue
    (fun x => (x.Tx.CurrentState ≠ .COMPUTATIONS → x.Tx.StateHelper = 0) ∧
      (x.Tx.CurrentState = .COMPUTATIONS → x.Tx.StateHelper ≠ 0))
    ?_ (fun x ns r hI hc hr => helperDue_step E spin x ns r hI hc hr) fuel _ _ w1 ?_ h
  · intro x hx
    obtain ⟨i1, i2, -⟩ := hx
    refine ⟨fun hc => ?_, i1⟩
    rcases i2 hc with h | h | h | h
    · exact h
    · have := h.1.symm.trans h.2; cases this
    · exact absurd h.1 h.2
    · exact absurd h.2 hc
  · obtain ⟨⟨-, hc, -, -⟩, hcomp⟩ := TxDoTheState_switch_analysis E w e
    obtain ⟨k1, -⟩ := TxDoTheState_switch_HandlerOk E w e
    obtain ⟨q1, q2⟩ := hP
    unfold helperDue
    rw [hc]
    refine ⟨fun h => ?_, fun h => ?_, fun h => Or.inl (hcomp h)⟩
    · rcases k1 with k | k
      · rw [k]; exact q2 h
      · have := h.symm.trans k.2; cases this
    · rcases k1 with k | k
      · exact Or.inl (k.trans (q1 h))
      · exact Or.inr (Or.inl ⟨k.2, k.1⟩)

/-- C35.  For every environment: starting from a session whose current state
is DISABLED and whose state helper is zero, whenever the dispatch of a sequence
of events returns, the state helper is zero if the current state is not
COMPUTATIONS and nonzero if it is COMPUTATIONS.  When every accepted
random-number request completes within the poll budget, the chunk size of the
ksv list register is positive and the budget of transitions per dispatch is at
least 4, the dispatch of every sequence returns. -/
theorem C35_state_helper_hygiene (E : Env) (spin fuel : Nat) (w0 : XHdcp1x)
    (h0 : w0.Tx.CurrentState = .DISABLED) (hh : w0.Tx.StateHelper = 0) :
    (∀ es w, dispatchAll E spin fuel w0 es = some w →
      (w.Tx.CurrentState ≠ .COMPUTATIONS → w.Tx.StateHelper = 0) ∧
      (w.Tx.CurrentState = .COMPUTATIONS → w.Tx.StateHelper ≠ 0)) ∧
    (RngCompletes E spin → 0 < E.XHDCP1X_PORT_SIZE_KSVFIFO → 4 ≤ fuel →
      ∀ es, ∃ w, dispatchAll E spin fuel w0 es = some w) := by
  refine ⟨fun es w h => ?_,
    fun hrng hpos hfuel es => dispatchAll_returns E spin fuel hrng hpos hfuel es w0⟩
  exact dispatchAll_invariant E spin fuel
    (fun x => (x.Tx.CurrentState ≠ .COMPUTATIONS → x.Tx.StateHelper = 0) ∧
      (x.Tx.CurrentState = .COMPUTATIONS → x.Tx.StateHelper ≠ 0))
    (fun x e x1 hx hd => TxDoTheState_helper E spin fuel x e x1 hx hd)
    es w0 w ⟨fun _ => hh, fun h => by rw [h0] at h; cases h⟩ h

/-- Witness for C35: the disabled example session is enabled and starts an
authentication against the example receiver; it rests in COMPUTATIONS with a
nonzero helper. -/
theorem C35_state_helper_hygiene_witness :
    (exampleInst .DISABLED).Tx.CurrentState = .DISABLED ∧
    (exampleInst .DISABLED).Tx.StateHelper = 0 ∧
    ∃ w, dispatchAll exampleEnv 1 4 (exampleInst .DISABLED) [.ENABLE, .AUTHENTICATE] =
        some w ∧
      w.Tx.CurrentState = .COMPUTATIONS ∧ w.Tx.StateHelper ≠ 0 := by
  obtain ⟨w0, -, h1, ⟨w1, h2, s2⟩, -⟩ := exampleRun [.AUTHENTICATE]
  have h := h1.trans h2
  exact ⟨rfl, rfl, w1, h, s2,
    ((C35_state_helper_hygiene exampleEnv 1 4 (exampleInst .DISABLED) rfl rfl).1 _ w1 h).2 s2⟩

theorem linkFlagDue_step (E : Env) (spin : Nat) (x : XHdcp1x) (ns : XHdcp1x_StateType)
    (r : XHdcp1x × XHdcp1x_StateType) (hI : linkFlagDue x ns) (hc : x.Tx.CurrentState ≠ ns)
    (hr : XHdcp1x_TxEnterState E spin (beforeEntry x ns) ns ns = some r) :
    linkFlagDue r.1 r.2 := by
  obtain ⟨hrc, -⟩ := TxEnterState_CurrentState E spin x ns r hr
  obtain ⟨-, -, -, -, p5⟩ := TxEnterState_proposal E spin _ ns r hr
  obtain ⟨f1, f2, f3⟩ := TxEnterState_flags E spin _ ns r hr
  rw [(beforeEntry_keeps x ns).1] at f3
  obtain ⟨⟨i1, i2⟩, i3⟩ := hI
  unfold linkFlagDue linkFlagTracks
  rw [hrc]
  clear hr
  generalize x.Tx.CurrentState = c at *
  generalize x.Tx.Flags &&& XVPHY_FLAG_PHY_UP = a at *
  generalize r.1.Tx.Flags &&& XVPHY_FLAG_PHY_UP = a1 at *
  generalize r.2 = n2 at *
  clear hrc
  cases ns <;> simp at p5 f1 f2 f3 i3 ⊢ <;> cases c <;> simp_all

theorem TxDoTheState_linkFlag (E : Env) (spin fuel : Nat) (w : XHdcp1x)
    (e : XHdcp1x_EventType) (w1 : XHdcp1x) (hP : linkFlagTracks w)
    (h : XHdcp1x_TxDoTheState E spin fuel w e = some w1) : linkFlagTracks w1 := by
  refine TxDoTheState_loop_invariant E spin linkFlagDue linkFlagTracks
    (fun x hx => hx.1) (fun x ns r hI hc hr => linkFlagDue_step E spin x ns r hI hc hr)
    fuel _ _ w1 ?_ h
  obtain ⟨⟨-, hc, -, -⟩, -⟩ := TxDoTheState_switch_analysis E w e
  obtain ⟨-, -, -, k4, k5⟩ := TxDoTheState_switch_HandlerOk E w e
  obtain ⟨q1, q2⟩ := hP
  unfold linkFlagDue linkFlagTracks
  rw [hc]
  refine ⟨⟨fun h1 h2 => ?_, fun h1 => ?_⟩, k5⟩
  · rw [k4 h1]; exact q1 h1 h2
  · rw [k4 (by rw [h1]; decide)]; exact q2 h1

/-- C38.  For every environment: starting from a session whose current state
is DISABLED, whenever the dispatch of a sequence of events returns, the link-up
flag is set if the current state is neither DISABLED nor PHY_DOWN and clear if
it is PHY_DOWN.  When every accepted random-number request completes within the
poll budget, the chunk size of the ksv list register is positive and the budget
of transitions per dispatch is at least 4, the dispatch of every sequence
returns. -/
theorem C38_link_flag_tracks_state (E : Env) (spin fuel : Nat) (w0 : XHdcp1x)
    (h0 : w0.Tx.CurrentState = .DISABLED) :
    (∀ es w, dispatchAll E spin fuel w0 es = some w →
      (w.Tx.CurrentState ≠ .DISABLED → w.Tx.CurrentState ≠ .PHYDOWN →
        w.Tx.Flags &&& XVPHY_FLAG_PHY_UP ≠ 0) ∧
      (w.Tx.CurrentState = .PHYDOWN → w.Tx.Flags &&& XVPHY_FLAG_PHY_UP = 0)) ∧
    (RngCompletes E spin → 0 < E.XHDCP1X_PORT_SIZE_KSVFIFO → 4 ≤ fuel →
      ∀ es, ∃ w, dispatchAll E spin fuel w0 es = some w) := by
  refine ⟨fun es w h => ?_,
    fun hrng hpos hfuel es => dispatchAll_returns E spin fuel hrng hpos hfuel es w0⟩
  exact dispatchAll_invariant E spin fuel linkFlagTracks
    (fun x e x1 hx hd => TxDoTheState_linkFlag E spin fuel x e x1 hx hd)
    es w0 w ⟨fun h => absurd h0 h, fun h => by rw [h0] at h; cases h⟩ h

/-- Witness for C38: the disabled example session with the link reported down
and then enabled rests in PHY_DOWN with the link-up flag clear. -/
theorem C38_link_flag_tracks_state_witness :
    (exampleInst .DISABLED).Tx.CurrentState = .DISABLED ∧
    ∃ w, dispatchAll exampleEnv 1 4 (exampleInst .DISABLED) [.PHYDOWN, .ENABLE] = some w ∧
      w.Tx.CurrentState = .PHYDOWN ∧ w.Tx.Flags &&& XVPHY_FLAG_PHY_UP = 0 := by
  refine ⟨rfl, ?_⟩
  have hs : (dispatchAll exampleEnv 1 4 (exampleInst .DISABLED)
      [.PHYDOWN, .ENABLE]).map (fun r => r.Tx.CurrentState) = some .PHYDOWN := by decide
  cases hx : dispatchAll exampleEnv 1 4 (exampleInst .DISABLED) [.PHYDOWN, .ENABLE] with
  | none => rw [hx] at hs; cases hs
  | some w =>
    rw [hx] at hs
    simp only [Option.map_some', Option.some.injEq] at hs
    exact ⟨w, rfl, hs,
      ((C38_link_flag_tracks_state exampleEnv 1 4 (exampleInst .DISABLED) rfl).1 _ w hx).2 hs⟩

end Hdcp1x
